import Mathlib

/-!
# TASMANIAN sparse grids: the facade `TasmanianSparseGrid`

A shallow embedding of the member functions of `class TasmanianSparseGrid`
in `SparseGrids/TasmanianSparseGrid.cpp`.

Conventions of the embedding.

* `double` is a type `K` carrying a linear ordered field; the theorems in exact
  real arithmetic take `K = ℝ`, concrete evaluations take `K = ℚ`.
* The numerical engines (`GridGlobal`, `GridSequence`, `GridLocalPolynomial`,
  `GridWavelet`, `GridFourier`) are not part of the translated sources.  Their
  state is a type `E`, their methods are the fields of `EngineOps E K`, and the
  dynamic class of the object held by `base` is the tag `Family` stored next to
  the state.  Everything proved for the facade holds for every `EngineOps`.
* A C++ member function that may throw is a function to `Outcome σ`: the state
  at the point of return or throw, and the exception raised, if any.
  Dereferencing the absent engine is reported as `Exn.undefined_behavior`.
* The build modelled is the one without `Tasmanian_ENABLE_CUDA`; whether
  `Tasmanian_ENABLE_BLAS` is set is a field of `BuildConfig`.
* Engine counts (`getNumDimensions`, `getNumOutputs`, `getNumLoaded`, ...) are
  container sizes and are natural numbers; an `int` argument supplied by the
  caller is an `Int`.  Products of two such counts taken in `size_t` stay below
  `2^62` and never wrap.
* A persisted grid is a sequence of items (`Token`), not of bytes: the layout of
  a `double` and the white space of the text format are not modelled.
* The text of an exception is the text of the source; a number or a name that
  the source splices into the text, and quotation marks, are left out.
* An entry read past the end of a `std::vector` or of an array is undefined in
  C++ and reads as 0 here; the theorems assume the lengths they need.
-/

namespace TasGrid

/-! ## Enumerations and exceptions -/

/-- Modelled from the spec: the enumeration `TypeOneDRule` of `tsgEnumerates.hpp`,
which is not among the translated sources.  The constructors are the rules that
`TasmanianSparseGrid.cpp` names; `other n` stands for each remaining rule. -/
inductive TypeOneDRule where
  | rule_none
  | rule_clenshawcurtis
  | rule_gausschebyshev1
  | rule_gausschebyshev1odd
  | rule_gausschebyshev2
  | rule_gausschebyshev2odd
  | rule_gaussgegenbauer
  | rule_gaussgegenbauerodd
  | rule_gaussjacobi
  | rule_gaussjacobiodd
  | rule_gausslaguerre
  | rule_gausslaguerreodd
  | rule_gausshermite
  | rule_gausshermiteodd
  | rule_customtabulated
  | rule_localp
  | rule_fourier
  | other (n : Nat)
  deriving DecidableEq, Repr

/-- Modelled from the spec: the enumeration `TypeDepth` of `tsgEnumerates.hpp`;
`other n` stands for each depth type that `TasmanianSparseGrid.cpp` does not name. -/
inductive TypeDepth where
  | type_none
  | type_level
  | type_curved
  | type_iptotal
  | type_ipcurved
  | type_qpcurved
  | other (n : Nat)
  deriving DecidableEq, Repr

/-- Modelled from the spec: the enumeration `TypeRefinement` of `tsgEnumerates.hpp`. -/
inductive TypeRefinement where
  | refine_none
  | refine_classic
  | other (n : Nat)
  deriving DecidableEq, Repr

/-- Modelled from the spec: the enumeration `TypeAcceleration` of `tsgEnumerates.hpp`. -/
inductive TypeAcceleration where
  | accel_none
  | accel_cpu_blas
  | accel_gpu_default
  | accel_gpu_cublas
  | accel_gpu_cuda
  | accel_gpu_magma
  deriving DecidableEq, Repr

/-- The dynamic class of the engine held by `base`: which of `isGlobal()`,
`isSequence()`, `isLocalPolynomial()`, `isWavelet()`, `isFourier()` answers true. -/
inductive Family where
  | global
  | sequence
  | localpolynomial
  | wavelet
  | fourier
  deriving DecidableEq, Repr

/-- The exceptions that leave a member function; `undefined_behavior` marks a
call whose behaviour C++ leaves undefined, `no_return` a call whose loop is
still running after the number of passes allowed to it. -/
inductive Exn where
  | runtime_error (what : String)
  | invalid_argument (what : String)
  | out_of_range (what : String)
  | undefined_behavior (what : String)
  | no_return (what : String)
  deriving DecidableEq, Repr

/-- The result of running a member function: the object afterwards and the
exception that was thrown, if one was. -/
structure Outcome (σ : Type) where
  state : σ
  raised : Option Exn
  deriving DecidableEq, Repr

/-- Normal return. -/
def Outcome.ok {σ : Type} (s : σ) : Outcome σ := ⟨s, none⟩

/-- The statement `throw e` executed in state `s`. -/
def Outcome.throw {σ : Type} (s : σ) (e : Exn) : Outcome σ := ⟨s, some e⟩

/-- The member access `base->...` executed while `base` holds no engine. -/
def nullEngine : Exn := Exn.undefined_behavior "dereference of the empty base pointer"

/-! ## Streams -/

/-- One item of a persisted grid.  A binary file is a sequence of single
characters (`chr`), `double`s (`real`) and `int`s (`int`); a text file is a
sequence of words or lines (`text`) and numbers.  White space of the text
format is not modelled. -/
inductive Token (K : Type) where
  | chr (c : Char)
  | text (s : String)
  | real (x : K)
  | int (n : Int)
  deriving DecidableEq, Repr

/-- An input file stream: the items still to be read and the state flag of
`std::ifstream` (`good = false` once an extraction has failed; every later
extraction then leaves its destination untouched). -/
structure IStream (K : Type) where
  items : List (Token K)
  good : Bool
  deriving DecidableEq, Repr

/-- A freshly opened stream on a sequence of items. -/
def IStream.ofItems {K : Type} (items : List (Token K)) : IStream K := ⟨items, true⟩

/-- The unformatted read `ifs.read(&c, sizeof(char))`: on failure the
destination keeps its previous content `prev`. -/
def IStream.readChar {K : Type} (s : IStream K) (prev : Char) : Char × IStream K :=
  match s.good, s.items with
  | true, Token.chr c :: rest => (c, ⟨rest, true⟩)
  | _, _ => (prev, ⟨s.items, false⟩)

/-- The extractions `ifs >> T` and `getline(ifs, T)` for a string `T`: on
failure the string is left empty. -/
def IStream.readText {K : Type} (s : IStream K) : String × IStream K :=
  match s.good, s.items with
  | true, Token.text t :: rest => (t, ⟨rest, true⟩)
  | _, _ => ("", ⟨s.items, false⟩)

/-- Read `dest.length` numbers of type `double` into the vector `dest`, front
to back; slots that cannot be read keep their content. -/
def IStream.readReals {K : Type} : IStream K → List K → List K × IStream K
  | s, [] => ([], s)
  | s, d :: ds =>
    match s.good, s.items with
    | true, Token.real x :: rest =>
      let r := IStream.readReals ⟨rest, true⟩ ds
      (x :: r.1, r.2)
    | _, _ => (d :: ds, ⟨s.items, false⟩)

/-- Read `dest.length` numbers of type `int` into the vector `dest`. -/
def IStream.readInts {K : Type} : IStream K → List Int → List Int × IStream K
  | s, [] => ([], s)
  | s, d :: ds =>
    match s.good, s.items with
    | true, Token.int n :: rest =>
      let r := IStream.readInts ⟨rest, true⟩ ds
      (n :: r.1, r.2)
    | _, _ => (d :: ds, ⟨s.items, false⟩)

/-- The text loop `for j: ifs >> a[j] >> b[j]` over two vectors of equal length. -/
def IStream.readRealPairs {K : Type} : IStream K → List K → List K → (List K × List K) × IStream K
  | s, a :: as, b :: bs =>
    match s.good, s.items with
    | true, Token.real x :: Token.real y :: rest =>
      let r := IStream.readRealPairs ⟨rest, true⟩ as bs
      ((x :: r.1.1, y :: r.1.2), r.2)
    | true, Token.real x :: rest => ((x :: as, b :: bs), ⟨rest, false⟩)
    | _, _ => ((a :: as, b :: bs), ⟨s.items, false⟩)
  | s, as, bs => ((as, bs), s)

/-- The call `v.resize(n)` of `std::vector`: keep the first `n` entries, pad with zeros. -/
def resize {α : Type} [Zero α] (v : List α) (n : Nat) : List α :=
  v.take n ++ List.replicate (n - v.length) 0

/-- The entries `v[0], ..., v[n-1]` that a loop `for(j = 0; j < n; j++)` visits
(an index past the end of the vector is read as 0). -/
def firstEntries {α : Type} [Zero α] (v : List α) (n : Nat) : List α :=
  (List.range n).map (fun j => v.getD j 0)

/-- The characters that `isspace` accepts: blank and the controls 9 to 13. -/
def isSpaceC (c : Char) : Bool := c.toNat = 32 || (9 ≤ c.toNat && c.toNat ≤ 13)

/-- The value of a run of decimal digits. -/
def digitsValue (ds : List Char) : Nat := ds.foldl (fun acc c => 10 * acc + (c.toNat - 48)) 0

/-- The library call `std::stoi(s)`: skip white space, accept one sign, convert
the longest run of decimal digits; `std::invalid_argument` when there is no
digit, `std::out_of_range` when the value is not an `int`. -/
def stoi (s : List Char) : Except Exn Int :=
  let cs := s.dropWhile isSpaceC
  let neg : Bool := cs.head? = some '-'
  let ds := if cs.head? = some '-' ∨ cs.head? = some '+' then cs.tail else cs
  let digits := ds.takeWhile Char.isDigit
  if digits.isEmpty then Except.error (Exn.invalid_argument "stoi")
  else
    let v : Int := if neg then - (digitsValue digits : Int) else (digitsValue digits : Int)
    if v < -2147483648 ∨ 2147483647 < v then Except.error (Exn.out_of_range "stoi")
    else Except.ok v

/-! ## Numerics -/

/-- The functions of `<cmath>` that the transforms call, and the constant
`TSG_NUM_TOL` of `tsgEnumerates.hpp`. -/
structure Numerics (K : Type) where
  sqrt : K → K
  exp : K → K
  log : K → K
  lgamma : K → K
  pow : K → K → K
  fabs : K → K
  num_tol : K

/-- Run the body `f i x[i]` for each index `i` of the array, counting from `i0`. -/
def forEachIndex {K : Type} (f : Nat → K → K) : Nat → List K → List K
  | _, [] => []
  | i0, v :: vs => f i0 v :: forEachIndex f (i0 + 1) vs

/-- Run a body that may fail for each index of the array, counting from `i0`. -/
def forEachIndexM {K : Type} (f : Nat → K → Except Exn K) : Nat → List K → Except Exn (List K)
  | _, [] => Except.ok []
  | i0, v :: vs =>
    match f i0 v with
    | Except.error e => Except.error e
    | Except.ok w =>
      match forEachIndexM f (i0 + 1) vs with
      | Except.error e => Except.error e
      | Except.ok ws => Except.ok (w :: ws)

/-- The value of the accumulator `factorial` at the start of iteration `k` of
the loops that precompute the conformal constants: `log 1 + ... + log k`. -/
def logFactorial {K : Type} [Zero K] [One K] [Add K] [NatCast K]
    (m : Numerics K) : Nat → K
  | 0 => 0
  | k + 1 => logFactorial m k + m.log ((k : K) + 1)

/-- The constant `c[j][k]` of the conformal map and of its inverse. -/
def conformalC {K : Type} [Zero K] [One K] [Add K] [Sub K] [Div K] [NatCast K]
    (m : Numerics K) (k : Nat) : K :=
  m.lgamma (1 / 2 + (k : K)) - m.lgamma (1 / 2) - m.log ((2 * k + 1 : Nat) : K) - logFactorial m k

/-- The constant `dc[j][k]` of the inverse map, `c[j][k]` of `mapConformalWeights`. -/
def conformalDC {K : Type} [Zero K] [One K] [Add K] [Sub K] [Div K] [NatCast K]
    (m : Numerics K) (k : Nat) : K :=
  m.lgamma (1 / 2 + (k : K)) - m.lgamma (1 / 2) - logFactorial m k

/-- The number of passes of a loop `for(k = 0; k <= power; k++)`. -/
def numTerms (power : Int) : Nat := (power + 1).toNat

/-- The normaliser `cm[j]`: the sum of `exp(c[j][k])` for `k <= power`, from 0.0. -/
def conformalCM {K : Type} [Zero K] [One K] [Add K] [Sub K] [Div K] [NatCast K]
    (m : Numerics K) (power : Int) : K :=
  (List.range (numTerms power)).foldl (fun acc k => acc + m.exp (conformalC m k)) 0

/-- The body of `mapConformalCanonicalToTransformed` for one coordinate `x` of a
dimension with truncation order `power`. -/
def conformalForward {K : Type}
    [Zero K] [One K] [Add K] [Sub K] [Mul K] [Div K] [Neg K] [NatCast K] [LT K]
    [DecidableRel (fun (x y : K) => x < y)] [DecidableEq K]
    (m : Numerics K) (power : Int) (x : K) : K :=
  if x ≠ 0 then
    let sign : K := if x > 0 then 1 else -1
    let logx := m.log (m.fabs x)
    let sum := (List.range (numTerms power)).foldl
      (fun acc k => acc + m.exp (conformalC m k + ((2 * k + 1 : Nat) : K) * logx)) 0
    sum * (sign / conformalCM m power)
  else x

/-- The two loops `for(k = 1; k <= power; k++)` of the inverse map at the iterate
`x`, followed by `r /= cm; r -= b`: the residual `r` and the derivative sum `dr`. -/
def conformalResidual {K : Type} [Zero K] [One K] [Add K] [Sub K] [Mul K] [Div K] [NatCast K]
    (m : Numerics K) (power : Int)
    (b x : K) : K × K :=
  let logx := m.log (m.fabs x)
  let r := (List.range (numTerms power)).tail.foldl
    (fun acc k => acc + m.exp (conformalC m k + ((2 * k + 1 : Nat) : K) * logx)) x
  let dr := (List.range (numTerms power)).tail.foldl
    (fun acc k => acc + m.exp (conformalDC m k + ((2 * k : Nat) : K) * logx)) 1
  (r / conformalCM m power - b, dr)

/-- The loop `while(fabs(r) > TSG_NUM_TOL)` of the inverse map, run for at most
`fuel` passes: the iterate at exit, or nothing when the loop is still running. -/
def conformalNewton {K : Type} [Zero K] [One K] [Add K] [Sub K] [Mul K] [Div K] [NatCast K] [LT K]
    [DecidableRel (fun (x y : K) => x < y)]
    (m : Numerics K) (power : Int) (b : K) :
    Nat → K → K × K → Option K
  | 0, x, rdr => if m.fabs rdr.1 > m.num_tol then none else some x
  | fuel + 1, x, rdr =>
    if m.fabs rdr.1 > m.num_tol then
      let x1 := x - rdr.1 * conformalCM m power / rdr.2
      conformalNewton m power b fuel x1 (conformalResidual m power b x1)
    else some x

/-- The body of `mapConformalTransformedToCanonical` for one coordinate. -/
def conformalInverse {K : Type}
    [Zero K] [One K] [Add K] [Sub K] [Mul K] [Div K] [Neg K] [NatCast K] [LT K]
    [DecidableRel (fun (x y : K) => x < y)] [DecidableEq K]
    (m : Numerics K) (fuel : Nat)
    (power : Int) (x : K) : Except Exn K :=
  if x ≠ 0 then
    let sign : K := if x > 0 then 1 else -1
    let b := m.fabs x
    match conformalNewton m power b fuel b (conformalResidual m power b b) with
    | none => Except.error (Exn.no_return "the Newton iteration is still running")
    | some y => Except.ok (y * sign)
  else Except.ok x

/-- The normaliser `cm[j]` as `mapConformalWeights` computes it: the sum of
`exp(c[j][k] - log(2k+1))` for `k <= power`, from 0.0. -/
def conformalWeightCM {K : Type} [Zero K] [One K] [Add K] [Sub K] [Div K] [NatCast K]
    (m : Numerics K) (power : Int) : K :=
  (List.range (numTerms power)).foldl
    (fun acc k => acc + m.exp (conformalDC m k - m.log ((2 * k + 1 : Nat) : K))) 0

/-- The body of `mapConformalWeights` for the weight `w` and one coordinate `x`
of its grid point: `w *= trans / cm`, or `w /= cm` when the coordinate is 0. -/
def conformalWeight {K : Type}
    [Zero K] [One K] [Add K] [Sub K] [Mul K] [Div K] [NatCast K] [DecidableEq K]
    (m : Numerics K) (power : Int)
    (x w : K) : K :=
  if x ≠ 0 then
    let logx := m.log (m.fabs x)
    let trans := (List.range (numTerms power)).tail.foldl
      (fun acc k => acc + m.exp (conformalDC m k + ((2 * k : Nat) : K) * logx)) 1
    w * (trans / conformalWeightCM m power)
  else w / conformalWeightCM m power

/-! ## Double precision

The type `double` of the library is IEEE 754 binary64.  Its arithmetic is
modelled exactly: every operation returns the representable number nearest to
the exact result, ties going to the even significand. -/

/-- A value of type `double`: the finite number `(-1)^neg * m * 2^e`, an
infinity or a NaN.  A finite value is kept in the form of the format: either
`2^52 ≤ m < 2^53` and `-1074 ≤ e ≤ 971`, or `m < 2^52` and `e = -1074`; zero is
`m = 0`, and the two zeros of the format are one value here. -/
inductive Dbl where
  | finite (neg : Bool) (m : Nat) (e : Int)
  | inf (neg : Bool)
  | nan
  deriving DecidableEq, Repr

namespace Dbl

/-- The position of the leading binary digit of `n`: the largest `k` with
`2^k ≤ n` (0 for `n = 0`), found by halving the range of `k`; good for every
`n < 2^131072`. -/
def log2 (n : Nat) : Nat :=
  ([65536, 32768, 16384, 8192, 4096, 2048, 1024, 512, 256, 128, 64, 32, 16, 8, 4, 2, 1].foldl
    (fun (p : Nat × Nat) (k : Nat) => if p.1 >>> k ≠ 0 then (p.1 >>> k, p.2 + k) else p)
    (n, 0)).2

/-- The integer part of the square root of `n < 2^256`, found digit by digit. -/
def isqrt (n : Nat) : Nat :=
  ((List.range 128).reverse).foldl
    (fun (r : Nat) (i : Nat) => if (r + 1 <<< i) * (r + 1 <<< i) ≤ n then r + 1 <<< i else r) 0

/-- The value zero. -/
def zero : Dbl := finite false 0 (-1074)

/-- The `double` nearest to the exact value `(-1)^neg * (n / d) * 2^s`, where
`d > 0`; a tie goes to the even significand, a value past the largest finite
number to the infinity.  (`x <<< k` is `x * 2^k`; `2^53 = 9007199254740992`.) -/
def round (neg : Bool) (n d : Nat) (s : Int) : Dbl :=
  if n = 0 then zero
  else
    let l : Int := (log2 n : Int) - (log2 d : Int)
    let le : Bool := if 0 ≤ l then d <<< l.toNat ≤ n else d ≤ n <<< (-l).toNat
    let top : Int := (if le then l else l - 1) + s
    let q : Int := max (top - 52) (-1074)
    let k : Int := s - q
    let num : Nat := if 0 ≤ k then n <<< k.toNat else n
    let den : Nat := if 0 ≤ k then d else d <<< (-k).toNat
    let m : Nat := num / den
    let r : Nat := num % den
    let m1 : Nat := if den < 2 * r ∨ (2 * r = den ∧ m % 2 = 1) then m + 1 else m
    if m1 = 0 then zero
    else if m1 = 9007199254740992 then
      (if 971 < q + 1 then inf neg else finite neg 4503599627370496 (q + 1))
    else if 971 < q then inf neg
    else finite neg m1 q

/-- The integer `(-1)^neg * m * 2^(e - e0)` for an exponent `e0 ≤ e`. -/
def scaled (neg : Bool) (m : Nat) (e e0 : Int) : Int :=
  if neg then -((m <<< (e - e0).toNat : Nat) : Int) else ((m <<< (e - e0).toNat : Nat) : Int)

/-- Unary minus. -/
def neg : Dbl → Dbl
  | finite s m e => if m = 0 then finite s m e else finite (!s) m e
  | inf s => inf (!s)
  | nan => nan

/-- The function `fabs`. -/
def abs : Dbl → Dbl
  | finite _ m e => finite false m e
  | inf _ => inf false
  | nan => nan

/-- Addition. -/
def add : Dbl → Dbl → Dbl
  | nan, _ => nan
  | _, nan => nan
  | inf s, inf t => if s = t then inf s else nan
  | inf s, finite _ _ _ => inf s
  | finite _ _ _, inf t => inf t
  | finite s1 m1 e1, finite s2 m2 e2 =>
    let sum : Int := scaled s1 m1 e1 (min e1 e2) + scaled s2 m2 e2 (min e1 e2)
    round (decide (sum < 0)) sum.natAbs 1 (min e1 e2)

/-- Subtraction. -/
def sub (x y : Dbl) : Dbl := add x (neg y)

/-- Multiplication. -/
def mul : Dbl → Dbl → Dbl
  | nan, _ => nan
  | _, nan => nan
  | inf s, inf t => inf (xor s t)
  | inf s, finite t m _ => if m = 0 then nan else inf (xor s t)
  | finite s m _, inf t => if m = 0 then nan else inf (xor s t)
  | finite s1 m1 e1, finite s2 m2 e2 => round (xor s1 s2) (m1 * m2) 1 (e1 + e2)

/-- Division. -/
def div : Dbl → Dbl → Dbl
  | nan, _ => nan
  | _, nan => nan
  | inf _, inf _ => nan
  | inf s, finite t _ _ => inf (xor s t)
  | finite _ _ _, inf _ => zero
  | finite s1 m1 e1, finite s2 m2 e2 =>
    if m2 = 0 then (if m1 = 0 then nan else inf (xor s1 s2))
    else round (xor s1 s2) m1 m2 (e1 - e2)

/-- The comparison `x < y` of the format: false when either is a NaN. -/
def lt : Dbl → Dbl → Bool
  | nan, _ => false
  | _, nan => false
  | inf s, inf t => s && !t
  | inf s, finite _ _ _ => s
  | finite _ _ _, inf t => !t
  | finite s1 m1 e1, finite s2 m2 e2 =>
    decide (scaled s1 m1 e1 (min e1 e2) < scaled s2 m2 e2 (min e1 e2))

/-- The conversion of an integer constant or an `int`. -/
def ofNat (n : Nat) : Dbl := round false n 1 0

/-- The value of a decimal constant `mantissa * 10^(-exponent)` or
`mantissa * 10^exponent`: the `double` nearest to it. -/
def ofDecimal (mantissa : Nat) (negative : Bool) (exponent : Nat) : Dbl :=
  if negative then round false mantissa (10 ^ exponent) 0
  else round false (mantissa * 10 ^ exponent) 1 0

/-- The function `sqrt`, which the format rounds correctly: NaN for a negative
number. -/
def sqrt : Dbl → Dbl
  | nan => nan
  | inf s => if s then nan else inf false
  | finite s m e =>
    if m = 0 then zero
    else if s then nan
    else
      -- m * 2^e = (m * 2^(e - 2 * h)) * 2^(2 * h) with `h` so low that the root has 64 bits or more
      let h : Int := (e - 128) / 2
      let radicand : Nat := m <<< (e - 2 * h).toNat
      let root : Nat := isqrt radicand
      if root * root = radicand then round false root 1 h
      else round false (2 * root + 1) 2 h

/-- Whether a finite value is an integer. -/
def isInteger : Dbl → Bool
  | finite _ m e => if 0 ≤ e then true else decide ((m >>> (-e).toNat) <<< (-e).toNat = m)
  | inf _ => false
  | nan => false

/-- The domain error of `pow(x, y)`: `x` is finite and negative and `y` is finite
and not an integer. -/
def powDomainError : Dbl → Dbl → Bool
  | finite true m _, finite s n e => decide (m ≠ 0) && !(isInteger (finite s n e))
  | _, _ => false

/-- The function given by a table of arguments and values; a NaN off the table. -/
def ofTable (table : List (Dbl × Dbl)) (x : Dbl) : Dbl := (table.lookup x).getD nan

instance : Zero Dbl := ⟨zero⟩
instance : One Dbl := ⟨ofNat 1⟩
instance : Add Dbl := ⟨add⟩
instance : Sub Dbl := ⟨sub⟩
instance : Mul Dbl := ⟨mul⟩
instance : Div Dbl := ⟨div⟩
instance : Neg Dbl := ⟨neg⟩
instance : NatCast Dbl := ⟨ofNat⟩
instance : LT Dbl := ⟨fun x y => lt x y = true⟩
instance (x y : Dbl) : Decidable (x < y) := inferInstanceAs (Decidable (lt x y = true))
instance : OfScientific Dbl := ⟨ofDecimal⟩

end Dbl

/-- The functions of `<cmath>` on `double`.  `sqrt` and `fabs` are fixed by the
format.  `pow` returns a NaN on a domain error (ISO C, 7.12.7.4 and F.10.4.4).  The
other values of `pow` and the values of `exp`, `log` and `lgamma` are those of
the C library in use, `libm`; `libm.num_tol` is the constant `TSG_NUM_TOL`. -/
def cmath (libm : Numerics Dbl) : Numerics Dbl :=
  { sqrt := Dbl.sqrt
    exp := libm.exp
    log := libm.log
    lgamma := libm.lgamma
    pow := fun x y => if Dbl.powDomainError x y then Dbl.nan else libm.pow x y
    fabs := Dbl.abs
    num_tol := libm.num_tol }

/-! ### Values of the C library

The values of `lgamma`, `log` and `exp` at the arguments at which the inverse
conformal map of order 1 evaluates them on the input 4096.  Each value is the
`double` nearest to the exact value of the function, and is what the GNU C
library (2.36, x86-64) returns. -/

/-- Arguments and values of `lgamma`. -/
def libmLgammaSamples : List (Dbl × Dbl) :=
  [(Dbl.finite false 4503599627370496 (-53), Dbl.finite false 5155405087351229 (-53)),
    (Dbl.finite false 6755399441055744 (-52), Dbl.finite true 8703277446513041 (-56))]

/-- Arguments and values of `log`. -/
def libmLogSamples : List (Dbl × Dbl) :=
  [(Dbl.finite false 4503599627370496 (-52), Dbl.finite false 0 (-1074)),
    (Dbl.finite false 6755399441055744 (-51), Dbl.finite false 4947709893870347 (-52)),
    (Dbl.finite false 4503599627370496 (-40), Dbl.finite false 4682486076124019 (-49)),
    (Dbl.finite false 6004800040031515 (-41), Dbl.finite false 8908459125464403 (-50)),
    (Dbl.finite false 8006403543034529 (-42), Dbl.finite false 8451946488750657 (-50)),
    (Dbl.finite false 5337611824355496 (-42), Dbl.finite false 7995435357261679 (-50)),
    (Dbl.finite false 7116863177915250 (-43), Dbl.finite false 7538929730516177 (-50)),
    (Dbl.finite false 4744689375109285 (-43), Dbl.finite false 7082443637003730 (-50)),
    (Dbl.finite false 6326786868655643 (-44), Dbl.finite false 6626025608518947 (-50)),
    (Dbl.finite false 8438185260955258 (-45), Dbl.finite false 6169842024057892 (-50)),
    (Dbl.finite false 5631107428351393 (-45), Dbl.finite false 5714459258693716 (-50)),
    (Dbl.finite false 7533810992134589 (-46), Dbl.finite false 5261788630674788 (-50)),
    (Dbl.finite false 5080328350892578 (-46), Dbl.finite false 4818155777869602 (-50)),
    (Dbl.finite false 7029135079801001 (-47), Dbl.finite false 8806614723699066 (-51)),
    (Dbl.finite false 5221119424469399 (-47), Dbl.finite false 8137037911479520 (-51)),
    (Dbl.finite false 8903203888834458 (-48), Dbl.finite false 7777993364592553 (-51)),
    (Dbl.finite false 8607094291346095 (-48), Dbl.finite false 7701827544939508 (-51)),
    (Dbl.finite false 8596695840456395 (-48), Dbl.finite false 7699105443303984 (-51)),
    (Dbl.finite false 8596683279415718 (-48), Dbl.finite false 7699102153089901 (-51)),
    (Dbl.finite false 8596683279397402 (-48), Dbl.finite false 7699102153085103 (-51)),
    (Dbl.finite false 8596683279397406 (-48), Dbl.finite false 7699102153085104 (-51)),
    (Dbl.finite false 8596683279397405 (-48), Dbl.finite false 7699102153085104 (-51)),
    (Dbl.finite false 8596683279397404 (-48), Dbl.finite false 7699102153085104 (-51)),
    (Dbl.finite false 8596683279397403 (-48), Dbl.finite false 7699102153085104 (-51))]

/-- Arguments and values of `exp`. -/
def libmExpSamples : List (Dbl × Dbl) :=
  [(Dbl.finite false 0 (-1074), Dbl.finite false 4503599627370496 (-52)),
    (Dbl.finite true 8069367277953026 (-52), Dbl.finite false 6004799503160662 (-55)),
    (Dbl.finite false 6519393659313964 (-48), Dbl.finite false 6004799503160641 (-19)),
    (Dbl.finite false 8974764979237703 (-49), Dbl.finite false 9007199254740978 (-30)),
    (Dbl.finite false 6177008889226238 (-48), Dbl.finite false 7116801320027698 (-21)),
    (Dbl.finite false 8518251952454068 (-49), Dbl.finite false 8006400769203227 (-31)),
    (Dbl.finite false 5834624411690929 (-48), Dbl.finite false 8434738519456275 (-23)),
    (Dbl.finite false 8061739315740322 (-49), Dbl.finite false 7116806887576643 (-32)),
    (Dbl.finite false 5492241063074195 (-48), Dbl.finite false 4998390149954354 (-24)),
    (Dbl.finite false 7605228184251344 (-49), Dbl.finite false 6326072995998988 (-33)),
    (Dbl.finite false 5149861843015069 (-48), Dbl.finite false 5924136353416652 (-26)),
    (Dbl.finite false 7148722557505842 (-49), Dbl.finite false 5623250919702501 (-34)),
    (Dbl.finite false 4807497272880734 (-48), Dbl.finite false 7021704416402513 (-28)),
    (Dbl.finite false 6692236463993395 (-49), Dbl.finite false 4998685302631798 (-35)),
    (Dbl.finite false 8930367503034292 (-49), Dbl.finite false 8324129070688758 (-30)),
    (Dbl.finite false 6235818435508612 (-49), Dbl.finite false 8888052978360475 (-37)),
    (Dbl.finite false 8246092126342710 (-49), Dbl.finite false 4937150532038630 (-31)),
    (Dbl.finite false 5779634851047557 (-49), Dbl.finite false 7905117726881026 (-38)),
    (Dbl.finite false 7563017978296446 (-49), Dbl.finite false 5869088119266948 (-33)),
    (Dbl.finite false 5324252085683381 (-49), Dbl.finite false 7040894727169232 (-39)),
    (Dbl.finite false 6884012036268054 (-49), Dbl.finite false 7027540506818265 (-35)),
    (Dbl.finite false 4871581457664453 (-49), Dbl.finite false 6301438045276164 (-40)),
    (Dbl.finite false 6218562757060275 (-49), Dbl.finite false 8619747315949461 (-37)),
    (Dbl.finite false 8855897209718534 (-50), Dbl.finite false 5730912667286176 (-41)),
    (Dbl.finite false 5596290133030172 (-49), Dbl.finite false 5707748966703817 (-38)),
    (Dbl.finite false 8026200377678396 (-50), Dbl.finite false 5485472073251011 (-42)),
    (Dbl.finite false 5094107523865512 (-49), Dbl.finite false 4678213880354544 (-39)),
    (Dbl.finite false 7356623565458850 (-50), Dbl.finite false 6052955480078487 (-43)),
    (Dbl.finite false 4824824113700287 (-49), Dbl.finite false 5799200949661717 (-40)),
    (Dbl.finite false 6997579018571883 (-50), Dbl.finite false 8800409233140294 (-44)),
    (Dbl.finite false 4767699748960503 (-49), Dbl.finite false 5239609039463263 (-40)),
    (Dbl.finite false 6921413198918838 (-50), Dbl.finite false 8224762220190589 (-44)),
    (Dbl.finite false 4765658172733860 (-49), Dbl.finite false 5220641655587948 (-40)),
    (Dbl.finite false 6918691097283314 (-50), Dbl.finite false 8204901133326313 (-44)),
    (Dbl.finite false 4765655705073298 (-49), Dbl.finite false 5220618771238801 (-40)),
    (Dbl.finite false 6918687807069231 (-50), Dbl.finite false 8204877156202193 (-44)),
    (Dbl.finite false 4765655705069699 (-49), Dbl.finite false 5220618771205425 (-40)),
    (Dbl.finite false 6918687807064433 (-50), Dbl.finite false 8204877156167228 (-44)),
    (Dbl.finite false 4765655705069700 (-49), Dbl.finite false 5220618771205435 (-40)),
    (Dbl.finite false 6918687807064434 (-50), Dbl.finite false 8204877156167235 (-44))]

/-- A C library that returns the values listed above, and a NaN at every other
argument, with `TSG_NUM_TOL = 1e-12`. -/
def sampleLibm : Numerics Dbl :=
  cmath
    { sqrt := Dbl.sqrt
      exp := Dbl.ofTable libmExpSamples
      log := Dbl.ofTable libmLogSamples
      lgamma := Dbl.ofTable libmLgammaSamples
      pow := fun _ _ => Dbl.nan
      fabs := Dbl.abs
      num_tol := 1e-12 }

/-- One pass of the loop `while(fabs(r) > TSG_NUM_TOL)` of the inverse map: from
the iterate `x` with its residual `r` and derivative sum `dr` to the next
iterate with its own. -/
def conformalNewtonPass {K : Type} [Zero K] [One K] [Add K] [Sub K] [Mul K] [Div K] [NatCast K]
    (m : Numerics K) (power : Int) (b : K) (s : K × K × K) : K × K × K :=
  (s.1 - s.2.1 * conformalCM m power / s.2.2,
    conformalResidual m power b (s.1 - s.2.1 * conformalCM m power / s.2.2))

/-- Whether the arguments at which the residual of order 1 at the iterate `x`
calls `log` and `exp` are among the listed ones. -/
def residualInTables (x : Dbl) : Bool :=
  (libmLogSamples.lookup (Dbl.abs x)).isSome &&
  ((libmExpSamples.lookup
      (conformalC sampleLibm 1 + ((2 * 1 + 1 : Nat) : Dbl) * sampleLibm.log (Dbl.abs x))).isSome &&
    (libmExpSamples.lookup
      (conformalDC sampleLibm 1 + ((2 * 1 : Nat) : Dbl) * sampleLibm.log (Dbl.abs x))).isSome)

/-- The first 22 states of the loop of the inverse map of order 1 on the input
4096: the state at the first test of the `while`, with the iterate 4096, and
the states that the next 21 passes leave. -/
def sampleNewtonStates : List (Dbl × Dbl × Dbl) :=
  List.iterate (conformalNewtonPass sampleLibm 1 4096)
    (4096, conformalResidual sampleLibm 1 4096 4096) 22

/-! ## The engines -/

/-- The constants that the preprocessor fixes for one build of the library:
`TASMANIAN_VERSION_STRING`, `TASMANIAN_VERSION_MAJOR`, `TASMANIAN_VERSION_MINOR`
and whether `Tasmanian_ENABLE_BLAS` is defined. -/
structure BuildConfig where
  version_string : String
  version_major : Int
  version_minor : Int
  enable_blas : Bool
  deriving DecidableEq, Repr

/-- The predicates of `OneDimensionalMeta` that the facade consults; their
definitions are in `tsgCoreOneDimensional.cpp`, outside the translated sources. -/
structure OneDimensionalMeta where
  isGlobal : TypeOneDRule → Bool
  isSequence : TypeOneDRule → Bool
  isLocalPolynomial : TypeOneDRule → Bool
  isNonNested : TypeOneDRule → Bool
  isTypeCurved : TypeDepth → Bool

/-- The non-const engine methods that the facade invokes; the facade records
each invocation in `engine_calls`. -/
inductive EngineCall where
  | makeGrid
  | copyGrid
  | read
  | readConstructionData
  | loadNeededPoints
  | setAnisotropicRefinement
  | setSurplusRefinement
  | clearRefinement
  | mergeRefinement
  | beginConstruction
  | getCandidateConstructionPoints
  | loadConstructedPoint
  | finishConstruction
  | removePointsByHierarchicalCoefficient
  deriving DecidableEq, Repr

/-- The capability contract of the numerical engines, as the facade uses it.
`E` is the state of an engine object; the first argument `Family` of a method
is the class on which the (virtual) call is dispatched.  A nullable pointer
argument is an `Option`. -/
structure EngineOps (E K : Type) where
  /-- The default constructor `make_unique_ptr<Grid...>()`. -/
  construct : Family → E
  getNumDimensions : Family → E → Nat
  getNumOutputs : Family → E → Nat
  getNumLoaded : Family → E → Nat
  getNumNeeded : Family → E → Nat
  getNumPoints : Family → E → Nat
  getRule : Family → E → TypeOneDRule
  /-- The accessor `GridGlobal::getAlpha`. -/
  getAlpha : E → K
  /-- The accessor `GridGlobal::getBeta`. -/
  getBeta : E → K
  getOrder : Family → E → Int
  /-- The canonical points `base->getPoints(x)`, point after point. -/
  getPoints : Family → E → List K
  /-- The weights `base->getQuadratureWeights(weights)`, one for each point. -/
  getQuadratureWeights : Family → E → List K
  /-- The integrals `base->integrate(q, conformal_correction)`, one for each output. -/
  integrate : Family → E → Option (List K) → List K
  /-- The method `GridGlobal::makeGrid`. -/
  makeGlobalGrid : E → Int → Int → Int → TypeDepth → TypeOneDRule → List Int → K → K →
    Option String → List Int → Outcome E
  /-- The method `GridSequence::makeGrid`. -/
  makeSequenceGrid : E → Int → Int → Int → TypeDepth → TypeOneDRule → List Int → List Int →
    Outcome E
  /-- The method `GridLocalPolynomial::makeGrid`. -/
  makeLocalPolynomialGrid : E → Int → Int → Int → Int → TypeOneDRule → List Int → Outcome E
  /-- The method `GridWavelet::makeGrid`. -/
  makeWaveletGrid : E → Int → Int → Int → Int → List Int → Outcome E
  /-- The method `GridFourier::makeGrid`. -/
  makeFourierGrid : E → Int → Int → Int → TypeDepth → List Int → List Int → Outcome E
  /-- The method `copyGrid(source)` of the fresh engine given first. -/
  copyGrid : Family → E → E → Outcome E
  /-- The method `write<useAscii>(ofs)`. -/
  write : Bool → Family → E → List (Token K)
  /-- The method `read<useAscii>(ifs)` of the fresh engine given. -/
  read : Bool → Family → E → IStream K → Outcome E × IStream K
  /-- The methods `writeConstructionData` (true) and `writeConstructionDataBinary`. -/
  writeConstructionData : Bool → Family → E → List (Token K)
  /-- The methods `readConstructionData` (true) and `readConstructionDataBinary`. -/
  readConstructionData : Bool → Family → E → IStream K → Outcome E × IStream K
  loadNeededPoints : Family → E → List K → Outcome E
  /-- The method `setAnisotropicRefinement(type, min_growth, output, llimits)`. -/
  setAnisotropicRefinement : Family → E → TypeDepth → Int → Int → List Int → Outcome E
  /-- The method `setSurplusRefinement(tolerance, output, llimits)` of Global and Sequence. -/
  setSurplusRefinement : Family → E → K → Int → List Int → Outcome E
  /-- The method `setSurplusRefinement(tolerance, criteria, output, llimits, scale_correction)`
  of LocalPolynomial; Wavelet takes no `scale_correction` and is passed `none`. -/
  setSurplusRefinementLocal : Family → E → K → TypeRefinement → Int → List Int →
    Option (List K) → Outcome E
  clearRefinement : Family → E → Outcome E
  mergeRefinement : Family → E → Outcome E
  beginConstruction : Family → E → Outcome E
  finishConstruction : Family → E → Outcome E
  /-- The method `getCandidateConstructionPoints(type, weights, x, llimits)`. -/
  getCandidateConstructionPointsWeights : Family → E → TypeDepth → List Int → List Int →
    Outcome E × List K
  /-- The method `getCandidateConstructionPoints(type, output, x, llimits)`. -/
  getCandidateConstructionPointsOutput : Family → E → TypeDepth → Int → List Int →
    Outcome E × List K
  /-- The method `getCandidateConstructionPoints(tolerance, criteria, output, llimits, scale, x)`
  of LocalPolynomial. -/
  getCandidateConstructionPointsSurplus : E → K → TypeRefinement → Int → List Int →
    Option (List K) → Outcome E × List K
  loadConstructedPoint : Family → E → List K → List K → Outcome E
  /-- The method `GridLocalPolynomial::removePointsByHierarchicalCoefficient`; the
  number returned is the number of points that are left. -/
  removePointsByHierarchicalCoefficient : E → K → Int → Option (List K) → Outcome E × Int
  /-- The values `y` that `base->evaluate(x, y)` writes for the canonical point `x`. -/
  evaluate : Family → E → List K → List K
  /-- The values `y` that `base->evaluateBatch(x, num_x, y)` writes. -/
  evaluateBatch : Family → E → List K → Nat → List K
  /-- The values `y` that `base->evaluateBlas(x, num_x, y)` writes. -/
  evaluateBlas : Family → E → List K → Nat → List K
  /-- The values that `base->evaluateHierarchicalFunctions(x, num_x, y)` writes
  from the start of `y`, row after row. -/
  evaluateHierarchicalFunctions : Family → E → List K → Nat → List K
  /-- The method `GridLocalPolynomial::buildSpareBasisMatrix(x, num_x, num_chunk, pntr,
  indx, vals)`: the three arrays that it builds. -/
  buildSpareBasisMatrix : E → List K → Nat → Nat → List Int × List Int × List K
  /-- The method `GridLocalPolynomial::getSpareBasisMatrixNZ(x, num_x)`. -/
  getSpareBasisMatrixNZ : E → List K → Nat → Int
  /-- The method `GridLocalPolynomial::buildSpareBasisMatrixStatic`: the entries that it
  writes from the start of `pntr`, of `indx` and of `vals`. -/
  buildSpareBasisMatrixStatic : E → List K → Nat → Nat → List Int × List Int × List K

/-! ## The facade -/

/-- The data members of `class TasmanianSparseGrid`, and the record
`engine_calls` of the non-const engine methods invoked so far. -/
structure TasmanianSparseGrid (E K : Type) where
  base : Option (Family × E)
  domain_transform_a : List K
  domain_transform_b : List K
  conformal_asin_power : List Int
  llimits : List Int
  usingDynamicConstruction : Bool
  acceleration : TypeAcceleration
  gpuID : Int
  engine_calls : List EngineCall
  deriving DecidableEq, Repr

namespace TasmanianSparseGrid

variable {E K : Type}

/-- The constructor `TasmanianSparseGrid()`. -/
def init (cfg : BuildConfig) : TasmanianSparseGrid E K :=
  { base := none, domain_transform_a := [], domain_transform_b := [],
    conformal_asin_power := [], llimits := [], usingDynamicConstruction := false,
    acceleration := if cfg.enable_blas then TypeAcceleration.accel_cpu_blas
                    else TypeAcceleration.accel_none,
    gpuID := 0, engine_calls := [] }

/-- The test `empty()`: no engine is held. -/
def empty (g : TasmanianSparseGrid E K) : Bool := g.base.isNone

/-- The class test shared by `isGlobal()` ... `isFourier()`. -/
def isFamily (g : TasmanianSparseGrid E K) (f : Family) : Bool :=
  match g.base with
  | none => false
  | some (f0, _) => decide (f0 = f)

def isGlobal (g : TasmanianSparseGrid E K) : Bool := g.isFamily Family.global
def isSequence (g : TasmanianSparseGrid E K) : Bool := g.isFamily Family.sequence
def isLocalPolynomial (g : TasmanianSparseGrid E K) : Bool := g.isFamily Family.localpolynomial
def isWavelet (g : TasmanianSparseGrid E K) : Bool := g.isFamily Family.wavelet
def isFourier (g : TasmanianSparseGrid E K) : Bool := g.isFamily Family.fourier

def getNumDimensions (ops : EngineOps E K) (g : TasmanianSparseGrid E K) : Nat :=
  match g.base with
  | none => 0
  | some (f, e) => ops.getNumDimensions f e

def getNumOutputs (ops : EngineOps E K) (g : TasmanianSparseGrid E K) : Nat :=
  match g.base with
  | none => 0
  | some (f, e) => ops.getNumOutputs f e

def getNumLoaded (ops : EngineOps E K) (g : TasmanianSparseGrid E K) : Nat :=
  match g.base with
  | none => 0
  | some (f, e) => ops.getNumLoaded f e

def getNumNeeded (ops : EngineOps E K) (g : TasmanianSparseGrid E K) : Nat :=
  match g.base with
  | none => 0
  | some (f, e) => ops.getNumNeeded f e

def getNumPoints (ops : EngineOps E K) (g : TasmanianSparseGrid E K) : Nat :=
  match g.base with
  | none => 0
  | some (f, e) => ops.getNumPoints f e

def getRule (ops : EngineOps E K) (g : TasmanianSparseGrid E K) : TypeOneDRule :=
  match g.base with
  | none => TypeOneDRule.rule_none
  | some (f, e) => ops.getRule f e

/-- The member `clear()`.  It resets the engine, both transforms, the
construction flag and the acceleration mode; `llimits` is not assigned. -/
def clear (cfg : BuildConfig) (g : TasmanianSparseGrid E K) : TasmanianSparseGrid E K :=
  { g with
    base := none
    domain_transform_a := []
    domain_transform_b := []
    conformal_asin_power := []
    usingDynamicConstruction := false
    acceleration := if cfg.enable_blas then TypeAcceleration.accel_cpu_blas
                    else TypeAcceleration.accel_none }

/-- Install the state and the exception of an engine call in the facade. -/
def withEngine (g : TasmanianSparseGrid E K) (f : Family) (c : EngineCall) (r : Outcome E) :
    Outcome (TasmanianSparseGrid E K) :=
  ⟨{ g with base := some (f, r.state), engine_calls := g.engine_calls ++ [c] }, r.raised⟩

/-! ### Grid creation (the overloads taking `std::vector`) -/

/-- The size `expected_aw_size` of the anisotropic weights.  The product is
exact; in `int` it overflows only for more than `2^30` dimensions. -/
def expectedWeights (meta1 : OneDimensionalMeta) (type : TypeDepth) (dimensions : Int) : Int :=
  if meta1.isTypeCurved type then 2 * dimensions else dimensions

def makeGlobalGrid (cfg : BuildConfig) (meta1 : OneDimensionalMeta) (ops : EngineOps E K)
    (dimensions outputs depth : Int) (type : TypeDepth) (rule : TypeOneDRule)
    (anisotropic_weights : List Int) (alpha beta : K) (custom_filename : Option String)
    (level_limits : List Int) (g : TasmanianSparseGrid E K) : Outcome (TasmanianSparseGrid E K) :=
  if dimensions < 1 then
    Outcome.throw g (Exn.invalid_argument "ERROR: makeGlobalGrid() requires positive dimensions")
  else if outputs < 0 then
    Outcome.throw g (Exn.invalid_argument "ERROR: makeGlobalGrid() requires non-negative outputs")
  else if depth < 0 then
    Outcome.throw g (Exn.invalid_argument "ERROR: makeGlobalGrid() requires non-negative depth")
  else if !meta1.isGlobal rule then
    Outcome.throw g (Exn.invalid_argument "ERROR: makeGlobalGrid() requires a global rule")
  else if rule = TypeOneDRule.rule_customtabulated ∧ custom_filename = none then
    Outcome.throw g (Exn.invalid_argument
      "ERROR: makeGlobalGrid() with custom tabulated rule requires a filename")
  else if !anisotropic_weights.isEmpty ∧
      (anisotropic_weights.length : Int) ≠ expectedWeights meta1 type dimensions then
    Outcome.throw g (Exn.invalid_argument
      "ERROR: makeGlobalGrid() requires anisotropic_weights with either 0 or dimenions entries")
  else if !level_limits.isEmpty ∧ (level_limits.length : Int) ≠ dimensions then
    Outcome.throw g (Exn.invalid_argument
      "ERROR: makeGlobalGrid() requires level_limits with either 0 or dimensions entries")
  else
    let g1 := { g.clear cfg with llimits := level_limits }
    g1.withEngine Family.global EngineCall.makeGrid
      (ops.makeGlobalGrid (ops.construct Family.global) dimensions outputs depth type rule
        anisotropic_weights alpha beta custom_filename level_limits)

def makeSequenceGrid (cfg : BuildConfig) (meta1 : OneDimensionalMeta) (ops : EngineOps E K)
    (dimensions outputs depth : Int) (type : TypeDepth) (rule : TypeOneDRule)
    (anisotropic_weights : List Int) (level_limits : List Int) (g : TasmanianSparseGrid E K) :
    Outcome (TasmanianSparseGrid E K) :=
  if dimensions < 1 then
    Outcome.throw g (Exn.invalid_argument "ERROR: makeSequenceGrid() requires positive dimensions")
  else if outputs < 0 then
    Outcome.throw g (Exn.invalid_argument "ERROR: makeSequenceGrid() requires non-negative outputs")
  else if depth < 0 then
    Outcome.throw g (Exn.invalid_argument "ERROR: makeSequenceGrid() requires non-negative depth")
  else if !meta1.isSequence rule then
    Outcome.throw g (Exn.invalid_argument
      "ERROR: makeSequenceGrid() is called with a rule which is not a sequence rule")
  else if !anisotropic_weights.isEmpty ∧
      (anisotropic_weights.length : Int) ≠ expectedWeights meta1 type dimensions then
    Outcome.throw g (Exn.invalid_argument
      "ERROR: makeSequenceGrid() requires anisotropic_weights with either 0 or dimensions entries")
  else if !level_limits.isEmpty ∧ (level_limits.length : Int) ≠ dimensions then
    Outcome.throw g (Exn.invalid_argument
      "ERROR: makeSequenceGrid() requires level_limits with either 0 or dimensions entries")
  else
    let g1 := { g.clear cfg with llimits := level_limits }
    g1.withEngine Family.sequence EngineCall.makeGrid
      (ops.makeSequenceGrid (ops.construct Family.sequence) dimensions outputs depth type rule
        anisotropic_weights level_limits)

def makeLocalPolynomialGrid (cfg : BuildConfig) (meta1 : OneDimensionalMeta) (ops : EngineOps E K)
    (dimensions outputs depth order : Int) (rule : TypeOneDRule) (level_limits : List Int)
    (g : TasmanianSparseGrid E K) : Outcome (TasmanianSparseGrid E K) :=
  if dimensions < 1 then
    Outcome.throw g (Exn.invalid_argument
      "ERROR: makeLocalPolynomialGrid() requires positive dimensions")
  else if outputs < 0 then
    Outcome.throw g (Exn.invalid_argument
      "ERROR: makeLocalPolynomialGrid() requires non-negative outputs")
  else if depth < 0 then
    Outcome.throw g (Exn.invalid_argument
      "ERROR: makeLocalPolynomialGrid() requires non-negative depth")
  else if order < -1 then
    Outcome.throw g (Exn.invalid_argument
      "ERROR: makeLocalPolynomialGrid() is called with an order less than -1")
  else if !meta1.isLocalPolynomial rule then
    Outcome.throw g (Exn.invalid_argument
      "ERROR: makeLocalPolynomialGrid() is called with a rule which is not a local polynomial rule")
  else if !level_limits.isEmpty ∧ (level_limits.length : Int) ≠ dimensions then
    Outcome.throw g (Exn.invalid_argument
      "ERROR: makeLocalPolynomialGrid() requires level_limits with either 0 or dimensions entries")
  else
    let g1 := { g.clear cfg with llimits := level_limits }
    g1.withEngine Family.localpolynomial EngineCall.makeGrid
      (ops.makeLocalPolynomialGrid (ops.construct Family.localpolynomial) dimensions outputs depth
        order rule level_limits)

def makeWaveletGrid (cfg : BuildConfig) (ops : EngineOps E K)
    (dimensions outputs depth order : Int) (level_limits : List Int)
    (g : TasmanianSparseGrid E K) : Outcome (TasmanianSparseGrid E K) :=
  if dimensions < 1 then
    Outcome.throw g (Exn.invalid_argument "ERROR: makeWaveletGrid() requires positive dimensions")
  else if outputs < 0 then
    Outcome.throw g (Exn.invalid_argument "ERROR: makeWaveletGrid() requires non-negative outputs")
  else if depth < 0 then
    Outcome.throw g (Exn.invalid_argument "ERROR: makeWaveletGrid() requires non-negative depth")
  else if order ≠ 1 ∧ order ≠ 3 then
    Outcome.throw g (Exn.invalid_argument
      "ERROR: makeWaveletGrid() is called with an order other than 1 and 3")
  else if !level_limits.isEmpty ∧ (level_limits.length : Int) ≠ dimensions then
    Outcome.throw g (Exn.invalid_argument
      "ERROR: makeWaveletGrid() requires level_limits with either 0 or dimensions entries")
  else
    let g1 := { g.clear cfg with llimits := level_limits }
    g1.withEngine Family.wavelet EngineCall.makeGrid
      (ops.makeWaveletGrid (ops.construct Family.wavelet) dimensions outputs depth order
        level_limits)

def makeFourierGrid (cfg : BuildConfig) (meta1 : OneDimensionalMeta) (ops : EngineOps E K)
    (dimensions outputs depth : Int) (type : TypeDepth)
    (anisotropic_weights : List Int) (level_limits : List Int) (g : TasmanianSparseGrid E K) :
    Outcome (TasmanianSparseGrid E K) :=
  if dimensions < 1 then
    Outcome.throw g (Exn.invalid_argument "ERROR: makeFourierGrid() requires positive dimensions")
  else if outputs < 0 then
    Outcome.throw g (Exn.invalid_argument "ERROR: makeFourierGrid() requires non-negative outputs")
  else if depth < 0 then
    Outcome.throw g (Exn.invalid_argument "ERROR: makeFourierGrid() requires non-negative depth")
  else if !anisotropic_weights.isEmpty ∧
      (anisotropic_weights.length : Int) ≠ expectedWeights meta1 type dimensions then
    Outcome.throw g (Exn.invalid_argument
      "ERROR: makeFourierGrid() requires anisotropic_weights with either 0 or dimensions entries")
  else if !level_limits.isEmpty ∧ (level_limits.length : Int) ≠ dimensions then
    Outcome.throw g (Exn.invalid_argument
      "ERROR: makeFourierGrid() requires level_limits with either 0 or dimensions entries")
  else
    let g1 := { g.clear cfg with llimits := level_limits }
    g1.withEngine Family.fourier EngineCall.makeGrid
      (ops.makeFourierGrid (ops.construct Family.fourier) dimensions outputs depth type
        anisotropic_weights level_limits)

/-! ### Domain and conformal transforms -/

/-- The member `mapCanonicalToTransformed(num_dimensions, num_points, rule, x)`.
The array `x` is returned as it stands after the call. -/
def mapCanonicalToTransformed [Zero K] [One K] [Add K] [Sub K] [Mul K] [Div K] [NatCast K]
    (m : Numerics K) (g : TasmanianSparseGrid E K)
    (num_dimensions num_points : Nat) (rule : TypeOneDRule) (x : List K) : List K :=
  let a := fun j => g.domain_transform_a.getD j 0
  let b := fun j => g.domain_transform_b.getD j 0
  let n := num_points * num_dimensions
  if rule = TypeOneDRule.rule_gausslaguerre ∨ rule = TypeOneDRule.rule_gausslaguerreodd then
    forEachIndex (fun i v => if i < n then v / b (i % num_dimensions) + a (i % num_dimensions)
      else v) 0 x
  else if rule = TypeOneDRule.rule_gausshermite ∨ rule = TypeOneDRule.rule_gausshermiteodd then
    let sqrt_b := fun j => m.sqrt (b j)
    forEachIndex (fun i v => if i < n then
      v / sqrt_b (i % num_dimensions) + a (i % num_dimensions) else v) 0 x
  else if rule = TypeOneDRule.rule_fourier then
    forEachIndex (fun i v => if i < n then
      v * (b (i % num_dimensions) - a (i % num_dimensions)) + a (i % num_dimensions) else v) 0 x
  else
    let rate := fun j => 1 / 2 * (b j - a j)
    let shift := fun j => 1 / 2 * (b j + a j)
    forEachIndex (fun i v => if i < n then
      v * rate (i % num_dimensions) + shift (i % num_dimensions) else v) 0 x

/-- The member `mapTransformedToCanonical(num_dimensions, num_points, rule, x)`. -/
def mapTransformedToCanonical [Zero K] [One K] [Add K] [Sub K] [Mul K] [Div K] [NatCast K]
    (m : Numerics K) (g : TasmanianSparseGrid E K)
    (num_dimensions num_points : Nat) (rule : TypeOneDRule) (x : List K) : List K :=
  let a := fun j => g.domain_transform_a.getD j 0
  let b := fun j => g.domain_transform_b.getD j 0
  let n := num_points * num_dimensions
  if rule = TypeOneDRule.rule_gausslaguerre ∨ rule = TypeOneDRule.rule_gausslaguerreodd then
    forEachIndex (fun i v => if i < n then (v - a (i % num_dimensions)) * b (i % num_dimensions)
      else v) 0 x
  else if rule = TypeOneDRule.rule_gausshermite ∨ rule = TypeOneDRule.rule_gausshermiteodd then
    let sqrt_b := fun j => m.sqrt (b j)
    forEachIndex (fun i v => if i < n then
      (v - a (i % num_dimensions)) * sqrt_b (i % num_dimensions) else v) 0 x
  else if rule = TypeOneDRule.rule_fourier then
    forEachIndex (fun i v => if i < n then
      (v - a (i % num_dimensions)) / (b (i % num_dimensions) - a (i % num_dimensions)) else v) 0 x
  else
    let rate := fun j => 2 / (b j - a j)
    let shift := fun j => (b j + a j) / (b j - a j)
    forEachIndex (fun i v => if i < n then
      v * rate (i % num_dimensions) - shift (i % num_dimensions) else v) 0 x

/-- The member `mapConformalCanonicalToTransformed(num_dimensions, num_points, x)`;
coordinate `j` of point `i` is entry `i * num_dimensions + j` of `x`. -/
def mapConformalCanonicalToTransformed
    [Zero K] [One K] [Add K] [Sub K] [Mul K] [Div K] [Neg K] [NatCast K] [LT K]
    [DecidableRel (fun (x y : K) => x < y)] [DecidableEq K]
    (m : Numerics K)
    (g : TasmanianSparseGrid E K) (num_dimensions num_points : Nat) (x : List K) : List K :=
  if g.conformal_asin_power.length ≠ 0 then
    forEachIndex (fun i v => if i < num_points * num_dimensions then
      conformalForward m (g.conformal_asin_power.getD (i % num_dimensions) 0) v else v) 0 x
  else x

/-- The member `mapConformalTransformedToCanonical(num_dimensions, num_points, x)`,
each Newton loop run for at most `fuel` passes. -/
def mapConformalTransformedToCanonical
    [Zero K] [One K] [Add K] [Sub K] [Mul K] [Div K] [Neg K] [NatCast K] [LT K]
    [DecidableRel (fun (x y : K) => x < y)] [DecidableEq K]
    (m : Numerics K) (fuel : Nat)
    (g : TasmanianSparseGrid E K) (num_dimensions num_points : Nat) (x : List K) :
    Except Exn (List K) :=
  if g.conformal_asin_power.length ≠ 0 then
    forEachIndexM (fun i v => if i < num_points * num_dimensions then
      conformalInverse m fuel (g.conformal_asin_power.getD (i % num_dimensions) 0) v
      else Except.ok v) 0 x
  else Except.ok x

/-- The member `formCanonicalPoints(x, x_temp, num_x)`: the array that the
returned pointer designates. -/
def formCanonicalPoints [Zero K] [One K] [Add K] [Sub K] [Mul K] [Div K] [Neg K] [NatCast K] [LT K]
    [DecidableRel (fun (x y : K) => x < y)] [DecidableEq K]
    (m : Numerics K) (fuel : Nat)
    (ops : EngineOps E K) (g : TasmanianSparseGrid E K) (x : List K) (num_x : Nat) :
    Except Exn (List K) :=
  if g.domain_transform_a.length ≠ 0 ∨ g.conformal_asin_power.length ≠ 0 then
    match g.base with
    | none => Except.error nullEngine
    | some (f, e) =>
      let num_dimensions := ops.getNumDimensions f e
      let x_temp := x.take (num_dimensions * num_x)
      match mapConformalTransformedToCanonical m fuel g num_dimensions num_x x_temp with
      | Except.error err => Except.error err
      | Except.ok x1 =>
        if g.domain_transform_a.length ≠ 0 then
          Except.ok (mapTransformedToCanonical m g num_dimensions num_x (ops.getRule f e) x1)
        else Except.ok x1
  else Except.ok x

/-- The member `formTransformedPoints(num_points, x)`. -/
def formTransformedPoints
    [Zero K] [One K] [Add K] [Sub K] [Mul K] [Div K] [Neg K] [NatCast K] [LT K]
    [DecidableRel (fun (x y : K) => x < y)] [DecidableEq K]
    (m : Numerics K) (ops : EngineOps E K)
    (g : TasmanianSparseGrid E K) (num_points : Nat) (x : List K) : Except Exn (List K) :=
  match g.base with
  | none => Except.error nullEngine
  | some (f, e) =>
    let x1 := mapConformalCanonicalToTransformed m g (ops.getNumDimensions f e) num_points x
    if g.domain_transform_a.length ≠ 0 then
      Except.ok (mapCanonicalToTransformed m g (ops.getNumDimensions f e) num_points
        (ops.getRule f e) x1)
    else Except.ok x1

/-- An engine call made through `getGridSequence()` or `getGridGlobal()` on an
object of another class. -/
def badCast : Exn := Exn.undefined_behavior "call through a pointer cast to the wrong engine class"

/-- The member `getQuadratureScale(num_dimensions, rule)`.  The branches that
read `getGridGlobal()->getAlpha()` need an engine of class `GridGlobal`. -/
def getQuadratureScale [Zero K] [One K] [Add K] [Sub K] [Mul K] [Div K] [Neg K] [NatCast K]
    (m : Numerics K) (ops : EngineOps E K)
    (g : TasmanianSparseGrid E K) (num_dimensions : Nat) (rule : TypeOneDRule) : Except Exn K :=
  let a := fun j => g.domain_transform_a.getD j 0
  let b := fun j => g.domain_transform_b.getD j 0
  let chebyshev1 : Prop := rule = TypeOneDRule.rule_gausschebyshev1 ∨
    rule = TypeOneDRule.rule_gausschebyshev1odd
  let chebyshev2 : Prop := rule = TypeOneDRule.rule_gausschebyshev2 ∨
    rule = TypeOneDRule.rule_gausschebyshev2odd
  let gegenbauer : Prop := rule = TypeOneDRule.rule_gaussgegenbauer ∨
    rule = TypeOneDRule.rule_gaussgegenbauerodd
  let jacobi : Prop := rule = TypeOneDRule.rule_gaussjacobi ∨
    rule = TypeOneDRule.rule_gaussjacobiodd
  let jacobiScale (alpha beta : K) : K :=
    (List.range num_dimensions).foldl
      (fun scale j => scale * m.pow (1 / 2 * (b j - a j)) (alpha + beta + 1)) 1
  if chebyshev1 then Except.ok (jacobiScale (-(1 / 2)) (-(1 / 2)))
  else if chebyshev2 then Except.ok (jacobiScale (1 / 2) (1 / 2))
  else if gegenbauer ∨ jacobi ∨
      rule = TypeOneDRule.rule_gausslaguerre ∨ rule = TypeOneDRule.rule_gausslaguerreodd ∨
      rule = TypeOneDRule.rule_gausshermite ∨ rule = TypeOneDRule.rule_gausshermiteodd then
    match g.base with
    | none => Except.error nullEngine
    | some (f, e) =>
      if f ≠ Family.global then Except.error badCast
      else if gegenbauer then Except.ok (jacobiScale (ops.getAlpha e) (ops.getAlpha e))
      else if jacobi then Except.ok (jacobiScale (ops.getAlpha e) (ops.getBeta e))
      else if rule = TypeOneDRule.rule_gausslaguerre ∨
          rule = TypeOneDRule.rule_gausslaguerreodd then
        Except.ok ((List.range num_dimensions).foldl
          (fun scale j => scale * m.pow (b j) (-(1 + ops.getAlpha e))) 1)
      else
        let power := -(1 / 2) * (1 + ops.getAlpha e)
        Except.ok ((List.range num_dimensions).foldl
          (fun scale j => scale * m.pow (b j) power) 1)
  else if rule = TypeOneDRule.rule_fourier then
    Except.ok ((List.range num_dimensions).foldl (fun scale j => scale * (b j - a j)) 1)
  else
    Except.ok ((List.range num_dimensions).foldl (fun scale j => scale * ((b j - a j) / 2)) 1)

/-- The member `mapConformalWeights(num_dimensions, num_points, weights)`; the
points are the canonical points `base->getPoints(x)` of the engine. -/
def mapConformalWeights [Zero K] [One K] [Add K] [Sub K] [Mul K] [Div K] [NatCast K] [DecidableEq K]
    (m : Numerics K) (ops : EngineOps E K)
    (g : TasmanianSparseGrid E K) (num_dimensions num_points : Nat) (weights : List K) :
    Except Exn (List K) :=
  if g.conformal_asin_power.length ≠ 0 then
    match g.base with
    | none => Except.error nullEngine
    | some (f, e) =>
      let x := ops.getPoints f e
      Except.ok (forEachIndex (fun i w => if i < num_points then
        (List.range num_dimensions).foldl (fun acc j =>
          conformalWeight m (g.conformal_asin_power.getD j 0) (x.getD (i * num_dimensions + j) 0)
            acc) w
        else w) 0 weights)
  else Except.ok weights

/-- The member `getQuadratureWeights(double *weights)`: the array after the call. -/
def getQuadratureWeights [Zero K] [One K] [Add K] [Sub K] [Mul K] [Div K] [Neg K] [NatCast K]
    [DecidableEq K]
    (m : Numerics K) (ops : EngineOps E K)
    (g : TasmanianSparseGrid E K) : Except Exn (List K) :=
  match g.base with
  | none => Except.error nullEngine
  | some (f, e) =>
    match mapConformalWeights m ops g (ops.getNumDimensions f e) (ops.getNumPoints f e)
        (ops.getQuadratureWeights f e) with
    | Except.error err => Except.error err
    | Except.ok w =>
      if g.domain_transform_a.length ≠ 0 then
        match getQuadratureScale m ops g (ops.getNumDimensions f e) (ops.getRule f e) with
        | Except.error err => Except.error err
        | Except.ok scale =>
          Except.ok (forEachIndex (fun i v => if i < g.getNumPoints ops then v * scale else v) 0 w)
      else Except.ok w

/-- The member `integrate(double q[])`: the array after the call. -/
def integrate [Zero K] [One K] [Add K] [Sub K] [Mul K] [Div K] [Neg K] [NatCast K]
    [DecidableEq K]
    (m : Numerics K) (ops : EngineOps E K)
    (g : TasmanianSparseGrid E K) : Except Exn (List K) :=
  match g.base with
  | none => Except.error nullEngine
  | some (f, e) =>
    let computed : Except Exn (List K) :=
      if g.conformal_asin_power.length ≠ 0 then
        match mapConformalWeights m ops g (ops.getNumDimensions f e) (ops.getNumPoints f e)
            (List.replicate (ops.getNumPoints f e) 1) with
        | Except.error err => Except.error err
        | Except.ok correction => Except.ok (ops.integrate f e (some correction))
      else Except.ok (ops.integrate f e none)
    match computed with
    | Except.error err => Except.error err
    | Except.ok q =>
      if g.domain_transform_a.length ≠ 0 then
        match getQuadratureScale m ops g (ops.getNumDimensions f e) (ops.getRule f e) with
        | Except.error err => Except.error err
        | Except.ok scale =>
          Except.ok (forEachIndex (fun k v => if k < g.getNumOutputs ops then v * scale else v) 0 q)
      else Except.ok q

/-- The member `setDomainTransform(const double a[], const double b[])`. -/
def setDomainTransformPtr [Zero K] (ops : EngineOps E K) (a b : List K)
    (g : TasmanianSparseGrid E K) : Outcome (TasmanianSparseGrid E K) :=
  match g.base with
  | none => Outcome.throw g (Exn.runtime_error
      "ERROR: cannot call setDomainTransform on uninitialized grid!")
  | some (f, e) =>
    if ops.getNumDimensions f e = 0 then
      Outcome.throw g (Exn.runtime_error
        "ERROR: cannot call setDomainTransform on uninitialized grid!")
    else
      Outcome.ok { g with
        domain_transform_a := firstEntries a (ops.getNumDimensions f e)
        domain_transform_b := firstEntries b (ops.getNumDimensions f e) }

/-- The member `setDomainTransform(a, b)` taking two `std::vector`s. -/
def setDomainTransform (ops : EngineOps E K) (a b : List K)
    (g : TasmanianSparseGrid E K) : Outcome (TasmanianSparseGrid E K) :=
  match g.base with
  | none => Outcome.throw g (Exn.runtime_error
      "ERROR: cannot call setDomainTransform on uninitialized grid!")
  | some (f, e) =>
    if ops.getNumDimensions f e = 0 then
      Outcome.throw g (Exn.runtime_error
        "ERROR: cannot call setDomainTransform on uninitialized grid!")
    else if a.length ≠ ops.getNumDimensions f e ∨ b.length ≠ ops.getNumDimensions f e then
      Outcome.throw g (Exn.invalid_argument
        "ERROR: setDomainTransform() is called with a.size() and b.size() that are not both equal to getNumDimensions()")
    else Outcome.ok { g with domain_transform_a := a, domain_transform_b := b }

/-- The member `clearDomainTransform()`. -/
def clearDomainTransform (g : TasmanianSparseGrid E K) : TasmanianSparseGrid E K :=
  { g with domain_transform_a := [], domain_transform_b := [] }

/-- The member `clearConformalTransform()`. -/
def clearConformalTransform (g : TasmanianSparseGrid E K) : TasmanianSparseGrid E K :=
  { g with conformal_asin_power := [] }

/-- The member `setConformalTransformASIN(const int truncation[])`. -/
def setConformalTransformASIN (ops : EngineOps E K) (truncation : List Int)
    (g : TasmanianSparseGrid E K) : Outcome (TasmanianSparseGrid E K) :=
  match g.base with
  | none => Outcome.throw g (Exn.runtime_error
      "ERROR: cannot call setConformalTransformASIN on uninitialized grid!")
  | some (f, e) =>
    if ops.getNumDimensions f e = 0 then
      Outcome.throw g (Exn.runtime_error
        "ERROR: cannot call setConformalTransformASIN on uninitialized grid!")
    else
      Outcome.ok { g.clearConformalTransform with
        conformal_asin_power := firstEntries truncation (ops.getNumDimensions f e) }

/-- The member `clearLevelLimits()`. -/
def clearLevelLimits (g : TasmanianSparseGrid E K) : TasmanianSparseGrid E K :=
  { g with llimits := [] }

/-! ### Loading values -/

/-- The member `loadNeededPoints(const double *vals)`. -/
def loadNeededPointsPtr (ops : EngineOps E K) (vals : List K) (g : TasmanianSparseGrid E K) :
    Outcome (TasmanianSparseGrid E K) :=
  match g.base with
  | none => Outcome.throw g nullEngine
  | some (f, e) => g.withEngine f EngineCall.loadNeededPoints (ops.loadNeededPoints f e vals)

/-- The count `nump` that `loadNeededPoints(const std::vector<double> &vals)` expects. -/
def expectedValues (ops : EngineOps E K) (f : Family) (e : E) : Nat :=
  (if ops.getNumNeeded f e = 0 then ops.getNumPoints f e else ops.getNumNeeded f e)
    * ops.getNumOutputs f e

/-- The member `loadNeededPoints(const std::vector<double> &vals)`. -/
def loadNeededPoints (ops : EngineOps E K) (vals : List K) (g : TasmanianSparseGrid E K) :
    Outcome (TasmanianSparseGrid E K) :=
  match g.base with
  | none => Outcome.throw g nullEngine
  | some (f, e) =>
    if vals.length ≠ expectedValues ops f e then
      Outcome.throw g (Exn.runtime_error
        "ERROR: loadNeededPoints() given the wrong number of inputs, should be getNumNeeded() * getNumOutputs() or (if getNumNeeded() == 0) getNumPoints() * getNumOutputs()")
    else loadNeededPointsPtr ops vals g

/-! ### Refinement -/

/-- The text of the exception of the construction guard, shared by every
overload of `setAnisotropicRefinement` and `setSurplusRefinement`. -/
def constructionGuardText : String :=
  "ERROR: setSurplusRefinement() called before finishConstruction()"

/-- The vector that `std::copy(p, p + n, ll.data())` produces from a nullable
pointer `p`: empty for the null pointer. -/
def vectorOfPointer {α : Type} [Zero α] (p : Option (List α)) (n : Nat) : List α :=
  match p with
  | none => []
  | some arr => firstEntries arr n

/-- The pointer `v.data()` handed to the engine: null for an empty vector. -/
def pointerOfVector {α : Type} (v : List α) : Option (List α) :=
  if v.isEmpty then none else some v

/-- The member `setAnisotropicRefinement(type, min_growth, output, level_limits)`
taking `const std::vector<int> &level_limits`. -/
def setAnisotropicRefinement (meta1 : OneDimensionalMeta) (ops : EngineOps E K)
    (type : TypeDepth) (min_growth output : Int) (level_limits : List Int)
    (g : TasmanianSparseGrid E K) : Outcome (TasmanianSparseGrid E K) :=
  if g.usingDynamicConstruction then
    Outcome.throw g (Exn.runtime_error constructionGuardText)
  else
    match g.base with
    | none => Outcome.throw g (Exn.runtime_error
        "ERROR: calling setAnisotropicRefinement() for a grid that has not been initialized")
    | some (f, e) =>
      if min_growth < 1 then
        Outcome.throw g (Exn.invalid_argument
          "ERROR: setAnisotropicRefinement() requires positive min_growth")
      else if ops.getNumOutputs f e = 0 then
        Outcome.throw g (Exn.runtime_error
          "ERROR: calling setAnisotropicRefinement() for a grid that has no outputs")
      else if ops.getNumLoaded f e = 0 then
        Outcome.throw g (Exn.runtime_error
          "ERROR: calling setAnisotropicRefinement() for a grid with no loaded values")
      else if output < -1 ∨ output ≥ (ops.getNumOutputs f e : Int) then
        Outcome.throw g (Exn.invalid_argument
          "ERROR: calling setAnisotropicRefinement() with invalid output")
      else if !level_limits.isEmpty ∧ level_limits.length ≠ ops.getNumDimensions f e then
        Outcome.throw g (Exn.invalid_argument
          "ERROR: setAnisotropicRefinement() requires level_limits with either 0 or dimenions entries")
      else
        let g1 := if !level_limits.isEmpty then { g with llimits := level_limits } else g
        if f = Family.sequence then
          g1.withEngine f EngineCall.setAnisotropicRefinement
            (ops.setAnisotropicRefinement f e type min_growth output g1.llimits)
        else if f = Family.global then
          if meta1.isNonNested (ops.getRule f e) then
            Outcome.throw g1 (Exn.runtime_error
              "ERROR: setAnisotropicRefinement() called for a global grid with non-nested rule")
          else
            g1.withEngine f EngineCall.setAnisotropicRefinement
              (ops.setAnisotropicRefinement f e type min_growth output g1.llimits)
        else
          Outcome.throw g1 (Exn.runtime_error
            "ERROR: setAnisotropicRefinement() called for a grid that is neither Sequence nor Global with a sequence rule")

/-- The member `setAnisotropicRefinement(type, min_growth, output, level_limits)`
taking `const int *level_limits`. -/
def setAnisotropicRefinementPtr (meta1 : OneDimensionalMeta) (ops : EngineOps E K)
    (type : TypeDepth) (min_growth output : Int) (level_limits : Option (List Int))
    (g : TasmanianSparseGrid E K) : Outcome (TasmanianSparseGrid E K) :=
  if g.usingDynamicConstruction then
    Outcome.throw g (Exn.runtime_error constructionGuardText)
  else
    match g.base with
    | none => Outcome.throw g (Exn.runtime_error
        "ERROR: calling setAnisotropicRefinement() for a grid that has not been initialized")
    | some (f, e) =>
      setAnisotropicRefinement meta1 ops type min_growth output
        (vectorOfPointer level_limits (ops.getNumDimensions f e)) g

/-- The member `setSurplusRefinement(tolerance, output, level_limits)` taking
`const std::vector<int> &level_limits`. -/
def setSurplusRefinement [LinearOrderedField K] (meta1 : OneDimensionalMeta) (ops : EngineOps E K)
    (tolerance : K) (output : Int) (level_limits : List Int)
    (g : TasmanianSparseGrid E K) : Outcome (TasmanianSparseGrid E K) :=
  if g.usingDynamicConstruction then
    Outcome.throw g (Exn.runtime_error constructionGuardText)
  else
    match g.base with
    | none => Outcome.throw g (Exn.runtime_error
        "ERROR: calling setSurplusRefinement() for a grid that has not been initialized")
    | some (f, e) =>
      if ops.getNumOutputs f e = 0 then
        Outcome.throw g (Exn.runtime_error
          "ERROR: calling setSurplusRefinement() for a grid that has no outputs")
      else if ops.getNumLoaded f e = 0 then
        Outcome.throw g (Exn.runtime_error
          "ERROR: calling setSurplusRefinement() for a grid with no loaded values")
      else if output < -1 ∨ output ≥ (ops.getNumOutputs f e : Int) then
        Outcome.throw g (Exn.invalid_argument
          "ERROR: calling setSurplusRefinement() with invalid output")
      else if tolerance < 0 then
        Outcome.throw g (Exn.invalid_argument
          "ERROR: calling setSurplusRefinement() with invalid tolerance (must be non-negative)")
      else if !level_limits.isEmpty ∧ level_limits.length ≠ ops.getNumDimensions f e then
        Outcome.throw g (Exn.invalid_argument
          "ERROR: setSurplusRefinement() requires level_limits with either 0 or dimenions entries")
      else
        let g1 := if !level_limits.isEmpty then { g with llimits := level_limits } else g
        if f = Family.sequence then
          g1.withEngine f EngineCall.setSurplusRefinement
            (ops.setSurplusRefinement f e tolerance output g1.llimits)
        else if f = Family.global then
          if meta1.isSequence (ops.getRule f e) then
            g1.withEngine f EngineCall.setSurplusRefinement
              (ops.setSurplusRefinement f e tolerance output g1.llimits)
          else
            Outcome.throw g1 (Exn.runtime_error
              "ERROR: setSurplusRefinement called for a Global grid with non-sequence rule")
        else
          Outcome.throw g1 (Exn.runtime_error
            "ERROR: setSurplusRefinement(double, int) called for a grid that is neither Sequence nor Global with a sequence rule")

/-- The member `setSurplusRefinement(tolerance, output, level_limits)` taking
`const int *level_limits`. -/
def setSurplusRefinementPtr [LinearOrderedField K] (meta1 : OneDimensionalMeta)
    (ops : EngineOps E K) (tolerance : K) (output : Int) (level_limits : Option (List Int))
    (g : TasmanianSparseGrid E K) : Outcome (TasmanianSparseGrid E K) :=
  if g.usingDynamicConstruction then
    Outcome.throw g (Exn.runtime_error constructionGuardText)
  else
    match g.base with
    | none => Outcome.throw g (Exn.runtime_error
        "ERROR: calling setSurplusRefinement() for a grid that has not been initialized")
    | some (f, e) =>
      setSurplusRefinement meta1 ops tolerance output
        (vectorOfPointer level_limits (ops.getNumDimensions f e)) g

/-- The member `setSurplusRefinement(tolerance, criteria, output, level_limits,
scale_correction)` taking `const int *level_limits` and `const double *scale_correction`. -/
def setSurplusRefinementCriteriaPtr [LinearOrderedField K] (ops : EngineOps E K)
    (tolerance : K) (criteria : TypeRefinement) (output : Int)
    (level_limits : Option (List Int)) (scale_correction : Option (List K))
    (g : TasmanianSparseGrid E K) : Outcome (TasmanianSparseGrid E K) :=
  if g.usingDynamicConstruction then
    Outcome.throw g (Exn.runtime_error constructionGuardText)
  else
    match g.base with
    | none => Outcome.throw g (Exn.runtime_error
        "ERROR: calling setSurplusRefinement() for a grid that has not been initialized")
    | some (f, e) =>
      if ops.getNumOutputs f e = 0 then
        Outcome.throw g (Exn.runtime_error
          "ERROR: calling setSurplusRefinement() for a grid that has no outputs")
      else if ops.getNumLoaded f e = 0 then
        Outcome.throw g (Exn.runtime_error
          "ERROR: calling setSurplusRefinement() for a grid with no loaded values")
      else if output < -1 ∨ output ≥ (ops.getNumOutputs f e : Int) then
        Outcome.throw g (Exn.invalid_argument
          "ERROR: calling setSurplusRefinement() with invalid output")
      else if f ≠ Family.localpolynomial ∧ f ≠ Family.wavelet then
        Outcome.throw g (Exn.runtime_error
          "ERROR: setSurplusRefinement(double, TypeRefinement) called for a grid that is neither Local Polynomial nor Wavelet")
      else if tolerance < 0 then
        Outcome.throw g (Exn.invalid_argument
          "ERROR: calling setSurplusRefinement() with invalid tolerance (must be non-negative)")
      else
        let g1 := match level_limits with
          | none => g
          | some arr =>
            { g with llimits := firstEntries arr (ops.getNumDimensions f e) }
        if f = Family.localpolynomial then
          g1.withEngine f EngineCall.setSurplusRefinement
            (ops.setSurplusRefinementLocal f e tolerance criteria output g1.llimits
              scale_correction)
        else
          g1.withEngine f EngineCall.setSurplusRefinement
            (ops.setSurplusRefinementLocal f e tolerance criteria output g1.llimits none)

/-- The count `nscale` that the vector overload of the criteria refinement
compares with `scale_correction.size()`. -/
def nscale (ops : EngineOps E K) (f : Family) (e : E) (output : Int) : Nat :=
  if output ≠ -1 then ops.getNumNeeded f e * ops.getNumOutputs f e else ops.getNumNeeded f e

/-- The member `setSurplusRefinement(tolerance, criteria, output, level_limits,
scale_correction)` taking two `std::vector`s. -/
def setSurplusRefinementCriteria [LinearOrderedField K] (ops : EngineOps E K)
    (tolerance : K) (criteria : TypeRefinement) (output : Int)
    (level_limits : List Int) (scale_correction : List K)
    (g : TasmanianSparseGrid E K) : Outcome (TasmanianSparseGrid E K) :=
  if g.usingDynamicConstruction then
    Outcome.throw g (Exn.runtime_error constructionGuardText)
  else
    match g.base with
    | none => Outcome.throw g (Exn.runtime_error
        "ERROR: calling setSurplusRefinement() for a grid that has not been initialized")
    | some (f, e) =>
      if !level_limits.isEmpty ∧ level_limits.length ≠ ops.getNumDimensions f e then
        Outcome.throw g (Exn.invalid_argument
          "ERROR: setSurplusRefinement() requires level_limits with either 0 or dimenions entries")
      else if f ≠ Family.localpolynomial ∧ f ≠ Family.wavelet then
        Outcome.throw g (Exn.runtime_error
          "ERROR: setSurplusRefinement(double, TypeRefinement) called for a grid that is neither Local Polynomial nor Wavelet")
      else if !scale_correction.isEmpty ∧ scale_correction.length ≠ nscale ops f e output then
        Outcome.throw g (Exn.invalid_argument
          "ERROR: setSurplusRefinement() incorrect size for scale_correction")
      else
        let g1 := if !level_limits.isEmpty then { g with llimits := level_limits } else g
        setSurplusRefinementCriteriaPtr ops tolerance criteria output none
          (pointerOfVector scale_correction) g1

/-- The member `clearRefinement()`. -/
def clearRefinement (ops : EngineOps E K) (g : TasmanianSparseGrid E K) :
    Outcome (TasmanianSparseGrid E K) :=
  match g.base with
  | none => Outcome.ok g
  | some (f, e) => g.withEngine f EngineCall.clearRefinement (ops.clearRefinement f e)

/-- The member `mergeRefinement()`. -/
def mergeRefinement (ops : EngineOps E K) (g : TasmanianSparseGrid E K) :
    Outcome (TasmanianSparseGrid E K) :=
  match g.base with
  | none => Outcome.ok g
  | some (f, e) => g.withEngine f EngineCall.mergeRefinement (ops.mergeRefinement f e)

/-! ### Dynamic construction -/

/-- The member `beginConstruction()`. -/
def beginConstruction (ops : EngineOps E K) (g : TasmanianSparseGrid E K) :
    Outcome (TasmanianSparseGrid E K) :=
  if g.isWavelet ∨ g.isFourier then
    Outcome.throw g (Exn.runtime_error
      "ERROR: beginConstruction() is not implemented for Wavelet and Fourier grids")
  else if !g.usingDynamicConstruction then
    let r := if g.getNumLoaded ops > 0 then clearRefinement ops g else Outcome.ok g
    match r.raised with
    | some x => Outcome.throw r.state x
    | none =>
      let g1 := { r.state with usingDynamicConstruction := true }
      match g1.base with
      | none => Outcome.throw g1 nullEngine
      | some (f, e) => g1.withEngine f EngineCall.beginConstruction (ops.beginConstruction f e)
  else Outcome.ok g

/-- The test `(type == type_curved) || (type == type_ipcurved) || (type == type_qpcurved)`. -/
def isCurved (type : TypeDepth) : Bool :=
  type = TypeDepth.type_curved || type = TypeDepth.type_ipcurved || type = TypeDepth.type_qpcurved

/-- The member `getCandidateConstructionPoints(type, x, anisotropic_weights,
level_limits)`; the second component is the vector `x` after the call. -/
def getCandidateConstructionPointsWeights (ops : EngineOps E K) (type : TypeDepth) (x : List K)
    (anisotropic_weights level_limits : List Int) (g : TasmanianSparseGrid E K) :
    Outcome (TasmanianSparseGrid E K) × List K :=
  if !g.usingDynamicConstruction then
    (Outcome.throw g (Exn.runtime_error
      "ERROR: getCandidateConstructionPoints() called before beginConstruction()"), x)
  else if g.isLocalPolynomial then
    (Outcome.throw g (Exn.runtime_error
      "ERROR: getCandidateConstructionPoints() anisotropic version called for local polynomial grid"), x)
  else
    match g.base with
    | none => (Outcome.throw g nullEngine, x)
    | some (f, e) =>
      let dims := ops.getNumDimensions f e
      if !level_limits.isEmpty ∧ level_limits.length ≠ dims then
        (Outcome.throw g (Exn.invalid_argument
          "ERROR: getCandidateConstructionPoints() requires level_limits with either 0 or num-dimensions entries"), x)
      else if isCurved type ∧ anisotropic_weights.length ≠ 2 * dims then
        (Outcome.throw g (Exn.invalid_argument
          "ERROR: getCandidateConstructionPoints() called with curved type and incorrect size for anisotropic_weights (must be twice the number of dimensions)"), x)
      else if !isCurved type ∧ anisotropic_weights.length ≠ dims then
        (Outcome.throw g (Exn.invalid_argument
          "ERROR: getCandidateConstructionPoints() called with incorrect size for anisotropic_weights (must match number of dimensions)"), x)
      else
        let g1 := if !level_limits.isEmpty then { g with llimits := level_limits } else g
        if f = Family.global ∨ f = Family.sequence then
          let r := ops.getCandidateConstructionPointsWeights f e type anisotropic_weights g1.llimits
          (g1.withEngine f EngineCall.getCandidateConstructionPoints r.1, r.2)
        else (Outcome.throw g1 badCast, x)

/-- The member `getCandidateConstructionPoints(type, output, x, level_limits)`. -/
def getCandidateConstructionPointsOutput (ops : EngineOps E K) (type : TypeDepth) (output : Int)
    (x : List K) (level_limits : List Int) (g : TasmanianSparseGrid E K) :
    Outcome (TasmanianSparseGrid E K) × List K :=
  if !g.usingDynamicConstruction then
    (Outcome.throw g (Exn.runtime_error
      "ERROR: getCandidateConstructionPoints() called before beginConstruction()"), x)
  else if g.isLocalPolynomial then
    (Outcome.throw g (Exn.runtime_error
      "ERROR: getCandidateConstructionPoints() anisotropic version called for local polynomial grid"), x)
  else
    match g.base with
    | none => (Outcome.throw g nullEngine, x)
    | some (f, e) =>
      if !level_limits.isEmpty ∧ level_limits.length ≠ ops.getNumDimensions f e then
        (Outcome.throw g (Exn.invalid_argument
          "ERROR: getCandidateConstructionPoints() requires level_limits with either 0 or num-dimensions entries"), x)
      else if ops.getNumOutputs f e = 0 then
        (Outcome.throw g (Exn.runtime_error
          "ERROR: calling getCandidateConstructionPoints() for a grid that has no outputs"), x)
      else if output < -1 ∨ output ≥ (ops.getNumOutputs f e : Int) then
        (Outcome.throw g (Exn.invalid_argument
          "ERROR: calling getCandidateConstructionPoints() with invalid output"), x)
      else
        let g1 := if !level_limits.isEmpty then { g with llimits := level_limits } else g
        if f = Family.global ∨ f = Family.sequence then
          let r := ops.getCandidateConstructionPointsOutput f e type output g1.llimits
          (g1.withEngine f EngineCall.getCandidateConstructionPoints r.1, r.2)
        else (Outcome.throw g1 badCast, x)

/-- The member `getCandidateConstructionPoints(tolerance, criteria, x, output,
level_limits, scale_correction)`. -/
def getCandidateConstructionPointsSurplus (ops : EngineOps E K) (tolerance : K)
    (criteria : TypeRefinement) (x : List K) (output : Int) (level_limits : List Int)
    (scale_correction : List K) (g : TasmanianSparseGrid E K) :
    Outcome (TasmanianSparseGrid E K) × List K :=
  if !g.usingDynamicConstruction then
    (Outcome.throw g (Exn.runtime_error
      "ERROR: getCandidateConstructionPoints() called before beginConstruction()"), x)
  else if !g.isLocalPolynomial then
    (Outcome.throw g (Exn.runtime_error
      "ERROR: getCandidateConstructionPoints() anisotropic version called for local polynomial grid"), x)
  else
    match g.base with
    | none => (Outcome.throw g nullEngine, x)
    | some (f, e) =>
      if !level_limits.isEmpty ∧ level_limits.length ≠ ops.getNumDimensions f e then
        (Outcome.throw g (Exn.invalid_argument
          "ERROR: getCandidateConstructionPoints() requires level_limits with either 0 or num-dimensions entries"), x)
      else if ops.getNumOutputs f e = 0 then
        (Outcome.throw g (Exn.runtime_error
          "ERROR: calling getCandidateConstructionPoints() for a grid that has no outputs"), x)
      else if output < -1 ∨ output ≥ (ops.getNumOutputs f e : Int) then
        (Outcome.throw g (Exn.invalid_argument
          "ERROR: calling getCandidateConstructionPoints() with invalid output"), x)
      else
        let g1 := if !level_limits.isEmpty then { g with llimits := level_limits } else g
        let r := ops.getCandidateConstructionPointsSurplus e tolerance criteria output g1.llimits
          (pointerOfVector scale_correction)
        (g1.withEngine f EngineCall.getCandidateConstructionPoints r.1, r.2)

/-- The member `loadConstructedPoint(x, y)` taking two `std::vector`s. -/
def loadConstructedPoint [LinearOrderedField K] (m : Numerics K) (fuel : Nat)
    (ops : EngineOps E K) (x y : List K) (g : TasmanianSparseGrid E K) :
    Outcome (TasmanianSparseGrid E K) :=
  if !g.usingDynamicConstruction then
    Outcome.throw g (Exn.runtime_error
      "ERROR: loadConstructedPoint() called before beginConstruction()")
  else if x.length ≠ g.getNumDimensions ops then
    Outcome.throw g (Exn.runtime_error
      "ERROR: loadConstructedPoint() called with incorrect size for x")
  else if y.length ≠ g.getNumOutputs ops then
    Outcome.throw g (Exn.runtime_error
      "ERROR: loadConstructedPoint() called with incorrect size for y")
  else
    match formCanonicalPoints m fuel ops g x 1 with
    | Except.error err => Outcome.throw g err
    | Except.ok x_canonical =>
      match g.base with
      | none => Outcome.throw g nullEngine
      | some (f, e) =>
        g.withEngine f EngineCall.loadConstructedPoint (ops.loadConstructedPoint f e x_canonical y)

/-- The member `loadConstructedPoint(x, y)` taking two arrays. -/
def loadConstructedPointPtr [LinearOrderedField K] (m : Numerics K) (fuel : Nat)
    (ops : EngineOps E K) (x y : List K) (g : TasmanianSparseGrid E K) :
    Outcome (TasmanianSparseGrid E K) :=
  if !g.usingDynamicConstruction then
    Outcome.throw g (Exn.runtime_error
      "ERROR: loadConstructedPoint() called before beginConstruction()")
  else
    loadConstructedPoint m fuel ops (TasGrid.firstEntries x (g.getNumDimensions ops))
      (firstEntries y (g.getNumOutputs ops)) g

/-- The member `finishConstruction()`. -/
def finishConstruction (ops : EngineOps E K) (g : TasmanianSparseGrid E K) :
    Outcome (TasmanianSparseGrid E K) :=
  let r : Outcome (TasmanianSparseGrid E K) :=
    if g.usingDynamicConstruction then
      match g.base with
      | none => Outcome.throw g nullEngine
      | some (f, e) => g.withEngine f EngineCall.finishConstruction (ops.finishConstruction f e)
    else Outcome.ok g
  match r.raised with
  | some x => Outcome.throw r.state x
  | none => Outcome.ok { r.state with usingDynamicConstruction := false }

/-- The vector `vecscale` that the C wrapper
`tsgGetCandidateConstructionPointsSurplusVoidPntr` builds from the array
`scale_correction`: `getNumLoaded() * active_outputs` entries. -/
def tsgScaleCorrectionVector (ops : EngineOps E K) [Zero K] (g : TasmanianSparseGrid E K)
    (output : Int) (scale_correction : Option (List K)) : List K :=
  let active_outputs := if output = -1 then g.getNumOutputs ops else 1
  vectorOfPointer scale_correction (g.getNumLoaded ops * active_outputs)

/-! ### Copying and removing points -/

/-- The argument `const TasmanianSparseGrid *source` of `copyGrid`: a pointer to
the object that the member is called on, or to another object. -/
inductive SourcePointer (E K : Type) where
  | this
  | other (source : TasmanianSparseGrid E K)

/-- The object that the pointer designates while the object that the member runs
on is in the state `current`. -/
def SourcePointer.deref (p : SourcePointer E K) (current : TasmanianSparseGrid E K) :
    TasmanianSparseGrid E K :=
  match p with
  | SourcePointer.this => current
  | SourcePointer.other source => source

/-- The member `copyGrid(source)`.  Every read through `source` sees the object
as it is at that point of the call: when `source` is `this`, it sees what
`clear()` and the later assignments have left. -/
def copyGrid (cfg : BuildConfig) (ops : EngineOps E K) (source : SourcePointer E K)
    (g : TasmanianSparseGrid E K) : Outcome (TasmanianSparseGrid E K) :=
  let g1 := g.clear cfg
  let r : Outcome (TasmanianSparseGrid E K) :=
    match (source.deref g1).base with
    | none => Outcome.ok g1
    | some (f, es) => g1.withEngine f EngineCall.copyGrid (ops.copyGrid f (ops.construct f) es)
  match r.raised with
  | some x => Outcome.throw r.state x
  | none =>
    let r2 : Outcome (TasmanianSparseGrid E K) :=
      if (source.deref r.state).domain_transform_a.length > 0 then
        setDomainTransform ops (source.deref r.state).domain_transform_a
          (source.deref r.state).domain_transform_b r.state
      else Outcome.ok r.state
    match r2.raised with
    | some x => Outcome.throw r2.state x
    | none =>
      Outcome.ok { r2.state with
        conformal_asin_power := (source.deref r2.state).conformal_asin_power
        llimits := (source.deref
          { r2.state with
            conformal_asin_power := (source.deref r2.state).conformal_asin_power }).llimits }

/-- The member `removePointsByHierarchicalCoefficient(tolerance, output, scale_correction)`. -/
def removePointsByHierarchicalCoefficient (cfg : BuildConfig) (ops : EngineOps E K)
    (tolerance : K) (output : Int) (scale_correction : Option (List K))
    (g : TasmanianSparseGrid E K) : Outcome (TasmanianSparseGrid E K) :=
  match g.base with
  | none => Outcome.throw g (Exn.runtime_error
      "ERROR: removePointsBySurplus() called for a grid that is not Local Polynomial.")
  | some (f, e) =>
    if f ≠ Family.localpolynomial then
      Outcome.throw g (Exn.runtime_error
        "ERROR: removePointsBySurplus() called for a grid that is not Local Polynomial.")
    else
      let r := ops.removePointsByHierarchicalCoefficient e tolerance output scale_correction
      let g1 := g.withEngine f EngineCall.removePointsByHierarchicalCoefficient r.1
      match g1.raised with
      | some x => Outcome.throw g1.state x
      | none => if r.2 = 0 then Outcome.ok (g1.state.clear cfg) else Outcome.ok g1.state

/-! ### Queries -/

/-- The member `getAlpha()`: `(isGlobal()) ? getGridGlobal()->getAlpha() : 0.0`. -/
def getAlpha [Zero K] (ops : EngineOps E K) (g : TasmanianSparseGrid E K) : K :=
  if g.isGlobal then
    match g.base with
    | none => 0
    | some (_, e) => ops.getAlpha e
  else 0

/-- The member `getBeta()`. -/
def getBeta [Zero K] (ops : EngineOps E K) (g : TasmanianSparseGrid E K) : K :=
  if g.isGlobal then
    match g.base with
    | none => 0
    | some (_, e) => ops.getBeta e
  else 0

/-- The member `getOrder()`. -/
def getOrder (ops : EngineOps E K) (g : TasmanianSparseGrid E K) : Int :=
  if g.isLocalPolynomial then
    match g.base with
    | none => -1
    | some (f, e) => ops.getOrder f e
  else if g.isWavelet then
    match g.base with
    | none => -1
    | some (f, e) => ops.getOrder f e
  else -1

/-- The member `getPoints(double *x)`: the array `x` after the call. -/
def getPointsPtr [LinearOrderedField K] (m : Numerics K) (ops : EngineOps E K)
    (g : TasmanianSparseGrid E K) : Except Exn (List K) :=
  match g.base with
  | none => Except.error nullEngine
  | some (f, e) => formTransformedPoints m ops g (ops.getNumPoints f e) (ops.getPoints f e)

/-- The member `getPoints(std::vector<double> &x)`: the vector is resized to
`getNumPoints() * getNumDimensions()` entries of the engine and filled. -/
def getPoints [LinearOrderedField K] (m : Numerics K) (ops : EngineOps E K)
    (g : TasmanianSparseGrid E K) : Except Exn (List K) :=
  match g.base with
  | none => Except.error nullEngine
  | some _ => getPointsPtr m ops g

/-- The member `getPoints()` that returns a new array, or the null pointer
when the engine has no points. -/
def getPointsNew [LinearOrderedField K] (m : Numerics K) (ops : EngineOps E K)
    (g : TasmanianSparseGrid E K) : Except Exn (Option (List K)) :=
  match g.base with
  | none => Except.error nullEngine
  | some (f, e) =>
    if ops.getNumPoints f e = 0 then Except.ok none
    else
      match getPointsPtr m ops g with
      | Except.error err => Except.error err
      | Except.ok x => Except.ok (some x)

/-! ### Evaluation -/

/-- The integer division `x.size() / getNumDimensions()` executed with a
dimension count of 0. -/
def divisionByZero : Exn := Exn.undefined_behavior "integer division by zero"

/-- A write through an index or a pointer past the end of the array. -/
def outOfBounds : Exn := Exn.undefined_behavior "write past the end of the array"

/-- The assignment `arr[k] = v` to an array of `arr.length` entries. -/
def writeAt {α : Type} (arr : List α) (k : Nat) (v : α) : Except Exn (List α) :=
  if k < arr.length then Except.ok (arr.set k v) else Except.error outOfBounds

/-- A callee that writes the entries `written` from the start of the array `buffer`. -/
def writeInto {α : Type} (buffer written : List α) : Except Exn (List α) :=
  if written.length ≤ buffer.length then Except.ok (written ++ buffer.drop written.length)
  else Except.error outOfBounds

/-- The member `evaluate(const double x[], double y[])`: the array `y` that the
engine writes. -/
def evaluatePtr [Zero K] [One K] [Add K] [Sub K] [Mul K] [Div K] [Neg K] [NatCast K] [LT K]
    [DecidableRel (fun (x y : K) => x < y)] [DecidableEq K]
    (m : Numerics K) (fuel : Nat) (ops : EngineOps E K)
    (x : List K) (g : TasmanianSparseGrid E K) : Except Exn (List K) :=
  match formCanonicalPoints m fuel ops g x 1 with
  | Except.error err => Except.error err
  | Except.ok x_canonical =>
    match g.base with
    | none => Except.error nullEngine
    | some (f, e) => Except.ok (ops.evaluate f e x_canonical)

/-- The member `evaluate(x, y)` taking two `std::vector`s. -/
def evaluate [Zero K] [One K] [Add K] [Sub K] [Mul K] [Div K] [Neg K] [NatCast K] [LT K]
    [DecidableRel (fun (x y : K) => x < y)] [DecidableEq K]
    (m : Numerics K) (fuel : Nat) (ops : EngineOps E K)
    (x : List K) (g : TasmanianSparseGrid E K) : Except Exn (List K) :=
  if x.length ≠ g.getNumDimensions ops then
    Except.error (Exn.runtime_error "ERROR: in evaluate() x must match getNumDimensions()")
  else evaluatePtr m fuel ops x g

/-- The member `evaluateBatch(const double x[], int num_x, double y[])` of a
build without CUDA. -/
def evaluateBatchPtr [LinearOrderedField K] (cfg : BuildConfig) (m : Numerics K) (fuel : Nat)
    (ops : EngineOps E K) (x : List K) (num_x : Nat) (g : TasmanianSparseGrid E K) :
    Except Exn (List K) :=
  match formCanonicalPoints m fuel ops g x num_x with
  | Except.error err => Except.error err
  | Except.ok x_canonical =>
    match g.base with
    | none => Except.error nullEngine
    | some (f, e) =>
      if cfg.enable_blas ∧ g.acceleration = TypeAcceleration.accel_cpu_blas then
        Except.ok (ops.evaluateBlas f e x_canonical num_x)
      else Except.ok (ops.evaluateBatch f e x_canonical num_x)

/-- The member `evaluateBatch(x, y)` taking two `std::vector`s. -/
def evaluateBatch [LinearOrderedField K] (cfg : BuildConfig) (m : Numerics K) (fuel : Nat)
    (ops : EngineOps E K) (x : List K) (g : TasmanianSparseGrid E K) : Except Exn (List K) :=
  if g.getNumDimensions ops = 0 then Except.error divisionByZero
  else evaluateBatchPtr cfg m fuel ops x (x.length / g.getNumDimensions ops) g

/-- The member `integrate(std::vector<double> &q)`. -/
def integrateVector [LinearOrderedField K] (m : Numerics K) (ops : EngineOps E K)
    (g : TasmanianSparseGrid E K) : Except Exn (List K) :=
  integrate m ops g

/-! ### Hierarchical functions -/

/-- The member `evaluateHierarchicalFunctions(const double x[], int num_x, double y[])`:
the entries that the engine writes from the start of `y`. -/
def evaluateHierarchicalFunctionsPtr [LinearOrderedField K] (m : Numerics K) (fuel : Nat)
    (ops : EngineOps E K) (x : List K) (num_x : Nat) (g : TasmanianSparseGrid E K) :
    Except Exn (List K) :=
  match formCanonicalPoints m fuel ops g x num_x with
  | Except.error err => Except.error err
  | Except.ok x_canonical =>
    match g.base with
    | none => Except.error nullEngine
    | some (f, e) => Except.ok (ops.evaluateHierarchicalFunctions f e x_canonical num_x)

/-- The member `evaluateHierarchicalFunctions(x, y)` taking two `std::vector`s:
the vector `y` after the call. -/
def evaluateHierarchicalFunctions [LinearOrderedField K] (m : Numerics K) (fuel : Nat)
    (ops : EngineOps E K) (x y : List K) (g : TasmanianSparseGrid E K) : Except Exn (List K) :=
  if g.getNumDimensions ops = 0 then Except.error divisionByZero
  else
    let num_x := x.length / g.getNumDimensions ops
    let expected_size := g.getNumPoints ops * num_x * (if g.isFourier then 2 else 1)
    let y1 := if y.length < expected_size then resize y expected_size else y
    match evaluateHierarchicalFunctionsPtr m fuel ops x num_x g with
    | Except.error err => Except.error err
    | Except.ok written => writeInto y1 written

/-- The loop `for(auto v : dense_vals) if (v != 0.0) num_nz++`. -/
def countNonZero [LinearOrderedField K] (dense : List K) : Nat :=
  dense.foldl (fun num_nz v => if v ≠ 0 then num_nz + 1 else num_nz) 0

/-- The inner loop `for(int j = 0; j < num_points; j++)` of the conversion of row
`i` of the dense matrix; the state is `num_nz`, `indx` and `vals`. -/
def sparseRow [LinearOrderedField K] (num_points : Nat) (dense : List K) (i : Nat) :
    List Nat → Nat × List Int × List K → Except Exn (Nat × List Int × List K)
  | [], st => Except.ok st
  | j :: js, (num_nz, indx, vals) =>
    if dense.getD (i * num_points + j) 0 ≠ 0 then
      match writeAt indx num_nz (j : Int) with
      | Except.error err => Except.error err
      | Except.ok indx1 =>
        match writeAt vals num_nz (dense.getD (i * num_points + j) 0) with
        | Except.error err => Except.error err
        | Except.ok vals1 => sparseRow num_points dense i js (num_nz + 1, indx1, vals1)
    else sparseRow num_points dense i js (num_nz, indx, vals)

/-- The outer loop `for(int i = 0; i < num_x; i++)`: `pntr[i] = num_nz`, then the
inner loop; the state is `num_nz`, `pntr`, `indx` and `vals`. -/
def sparseRows [LinearOrderedField K] (num_points : Nat) (dense : List K) :
    List Nat → Nat × List Int × List Int × List K →
      Except Exn (Nat × List Int × List Int × List K)
  | [], st => Except.ok st
  | i :: is, (num_nz, pntr, indx, vals) =>
    match writeAt pntr i (num_nz : Int) with
    | Except.error err => Except.error err
    | Except.ok pntr1 =>
      match sparseRow num_points dense i (List.range num_points) (num_nz, indx, vals) with
      | Except.error err => Except.error err
      | Except.ok r => sparseRows num_points dense is (r.1, pntr1, r.2.1, r.2.2)

/-- The conversion of the dense matrix of a Wavelet grid into the arrays `pntr`,
`indx`, `vals`: `num_nz = 0`, the two nested loops, `pntr[num_x] = num_nz`. -/
def denseToSparse [LinearOrderedField K] (num_x num_points : Nat) (dense : List K)
    (pntr indx : List Int) (vals : List K) : Except Exn (List Int × List Int × List K) :=
  match sparseRows num_points dense (List.range num_x) (0, pntr, indx, vals) with
  | Except.error err => Except.error err
  | Except.ok r =>
    match writeAt r.2.1 num_x (r.1 : Int) with
    | Except.error err => Except.error err
    | Except.ok pntr1 => Except.ok (pntr1, r.2.2.1, r.2.2.2)

/-- The dense matrix of a Wavelet grid: a zero-initialised buffer of
`num_points * num_x` entries that the engine fills. -/
def denseHierarchical [LinearOrderedField K] (ops : EngineOps E K) (f : Family) (e : E)
    (x_canonical : List K) (num_x : Nat) : Except Exn (List K) :=
  writeInto (List.replicate (ops.getNumPoints f e * num_x) 0)
    (ops.evaluateHierarchicalFunctions f e x_canonical num_x)

/-- The arrays of the branch for the engines with a dense basis: `pntr[i] = i *
num_points` and `indx[i * num_points + j] = j`. -/
def densePattern (num_x num_points : Nat) : List Int × List Int :=
  ((List.range (num_x + 1)).map (fun i => ((i * num_points : Nat) : Int)),
   (List.range num_x).flatMap (fun _ => (List.range num_points).map (fun (j : Nat) => (j : Int))))

/-- The member `evaluateSparseHierarchicalFunctions(x, num_x, pntr, indx, vals)`
that allocates the three arrays with `new`. -/
def evaluateSparseHierarchicalFunctionsPtr [LinearOrderedField K] (m : Numerics K)
    (fuel : Nat) (ops : EngineOps E K) (x : List K) (num_x : Nat)
    (g : TasmanianSparseGrid E K) : Except Exn (List Int × List Int × List K) :=
  match formCanonicalPoints m fuel ops g x num_x with
  | Except.error err => Except.error err
  | Except.ok x_canonical =>
    match g.base with
    | none => Except.error nullEngine
    | some (f, e) =>
      if g.isLocalPolynomial then Except.ok (ops.buildSpareBasisMatrix e x_canonical num_x 32)
      else if g.isWavelet then
        match denseHierarchical ops f e x_canonical num_x with
        | Except.error err => Except.error err
        | Except.ok dense =>
          denseToSparse num_x (ops.getNumPoints f e) dense (List.replicate (num_x + 1) 0)
            (List.replicate (countNonZero dense) 0) (List.replicate (countNonZero dense) 0)
      else
        let num_points := ops.getNumPoints f e
        match writeInto
            (List.replicate (if g.isFourier then 2 * num_x * num_points else num_x * num_points) 0)
            (ops.evaluateHierarchicalFunctions f e x_canonical num_x) with
        | Except.error err => Except.error err
        | Except.ok vals =>
          Except.ok ((densePattern num_x num_points).1, (densePattern num_x num_points).2, vals)

/-- The member `evaluateSparseHierarchicalFunctions(x, pntr, indx, vals)` taking
`std::vector`s: the three vectors after the call. -/
def evaluateSparseHierarchicalFunctions [LinearOrderedField K] (m : Numerics K)
    (fuel : Nat) (ops : EngineOps E K) (x : List K) (pntr indx : List Int) (vals : List K)
    (g : TasmanianSparseGrid E K) : Except Exn (List Int × List Int × List K) :=
  if g.getNumDimensions ops = 0 then Except.error divisionByZero
  else
    let num_x := x.length / g.getNumDimensions ops
    match formCanonicalPoints m fuel ops g x num_x with
    | Except.error err => Except.error err
    | Except.ok x_canonical =>
      match g.base with
      | none => Except.error nullEngine
      | some (f, e) =>
        if g.isLocalPolynomial then Except.ok (ops.buildSpareBasisMatrix e x_canonical num_x 32)
        else if g.isWavelet then
          match denseHierarchical ops f e x_canonical num_x with
          | Except.error err => Except.error err
          | Except.ok dense =>
            denseToSparse num_x (ops.getNumPoints f e) dense (resize pntr (num_x + 1))
              (resize indx (countNonZero dense)) (resize vals (countNonZero dense))
        else
          Except.error (Exn.runtime_error
            "ERROR: evaluateSparseHierarchicalFunctions() called for a grid that is neither local polynomial not wavelet")

/-- The member `evaluateSparseHierarchicalFunctionsGetNZ(x, num_x)`. -/
def evaluateSparseHierarchicalFunctionsGetNZ [LinearOrderedField K] (m : Numerics K)
    (fuel : Nat) (ops : EngineOps E K) (x : List K) (num_x : Nat)
    (g : TasmanianSparseGrid E K) : Except Exn Int :=
  match formCanonicalPoints m fuel ops g x num_x with
  | Except.error err => Except.error err
  | Except.ok x_canonical =>
    if g.isLocalPolynomial then
      match g.base with
      | none => Except.error nullEngine
      | some (_, e) => Except.ok (ops.getSpareBasisMatrixNZ e x_canonical num_x)
    else if g.isWavelet then
      match g.base with
      | none => Except.error nullEngine
      | some (f, e) =>
        match denseHierarchical ops f e x_canonical num_x with
        | Except.error err => Except.error err
        | Except.ok dense => Except.ok (countNonZero dense : Int)
    else if g.empty then Except.ok 0
    else Except.ok ((num_x * g.getNumPoints ops : Nat) : Int)

/-- The member `evaluateSparseHierarchicalFunctionsStatic(x, num_x, pntr, indx,
vals)`: the three arrays of the caller after the call. -/
def evaluateSparseHierarchicalFunctionsStatic [LinearOrderedField K] (m : Numerics K)
    (fuel : Nat) (ops : EngineOps E K) (x : List K) (num_x : Nat) (pntr indx : List Int)
    (vals : List K) (g : TasmanianSparseGrid E K) :
    Except Exn (List Int × List Int × List K) :=
  match g.base with
  | none => Except.ok (pntr, indx, vals)
  | some (f, e) =>
    match formCanonicalPoints m fuel ops g x num_x with
    | Except.error err => Except.error err
    | Except.ok x_canonical =>
      if g.isLocalPolynomial then
        let built := ops.buildSpareBasisMatrixStatic e x_canonical num_x 32
        match writeInto pntr built.1, writeInto indx built.2.1, writeInto vals built.2.2 with
        | Except.ok p, Except.ok i, Except.ok v => Except.ok (p, i, v)
        | _, _, _ => Except.error outOfBounds
      else if g.isWavelet then
        match denseHierarchical ops f e x_canonical num_x with
        | Except.error err => Except.error err
        | Except.ok dense => denseToSparse num_x (ops.getNumPoints f e) dense pntr indx vals
      else
        let num_points := ops.getNumPoints f e
        match writeInto vals (ops.evaluateHierarchicalFunctions f e x_canonical num_x),
          writeInto pntr (densePattern num_x num_points).1,
          writeInto indx (densePattern num_x num_points).2 with
        | Except.ok v, Except.ok p, Except.ok i => Except.ok (p, i, v)
        | _, _, _ => Except.error outOfBounds

/-- The C function `tsgEvaluateSparseHierarchicalFunctions`: the three arrays
are allocated with `malloc` from the count of `...GetNZ` and handed to
`...Static`. -/
def tsgEvaluateSparseHierarchicalFunctions [LinearOrderedField K] (m : Numerics K)
    (fuel : Nat) (ops : EngineOps E K) (x : List K) (num_x : Nat)
    (g : TasmanianSparseGrid E K) : Except Exn (List Int × List Int × List K) :=
  match evaluateSparseHierarchicalFunctionsGetNZ m fuel ops x num_x g with
  | Except.error err => Except.error err
  | Except.ok num_nz =>
    evaluateSparseHierarchicalFunctionsStatic m fuel ops x num_x
      (List.replicate (num_x + 1) 0) (List.replicate num_nz.toNat 0)
      (List.replicate num_nz.toNat 0) g

/-! ### Persistence -/

/-- The entries visited by `ofs << v[0]; for(j = 1; j < n; j++) ofs << v[j]`. -/
def headThenRest {α : Type} [Zero α] (v : List α) (n : Nat) : List α :=
  v.getD 0 0 :: ((List.range n).tail.map (fun j => v.getD j 0))

/-- The lines `ofs << a[j] << " " << b[j] << endl` for `j < n`. -/
def interleave {K : Type} [Zero K] (a b : List K) (n : Nat) : List (Token K) :=
  (List.range n).flatMap (fun j => [Token.real (a.getD j 0), Token.real (b.getD j 0)])

/-- The word that `writeAscii` prints for an engine class. -/
def familyWord : Family → String
  | Family.global => "global"
  | Family.sequence => "sequence"
  | Family.localpolynomial => "localpolynomial"
  | Family.wavelet => "wavelet"
  | Family.fourier => "fourier"

/-- The character that `writeBinary` prints for an engine class. -/
def familyFlag : Family → Char
  | Family.global => 'g'
  | Family.sequence => 's'
  | Family.localpolynomial => 'p'
  | Family.wavelet => 'w'
  | Family.fourier => 'f'

/-- The member `writeAscii(ofs)`: the items written, or the undefined
behaviour of reading `base->getNumDimensions()` without an engine. -/
def writeAscii [Zero K] (cfg : BuildConfig) (ops : EngineOps E K) (g : TasmanianSparseGrid E K) :
    Except Exn (List (Token K)) :=
  let header : List (Token K) :=
    [Token.text "TASMANIAN", Token.text "SG", Token.text cfg.version_string,
     Token.text "WARNING: do not edit this manually"]
  match g.base with
  | none =>
    if g.domain_transform_a.length ≠ 0 ∨ g.conformal_asin_power.length ≠ 0 ∨
        !g.llimits.isEmpty ∨ g.usingDynamicConstruction then
      Except.error nullEngine
    else
      Except.ok (header ++ [Token.text "empty", Token.text "canonical", Token.text "nonconformal",
        Token.text "unlimited", Token.text "static", Token.text "TASMANIAN SG end"])
  | some (f, e) =>
    let n := ops.getNumDimensions f e
    Except.ok (header ++ [Token.text (familyWord f)] ++ ops.write true f e
      ++ (if g.domain_transform_a.length ≠ 0 then
            Token.text "custom" :: interleave g.domain_transform_a g.domain_transform_b n
          else [Token.text "canonical"])
      ++ (if g.conformal_asin_power.length ≠ 0 then
            Token.text "asinconformal" :: (headThenRest g.conformal_asin_power n).map Token.int
          else [Token.text "nonconformal"])
      ++ (if !g.llimits.isEmpty then
            Token.text "limited" :: (headThenRest g.llimits n).map Token.int
          else [Token.text "unlimited"])
      ++ (if g.usingDynamicConstruction then
            Token.text "constructing" :: ops.writeConstructionData true f e
          else [Token.text "static"])
      ++ [Token.text "TASMANIAN SG end"])

/-- The member `writeBinary(ofs)`. -/
def writeBinary [Zero K] (ops : EngineOps E K) (g : TasmanianSparseGrid E K) :
    Except Exn (List (Token K)) :=
  let header : List (Token K) := [Token.chr 'T', Token.chr 'S', Token.chr 'G', Token.chr '5']
  match g.base with
  | none =>
    if g.domain_transform_a.length ≠ 0 ∨ g.conformal_asin_power.length ≠ 0 ∨
        !g.llimits.isEmpty ∨ g.usingDynamicConstruction then
      Except.error nullEngine
    else
      Except.ok (header ++ [Token.chr 'e', Token.chr 'n', Token.chr 'n', Token.chr 'n',
        Token.chr 's', Token.chr 'e'])
  | some (f, e) =>
    let n := ops.getNumDimensions f e
    Except.ok (header ++ [Token.chr (familyFlag f)] ++ ops.write false f e
      ++ (if g.domain_transform_a.length ≠ 0 then
            Token.chr 'y' :: ((firstEntries g.domain_transform_a n).map Token.real
              ++ (firstEntries g.domain_transform_b n).map Token.real)
          else [Token.chr 'n'])
      ++ (if g.conformal_asin_power.length ≠ 0 then
            Token.chr 'a' :: (firstEntries g.conformal_asin_power n).map Token.int
          else [Token.chr 'n'])
      ++ (if !g.llimits.isEmpty then
            Token.chr 'y' :: (firstEntries g.llimits n).map Token.int
          else [Token.chr 'n'])
      ++ (if g.usingDynamicConstruction then
            Token.chr 'c' :: ops.writeConstructionData false f e
          else [Token.chr 's'])
      ++ [Token.chr 'e'])

/-- The engine part of both readers: `base = make_unique_ptr<Grid>();
base->read<useAscii>(ifs)`. -/
def readEngine (ops : EngineOps E K) (useAscii : Bool) (f : Family)
    (ifs : IStream K) (g : TasmanianSparseGrid E K) :
    Outcome (TasmanianSparseGrid E K) × IStream K :=
  let r := ops.read useAscii f (ops.construct f) ifs
  (g.withEngine f EngineCall.read r.1, r.2)

/-- The version test of `readAscii` on the rest `T` of the header line:
nothing when it is accepted, the exception otherwise. -/
def checkVersion (cfg : BuildConfig) (T : String) : Option Exn :=
  if T = cfg.version_string then none
  else
    let cs := T.toList
    if ¬ ('.' ∈ cs) then
      some (Exn.runtime_error "ERROR: wrong file format, cannot read the version number")
    else
      match stoi (cs.takeWhile (fun c => c ≠ '.')) with
      | Except.error e => some e
      | Except.ok vmajor =>
        match stoi ((cs.dropWhile (fun c => c ≠ '.')).drop 1) with
        | Except.error e => some e
        | Except.ok vminor =>
          if vmajor < 3 then
            some (Exn.runtime_error
              "ERROR: file formats from versions prior to 3.0 are not supported")
          else if vmajor > cfg.version_major ∨
              (vmajor = cfg.version_major ∧ vminor > cfg.version_minor) then
            some (Exn.runtime_error
              "ERROR: using future file format, Tasmanian cannot time-travel.")
          else none

/-- The tail of `readAscii`: the final line must be the end marker. -/
def readAsciiEnd (ifs : IStream K) (g : TasmanianSparseGrid E K) :
    Outcome (TasmanianSparseGrid E K) :=
  let r := ifs.readText
  if r.1 ≠ "TASMANIAN SG end" then
    Outcome.throw g (Exn.runtime_error
      "ERROR: wrong file format, did not end with TASMANIAN SG end (possibly corrupt file)")
  else Outcome.ok g

/-- The construction block of `readAscii`. -/
def readAsciiConstruction (ops : EngineOps E K) (ifs : IStream K) (g : TasmanianSparseGrid E K) :
    Outcome (TasmanianSparseGrid E K) :=
  let r := ifs.readText
  if r.1 = "constructing" then
    let g1 := { g with usingDynamicConstruction := true }
    match g1.base with
    | none => Outcome.throw g1 nullEngine
    | some (f, e) =>
      let c := ops.readConstructionData true f e r.2
      let g2 := g1.withEngine f EngineCall.readConstructionData c.1
      match g2.raised with
      | some x => Outcome.throw g2.state x
      | none => readAsciiEnd c.2 g2.state
  else if r.1 = "TASMANIAN SG end" then Outcome.ok g
  else if r.1 ≠ "static" then
    Outcome.throw g (Exn.runtime_error
      "ERROR: wrong file format, did not specify construction method")
  else readAsciiEnd r.2 g

/-- The level limits block of `readAscii`. -/
def readAsciiLimits (ops : EngineOps E K) (ifs : IStream K) (g : TasmanianSparseGrid E K) :
    Outcome (TasmanianSparseGrid E K) :=
  let r := ifs.readText
  if r.1 = "limited" then
    match g.base with
    | none => Outcome.throw g nullEngine
    | some (f, e) =>
      let l := r.2.readInts (resize g.llimits (ops.getNumDimensions f e))
      readAsciiConstruction ops l.2 { g with llimits := l.1 }
  else if r.1 = "unlimited" then
    readAsciiConstruction ops r.2 { g with llimits := [] }
  else if r.1 = "TASMANIAN SG end" then Outcome.ok g
  else
    Outcome.throw g (Exn.runtime_error "ERROR: wrong file format, did not specify level limits")

/-- The conformal block of `readAscii`. -/
def readAsciiConformal (ops : EngineOps E K) (ifs : IStream K) (g : TasmanianSparseGrid E K) :
    Outcome (TasmanianSparseGrid E K) :=
  let r := ifs.readText
  if r.1 = "asinconformal" then
    match g.base with
    | none => Outcome.throw g nullEngine
    | some (f, e) =>
      let l := r.2.readInts (resize g.conformal_asin_power (ops.getNumDimensions f e))
      readAsciiLimits ops l.2 { g with conformal_asin_power := l.1 }
  else if r.1 = "TASMANIAN SG end" then Outcome.ok g
  else if r.1 ≠ "nonconformal" then
    Outcome.throw g (Exn.runtime_error
      "ERROR: wrong file format, conformal mapping is unspecified")
  else readAsciiLimits ops r.2 g

/-- The domain block of `readAscii`. -/
def readAsciiDomain [Zero K] (ops : EngineOps E K) (ifs : IStream K) (g : TasmanianSparseGrid E K) :
    Outcome (TasmanianSparseGrid E K) :=
  let r := ifs.readText
  if r.1 = "TASMANIAN SG end" then Outcome.ok g
  else if r.1 = "custom" then
    match g.base with
    | none => Outcome.throw g nullEngine
    | some (f, e) =>
      let n := ops.getNumDimensions f e
      let l := r.2.readRealPairs (resize g.domain_transform_a n) (resize g.domain_transform_b n)
      readAsciiConformal ops l.2 { g with domain_transform_a := l.1.1, domain_transform_b := l.1.2 }
  else if r.1 ≠ "canonical" then
    Outcome.throw g (Exn.runtime_error "ERROR: wrong file format, domain unspecified")
  else readAsciiConformal ops r.2 g

/-- The family line of `readAscii` and the engine payload after it. -/
def readAsciiFamily [Zero K] (cfg : BuildConfig) (ops : EngineOps E K) (ifs : IStream K)
    (g : TasmanianSparseGrid E K) : Outcome (TasmanianSparseGrid E K) :=
  let r := ifs.readText
  let engine (f : Family) : Outcome (TasmanianSparseGrid E K) :=
    let p := readEngine ops true f r.2 (g.clear cfg)
    match p.1.raised with
    | some x => Outcome.throw p.1.state x
    | none => readAsciiDomain ops p.2 p.1.state
  if r.1 = "global" then engine Family.global
  else if r.1 = "sequence" then engine Family.sequence
  else if r.1 = "localpolynomial" then engine Family.localpolynomial
  else if r.1 = "wavelet" then engine Family.wavelet
  else if r.1 = "fourier" then engine Family.fourier
  else if r.1 = "empty" then readAsciiDomain ops r.2 (g.clear cfg)
  else
    Outcome.throw g (Exn.runtime_error
      "ERROR: wrong file format, unknown grid type (or corrupt file)")

/-- The member `readAscii(ifs)`. -/
def readAscii [Zero K] (cfg : BuildConfig) (ops : EngineOps E K) (ifs : IStream K)
    (g : TasmanianSparseGrid E K) : Outcome (TasmanianSparseGrid E K) :=
  let r1 := ifs.readText
  if r1.1 ≠ "TASMANIAN" then
    Outcome.throw g (Exn.runtime_error "ERROR: wrong file format, first word in not TASMANIAN")
  else
    let r2 := r1.2.readText
    if r2.1 ≠ "SG" then
      Outcome.throw g (Exn.runtime_error "ERROR: wrong file format, second word in not SG")
    else
      let r3 := r2.2.readText
      match checkVersion cfg r3.1 with
      | some x => Outcome.throw g x
      | none =>
        let r4 := r3.2.readText
        if r4.1 ≠ "WARNING: do not edit this manually" then
          Outcome.throw g (Exn.runtime_error "ERROR: wrong file format, missing warning message")
        else readAsciiFamily cfg ops r4.2 g

/-- The end of `readBinary`: unless the end was reached, one more character
is read and must be the end tag. -/
def readBinaryEnd (ifs : IStream K) (tag : Char) (g : TasmanianSparseGrid E K) :
    Outcome (TasmanianSparseGrid E K) :=
  let r := ifs.readChar tag
  if r.1 ≠ 'e' then
    Outcome.throw g (Exn.runtime_error
      "ERROR: wrong binary file format, did not reach correct end of Tasmanian block")
  else Outcome.ok g

/-- The construction tag of `readBinary`; `tag` is the content of `TSG[0]`. -/
def readBinaryConstruction (ops : EngineOps E K) (ifs : IStream K) (tag : Char)
    (g : TasmanianSparseGrid E K) : Outcome (TasmanianSparseGrid E K) :=
  let r := ifs.readChar tag
  if r.1 = 'c' then
    let g1 := { g with usingDynamicConstruction := true }
    match g1.base with
    | none => Outcome.throw g1 nullEngine
    | some (f, e) =>
      let c := ops.readConstructionData false f e r.2
      let g2 := g1.withEngine f EngineCall.readConstructionData c.1
      match g2.raised with
      | some x => Outcome.throw g2.state x
      | none => readBinaryEnd c.2 r.1 g2.state
  else if r.1 = 'e' then Outcome.ok g
  else if r.1 ≠ 's' then
    Outcome.throw g (Exn.runtime_error
      "ERROR: wrong binary file format, wrong construction method specified")
  else readBinaryEnd r.2 r.1 g

/-- The level limits tag of `readBinary`. -/
def readBinaryLimits (ops : EngineOps E K) (ifs : IStream K) (tag : Char)
    (g : TasmanianSparseGrid E K) : Outcome (TasmanianSparseGrid E K) :=
  let r := ifs.readChar tag
  if r.1 = 'y' then
    match g.base with
    | none => Outcome.throw g nullEngine
    | some (f, e) =>
      let l := r.2.readInts (resize g.llimits (ops.getNumDimensions f e))
      readBinaryConstruction ops l.2 r.1 { g with llimits := l.1 }
  else if r.1 ≠ 'n' then
    Outcome.throw g (Exn.runtime_error "ERROR: wrong binary file format, wrong level limits")
  else readBinaryConstruction ops r.2 r.1 g

/-- The conformal tag of `readBinary`. -/
def readBinaryConformal (ops : EngineOps E K) (ifs : IStream K) (tag : Char)
    (g : TasmanianSparseGrid E K) : Outcome (TasmanianSparseGrid E K) :=
  let r := ifs.readChar tag
  if r.1 = 'a' then
    match g.base with
    | none => Outcome.throw g nullEngine
    | some (f, e) =>
      let l := r.2.readInts (resize g.conformal_asin_power (ops.getNumDimensions f e))
      readBinaryLimits ops l.2 r.1 { g with conformal_asin_power := l.1 }
  else if r.1 ≠ 'n' then
    Outcome.throw g (Exn.runtime_error
      "ERROR: wrong binary file format, wrong conformal transform type")
  else readBinaryLimits ops r.2 r.1 g

/-- The domain tag of `readBinary`. -/
def readBinaryDomain [Zero K] (ops : EngineOps E K) (ifs : IStream K) (tag : Char)
    (g : TasmanianSparseGrid E K) : Outcome (TasmanianSparseGrid E K) :=
  let r := ifs.readChar tag
  if r.1 = 'y' then
    match g.base with
    | none => Outcome.throw g nullEngine
    | some (f, e) =>
      let n := ops.getNumDimensions f e
      let la := r.2.readReals (resize g.domain_transform_a n)
      let lb := la.2.readReals (resize g.domain_transform_b n)
      readBinaryConformal ops lb.2 r.1
        { g with domain_transform_a := la.1, domain_transform_b := lb.1 }
  else if r.1 ≠ 'n' then
    Outcome.throw g (Exn.runtime_error "ERROR: wrong binary file format, wrong domain type")
  else readBinaryConformal ops r.2 r.1 g

/-- The family tag of `readBinary`, after `clear()`. -/
def readBinaryFamily [Zero K] (cfg : BuildConfig) (ops : EngineOps E K) (ifs : IStream K)
    (tag : Char) (g : TasmanianSparseGrid E K) : Outcome (TasmanianSparseGrid E K) :=
  let r := ifs.readChar tag
  let g0 := g.clear cfg
  let engine (f : Family) : Outcome (TasmanianSparseGrid E K) :=
    let p := readEngine ops false f r.2 g0
    match p.1.raised with
    | some x => Outcome.throw p.1.state x
    | none => readBinaryDomain ops p.2 r.1 p.1.state
  if r.1 = 'g' then engine Family.global
  else if r.1 = 's' then engine Family.sequence
  else if r.1 = 'p' then engine Family.localpolynomial
  else if r.1 = 'w' then engine Family.wavelet
  else if r.1 = 'f' then engine Family.fourier
  else if r.1 = 'e' then readBinaryDomain ops r.2 r.1 (g0.clear cfg)
  else
    Outcome.throw g0 (Exn.runtime_error "ERROR: wrong binary file format, unknown grid type")

/-- The member `readBinary(ifs)`. -/
def readBinary [Zero K] (cfg : BuildConfig) (ops : EngineOps E K) (ifs : IStream K)
    (g : TasmanianSparseGrid E K) : Outcome (TasmanianSparseGrid E K) :=
  let c0 := ifs.readChar (Char.ofNat 0)
  let c1 := c0.2.readChar (Char.ofNat 0)
  let c2 := c1.2.readChar (Char.ofNat 0)
  let c3 := c2.2.readChar (Char.ofNat 0)
  if c0.1 ≠ 'T' ∨ c1.1 ≠ 'S' ∨ c2.1 ≠ 'G' then
    Outcome.throw g (Exn.runtime_error
      "ERROR: wrong binary file format, first 3 bytes are not TSG")
  else if c3.1 ≠ '5' then
    Outcome.throw g (Exn.runtime_error
      "ERROR: wrong binary file format, version number is not 5")
  else readBinaryFamily cfg ops c3.2 c0.1 g

/-- The member `write(ofs, binary)`. -/
def write [Zero K] (cfg : BuildConfig) (ops : EngineOps E K) (binary : Bool)
    (g : TasmanianSparseGrid E K) : Except Exn (List (Token K)) :=
  if binary then writeBinary ops g else writeAscii cfg ops g

/-- The member `read(ifs, binary)`. -/
def read [Zero K] (cfg : BuildConfig) (ops : EngineOps E K) (ifs : IStream K) (binary : Bool)
    (g : TasmanianSparseGrid E K) : Outcome (TasmanianSparseGrid E K) :=
  if binary then readBinary cfg ops ifs g else readAscii cfg ops ifs g

/-- The first bytes of a file, as far as its items fix them: a character item is
one byte, a word or a line is its characters and the white space that ends it;
the bytes of a number are not fixed. -/
def leadingBytes : List (Token K) → List Char
  | Token.chr c :: rest => c :: leadingBytes rest
  | Token.text t :: _ => t.toList ++ [' ']
  | _ => []

/-- The member `read(filename)`.  `file` is the content of the file, `none` when
it cannot be opened.  `TSG` is the content of the local array `char TSG[3]`
before `ifs.read(TSG, 3)`, which is indeterminate; the bytes that the file has
overwrite it from the front. -/
def readFile [Zero K] (cfg : BuildConfig) (ops : EngineOps E K) (TSG : List Char)
    (file : Option (List (Token K))) (g : TasmanianSparseGrid E K) :
    Outcome (TasmanianSparseGrid E K) :=
  let bytes : List Char :=
    match file with
    | none => TSG
    | some items => leadingBytes items ++ TSG.drop (leadingBytes items).length
  let binary_format : Bool :=
    bytes.getD 0 ' ' = 'T' ∧ bytes.getD 1 ' ' = 'S' ∧ bytes.getD 2 ' ' = 'G'
  let ifs : IStream K :=
    match file with
    | none => ⟨[], false⟩
    | some items => IStream.ofItems items
  read cfg ops ifs binary_format g

/-- The handler of the C and Fortran wrappers of `read`,
`try{ ...; status = 1; }catch(std::runtime_error &e){ status = 0; }`, applied to
the exception that the call raised: the status that the wrapper sets, if it
sets one, and the exception that leaves the wrapper, if one does. -/
def catchRuntimeError (raised : Option Exn) : Option Int × Option Exn :=
  match raised with
  | none => (some 1, none)
  | some (Exn.runtime_error _) => (some 0, none)
  | some x => (none, some x)

/-- What a call of a wrapper leaves: the object, the value that the wrapper
returned, if it returned, and the exception that left it, if one did. -/
structure Returned (σ : Type) where
  state : σ
  value : Option Int
  escaped : Option Exn

/-- The C function `tsgRead(grid, filename)`. -/
def tsgRead [Zero K] (cfg : BuildConfig) (ops : EngineOps E K) (TSG : List Char)
    (file : Option (List (Token K))) (g : TasmanianSparseGrid E K) :
    Returned (TasmanianSparseGrid E K) :=
  let r := readFile cfg ops TSG file g
  ⟨r.state, (catchRuntimeError r.raised).1, (catchRuntimeError r.raised).2⟩

end TasmanianSparseGrid

/-! ## The Fortran interface

The functions of `tsgC2Fortran.cpp` work on two globals, the array
`_tsg_grid_list` of pointers to facades and its size `_tsg_num_grids`; an id is
an index into the array. -/

/-- The globals `_tsg_grid_list` (`none` for the null pointer, otherwise the
array, whose entries are null or own a facade) and `_tsg_num_grids`. -/
structure Registry (E K : Type) where
  grid_list : Option (List (Option (TasmanianSparseGrid E K)))
  num_grids : Nat

/-- The globals at program start: both are zero-initialised. -/
def Registry.start {E K : Type} : Registry E K := ⟨none, 0⟩

/-- The facade that the id `id` refers to, if the id is live: `id` is below
`_tsg_num_grids` and the entry `_tsg_grid_list[id]` is not null. -/
def Registry.grid {E K : Type} (reg : Registry E K) (id : Nat) :
    Option (TasmanianSparseGrid E K) :=
  match reg.grid_list with
  | none => none
  | some l => if id < reg.num_grids then l.getD id none else none

/-- The array and its size agree: without an array the size is 0, and an array
has `_tsg_num_grids` entries, at least one. -/
def Registry.wf {E K : Type} (reg : Registry E K) : Prop :=
  match reg.grid_list with
  | none => reg.num_grids = 0
  | some l => l.length = reg.num_grids ∧ 0 < reg.num_grids

/-- The read of an entry of the array through the null pointer. -/
def nullList : Exn := Exn.undefined_behavior "dereference of the null _tsg_grid_list"

/-- The read of an entry past the end of the array. -/
def pastTheEnd : Exn := Exn.undefined_behavior "access past the end of _tsg_grid_list"

/-- The call of a member through a null entry of the array. -/
def nullGrid : Exn := Exn.undefined_behavior "member call through a null entry of _tsg_grid_list"

/-- The overflow of `_tsg_num_grids *= 2` in `int`. -/
def intOverflow : Exn := Exn.undefined_behavior "signed integer overflow"

/-- The Fortran function `tsggag_(num_active)`: the count of the entries among
the first `_tsg_num_grids` that are not null. -/
def tsggag_ {E K : Type} (reg : Registry E K) : Except Exn Int :=
  match reg.grid_list with
  | none => if reg.num_grids = 0 then Except.ok 0 else Except.error nullList
  | some l =>
    if reg.num_grids ≤ l.length then
      Except.ok (((l.take reg.num_grids).countP (fun p => p.isSome) : Nat) : Int)
    else Except.error pastTheEnd

/-- The Fortran function `tsgend_()`. -/
def tsgend_ {E K : Type} (reg : Registry E K) : Except Exn (Registry E K) :=
  match reg.grid_list with
  | none => Except.ok reg
  | some l => if reg.num_grids ≤ l.length then Except.ok ⟨none, 0⟩ else Except.error pastTheEnd

/-- The position of the first null entry of an array, its length when there is
none: the value of `id` after `while(_tsg_grid_list[id] != 0) id++`. -/
def firstNull {α : Type} : List (Option α) → Nat
  | [] => 0
  | none :: _ => 0
  | some _ :: rest => firstNull rest + 1

/-- The Fortran function `tsgnew_(returnID)`: the globals afterwards and the id
stored in `*returnID`. -/
def tsgnew_ {E K : Type} (cfg : BuildConfig) (reg : Registry E K) :
    Except Exn (Registry E K × Int) :=
  let list0 : List (Option (TasmanianSparseGrid E K)) :=
    match reg.grid_list with
    | none => List.replicate 4 none
    | some l => l
  let num0 : Nat :=
    match reg.grid_list with
    | none => 4
    | some _ => reg.num_grids
  let id := firstNull (list0.take num0)
  if id < num0 ∧ list0.length ≤ id then Except.error pastTheEnd
  else if id = num0 then
    if 2147483647 < 2 * num0 then Except.error intOverflow
    else
      let num1 := 2 * num0
      let list1 := list0.take (num1 / 2) ++ List.replicate (num1 - num1 / 2) none
      if id < list1.length then
        Except.ok (⟨some (list1.set id (some (TasmanianSparseGrid.init cfg))), num1⟩, (id : Int))
      else Except.error pastTheEnd
  else
    Except.ok (⟨some (list0.set id (some (TasmanianSparseGrid.init cfg))), num0⟩, (id : Int))

/-- The Fortran function `tsgfre_(id)`. -/
def tsgfre_ {E K : Type} (id : Int) (reg : Registry E K) : Except Exn (Registry E K) :=
  let freed : Except Exn (Registry E K) :=
    if id < (reg.num_grids : Int) then
      match reg.grid_list with
      | none => Except.error nullList
      | some l =>
        if id < 0 ∨ l.length ≤ id.toNat then Except.error pastTheEnd
        else Except.ok ⟨some (l.set id.toNat none), reg.num_grids⟩
    else Except.ok reg
  match freed with
  | Except.error err => Except.error err
  | Except.ok reg1 =>
    match reg1.grid_list with
    | none => if reg1.num_grids = 0 then tsgend_ reg1 else Except.error nullList
    | some l =>
      if (l.take reg1.num_grids).any (fun p => p.isSome) then Except.ok reg1
      else if reg1.num_grids ≤ l.length then tsgend_ reg1
      else Except.error pastTheEnd

/-- The Fortran function `tsgrea_(id, filename, status)`: the globals
afterwards, the content of `*status`, which held `status` before the call, and
the exception that left the function, if one did. -/
def tsgrea_ {E K : Type} [Zero K] (cfg : BuildConfig) (ops : EngineOps E K) (TSG : List Char)
    (id : Int) (file : Option (List (Token K))) (status : Int) (reg : Registry E K) :
    Registry E K × Int × Option Exn :=
  match reg.grid_list with
  | none => (reg, status, some nullList)
  | some l =>
    if id < 0 ∨ l.length ≤ id.toNat then (reg, status, some pastTheEnd)
    else
      match l.getD id.toNat none with
      | none => (reg, status, some nullGrid)
      | some g =>
        let r := TasmanianSparseGrid.readFile cfg ops TSG file g
        (⟨some (l.set id.toNat (some r.state)), reg.num_grids⟩,
          ((TasmanianSparseGrid.catchRuntimeError r.raised).1).getD status,
          (TasmanianSparseGrid.catchRuntimeError r.raised).2)

/-! ## Exact real arithmetic -/

/-- The functions of `<cmath>` in exact real arithmetic; `lgamma` is the
logarithm of the absolute value of the gamma function, `tol` is `TSG_NUM_TOL`.
`pow` is the real power `x ^ y`.  This is the value of the C function for
`x > 0`, and for every `x` when `y` is 0 or a positive integer.  The C function
has no real value for `x < 0` with `y` not an integer (a domain error, the
result is a NaN) nor for `x = 0` with `y < 0` (a pole error), so a statement
about the C function that uses this `pow` is made for `x > 0` or for such a
`y` only. -/
noncomputable def realNumerics (tol : ℝ) : Numerics ℝ :=
  { sqrt := Real.sqrt
    exp := Real.exp
    log := Real.log
    lgamma := fun x => Real.log |Real.Gamma x|
    pow := fun x y => x ^ y
    fabs := fun x => |x|
    num_tol := tol }

/-- The odd polynomial `Σ_{k < n} A k · x^(2k+1)`.  With `A k = exp(c[j][k])` it
is the sum that the loops of the conformal map and of its inverse accumulate
at a positive `x`. -/
def oddSeries {K : Type} [Field K] (A : Nat → K) (n : Nat) (x : K) : K :=
  ∑ k in Finset.range n, A k * x ^ (2 * k + 1)

/-- The derivative of `oddSeries`, `Σ_{k < n} A k · (2k+1) · x^(2k)`: the sum
`dr` of the inverse map and `trans` of `mapConformalWeights`. -/
def evenSeries {K : Type} [Field K] (A : Nat → K) (n : Nat) (x : K) : K :=
  ∑ k in Finset.range n, A k * ((2 * (k : K) + 1) * x ^ (2 * k))

/-- The condition on the entries `a`, `b` of the domain transform of one
dimension under which the mapping law of `rule` can be inverted: `b ≠ 0` for
the Gauss-Laguerre rules, `0 < b` for the Gauss-Hermite rules, `a ≠ b` for
every other rule. -/
def validDomain {K : Type} [LinearOrderedField K] (rule : TypeOneDRule) (a b : K) : Prop :=
  if rule = TypeOneDRule.rule_gausslaguerre ∨ rule = TypeOneDRule.rule_gausslaguerreodd then b ≠ 0
  else if rule = TypeOneDRule.rule_gausshermite ∨ rule = TypeOneDRule.rule_gausshermiteodd then 0 < b
  else a ≠ b

/-! ## A sample engine

The statements below that are evaluated on a concrete input need a concrete
engine.  `SampleEngine` keeps the counts that the facade reads and nothing
else; it stands for no engine of the library in particular. -/

/-- The state of the sample engine. -/
structure SampleEngine where
  dims : Nat
  outputs : Nat
  loaded : Nat
  needed : Nat
  deriving DecidableEq, Repr

/-- The sample grid that `makeGrid` builds: one needed point, nothing loaded. -/
def SampleEngine.make (dimensions outputs : Int) : Outcome SampleEngine :=
  Outcome.ok ⟨dimensions.toNat, outputs.toNat, 0, 1⟩

/-- The payload of the sample engine: its four counts. -/
def SampleEngine.write {K : Type} (e : SampleEngine) : List (Token K) :=
  [Token.int e.dims, Token.int e.outputs, Token.int e.loaded, Token.int e.needed]

/-- Read the four counts back; a short payload is a `runtime_error`. -/
def SampleEngine.read {K : Type} (ifs : IStream K) : Outcome SampleEngine × IStream K :=
  let r := ifs.readInts [0, 0, 0, 0]
  if r.2.good then
    (Outcome.ok ⟨(r.1.getD 0 0).toNat, (r.1.getD 1 0).toNat, (r.1.getD 2 0).toNat,
      (r.1.getD 3 0).toNat⟩, r.2)
  else (Outcome.throw ⟨0, 0, 0, 0⟩ (Exn.runtime_error "ERROR: corrupt engine payload"), r.2)

/-- The methods of the sample engine. -/
def sampleOps (K : Type) [Zero K] [One K] : EngineOps SampleEngine K :=
  { construct := fun _ => ⟨0, 0, 0, 0⟩
    getNumDimensions := fun _ e => e.dims
    getNumOutputs := fun _ e => e.outputs
    getNumLoaded := fun _ e => e.loaded
    getNumNeeded := fun _ e => e.needed
    getNumPoints := fun _ e => if e.loaded = 0 then e.needed else e.loaded
    getRule := fun f _ =>
      match f with
      | Family.global => TypeOneDRule.rule_clenshawcurtis
      | Family.localpolynomial => TypeOneDRule.rule_localp
      | Family.fourier => TypeOneDRule.rule_fourier
      | _ => TypeOneDRule.other 0
    getAlpha := fun _ => 0
    getBeta := fun _ => 0
    getOrder := fun _ _ => 1
    getPoints := fun _ e => List.replicate ((if e.loaded = 0 then e.needed else e.loaded) * e.dims) 0
    getQuadratureWeights := fun _ e => List.replicate (if e.loaded = 0 then e.needed else e.loaded) 1
    integrate := fun _ e _ => List.replicate e.outputs 1
    makeGlobalGrid := fun _ d o _ _ _ _ _ _ _ _ => SampleEngine.make d o
    makeSequenceGrid := fun _ d o _ _ _ _ _ => SampleEngine.make d o
    makeLocalPolynomialGrid := fun _ d o _ _ _ _ => SampleEngine.make d o
    makeWaveletGrid := fun _ d o _ _ _ => SampleEngine.make d o
    makeFourierGrid := fun _ d o _ _ _ _ => SampleEngine.make d o
    copyGrid := fun _ _ src => Outcome.ok src
    write := fun _ _ e => e.write
    read := fun _ _ _ ifs => SampleEngine.read ifs
    writeConstructionData := fun _ _ _ => []
    readConstructionData := fun _ _ e ifs => (Outcome.ok e, ifs)
    loadNeededPoints := fun _ e _ => Outcome.ok { e with loaded := e.loaded + e.needed, needed := 0 }
    setAnisotropicRefinement := fun _ e _ _ _ _ => Outcome.ok { e with needed := 1 }
    setSurplusRefinement := fun _ e _ _ _ => Outcome.ok { e with needed := 1 }
    setSurplusRefinementLocal := fun _ e _ _ _ _ _ => Outcome.ok { e with needed := 1 }
    clearRefinement := fun _ e => Outcome.ok { e with needed := 0 }
    mergeRefinement := fun _ e => Outcome.ok { e with loaded := e.loaded + e.needed, needed := 0 }
    beginConstruction := fun _ e => Outcome.ok e
    finishConstruction := fun _ e => Outcome.ok e
    getCandidateConstructionPointsWeights := fun _ e _ _ _ => (Outcome.ok e, [])
    getCandidateConstructionPointsOutput := fun _ e _ _ _ => (Outcome.ok e, [])
    getCandidateConstructionPointsSurplus := fun e _ _ _ _ _ => (Outcome.ok e, [])
    loadConstructedPoint := fun _ e _ _ => Outcome.ok { e with loaded := e.loaded + 1 }
    removePointsByHierarchicalCoefficient := fun e _ _ _ => (Outcome.ok e, (e.loaded : Int))
    evaluate := fun _ e _ => List.replicate e.outputs 1
    evaluateBatch := fun _ e _ num_x => List.replicate (num_x * e.outputs) 1
    evaluateBlas := fun _ e _ num_x => List.replicate (num_x * e.outputs) 1
    evaluateHierarchicalFunctions := fun f e _ num_x =>
      match f with
      | Family.fourier =>
        List.replicate (2 * num_x * (if e.loaded = 0 then e.needed else e.loaded)) 1
      | _ => List.replicate (num_x * (if e.loaded = 0 then e.needed else e.loaded)) 1
    buildSpareBasisMatrix := fun _ _ num_x _ => (List.replicate (num_x + 1) 0, [], [])
    getSpareBasisMatrixNZ := fun _ _ _ => 0
    buildSpareBasisMatrixStatic := fun _ _ num_x _ => (List.replicate (num_x + 1) 0, [], []) }

/-- A sample of the rule predicates: the rules that the facade does not name
count as sequence rules, the Gauss rules as non-nested. -/
def sampleMeta : OneDimensionalMeta :=
  { isGlobal := fun r => r ≠ TypeOneDRule.rule_none ∧ r ≠ TypeOneDRule.rule_localp ∧
      r ≠ TypeOneDRule.rule_fourier
    isSequence := fun r => match r with
      | TypeOneDRule.other _ => true
      | _ => false
    isLocalPolynomial := fun r => r = TypeOneDRule.rule_localp
    isNonNested := fun r => match r with
      | TypeOneDRule.rule_none => false
      | TypeOneDRule.rule_clenshawcurtis => false
      | TypeOneDRule.rule_customtabulated => false
      | TypeOneDRule.rule_localp => false
      | TypeOneDRule.rule_fourier => false
      | TypeOneDRule.other _ => false
      | _ => true
    isTypeCurved := TasmanianSparseGrid.isCurved }

/-- A sample build: version 6.1, no BLAS. -/
def sampleConfig : BuildConfig := ⟨"6.1", 6, 1, false⟩

/-- A sample facade: `makeGrid` of the class `f` with one dimension and one
output, followed by `loadNeededPoints`: one loaded point, none needed. -/
def sampleGrid (K : Type) (f : Family) (level_limits : List Int) : TasmanianSparseGrid SampleEngine K :=
  { base := some (f, ⟨1, 1, 1, 0⟩)
    domain_transform_a := []
    domain_transform_b := []
    conformal_asin_power := []
    llimits := level_limits
    usingDynamicConstruction := false
    acceleration := TypeAcceleration.accel_none
    gpuID := 0
    engine_calls := [EngineCall.makeGrid, EngineCall.loadNeededPoints] }

/-- A sample facade with both transforms: a Global grid in one dimension, the
domain `[-81/56, 31/56]` and the conformal order 1. -/
def sampleConformalGrid (K : Type) [Field K] : TasmanianSparseGrid SampleEngine K :=
  { sampleGrid K Family.global [] with
    domain_transform_a := [-81 / 56]
    domain_transform_b := [31 / 56]
    conformal_asin_power := [1] }

/-- A sample facade on doubles with the conformal order 1, as
`setConformalTransformASIN` with the truncation `{1}` leaves a Global grid in one
dimension. -/
def sampleDoubleConformalGrid : TasmanianSparseGrid SampleEngine Dbl :=
  { sampleGrid Dbl Family.global [] with conformal_asin_power := [1] }

/-- A sample facade that holds something in every field that a read may set: a
Global grid in one dimension with the domain `[3, 7]`, the conformal order 1,
the level limits `[3]` and a dynamic construction under way. -/
def sampleReader (K : Type) [Field K] : TasmanianSparseGrid SampleEngine K :=
  { sampleGrid K Family.global [3] with
    domain_transform_a := [3]
    domain_transform_b := [7]
    conformal_asin_power := [1]
    usingDynamicConstruction := true }

/-- The call ended by throwing `std::invalid_argument` with the object `g` untouched. -/
def Outcome.rejectsArgument {σ : Type} (r : Outcome σ) (g : σ) : Prop :=
  ∃ what, r = Outcome.throw g (Exn.invalid_argument what)

/-- The call ended by throwing `std::runtime_error` with the object `g` untouched. -/
def Outcome.rejectsState {σ : Type} (r : Outcome σ) (g : σ) : Prop :=
  ∃ what, r = Outcome.throw g (Exn.runtime_error what)

/-- The outcome of the construction guard of the refinement members: the
object untouched and `std::runtime_error` with the text of the guard. -/
def Outcome.rejectedByConstructionGuard {σ : Type} (r : Outcome σ) (g : σ) : Prop :=
  r = Outcome.throw g (Exn.runtime_error TasmanianSparseGrid.constructionGuardText)

/-- A sample facade in the middle of a dynamic construction: a Sequence grid
with one loaded point after `beginConstruction()`. -/
def sampleConstructing (K : Type) : TasmanianSparseGrid SampleEngine K :=
  { sampleGrid K Family.sequence [] with
    usingDynamicConstruction := true
    engine_calls := [EngineCall.makeGrid, EngineCall.loadNeededPoints,
      EngineCall.clearRefinement, EngineCall.beginConstruction] }

/-- A sample facade for the criteria refinement: a LocalPolynomial grid in one
dimension with 2 outputs, 3 loaded points and 2 needed points. -/
def sampleRefinable (K : Type) : TasmanianSparseGrid SampleEngine K :=
  { sampleGrid K Family.localpolynomial [] with
    base := some (Family.localpolynomial, ⟨1, 2, 3, 2⟩) }

/-- A sample facade without points: `makeSequenceGrid` followed by
`clearRefinement()`, which drops the needed points before any value is loaded. -/
def sampleUnloaded (K : Type) [Zero K] [One K] : TasmanianSparseGrid SampleEngine K :=
  (TasmanianSparseGrid.clearRefinement (sampleOps K)
    (TasmanianSparseGrid.makeSequenceGrid sampleConfig sampleMeta (sampleOps K) 1 1 1
      TypeDepth.type_level (TypeOneDRule.other 0) [] []
      (TasmanianSparseGrid.init sampleConfig)).state).state

/-! ## The compressed-row encoding of a matrix

What the triple `(pntr, indx, vals)` of `evaluateSparseHierarchicalFunctions`
stands for, stated apart from the loops that build it. -/

/-- The columns of row `i` of the dense matrix that hold a non-zero entry, in
increasing order. -/
def rowEntries {K : Type} [LinearOrderedField K] (num_points : Nat) (dense : List K)
    (i : Nat) : List Nat :=
  (List.range num_points).filter (fun j => dense.getD (i * num_points + j) 0 ≠ 0)

/-- The number of non-zero entries in the rows `rows` of the dense matrix. -/
def rowsCount {K : Type} [LinearOrderedField K] (num_points : Nat) (dense : List K)
    (rows : List Nat) : Nat :=
  (rows.map (fun i => (rowEntries num_points dense i).length)).sum

/-- The running counts at the start of each of the rows `rows`, from `c`. -/
def rowOffsets {K : Type} [LinearOrderedField K] (num_points : Nat) (dense : List K) :
    Nat → List Nat → List Int
  | _, [] => []
  | c, i :: is =>
    (c : Int) :: rowOffsets num_points dense (c + (rowEntries num_points dense i).length) is

/-- Row `i` of the matrix that a triple encodes: the pairs of a column index and
a value stored from position `pntr[i]` up to, not including, `pntr[i+1]`. -/
def csrRow {K : Type} (pntr indx : List Int) (vals : List K) (i : Nat) : List (Int × K) :=
  ((indx.zip vals).drop (pntr.getD i 0).toNat).take
    ((pntr.getD (i + 1) 0).toNat - (pntr.getD i 0).toNat)

/-- Entry `(i, j)` of the matrix that a triple encodes: the value stored for
column `j` in row `i`, and 0 when none is stored. -/
def csrEntry {K : Type} [Zero K] (pntr indx : List Int) (vals : List K) (i j : Nat) : K :=
  ((csrRow pntr indx vals i).lookup (j : Int)).getD 0

/-- What the claim asks of the triple `t = (pntr, indx, vals)` for the dense
matrix `D` of `num_x` rows and `num_points` columns, stored row after row:
`pntr` has `num_x + 1` entries, starts at 0 and never decreases; its last entry,
the size of `indx` and the size of `vals` are the number of non-zero entries of
`D`; within each row the column indices increase strictly and lie in
`[0, num_points)`; no stored value is 0; and the triple expands to `D`. -/
def compressedRowEncoding {K : Type} [LinearOrderedField K] (num_x num_points : Nat)
    (D : List K) (t : List Int × List Int × List K) : Prop :=
  t.1.length = num_x + 1 ∧
  t.1.getD 0 0 = 0 ∧
  (∀ i, i < num_x → t.1.getD i 0 ≤ t.1.getD (i + 1) 0) ∧
  t.1.getD num_x 0 = ((D.filter (fun v => v ≠ 0)).length : Int) ∧
  t.2.1.length = (D.filter (fun v => v ≠ 0)).length ∧
  t.2.2.length = (D.filter (fun v => v ≠ 0)).length ∧
  (∀ i, i < num_x → ((csrRow t.1 t.2.1 t.2.2 i).map Prod.fst).Pairwise (fun a b => a < b)) ∧
  (∀ i, i < num_x → ∀ c, c ∈ (csrRow t.1 t.2.1 t.2.2 i).map Prod.fst →
    0 ≤ c ∧ c < (num_points : Int)) ∧
  (∀ v, v ∈ t.2.2 → v ≠ 0) ∧
  (∀ i j, i < num_x → j < num_points →
    csrEntry t.1 t.2.1 t.2.2 i j = D.getD (i * num_points + j) 0)

/-- A sample engine that returns the dense matrix `0 2 3 / 0 0 5`, whatever the
points. -/
def sampleWaveletOps (K : Type) [Field K] : EngineOps SampleEngine K :=
  { sampleOps K with evaluateHierarchicalFunctions := fun _ _ _ _ => [0, 2, 3, 0, 0, 5] }

/-- A sample Wavelet facade in one dimension with three points. -/
def sampleWaveletGrid (K : Type) : TasmanianSparseGrid SampleEngine K :=
  { sampleGrid K Family.wavelet [] with base := some (Family.wavelet, ⟨1, 1, 3, 0⟩) }

/-- A text file whose version field has a dot and no number before it. -/
def sampleBadVersionFile (K : Type) : List (Token K) :=
  [Token.text "TASMANIAN", Token.text "SG", Token.text "x.y",
    Token.text "WARNING: do not edit this manually", Token.text "empty",
    Token.text "canonical", Token.text "nonconformal", Token.text "unlimited",
    Token.text "static", Token.text "TASMANIAN SG end"]

/-- A text file whose major version is too large for an `int`. -/
def sampleHugeVersionFile (K : Type) : List (Token K) :=
  [Token.text "TASMANIAN", Token.text "SG", Token.text "99999999999.0",
    Token.text "WARNING: do not edit this manually", Token.text "empty",
    Token.text "canonical", Token.text "nonconformal", Token.text "unlimited",
    Token.text "static", Token.text "TASMANIAN SG end"]

/-- A text file that `readAscii` accepts: the empty grid. -/
def sampleEmptyFile (K : Type) : List (Token K) :=
  [Token.text "TASMANIAN", Token.text "SG", Token.text "6.1",
    Token.text "WARNING: do not edit this manually", Token.text "empty",
    Token.text "canonical", Token.text "nonconformal", Token.text "unlimited",
    Token.text "static", Token.text "TASMANIAN SG end"]

/-- A registry with one facade, at the id 0. -/
def sampleRegistry (K : Type) : Registry SampleEngine K :=
  ⟨some [some (TasmanianSparseGrid.init sampleConfig), none, none, none], 4⟩

/-- A full registry of four facades from which the id 1 was freed. -/
def sampleRegistryWithHole (K : Type) : Registry SampleEngine K :=
  ⟨some [some (TasmanianSparseGrid.init sampleConfig), none,
    some (sampleGrid K Family.global []), some (sampleGrid K Family.wavelet [])], 4⟩

/-- A full registry of four facades. -/
def sampleRegistryFull (K : Type) : Registry SampleEngine K :=
  ⟨some [some (TasmanianSparseGrid.init sampleConfig), some (sampleGrid K Family.fourier []),
    some (sampleGrid K Family.global []), some (sampleGrid K Family.wavelet [])], 4⟩

/-! ## The reachable states of the facade -/

/-- The transform-length invariant of the facade: the vectors `a` and `b` of
the domain transform are both empty or both as long as the dimension count of
the engine, the vector of conformal orders is empty or as long as that count,
and all three are empty when no engine is held. -/
def transformInvariant {E K : Type} (ops : EngineOps E K) (g : TasmanianSparseGrid E K) : Prop :=
  ((g.domain_transform_a = [] ∧ g.domain_transform_b = []) ∨
    (g.domain_transform_a.length = g.getNumDimensions ops ∧
      g.domain_transform_b.length = g.getNumDimensions ops)) ∧
  (g.conformal_asin_power = [] ∨ g.conformal_asin_power.length = g.getNumDimensions ops) ∧
  (g.base = none →
    g.domain_transform_a = [] ∧ g.domain_transform_b = [] ∧ g.conformal_asin_power = [])

/-- The facade states that a program reaches from a freshly constructed facade
by calls of the `make...Grid` members, `copyGrid` (from a facade reached in the
same way, or from itself), both overloads of `setDomainTransform`, `clearDomainTransform`,
`setConformalTransformASIN`, `clearConformalTransform`,
`removePointsByHierarchicalCoefficient` and `clear`, with any arguments; a call
that throws also leaves a reached state. -/
inductive Reachable {E K : Type} [Zero K] (cfg : BuildConfig) (meta1 : OneDimensionalMeta)
    (ops : EngineOps E K) : TasmanianSparseGrid E K → Prop
  | constructed : Reachable cfg meta1 ops (TasmanianSparseGrid.init cfg)
  | byMakeGlobalGrid (g : TasmanianSparseGrid E K) (dimensions outputs depth : Int)
      (type : TypeDepth) (rule : TypeOneDRule) (anisotropic_weights : List Int) (alpha beta : K)
      (custom_filename : Option String) (level_limits : List Int) :
      Reachable cfg meta1 ops g →
      Reachable cfg meta1 ops (TasmanianSparseGrid.makeGlobalGrid cfg meta1 ops dimensions outputs
        depth type rule anisotropic_weights alpha beta custom_filename level_limits g).state
  | byMakeSequenceGrid (g : TasmanianSparseGrid E K) (dimensions outputs depth : Int)
      (type : TypeDepth) (rule : TypeOneDRule) (anisotropic_weights level_limits : List Int) :
      Reachable cfg meta1 ops g →
      Reachable cfg meta1 ops (TasmanianSparseGrid.makeSequenceGrid cfg meta1 ops dimensions
        outputs depth type rule anisotropic_weights level_limits g).state
  | byMakeLocalPolynomialGrid (g : TasmanianSparseGrid E K) (dimensions outputs depth order : Int)
      (rule : TypeOneDRule) (level_limits : List Int) :
      Reachable cfg meta1 ops g →
      Reachable cfg meta1 ops (TasmanianSparseGrid.makeLocalPolynomialGrid cfg meta1 ops
        dimensions outputs depth order rule level_limits g).state
  | byMakeWaveletGrid (g : TasmanianSparseGrid E K) (dimensions outputs depth order : Int)
      (level_limits : List Int) :
      Reachable cfg meta1 ops g →
      Reachable cfg meta1 ops (TasmanianSparseGrid.makeWaveletGrid cfg ops dimensions outputs
        depth order level_limits g).state
  | byMakeFourierGrid (g : TasmanianSparseGrid E K) (dimensions outputs depth : Int)
      (type : TypeDepth) (anisotropic_weights level_limits : List Int) :
      Reachable cfg meta1 ops g →
      Reachable cfg meta1 ops (TasmanianSparseGrid.makeFourierGrid cfg meta1 ops dimensions
        outputs depth type anisotropic_weights level_limits g).state
  | byCopyGrid (source g : TasmanianSparseGrid E K) :
      Reachable cfg meta1 ops source → Reachable cfg meta1 ops g →
      Reachable cfg meta1 ops (TasmanianSparseGrid.copyGrid cfg ops
        (TasmanianSparseGrid.SourcePointer.other source) g).state
  | byCopyGridOfItself (g : TasmanianSparseGrid E K) :
      Reachable cfg meta1 ops g →
      Reachable cfg meta1 ops (TasmanianSparseGrid.copyGrid cfg ops
        TasmanianSparseGrid.SourcePointer.this g).state
  | bySetDomainTransformPtr (g : TasmanianSparseGrid E K) (a b : List K) :
      Reachable cfg meta1 ops g →
      Reachable cfg meta1 ops (TasmanianSparseGrid.setDomainTransformPtr ops a b g).state
  | bySetDomainTransform (g : TasmanianSparseGrid E K) (a b : List K) :
      Reachable cfg meta1 ops g →
      Reachable cfg meta1 ops (TasmanianSparseGrid.setDomainTransform ops a b g).state
  | byClearDomainTransform (g : TasmanianSparseGrid E K) :
      Reachable cfg meta1 ops g → Reachable cfg meta1 ops g.clearDomainTransform
  | bySetConformalTransformASIN (g : TasmanianSparseGrid E K) (truncation : List Int) :
      Reachable cfg meta1 ops g →
      Reachable cfg meta1 ops (TasmanianSparseGrid.setConformalTransformASIN ops truncation g).state
  | byClearConformalTransform (g : TasmanianSparseGrid E K) :
      Reachable cfg meta1 ops g → Reachable cfg meta1 ops g.clearConformalTransform
  | byRemovePointsByHierarchicalCoefficient (g : TasmanianSparseGrid E K) (tolerance : K)
      (output : Int) (scale_correction : Option (List K)) :
      Reachable cfg meta1 ops g →
      Reachable cfg meta1 ops (TasmanianSparseGrid.removePointsByHierarchicalCoefficient cfg ops
        tolerance output scale_correction g).state
  | byClear (g : TasmanianSparseGrid E K) :
      Reachable cfg meta1 ops g → Reachable cfg meta1 ops (g.clear cfg)

/-! ## Theorems -/

open TasmanianSparseGrid

/-! ### Persistence (C1) -/

/-- C1 (defect of `readBinary`).  A Sequence grid `G` without level limits is
written and read back into a facade `R` that holds the level limits `[3]`.
Both reads succeed.  After the text read `R` has no level limits, as `G`;
after the binary read `R` still has its own level limits `[3]`, because the
tag for "no limits" assigns nothing and `clear()` leaves `llimits` alone.
The same holds for every engine and every reading facade `R` when `G` is the
empty facade: the binary read returns normally and `R.llimits` is as before. -/
theorem binary_read_keeps_reader_level_limits :
    (sampleGrid ℚ Family.sequence []).llimits = [] ∧
    writeBinary (sampleOps ℚ) (sampleGrid ℚ Family.sequence []) =
      Except.ok [Token.chr 'T', Token.chr 'S', Token.chr 'G', Token.chr '5', Token.chr 's',
        Token.int 1, Token.int 1, Token.int 1, Token.int 0,
        Token.chr 'n', Token.chr 'n', Token.chr 'n', Token.chr 's', Token.chr 'e'] ∧
    (readBinary sampleConfig (sampleOps ℚ)
      (IStream.ofItems [Token.chr 'T', Token.chr 'S', Token.chr 'G', Token.chr '5', Token.chr 's',
        Token.int 1, Token.int 1, Token.int 1, Token.int 0,
        Token.chr 'n', Token.chr 'n', Token.chr 'n', Token.chr 's', Token.chr 'e'])
      (sampleGrid ℚ Family.global [3])).raised = none ∧
    (readBinary sampleConfig (sampleOps ℚ)
      (IStream.ofItems [Token.chr 'T', Token.chr 'S', Token.chr 'G', Token.chr '5', Token.chr 's',
        Token.int 1, Token.int 1, Token.int 1, Token.int 0,
        Token.chr 'n', Token.chr 'n', Token.chr 'n', Token.chr 's', Token.chr 'e'])
      (sampleGrid ℚ Family.global [3])).state.llimits = [3] ∧
    writeAscii sampleConfig (sampleOps ℚ) (sampleGrid ℚ Family.sequence []) =
      Except.ok [Token.text "TASMANIAN", Token.text "SG", Token.text "6.1",
        Token.text "WARNING: do not edit this manually", Token.text "sequence",
        Token.int 1, Token.int 1, Token.int 1, Token.int 0,
        Token.text "canonical", Token.text "nonconformal", Token.text "unlimited",
        Token.text "static", Token.text "TASMANIAN SG end"] ∧
    (readAscii sampleConfig (sampleOps ℚ)
      (IStream.ofItems [Token.text "TASMANIAN", Token.text "SG", Token.text "6.1",
        Token.text "WARNING: do not edit this manually", Token.text "sequence",
        Token.int 1, Token.int 1, Token.int 1, Token.int 0,
        Token.text "canonical", Token.text "nonconformal", Token.text "unlimited",
        Token.text "static", Token.text "TASMANIAN SG end"])
      (sampleGrid ℚ Family.global [3])).state.llimits = [] ∧
    (∀ (E K : Type) [Zero K] (cfg : BuildConfig) (ops : EngineOps E K)
        (R : TasmanianSparseGrid E K),
      writeBinary ops (init cfg) = Except.ok [Token.chr 'T', Token.chr 'S', Token.chr 'G',
        Token.chr '5', Token.chr 'e', Token.chr 'n', Token.chr 'n', Token.chr 'n',
        Token.chr 's', Token.chr 'e'] ∧
      (readBinary cfg ops (IStream.ofItems [Token.chr 'T', Token.chr 'S', Token.chr 'G',
        Token.chr '5', Token.chr 'e', Token.chr 'n', Token.chr 'n', Token.chr 'n',
        Token.chr 's', Token.chr 'e']) R).raised = none ∧
      (readBinary cfg ops (IStream.ofItems [Token.chr 'T', Token.chr 'S', Token.chr 'G',
        Token.chr '5', Token.chr 'e', Token.chr 'n', Token.chr 'n', Token.chr 'n',
        Token.chr 's', Token.chr 'e']) R).state.llimits = R.llimits) := by
  refine ⟨rfl, rfl, rfl, rfl, rfl, rfl, ?_⟩
  intro E K _ cfg ops R
  exact ⟨rfl, rfl, rfl⟩

/-! ### The domain transform (C2) -/

theorem forEachIndex_comp {K : Type} (f h : Nat → K → K) (x : List K) (i0 : Nat) :
    forEachIndex f i0 (forEachIndex h i0 x) = forEachIndex (fun i v => f i (h i v)) i0 x := by
  induction x generalizing i0 with
  | nil => rfl
  | cons v vs ih => simp [forEachIndex, ih]

theorem forEachIndex_id {K : Type} (f : Nat → K → K) (hf : ∀ i v, f i v = v) (x : List K)
    (i0 : Nat) : forEachIndex f i0 x = x := by
  induction x generalizing i0 with
  | nil => rfl
  | cons v vs ih => simp [forEachIndex, ih, hf]

theorem mod_lt_of_lt_mul {i p d : Nat} (h : i < p * d) : i % d < d := by
  apply Nat.mod_lt
  rcases Nat.eq_zero_or_pos d with h0 | h0
  · subst h0; simp at h
  · exact h0

theorem laguerre_inverse (a b v : ℝ) (hb : b ≠ 0) : (v / b + a - a) * b = v := by
  field_simp
  ring

theorem fourier_inverse (a b v : ℝ) (hab : a ≠ b) : (v * (b - a) + a - a) / (b - a) = v := by
  have hd : b - a ≠ 0 := sub_ne_zero.mpr (Ne.symm hab)
  field_simp

theorem bounded_inverse (a b v : ℝ) (hab : a ≠ b) :
    (v * (1 / 2 * (b - a)) + 1 / 2 * (b + a)) * (2 / (b - a)) - (b + a) / (b - a) = v := by
  have hd : b - a ≠ 0 := sub_ne_zero.mpr (Ne.symm hab)
  field_simp

/-- C2.  In exact real arithmetic, for every dimension count, point count,
rule and array `x`, and every domain transform with one valid pair `(a, b)` per
dimension (`b ≠ 0` for Gauss-Laguerre, `0 < b` for Gauss-Hermite, `a ≠ b` for
Fourier and for the bounded rules), `mapTransformedToCanonical` applied to the
result of `mapCanonicalToTransformed` returns `x`. -/
theorem domain_round_trip {E : Type} (tol : ℝ) (g : TasmanianSparseGrid E ℝ)
    (num_dimensions num_points : Nat) (rule : TypeOneDRule) (x : List ℝ)
    (_ha : g.domain_transform_a.length = num_dimensions)
    (_hb : g.domain_transform_b.length = num_dimensions)
    (hvalid : ∀ j, j < num_dimensions →
      validDomain rule (g.domain_transform_a.getD j 0) (g.domain_transform_b.getD j 0)) :
    mapTransformedToCanonical (realNumerics tol) g num_dimensions num_points rule
      (mapCanonicalToTransformed (realNumerics tol) g num_dimensions num_points rule x) = x := by
  unfold mapTransformedToCanonical mapCanonicalToTransformed
  by_cases h1 : rule = TypeOneDRule.rule_gausslaguerre ∨ rule = TypeOneDRule.rule_gausslaguerreodd
  · simp only [if_pos h1]
    rw [forEachIndex_comp]
    apply forEachIndex_id
    intro i v
    by_cases hi : i < num_points * num_dimensions
    · have hv := hvalid _ (mod_lt_of_lt_mul hi)
      simp only [validDomain, if_pos h1] at hv
      simp only [if_pos hi]
      exact laguerre_inverse _ _ _ hv
    · simp only [if_neg hi]
  · by_cases h2 : rule = TypeOneDRule.rule_gausshermite ∨ rule = TypeOneDRule.rule_gausshermiteodd
    · simp only [if_neg h1, if_pos h2]
      rw [forEachIndex_comp]
      apply forEachIndex_id
      intro i v
      by_cases hi : i < num_points * num_dimensions
      · have hv := hvalid _ (mod_lt_of_lt_mul hi)
        simp only [validDomain, if_neg h1, if_pos h2] at hv
        simp only [if_pos hi, realNumerics]
        exact laguerre_inverse _ _ _ (Real.sqrt_pos.mpr hv).ne'
      · simp only [if_neg hi]
    · by_cases h3 : rule = TypeOneDRule.rule_fourier
      · simp only [if_neg h1, if_neg h2, if_pos h3]
        rw [forEachIndex_comp]
        apply forEachIndex_id
        intro i v
        by_cases hi : i < num_points * num_dimensions
        · have hv := hvalid _ (mod_lt_of_lt_mul hi)
          simp only [validDomain, if_neg h1, if_neg h2] at hv
          simp only [if_pos hi]
          exact fourier_inverse _ _ _ hv
        · simp only [if_neg hi]
      · simp only [if_neg h1, if_neg h2, if_neg h3]
        rw [forEachIndex_comp]
        apply forEachIndex_id
        intro i v
        by_cases hi : i < num_points * num_dimensions
        · have hv := hvalid _ (mod_lt_of_lt_mul hi)
          simp only [validDomain, if_neg h1, if_neg h2] at hv
          simp only [if_pos hi]
          exact bounded_inverse _ _ _ hv
        · simp only [if_neg hi]

/-- Witness of C2: one dimension mapped to `[3, 7]`, the two points -1 and 1
of a Clenshaw-Curtis grid. -/
theorem domain_round_trip_witness :
    mapTransformedToCanonical (realNumerics 0)
      { sampleGrid ℝ Family.global [] with domain_transform_a := [3], domain_transform_b := [7] }
      1 2 TypeOneDRule.rule_clenshawcurtis
      (mapCanonicalToTransformed (realNumerics 0)
        { sampleGrid ℝ Family.global [] with domain_transform_a := [3], domain_transform_b := [7] }
        1 2 TypeOneDRule.rule_clenshawcurtis [-1, 1]) = [-1, 1] :=
  domain_round_trip 0 _ 1 2 TypeOneDRule.rule_clenshawcurtis [-1, 1] rfl rfl (by
    intro j hj
    have : j = 0 := by omega
    subst this
    simp [validDomain, sampleGrid])

/-! ### The coordinate pipeline (C3) -/

theorem realNumerics_exp (tol : ℝ) : (realNumerics tol).exp = Real.exp := rfl

theorem realNumerics_log (tol : ℝ) : (realNumerics tol).log = Real.log := rfl

theorem realNumerics_fabs (tol : ℝ) (x : ℝ) : (realNumerics tol).fabs x = |x| := rfl

theorem numTerms_one : numTerms 1 = 2 := rfl

theorem conformalC_zero (tol : ℝ) : conformalC (realNumerics tol) 0 = 0 := by
  simp [conformalC, realNumerics, logFactorial]

theorem exp_conformalC_one (tol : ℝ) : Real.exp (conformalC (realNumerics tol) 1) = 1 / 6 := by
  have hg : Real.Gamma (1 / 2 + 1) = 1 / 2 * Real.Gamma (1 / 2) :=
    Real.Gamma_add_one (by norm_num)
  have hpos : 0 < Real.Gamma (1 / 2) := Real.Gamma_pos_of_pos (by norm_num)
  simp only [conformalC, realNumerics, logFactorial, Nat.cast_one, Nat.cast_zero, zero_add,
    Real.log_one, sub_zero, hg]
  rw [abs_of_pos (by positivity), abs_of_pos hpos, Real.exp_sub, Real.exp_sub,
    Real.exp_log (by positivity), Real.exp_log hpos]
  norm_num
  rw [Real.exp_log (by norm_num)]
  field_simp
  ring

theorem conformalCM_one (tol : ℝ) : conformalCM (realNumerics tol) 1 = 7 / 6 := by
  simp only [conformalCM, numTerms_one, List.range_succ, List.range_zero, List.nil_append,
    List.cons_append, List.foldl, realNumerics_exp, conformalC_zero, exp_conformalC_one,
    Real.exp_zero]
  norm_num

/-- The conformal map of order 1 is `T(x) = (6 x + x^3) / 7`; at one half it is 25/56. -/
theorem conformalForward_half (tol : ℝ) :
    conformalForward (realNumerics tol) 1 (1 / 2) = 25 / 56 := by
  have hx : (1 / 2 : ℝ) ≠ 0 := by norm_num
  have hp : (1 / 2 : ℝ) > 0 := by norm_num
  have e1 : Real.exp (Real.log (1 / 2)) = 1 / 2 := Real.exp_log (by norm_num)
  simp only [conformalForward, if_pos hx, if_pos hp, numTerms_one, List.range_succ,
    List.range_zero, List.nil_append, List.cons_append, List.foldl, realNumerics_exp,
    realNumerics_log, realNumerics_fabs, conformalC_zero, conformalCM_one, abs_of_pos hp]
  rw [Real.exp_add (conformalC (realNumerics tol) 1), exp_conformalC_one]
  have e3 : Real.exp (((2 * 1 + 1 : Nat) : ℝ) * Real.log (1 / 2)) = 1 / 8 := by
    have : ((2 * 1 + 1 : Nat) : ℝ) * Real.log (1 / 2)
        = Real.log (1 / 2) + Real.log (1 / 2) + Real.log (1 / 2) := by push_cast; ring
    rw [this, Real.exp_add, Real.exp_add, e1]
    norm_num
  have e0 : Real.exp (0 + ((2 * 0 + 1 : Nat) : ℝ) * Real.log (1 / 2)) = 1 / 2 := by
    have : (0 : ℝ) + ((2 * 0 + 1 : Nat) : ℝ) * Real.log (1 / 2) = Real.log (1 / 2) := by
      push_cast; ring
    rw [this, e1]
  rw [e3, e0]
  norm_num

theorem formTransformedPoints_sample (tol : ℝ) :
    formTransformedPoints (realNumerics tol) (sampleOps ℝ) (sampleConformalGrid ℝ) 1 [1 / 2]
      = Except.ok [0] := by
  simp only [formTransformedPoints, sampleConformalGrid, sampleGrid, sampleOps,
    mapConformalCanonicalToTransformed, mapCanonicalToTransformed, forEachIndex]
  have h := conformalForward_half tol
  rw [one_div] at h
  simp
  rw [h]
  norm_num

theorem formCanonicalPoints_sample (tol : ℝ) (fuel : Nat) :
    formCanonicalPoints (realNumerics tol) fuel (sampleOps ℝ) (sampleConformalGrid ℝ) [0] 1
      = Except.ok [25 / 56] := by
  simp only [formCanonicalPoints, sampleConformalGrid, sampleGrid, sampleOps,
    mapConformalTransformedToCanonical, mapTransformedToCanonical, forEachIndexM, conformalInverse]
  simp [forEachIndexM, forEachIndex]
  norm_num

/-- C3 (defect of `formCanonicalPoints`).  On the Global grid with the domain
`[-81/56, 31/56]` and the conformal order 1, `formTransformedPoints` sends the
canonical point 1/2 to the conformal value 25/56 and then to the physical
point 0; `formCanonicalPoints` applied to 0 undoes the conformal map first
(0 stays 0, no Newton pass is made) and the domain map second, and returns
25/56, not 1/2.  This holds for every tolerance and every bound on the Newton
passes. -/
theorem canonical_of_transformed_is_not_identity :
    ∀ (tol : ℝ) (fuel : Nat),
      formTransformedPoints (realNumerics tol) (sampleOps ℝ) (sampleConformalGrid ℝ) 1 [1 / 2]
        = Except.ok [0] ∧
      formCanonicalPoints (realNumerics tol) fuel (sampleOps ℝ) (sampleConformalGrid ℝ) [0] 1
        = Except.ok [25 / 56] ∧
      ([25 / 56] : List ℝ) ≠ [1 / 2] := by
  intro tol fuel
  refine ⟨formTransformedPoints_sample tol, formCanonicalPoints_sample tol fuel, ?_⟩
  norm_num

/-! ### Grid creation (C4) -/

theorem not_isEmpty_iff {α : Type} (l : List α) : (!l.isEmpty) = true ↔ l ≠ [] := by
  cases l <;> simp

/-- C4.  Each of the five grid constructors (overloads taking `std::vector`)
called with `dimensions < 1`, `outputs < 0`, `depth < 0`, a non-empty
`anisotropic_weights` of a length other than `dimensions` (`2 * dimensions` for
a curved depth type) or a non-empty `level_limits` of a length other than
`dimensions` throws `std::invalid_argument` and leaves every member of the
facade as it was.  `makeLocalPolynomialGrid` and `makeWaveletGrid` take no
anisotropic weights. -/
theorem make_grid_rejects_invalid_arguments {E K : Type} (cfg : BuildConfig)
    (meta1 : OneDimensionalMeta) (ops : EngineOps E K) (dimensions outputs depth order : Int)
    (type : TypeDepth) (rule : TypeOneDRule) (anisotropic_weights level_limits : List Int)
    (alpha beta : K) (custom_filename : Option String) (g : TasmanianSparseGrid E K) :
    ((dimensions < 1 ∨ outputs < 0 ∨ depth < 0 ∨
        (anisotropic_weights ≠ [] ∧
          (anisotropic_weights.length : Int) ≠ expectedWeights meta1 type dimensions) ∨
        (level_limits ≠ [] ∧ (level_limits.length : Int) ≠ dimensions)) →
      (makeGlobalGrid cfg meta1 ops dimensions outputs depth type rule anisotropic_weights
          alpha beta custom_filename level_limits g).rejectsArgument g ∧
      (makeSequenceGrid cfg meta1 ops dimensions outputs depth type rule anisotropic_weights
          level_limits g).rejectsArgument g ∧
      (makeFourierGrid cfg meta1 ops dimensions outputs depth type anisotropic_weights
          level_limits g).rejectsArgument g) ∧
    ((dimensions < 1 ∨ outputs < 0 ∨ depth < 0 ∨
        (level_limits ≠ [] ∧ (level_limits.length : Int) ≠ dimensions)) →
      (makeLocalPolynomialGrid cfg meta1 ops dimensions outputs depth order rule
          level_limits g).rejectsArgument g ∧
      (makeWaveletGrid cfg ops dimensions outputs depth order level_limits g).rejectsArgument g) := by
  constructor
  · intro h
    rw [← not_isEmpty_iff, ← not_isEmpty_iff] at h
    refine ⟨?_, ?_, ?_⟩
    · unfold makeGlobalGrid
      split_ifs <;> first | exact ⟨_, rfl⟩ | (exfalso; tauto)
    · unfold makeSequenceGrid
      split_ifs <;> first | exact ⟨_, rfl⟩ | (exfalso; tauto)
    · unfold makeFourierGrid
      split_ifs <;> first | exact ⟨_, rfl⟩ | (exfalso; tauto)
  · intro h
    rw [← not_isEmpty_iff] at h
    refine ⟨?_, ?_⟩
    · unfold makeLocalPolynomialGrid
      split_ifs <;> first | exact ⟨_, rfl⟩ | (exfalso; tauto)
    · unfold makeWaveletGrid
      split_ifs <;> first | exact ⟨_, rfl⟩ | (exfalso; tauto)

/-- Witness of C4: zero dimensions, and three level limits for two dimensions,
on a facade that holds a Sequence grid. -/
theorem make_grid_rejects_invalid_arguments_witness :
    (makeGlobalGrid sampleConfig sampleMeta (sampleOps ℚ) 0 1 1 TypeDepth.type_level
        TypeOneDRule.rule_clenshawcurtis [] 0 0 none []
        (sampleGrid ℚ Family.sequence [2])).rejectsArgument (sampleGrid ℚ Family.sequence [2]) ∧
    (makeWaveletGrid sampleConfig (sampleOps ℚ) 2 1 1 1 [4, 4, 4]
        (sampleGrid ℚ Family.sequence [2])).rejectsArgument (sampleGrid ℚ Family.sequence [2]) :=
  ⟨((make_grid_rejects_invalid_arguments sampleConfig sampleMeta (sampleOps ℚ) 0 1 1 1
      TypeDepth.type_level TypeOneDRule.rule_clenshawcurtis [] [] 0 0 none
      (sampleGrid ℚ Family.sequence [2])).1 (Or.inl (by decide))).1,
   ((make_grid_rejects_invalid_arguments sampleConfig sampleMeta (sampleOps ℚ) 2 1 1 1
      TypeDepth.type_level TypeOneDRule.rule_clenshawcurtis [] [4, 4, 4] 0 0 none
      (sampleGrid ℚ Family.sequence [2])).2
        (Or.inr (Or.inr (Or.inr ⟨by decide, by decide⟩)))).2⟩

/-! ### Refinement (C5, C6) -/

/-- C5 (defect of the refinement members).  Three calls that throw and leave
the level limits of the facade overwritten with the argument `[5]`:
`setAnisotropicRefinement` on a LocalPolynomial grid (wrong family),
`setSurplusRefinement(tolerance, output, level_limits)` on a Wavelet grid
(wrong family), and the criteria overload taking vectors on a Wavelet grid
with the tolerance -1.  The facade had no level limits before each call. -/
theorem refinement_error_overwrites_level_limits :
    (sampleGrid ℚ Family.localpolynomial []).llimits = [] ∧
    (setAnisotropicRefinement sampleMeta (sampleOps ℚ) TypeDepth.type_iptotal 1 0 [5]
      (sampleGrid ℚ Family.localpolynomial [])).raised = some (Exn.runtime_error
        "ERROR: setAnisotropicRefinement() called for a grid that is neither Sequence nor Global with a sequence rule") ∧
    (setAnisotropicRefinement sampleMeta (sampleOps ℚ) TypeDepth.type_iptotal 1 0 [5]
      (sampleGrid ℚ Family.localpolynomial [])).state.llimits = [5] ∧
    (sampleGrid ℚ Family.wavelet []).llimits = [] ∧
    (setSurplusRefinement sampleMeta (sampleOps ℚ) 1 0 [5]
      (sampleGrid ℚ Family.wavelet [])).raised = some (Exn.runtime_error
        "ERROR: setSurplusRefinement(double, int) called for a grid that is neither Sequence nor Global with a sequence rule") ∧
    (setSurplusRefinement sampleMeta (sampleOps ℚ) 1 0 [5]
      (sampleGrid ℚ Family.wavelet [])).state.llimits = [5] ∧
    (setSurplusRefinementCriteria (sampleOps ℚ) (-1) TypeRefinement.refine_classic 0 [5] []
      (sampleGrid ℚ Family.wavelet [])).raised = some (Exn.invalid_argument
        "ERROR: calling setSurplusRefinement() with invalid tolerance (must be non-negative)") ∧
    (setSurplusRefinementCriteria (sampleOps ℚ) (-1) TypeRefinement.refine_classic 0 [5] []
      (sampleGrid ℚ Family.wavelet [])).state.llimits = [5] := by
  refine ⟨rfl, ?_, ?_, rfl, ?_, ?_, ?_, ?_⟩ <;> decide

/-- C6.  While `usingDynamicConstruction` is true, each of the two overloads of
`setAnisotropicRefinement` and of the four overloads of `setSurplusRefinement`
throws the `std::runtime_error` of the construction guard and returns the
facade as it was: no member has changed and `engine_calls` has not grown, for
every engine. -/
theorem refinement_rejected_during_construction {E K : Type} [LinearOrderedField K]
    (meta1 : OneDimensionalMeta) (ops : EngineOps E K) (g : TasmanianSparseGrid E K)
    (type : TypeDepth) (min_growth output : Int) (tolerance : K) (criteria : TypeRefinement)
    (level_limits : List Int) (level_limits_ptr : Option (List Int))
    (scale_correction : List K) (scale_correction_ptr : Option (List K))
    (h : g.usingDynamicConstruction = true) :
    (setAnisotropicRefinement meta1 ops type min_growth output level_limits g
      ).rejectedByConstructionGuard g ∧
    (setAnisotropicRefinementPtr meta1 ops type min_growth output level_limits_ptr g
      ).rejectedByConstructionGuard g ∧
    (setSurplusRefinement meta1 ops tolerance output level_limits g
      ).rejectedByConstructionGuard g ∧
    (setSurplusRefinementPtr meta1 ops tolerance output level_limits_ptr g
      ).rejectedByConstructionGuard g ∧
    (setSurplusRefinementCriteria ops tolerance criteria output level_limits scale_correction g
      ).rejectedByConstructionGuard g ∧
    (setSurplusRefinementCriteriaPtr ops tolerance criteria output level_limits_ptr
      scale_correction_ptr g).rejectedByConstructionGuard g := by
  simp [Outcome.rejectedByConstructionGuard, setAnisotropicRefinement,
    setAnisotropicRefinementPtr, setSurplusRefinement, setSurplusRefinementPtr,
    setSurplusRefinementCriteria, setSurplusRefinementCriteriaPtr, h]

/-- Witness of C6: a Sequence grid with loaded values after `beginConstruction()`. -/
theorem refinement_rejected_during_construction_witness :
    (setAnisotropicRefinement sampleMeta (sampleOps ℚ) TypeDepth.type_iptotal 1 0 []
      (sampleConstructing ℚ)).rejectedByConstructionGuard (sampleConstructing ℚ) ∧
    (setSurplusRefinement sampleMeta (sampleOps ℚ) 1 0 []
      (sampleConstructing ℚ)).rejectedByConstructionGuard (sampleConstructing ℚ) :=
  ⟨(refinement_rejected_during_construction sampleMeta (sampleOps ℚ) (sampleConstructing ℚ)
      TypeDepth.type_iptotal 1 0 1 TypeRefinement.refine_classic [] none [] none rfl).1,
   (refinement_rejected_during_construction sampleMeta (sampleOps ℚ) (sampleConstructing ℚ)
      TypeDepth.type_iptotal 1 0 1 TypeRefinement.refine_classic [] none [] none rfl).2.2.1⟩

/-! ### Dynamic construction (C7, C8) -/

theorem withEngine_ne_throw {E K : Type} (g1 g : TasmanianSparseGrid E K) (f : Family)
    (c : EngineCall) (r : Outcome E) (x : Exn) (h : g1.engine_calls = g.engine_calls) :
    g1.withEngine f c r ≠ Outcome.throw g x := by
  intro heq
  have hl := congrArg (fun o => o.state.engine_calls.length) heq
  simp [withEngine, Outcome.throw, h] at hl

theorem throw_ne_guard {σ : Type} (g1 g : σ) (what : String)
    (h : what ≠ constructionGuardText) :
    Outcome.throw g1 (Exn.runtime_error what)
      ≠ Outcome.throw g (Exn.runtime_error constructionGuardText) := by
  intro heq
  simp only [Outcome.throw, Outcome.mk.injEq, Option.some.injEq, Exn.runtime_error.injEq] at heq
  exact h heq.2

theorem throw_argument_ne_guard {σ : Type} (g1 g : σ) (what : String) :
    Outcome.throw g1 (Exn.invalid_argument what)
      ≠ Outcome.throw g (Exn.runtime_error constructionGuardText) := by
  intro heq
  simp [Outcome.throw] at heq

theorem setSurplusRefinement_not_guard {E K : Type} [LinearOrderedField K]
    (meta1 : OneDimensionalMeta) (ops : EngineOps E K) (g g0 : TasmanianSparseGrid E K)
    (tolerance : K) (output : Int) (level_limits : List Int)
    (h : g.usingDynamicConstruction = false) (hc : g.engine_calls = g0.engine_calls) :
    ¬ (setSurplusRefinement meta1 ops tolerance output level_limits g
      ).rejectedByConstructionGuard g0 := by
  unfold Outcome.rejectedByConstructionGuard setSurplusRefinement
  rw [h]
  simp only [Bool.false_eq_true, if_false]
  rcases g.base with _ | ⟨f, e⟩
  · exact throw_ne_guard _ _ _ (by decide)
  · simp only []
    by_cases c1 : ops.getNumOutputs f e = 0
    · rw [if_pos c1]; exact throw_ne_guard _ _ _ (by decide)
    rw [if_neg c1]
    by_cases c2 : ops.getNumLoaded f e = 0
    · rw [if_pos c2]; exact throw_ne_guard _ _ _ (by decide)
    rw [if_neg c2]
    by_cases c3 : output < -1 ∨ output ≥ (ops.getNumOutputs f e : Int)
    · rw [if_pos c3]; exact throw_argument_ne_guard _ _ _
    rw [if_neg c3]
    by_cases c4 : tolerance < 0
    · rw [if_pos c4]; exact throw_argument_ne_guard _ _ _
    rw [if_neg c4]
    by_cases c5 : (!level_limits.isEmpty) = true ∧ level_limits.length ≠ ops.getNumDimensions f e
    · rw [if_pos c5]; exact throw_argument_ne_guard _ _ _
    rw [if_neg c5]
    by_cases c6 : f = Family.sequence
    · rw [if_pos c6]; exact withEngine_ne_throw _ _ _ _ _ _ (by split_ifs <;> exact hc)
    rw [if_neg c6]
    by_cases c7 : f = Family.global
    · rw [if_pos c7]
      by_cases c8 : meta1.isSequence (ops.getRule f e) = true
      · rw [if_pos c8]; exact withEngine_ne_throw _ _ _ _ _ _ (by split_ifs <;> exact hc)
      · rw [if_neg c8]; exact throw_ne_guard _ _ _ (by decide)
    · rw [if_neg c7]; exact throw_ne_guard _ _ _ (by decide)

theorem setSurplusRefinementPtr_not_guard {E K : Type} [LinearOrderedField K]
    (meta1 : OneDimensionalMeta) (ops : EngineOps E K) (g g0 : TasmanianSparseGrid E K)
    (tolerance : K) (output : Int) (level_limits : Option (List Int))
    (h : g.usingDynamicConstruction = false) (hc : g.engine_calls = g0.engine_calls) :
    ¬ (setSurplusRefinementPtr meta1 ops tolerance output level_limits g
      ).rejectedByConstructionGuard g0 := by
  unfold setSurplusRefinementPtr
  rw [h]
  simp only [Bool.false_eq_true, if_false]
  rcases g.base with _ | ⟨f, e⟩
  · exact throw_ne_guard _ _ _ (by decide)
  · exact setSurplusRefinement_not_guard meta1 ops g g0 tolerance output _ h hc

theorem setSurplusRefinementCriteriaPtr_not_guard {E K : Type} [LinearOrderedField K]
    (ops : EngineOps E K) (g g0 : TasmanianSparseGrid E K)
    (tolerance : K) (criteria : TypeRefinement) (output : Int)
    (level_limits : Option (List Int)) (scale_correction : Option (List K))
    (h : g.usingDynamicConstruction = false) (hc : g.engine_calls = g0.engine_calls) :
    ¬ (setSurplusRefinementCriteriaPtr ops tolerance criteria output level_limits
      scale_correction g).rejectedByConstructionGuard g0 := by
  unfold Outcome.rejectedByConstructionGuard setSurplusRefinementCriteriaPtr
  rw [h]
  simp only [Bool.false_eq_true, if_false]
  rcases g.base with _ | ⟨f, e⟩
  · exact throw_ne_guard _ _ _ (by decide)
  · simp only []
    by_cases c1 : ops.getNumOutputs f e = 0
    · rw [if_pos c1]; exact throw_ne_guard _ _ _ (by decide)
    rw [if_neg c1]
    by_cases c2 : ops.getNumLoaded f e = 0
    · rw [if_pos c2]; exact throw_ne_guard _ _ _ (by decide)
    rw [if_neg c2]
    by_cases c3 : output < -1 ∨ output ≥ (ops.getNumOutputs f e : Int)
    · rw [if_pos c3]; exact throw_argument_ne_guard _ _ _
    rw [if_neg c3]
    by_cases c4 : f ≠ Family.localpolynomial ∧ f ≠ Family.wavelet
    · rw [if_pos c4]; exact throw_ne_guard _ _ _ (by decide)
    rw [if_neg c4]
    by_cases c5 : tolerance < 0
    · rw [if_pos c5]; exact throw_argument_ne_guard _ _ _
    rw [if_neg c5]
    by_cases c6 : f = Family.localpolynomial
    · rw [if_pos c6]
      exact withEngine_ne_throw _ _ _ _ _ _ (by cases level_limits <;> exact hc)
    · rw [if_neg c6]
      exact withEngine_ne_throw _ _ _ _ _ _ (by cases level_limits <;> exact hc)

theorem setSurplusRefinementCriteria_not_guard {E K : Type} [LinearOrderedField K]
    (ops : EngineOps E K) (g g0 : TasmanianSparseGrid E K)
    (tolerance : K) (criteria : TypeRefinement) (output : Int)
    (level_limits : List Int) (scale_correction : List K)
    (h : g.usingDynamicConstruction = false) (hc : g.engine_calls = g0.engine_calls) :
    ¬ (setSurplusRefinementCriteria ops tolerance criteria output level_limits
      scale_correction g).rejectedByConstructionGuard g0 := by
  unfold setSurplusRefinementCriteria
  rw [h]
  simp only [Bool.false_eq_true, if_false]
  rcases g.base with _ | ⟨f, e⟩
  · exact throw_ne_guard _ _ _ (by decide)
  · simp only []
    by_cases c1 : (!level_limits.isEmpty) = true ∧ level_limits.length ≠ ops.getNumDimensions f e
    · rw [if_pos c1]; exact throw_argument_ne_guard _ _ _
    rw [if_neg c1]
    by_cases c2 : f ≠ Family.localpolynomial ∧ f ≠ Family.wavelet
    · rw [if_pos c2]; exact throw_ne_guard _ _ _ (by decide)
    rw [if_neg c2]
    by_cases c3 : (!scale_correction.isEmpty) = true ∧
        scale_correction.length ≠ nscale ops f e output
    · rw [if_pos c3]; exact throw_argument_ne_guard _ _ _
    rw [if_neg c3]
    apply setSurplusRefinementCriteriaPtr_not_guard
    · split_ifs <;> first | exact h | rfl
    · split_ifs <;> exact hc

theorem finishConstruction_flag {E K : Type} (ops : EngineOps E K) (g : TasmanianSparseGrid E K)
    (h : (finishConstruction ops g).raised = none) :
    (finishConstruction ops g).state.usingDynamicConstruction = false := by
  simp only [finishConstruction] at h ⊢
  split at h
  · simp [Outcome.throw] at h
  · rename_i hr
    simp only [hr, Outcome.ok]

/-- C7.  While `usingDynamicConstruction` is false, both overloads of
`loadConstructedPoint` and the three overloads of `getCandidateConstructionPoints`
throw `std::runtime_error` and leave the facade as it was, and
`finishConstruction()` returns normally without any change.  Whenever
`finishConstruction()` returns normally, from any state, the facade is not
DynamicActive, and no overload of `setSurplusRefinement` called next ends with
the outcome of the construction guard.  `finishConstruction()` returns normally
whenever the method of the engine does. -/
theorem construction_sequencing {E K : Type} [LinearOrderedField K] (m : Numerics K)
    (fuel : Nat) (meta1 : OneDimensionalMeta) (ops : EngineOps E K)
    (g : TasmanianSparseGrid E K) (x y : List K) (type : TypeDepth)
    (anisotropic_weights level_limits : List Int) (output : Int) (tolerance : K)
    (criteria : TypeRefinement) (scale_correction : List K)
    (level_limits_ptr : Option (List Int)) (scale_correction_ptr : Option (List K)) :
    (g.usingDynamicConstruction = false →
      (loadConstructedPoint m fuel ops x y g).rejectsState g ∧
      (loadConstructedPointPtr m fuel ops x y g).rejectsState g ∧
      (getCandidateConstructionPointsWeights ops type x anisotropic_weights level_limits g
        ).1.rejectsState g ∧
      (getCandidateConstructionPointsOutput ops type output x level_limits g).1.rejectsState g ∧
      (getCandidateConstructionPointsSurplus ops tolerance criteria x output level_limits
        scale_correction g).1.rejectsState g ∧
      finishConstruction ops g = Outcome.ok g) ∧
    ((finishConstruction ops g).raised = none →
      (finishConstruction ops g).state.usingDynamicConstruction = false ∧
      ¬ (setSurplusRefinement meta1 ops tolerance output level_limits
          (finishConstruction ops g).state).rejectedByConstructionGuard
          (finishConstruction ops g).state ∧
      ¬ (setSurplusRefinementPtr meta1 ops tolerance output level_limits_ptr
          (finishConstruction ops g).state).rejectedByConstructionGuard
          (finishConstruction ops g).state ∧
      ¬ (setSurplusRefinementCriteria ops tolerance criteria output level_limits scale_correction
          (finishConstruction ops g).state).rejectedByConstructionGuard
          (finishConstruction ops g).state ∧
      ¬ (setSurplusRefinementCriteriaPtr ops tolerance criteria output level_limits_ptr
          scale_correction_ptr (finishConstruction ops g).state).rejectedByConstructionGuard
          (finishConstruction ops g).state) ∧
    (∀ f e, g.base = some (f, e) → (ops.finishConstruction f e).raised = none →
      (finishConstruction ops g).raised = none) := by
  refine ⟨?_, ?_, ?_⟩
  · intro h
    refine ⟨?_, ?_, ?_, ?_, ?_, ?_⟩
    · simp only [Outcome.rejectsState, loadConstructedPoint, h]
      exact ⟨_, rfl⟩
    · simp only [Outcome.rejectsState, loadConstructedPointPtr, h]
      exact ⟨_, rfl⟩
    · simp only [Outcome.rejectsState, getCandidateConstructionPointsWeights, h]
      exact ⟨_, rfl⟩
    · simp only [Outcome.rejectsState, getCandidateConstructionPointsOutput, h]
      exact ⟨_, rfl⟩
    · simp only [Outcome.rejectsState, getCandidateConstructionPointsSurplus, h]
      exact ⟨_, rfl⟩
    · cases g
      simp_all [finishConstruction, Outcome.ok]
  · intro h
    have hf := finishConstruction_flag ops g h
    exact ⟨hf,
      setSurplusRefinement_not_guard meta1 ops _ _ tolerance output level_limits hf rfl,
      setSurplusRefinementPtr_not_guard meta1 ops _ _ tolerance output level_limits_ptr hf rfl,
      setSurplusRefinementCriteria_not_guard ops _ _ tolerance criteria output level_limits
        scale_correction hf rfl,
      setSurplusRefinementCriteriaPtr_not_guard ops _ _ tolerance criteria output
        level_limits_ptr scale_correction_ptr hf rfl⟩
  · intro f e hb he
    unfold finishConstruction
    simp only [hb]
    by_cases hd : g.usingDynamicConstruction = true
    · simp [hd, withEngine, he, Outcome.ok]
    · simp [hd, Outcome.ok]

/-- Witness of C7: `loadConstructedPoint` on a Sequence grid that is not under
construction, and `finishConstruction()` on one that is; the refinement that
follows succeeds. -/
theorem construction_sequencing_witness :
    (loadConstructedPoint (realNumerics 0) 0 (sampleOps ℝ) [0] [1]
      (sampleGrid ℝ Family.sequence [])).rejectsState (sampleGrid ℝ Family.sequence []) ∧
    (finishConstruction (sampleOps ℝ) (sampleConstructing ℝ)).state.usingDynamicConstruction
      = false ∧
    (setSurplusRefinement sampleMeta (sampleOps ℚ) 1 0 []
      (finishConstruction (sampleOps ℚ) (sampleConstructing ℚ)).state).raised = none :=
  ⟨((construction_sequencing (realNumerics 0) 0 sampleMeta (sampleOps ℝ)
      (sampleGrid ℝ Family.sequence []) [0] [1] TypeDepth.type_level [] [] 0 1
      TypeRefinement.refine_classic [] none none).1 rfl).1,
   ((construction_sequencing (realNumerics 0) 0 sampleMeta (sampleOps ℝ)
      (sampleConstructing ℝ) [0] [1] TypeDepth.type_level [] [] 0 1
      TypeRefinement.refine_classic [] none none).2.1 rfl).1,
   by decide⟩

/-- C8.  On a Wavelet or Fourier facade `beginConstruction()` throws
`std::runtime_error` and changes nothing, so a facade that was not
DynamicActive stays so.  On a Global, Sequence or LocalPolynomial facade that
is not DynamicActive it sets `usingDynamicConstruction`, after calling
`clearRefinement` of the engine exactly when `getNumLoaded() > 0`, and then
calls `beginConstruction` of the engine (the call to `clearRefinement`, when
made, is assumed to return normally).  While DynamicActive it changes nothing. -/
theorem beginConstruction_spec {E K : Type} (ops : EngineOps E K)
    (g : TasmanianSparseGrid E K) :
    ((g.isWavelet = true ∨ g.isFourier = true) →
      (beginConstruction ops g).rejectsState g ∧
      (beginConstruction ops g).state.usingDynamicConstruction = g.usingDynamicConstruction) ∧
    (∀ f e, g.base = some (f, e) → f ≠ Family.wavelet → f ≠ Family.fourier →
      g.usingDynamicConstruction = false →
      (0 < ops.getNumLoaded f e → (ops.clearRefinement f e).raised = none) →
      (beginConstruction ops g).state.usingDynamicConstruction = true ∧
      (beginConstruction ops g).state.engine_calls = g.engine_calls
        ++ (if 0 < ops.getNumLoaded f e then [EngineCall.clearRefinement] else [])
        ++ [EngineCall.beginConstruction] ∧
      (beginConstruction ops g).state.base = some (f, (ops.beginConstruction f
        (if 0 < ops.getNumLoaded f e then (ops.clearRefinement f e).state else e)).state) ∧
      (beginConstruction ops g).raised = (ops.beginConstruction f
        (if 0 < ops.getNumLoaded f e then (ops.clearRefinement f e).state else e)).raised) ∧
    (g.usingDynamicConstruction = true → (beginConstruction ops g).state = g) := by
  refine ⟨?_, ?_, ?_⟩
  · intro h
    have h' : (g.isWavelet = true ∨ g.isFourier = true) := h
    simp only [Outcome.rejectsState, beginConstruction, if_pos h']
    exact ⟨⟨_, rfl⟩, rfl⟩
  · intro f e hb hw hf hd hclear
    have hnot : ¬ (g.isWavelet = true ∨ g.isFourier = true) := by
      simp [isWavelet, isFourier, isFamily, hb, hw, hf]
    simp only [beginConstruction, if_neg hnot, hd, getNumLoaded, hb]
    by_cases hl : 0 < ops.getNumLoaded f e
    · have hc := hclear hl
      simp [hl, clearRefinement, hb, withEngine, hc]
    · simp [hl, Outcome.ok, hb, withEngine]
  · intro hd
    by_cases h : (g.isWavelet = true ∨ g.isFourier = true)
    · simp only [beginConstruction, if_pos h, Outcome.throw]
    · simp only [beginConstruction, if_neg h, hd, Outcome.ok]
      simp

/-- Witness of C8: a Sequence grid with loaded values, a Wavelet grid, and a
second call during the construction. -/
theorem beginConstruction_spec_witness :
    (beginConstruction (sampleOps ℚ) (sampleGrid ℚ Family.sequence [])).state
      = sampleConstructing ℚ ∧
    (beginConstruction (sampleOps ℚ)
      (sampleGrid ℚ Family.sequence [])).state.usingDynamicConstruction = true ∧
    (beginConstruction (sampleOps ℚ) (sampleGrid ℚ Family.wavelet [])).rejectsState
      (sampleGrid ℚ Family.wavelet []) ∧
    (beginConstruction (sampleOps ℚ) (sampleConstructing ℚ)).state = sampleConstructing ℚ :=
  ⟨rfl,
   ((beginConstruction_spec (sampleOps ℚ) (sampleGrid ℚ Family.sequence [])).2.1
      Family.sequence ⟨1, 1, 1, 0⟩ rfl (by decide) (by decide) rfl (fun _ => rfl)).1,
   ((beginConstruction_spec (sampleOps ℚ) (sampleGrid ℚ Family.wavelet [])).1
      (Or.inl rfl)).1,
   (beginConstruction_spec (sampleOps ℚ) (sampleConstructing ℚ)).2.2 rfl⟩

/-! ### Loading values (C9) -/

/-- C9 (counterexample).  A Sequence grid after `clearRefinement()` has zero
needed points and zero points; `loadNeededPoints` with an empty vector passes
the length test (0 = 0 * 1), reaches the engine and returns normally. -/
theorem loadNeededPoints_empty_values_accepted :
    (sampleUnloaded ℚ).base = some (Family.sequence, ⟨1, 1, 0, 0⟩) ∧
    getNumNeeded (sampleOps ℚ) (sampleUnloaded ℚ) = 0 ∧
    getNumPoints (sampleOps ℚ) (sampleUnloaded ℚ) = 0 ∧
    (loadNeededPoints (sampleOps ℚ) [] (sampleUnloaded ℚ)).raised = none := by
  decide

/-- C9 (amended).  On a facade that holds an engine, the vector overload of
`loadNeededPoints` throws `std::runtime_error`, with the facade unchanged,
unless `vals.size()` is `getNumNeeded() * getNumOutputs()`, or, when
`getNumNeeded()` is 0, `getNumPoints() * getNumOutputs()`; with zero needed
points and zero points every non-empty vector is an error; a vector of the
expected size is handed to the engine. -/
theorem loadNeededPoints_length_rule {E K : Type} (ops : EngineOps E K)
    (g : TasmanianSparseGrid E K) (f : Family) (e : E) (vals : List K)
    (hb : g.base = some (f, e)) :
    (ops.getNumNeeded f e ≠ 0 → vals.length ≠ ops.getNumNeeded f e * ops.getNumOutputs f e →
      (loadNeededPoints ops vals g).rejectsState g) ∧
    (ops.getNumNeeded f e = 0 → vals.length ≠ ops.getNumPoints f e * ops.getNumOutputs f e →
      (loadNeededPoints ops vals g).rejectsState g) ∧
    (ops.getNumNeeded f e = 0 → ops.getNumPoints f e = 0 → vals ≠ [] →
      (loadNeededPoints ops vals g).rejectsState g) ∧
    (vals.length = (if ops.getNumNeeded f e = 0 then ops.getNumPoints f e
        else ops.getNumNeeded f e) * ops.getNumOutputs f e →
      loadNeededPoints ops vals g
        = g.withEngine f EngineCall.loadNeededPoints (ops.loadNeededPoints f e vals)) := by
  refine ⟨?_, ?_, ?_, ?_⟩
  · intro hn hl
    have : vals.length ≠ expectedValues ops f e := by simpa [expectedValues, hn] using hl
    simp only [Outcome.rejectsState, loadNeededPoints, hb, if_pos this]
    exact ⟨_, rfl⟩
  · intro hn hl
    have : vals.length ≠ expectedValues ops f e := by simpa [expectedValues, hn] using hl
    simp only [Outcome.rejectsState, loadNeededPoints, hb, if_pos this]
    exact ⟨_, rfl⟩
  · intro hn hp hv
    have : vals.length ≠ expectedValues ops f e := by
      simp [expectedValues, hn, hp, hv]
    simp only [Outcome.rejectsState, loadNeededPoints, hb, if_pos this]
    exact ⟨_, rfl⟩
  · intro hl
    have : ¬ vals.length ≠ expectedValues ops f e := by simpa [expectedValues] using hl
    simp only [loadNeededPoints, hb, if_neg this, loadNeededPointsPtr]

/-- Witness of C9: two values for a grid that expects one, and one value for
the grid without points. -/
theorem loadNeededPoints_length_rule_witness :
    (loadNeededPoints (sampleOps ℚ) [1, 2] (sampleGrid ℚ Family.sequence [])).rejectsState
      (sampleGrid ℚ Family.sequence []) ∧
    (loadNeededPoints (sampleOps ℚ) [1] (sampleUnloaded ℚ)).rejectsState (sampleUnloaded ℚ) :=
  ⟨(loadNeededPoints_length_rule (sampleOps ℚ) (sampleGrid ℚ Family.sequence [])
      Family.sequence ⟨1, 1, 1, 0⟩ [1, 2] rfl).2.1 rfl (by decide),
   (loadNeededPoints_length_rule (sampleOps ℚ) (sampleUnloaded ℚ)
      Family.sequence ⟨1, 1, 0, 0⟩ [1] rfl).2.2.1 rfl rfl (by decide)⟩

/-! ### The scale correction (C10) -/

/-- C10 (defect of the vector overload of the criteria refinement).  On a
LocalPolynomial grid with 3 loaded points, 2 needed points and 2 outputs, a
`scale_correction` of 6 entries for all outputs (`output = -1`) and one of 3
entries for the single output 0 are rejected with `std::invalid_argument`,
while 2 entries (the needed points) for all outputs and 4 entries (needed
points times outputs) for a single output are accepted.  The C wrapper of the
construction variant sizes the same array as 6 and as 3 entries. -/
theorem scale_correction_length_mismatch :
    getNumLoaded (sampleOps ℚ) (sampleRefinable ℚ) = 3 ∧
    getNumNeeded (sampleOps ℚ) (sampleRefinable ℚ) = 2 ∧
    getNumOutputs (sampleOps ℚ) (sampleRefinable ℚ) = 2 ∧
    (setSurplusRefinementCriteria (sampleOps ℚ) 1 TypeRefinement.refine_classic (-1) []
      [1, 1, 1, 1, 1, 1] (sampleRefinable ℚ)).raised
      = some (Exn.invalid_argument
          "ERROR: setSurplusRefinement() incorrect size for scale_correction") ∧
    (setSurplusRefinementCriteria (sampleOps ℚ) 1 TypeRefinement.refine_classic 0 []
      [1, 1, 1] (sampleRefinable ℚ)).raised
      = some (Exn.invalid_argument
          "ERROR: setSurplusRefinement() incorrect size for scale_correction") ∧
    (setSurplusRefinementCriteria (sampleOps ℚ) 1 TypeRefinement.refine_classic (-1) []
      [1, 1] (sampleRefinable ℚ)).raised = none ∧
    (setSurplusRefinementCriteria (sampleOps ℚ) 1 TypeRefinement.refine_classic 0 []
      [1, 1, 1, 1] (sampleRefinable ℚ)).raised = none ∧
    (tsgScaleCorrectionVector (sampleOps ℚ) (sampleRefinable ℚ) (-1)
      (some [1, 1, 1, 1, 1, 1])).length = 6 ∧
    (tsgScaleCorrectionVector (sampleOps ℚ) (sampleRefinable ℚ) 0
      (some [1, 1, 1])).length = 3 := by
  decide

/-! ### The forward mapping laws (C11) -/

theorem forEachIndex_getD {K : Type} (f : Nat → K → K) (x : List K) (i0 k : Nat) (d : K)
    (hk : k < x.length) :
    (forEachIndex f i0 x).getD k d = f (i0 + k) (x.getD k d) := by
  induction x generalizing i0 k with
  | nil => simp at hk
  | cons v vs ih =>
    cases k with
    | zero => simp [forEachIndex]
    | succ k =>
      have hk1 : k < vs.length := by simpa using hk
      have := ih (i0 + 1) k hk1
      simp only [forEachIndex, List.getD_cons_succ]
      rw [this]
      congr 1
      omega

/-- Known values of double arithmetic: `0.1 + 0.2` is `0.30000000000000004`,
`1 / 3` is `6004799503160661 * 2^-54`, `sqrt(2)` is `6369051672525773 * 2^-52`,
`1e-12` is `4951760157141521 * 2^-92`, `1e308 * 10` overflows, `0 / 0` is a NaN
and a NaN is below nothing. -/
theorem double_arithmetic_examples :
    (0.1 + 0.2 : Dbl) = Dbl.finite false 5404319552844596 (-54) ∧
    (1 / 3 : Dbl) = Dbl.finite false 6004799503160661 (-54) ∧
    Dbl.sqrt 2 = Dbl.finite false 6369051672525773 (-52) ∧
    (1e-12 : Dbl) = Dbl.finite false 4951760157141521 (-92) ∧
    (1e308 * 10 : Dbl) = Dbl.inf false ∧
    (0 / 0 : Dbl) = Dbl.nan ∧
    ¬ (Dbl.nan < (1 : Dbl)) := by
  decide!

theorem forEachIndexM_getD {K : Type} (f : Nat → K → Except Exn K) (x y : List K) (i0 k : Nat)
    (d : K) (hk : k < x.length) (h : forEachIndexM f i0 x = Except.ok y) :
    f (i0 + k) (x.getD k d) = Except.ok (y.getD k d) := by
  induction x generalizing i0 k y with
  | nil => simp at hk
  | cons v vs ih =>
    simp only [forEachIndexM] at h
    cases hv : f i0 v with
    | error e => rw [hv] at h; cases h
    | ok w =>
      rw [hv] at h
      cases hr : forEachIndexM f (i0 + 1) vs with
      | error e => rw [hr] at h; cases h
      | ok ws =>
        rw [hr] at h
        cases h
        cases k with
        | zero => simpa using hv
        | succ k =>
          have hk1 : k < vs.length := by simpa using hk
          have := ih ws (i0 + 1) k hk1 hr
          simp only [List.getD_cons_succ]
          rw [← this]
          congr 1
          omega

theorem forEachIndexM_zeros {K : Type} [Zero K] (f : Nat → K → Except Exn K)
    (hf : ∀ i, f i 0 = Except.ok 0) (n i0 : Nat) :
    forEachIndexM f i0 (List.replicate n 0) = Except.ok (List.replicate n 0) := by
  induction n generalizing i0 with
  | zero => rfl
  | succ n ih => simp only [List.replicate_succ, forEachIndexM, hf, ih]

/-- C13: the conformal transform at zero.  For every truncation order, the body
of `mapConformalCanonicalToTransformed` returns 0 at the coordinate 0, and the
body of `mapConformalTransformedToCanonical` returns 0 at the coordinate 0 even
when the Newton loop is allowed no pass at all.  So in every array, with every
vector of truncation orders, an entry equal to 0 is still 0 after the forward
map, is 0 in every array that the inverse map returns, and an array of zeros is
returned as it is by the inverse map with no Newton pass. -/
theorem conformal_at_zero {E K : Type} [LinearOrderedField K] (m : Numerics K)
    (g : TasmanianSparseGrid E K) (num_dimensions num_points : Nat) (x : List K) (k : Nat)
    (hk : k < x.length) (h0 : x.getD k 0 = 0) :
    (∀ power : Int, conformalForward m power 0 = 0) ∧
    (∀ power : Int, conformalInverse m 0 power 0 = Except.ok 0) ∧
    (mapConformalCanonicalToTransformed m g num_dimensions num_points x).getD k 0 = 0 ∧
    (∀ fuel y, mapConformalTransformedToCanonical m fuel g num_dimensions num_points x
        = Except.ok y → y.getD k 0 = 0) ∧
    mapConformalTransformedToCanonical m 0 g num_dimensions num_points
      (List.replicate x.length 0) = Except.ok (List.replicate x.length 0) := by
  have hf : ∀ power : Int, conformalForward m power 0 = 0 := by
    intro power; simp [conformalForward]
  have hi : ∀ (fuel : Nat) (power : Int), conformalInverse m fuel power 0 = Except.ok 0 := by
    intro fuel power; simp [conformalInverse]
  refine ⟨hf, hi 0, ?_, ?_, ?_⟩
  · unfold mapConformalCanonicalToTransformed
    by_cases hc : g.conformal_asin_power.length ≠ 0
    · rw [if_pos hc, forEachIndex_getD _ _ _ _ _ hk, h0]
      by_cases hn : 0 + k < num_points * num_dimensions
      · rw [if_pos hn]; exact hf _
      · rw [if_neg hn]
    · rw [if_neg hc]; exact h0
  · intro fuel y hy
    unfold mapConformalTransformedToCanonical at hy
    by_cases hc : g.conformal_asin_power.length ≠ 0
    · rw [if_pos hc] at hy
      have := forEachIndexM_getD _ _ _ _ k 0 hk hy
      rw [h0] at this
      by_cases hn : 0 + k < num_points * num_dimensions
      · rw [if_pos hn, hi] at this
        exact (Except.ok.inj this).symm
      · rw [if_neg hn] at this
        exact (Except.ok.inj this).symm
    · rw [if_neg hc] at hy
      cases hy
      exact h0
  · unfold mapConformalTransformedToCanonical
    by_cases hc : g.conformal_asin_power.length ≠ 0
    · rw [if_pos hc]
      apply forEachIndexM_zeros
      intro i
      by_cases hn : i < num_points * num_dimensions
      · rw [if_pos hn]; exact hi _ _
      · rw [if_neg hn]
    · rw [if_neg hc]

/-- Witness of C13: the one-dimensional grid with truncation order 1 and the
array `[0, 1/2]`. -/
theorem conformal_at_zero_witness :
    (mapConformalCanonicalToTransformed (realNumerics 0) (sampleConformalGrid ℝ) 1 2
      [0, 1 / 2]).getD 0 0 = 0 ∧
    mapConformalTransformedToCanonical (realNumerics 0) 0 (sampleConformalGrid ℝ) 1 2
      (List.replicate 2 0) = Except.ok (List.replicate 2 0) :=
  ⟨(conformal_at_zero (realNumerics 0) (sampleConformalGrid ℝ) 1 2 [0, 1 / 2] 0
      (by decide) rfl).2.2.1,
   (conformal_at_zero (realNumerics 0) (sampleConformalGrid ℝ) 1 2 [0, 1 / 2] 0
      (by decide) rfl).2.2.2.2⟩

/-! ### The quadrature scale factor (C12) -/

theorem foldl_add_eq_sum {K : Type} [AddCommMonoid K] (t : Nat → K) (init : K) (n : Nat) :
    (List.range n).foldl (fun acc k => acc + t k) init = init + ∑ k in Finset.range n, t k := by
  induction n with
  | zero => simp
  | succ n ih =>
    rw [List.range_succ, List.foldl_append, ih, Finset.sum_range_succ, ← add_assoc]
    rfl

theorem foldl_tail_eq_sum {K : Type} [AddCommMonoid K] (t : Nat → K) (init : K) (n : Nat) :
    (List.range (n + 1)).tail.foldl (fun acc k => acc + t k) init
      = init + ∑ k in Finset.range n, t (k + 1) := by
  rw [List.range_succ_eq_map, List.tail_cons, List.foldl_map]
  exact foldl_add_eq_sum (fun k => t (k + 1)) init n

theorem numTerms_of_nonneg (power : Int) (h : 0 ≤ power) :
    numTerms power = power.toNat + 1 := by
  unfold numTerms
  omega

theorem conformalDC_eq {K : Type} [Field K] (m : Numerics K) (k : Nat) :
    conformalDC m k - m.log ((2 * k + 1 : Nat) : K) = conformalC m k := by
  unfold conformalC conformalDC
  ring

theorem exp_conformalDC (tol : ℝ) (k : Nat) :
    Real.exp (conformalDC (realNumerics tol) k)
      = (2 * (k : ℝ) + 1) * Real.exp (conformalC (realNumerics tol) k) := by
  have h : conformalDC (realNumerics tol) k
      = conformalC (realNumerics tol) k + Real.log ((2 * k + 1 : Nat) : ℝ) := by
    rw [← conformalDC_eq, realNumerics_log]; ring
  have hp : (0 : ℝ) < ((2 * k + 1 : Nat) : ℝ) := by positivity
  rw [h, Real.exp_add, Real.exp_log hp]
  push_cast
  ring

theorem exp_conformalDC_zero (tol : ℝ) : Real.exp (conformalDC (realNumerics tol) 0) = 1 := by
  rw [exp_conformalDC, conformalC_zero]
  simp

theorem exp_add_mul_log (c : ℝ) (n : Nat) (x : ℝ) (hx : x ≠ 0) :
    Real.exp (c + (n : ℝ) * Real.log |x|) = Real.exp c * |x| ^ n := by
  rw [Real.exp_add, Real.exp_nat_mul, Real.exp_log (abs_pos.mpr hx)]

theorem conformalCM_eq_sum (tol : ℝ) (power : Int) :
    conformalCM (realNumerics tol) power
      = ∑ k in Finset.range (numTerms power), Real.exp (conformalC (realNumerics tol) k) := by
  unfold conformalCM
  rw [foldl_add_eq_sum, zero_add]
  rfl

theorem conformalWeightCM_eq (tol : ℝ) (power : Int) :
    conformalWeightCM (realNumerics tol) power = conformalCM (realNumerics tol) power := by
  unfold conformalWeightCM conformalCM
  simp only [conformalDC_eq]

theorem conformalCM_pos (tol : ℝ) (power : Int) (h : 0 ≤ power) :
    0 < conformalCM (realNumerics tol) power := by
  rw [conformalCM_eq_sum, numTerms_of_nonneg power h]
  apply Finset.sum_pos
  · intro k _; exact Real.exp_pos _
  · exact ⟨0, by simp⟩

theorem sign_mul_abs_pow_odd (x : ℝ) (k : Nat) :
    |x| ^ (2 * k + 1) * (if x > 0 then (1 : ℝ) else -1) = x ^ (2 * k + 1) := by
  by_cases h : x > 0
  · rw [if_pos h, abs_of_pos h, mul_one]
  · rw [if_neg h, abs_of_nonpos (not_lt.mp h), Odd.neg_pow ⟨k, rfl⟩]
    ring

/-- The forward map is the odd polynomial with the coefficients `exp(c[k])`,
divided by their sum. -/
theorem conformalForward_eq (tol : ℝ) (power : Int) (x : ℝ) :
    conformalForward (realNumerics tol) power x
      = (∑ k in Finset.range (numTerms power),
          Real.exp (conformalC (realNumerics tol) k) * x ^ (2 * k + 1))
        / conformalCM (realNumerics tol) power := by
  unfold conformalForward
  by_cases hx : x ≠ 0
  · rw [if_pos hx]
    simp only [realNumerics_exp, realNumerics_log, realNumerics_fabs]
    rw [foldl_add_eq_sum, zero_add]
    have : ∀ k ∈ Finset.range (numTerms power),
        Real.exp (conformalC (realNumerics tol) k + ((2 * k + 1 : Nat) : ℝ) * Real.log |x|)
          = Real.exp (conformalC (realNumerics tol) k) * |x| ^ (2 * k + 1) := by
      intro k _
      exact exp_add_mul_log _ _ _ hx
    rw [Finset.sum_congr rfl this, mul_div_assoc', Finset.sum_mul]
    congr 1
    apply Finset.sum_congr rfl
    intro k _
    rw [mul_assoc, sign_mul_abs_pow_odd]
  · rw [if_neg hx]
    have h0 : x = 0 := not_not.mp hx
    subst h0
    simp

/-! ### The conformal weight correction (C14) -/

theorem conformalForward_hasDerivAt (tol : ℝ) (power : Int) (x : ℝ) :
    HasDerivAt (conformalForward (realNumerics tol) power)
      ((∑ k in Finset.range (numTerms power),
          Real.exp (conformalC (realNumerics tol) k) * ((2 * (k : ℝ) + 1) * x ^ (2 * k)))
        / conformalCM (realNumerics tol) power) x := by
  have hfun : conformalForward (realNumerics tol) power
      = fun y => (∑ k in Finset.range (numTerms power),
          Real.exp (conformalC (realNumerics tol) k) * y ^ (2 * k + 1))
        / conformalCM (realNumerics tol) power := by
    funext y
    exact conformalForward_eq tol power y
  rw [hfun]
  apply HasDerivAt.div_const
  apply HasDerivAt.sum
  intro k _
  apply HasDerivAt.const_mul
  have := hasDerivAt_pow (2 * k + 1) x
  simpa using this

theorem conformalWeight_eq (tol : ℝ) (power : Int) (h : 0 ≤ power) (x w : ℝ) :
    conformalWeight (realNumerics tol) power x w
      = w * ((∑ k in Finset.range (numTerms power),
          Real.exp (conformalC (realNumerics tol) k) * ((2 * (k : ℝ) + 1) * x ^ (2 * k)))
        / conformalCM (realNumerics tol) power) := by
  unfold conformalWeight
  rw [conformalWeightCM_eq, numTerms_of_nonneg power h]
  by_cases hx : x ≠ 0
  · rw [if_pos hx]
    simp only [realNumerics_exp, realNumerics_log, realNumerics_fabs]
    rw [foldl_tail_eq_sum, Finset.sum_range_succ']
    have : ∀ k ∈ Finset.range power.toNat,
        Real.exp (conformalDC (realNumerics tol) (k + 1)
            + ((2 * (k + 1) : Nat) : ℝ) * Real.log |x|)
          = Real.exp (conformalC (realNumerics tol) (k + 1))
            * ((2 * ((k + 1 : Nat) : ℝ) + 1) * x ^ (2 * (k + 1))) := by
      intro k _
      rw [exp_add_mul_log _ _ _ hx, exp_conformalDC, Even.pow_abs ⟨k + 1, by ring⟩]
      ring
    rw [Finset.sum_congr rfl this, conformalC_zero]
    simp only [Nat.cast_zero, mul_zero, zero_add, pow_zero, mul_one, Real.exp_zero]
    rw [add_comm]
  · rw [if_neg hx]
    have h0 : x = 0 := not_not.mp hx
    subst h0
    rw [Finset.sum_range_succ', conformalC_zero]
    have : ∀ k ∈ Finset.range power.toNat,
        Real.exp (conformalC (realNumerics tol) (k + 1))
          * ((2 * ((k + 1 : Nat) : ℝ) + 1) * (0 : ℝ) ^ (2 * (k + 1))) = 0 := by
      intro k _
      simp
    rw [Finset.sum_congr rfl this]
    simp [div_eq_mul_inv]

theorem foldl_mul_eq_mul_prod {K : Type} [CommMonoid K] (fac : Nat → K) (w : K) (d : Nat) :
    (List.range d).foldl (fun acc j => acc * fac j) w = w * ∏ j in Finset.range d, fac j := by
  induction d with
  | zero => simp
  | succ d ih =>
    rw [List.range_succ, List.foldl_append, ih, Finset.prod_range_succ, ← mul_assoc]
    rfl

/-- C14: the conformal weight correction is the derivative of the forward map,
in exact real arithmetic, for a facade that holds an engine and a conformal
transform whose truncation orders are at least 0.  `mapConformalWeights`
returns the array in which the weight of point `i` is multiplied by the product
over the dimensions `j` of `T_j'(x_ij)`, where `T_j` is the body of
`mapConformalCanonicalToTransformed` with the order of dimension `j` and `x_ij`
is coordinate `j` of point `i` of the canonical points of the engine.  The
factor of one coordinate `x ≠ 0` is `trans / c_m` with
`trans = 1 + Σ_{k ≥ 1} exp(c_k + 2k·log|x|)` and `c_m` the normaliser of the
forward map; the factor of a coordinate 0 is `1 / c_m`, which is `T'(0)`. -/
theorem conformal_weight_is_derivative {E : Type} (tol : ℝ) (ops : EngineOps E ℝ)
    (g : TasmanianSparseGrid E ℝ) (f : Family) (e : E) (hbase : g.base = some (f, e))
    (hset : g.conformal_asin_power.length ≠ 0)
    (num_dimensions num_points : Nat)
    (horder : ∀ j, j < num_dimensions → 0 ≤ g.conformal_asin_power.getD j 0)
    (weights : List ℝ) (i : Nat) (hi : i < num_points) (hw : i < weights.length) :
    (∃ r, mapConformalWeights (realNumerics tol) ops g num_dimensions num_points weights
        = Except.ok r ∧
      r.getD i 0 = weights.getD i 0 * ∏ j in Finset.range num_dimensions,
        deriv (conformalForward (realNumerics tol) (g.conformal_asin_power.getD j 0))
          ((ops.getPoints f e).getD (i * num_dimensions + j) 0)) ∧
    (∀ power : Int, 0 ≤ power → ∀ x w : ℝ, x ≠ 0 →
      conformalWeight (realNumerics tol) power x w
        = w * ((1 + ∑ k in Finset.range power.toNat,
            Real.exp (conformalDC (realNumerics tol) (k + 1)
              + ((2 * (k + 1) : Nat) : ℝ) * Real.log |x|))
          / conformalCM (realNumerics tol) power) ∧
      conformalWeight (realNumerics tol) power x w
        = w * deriv (conformalForward (realNumerics tol) power) x) ∧
    (∀ power : Int, 0 ≤ power → ∀ w : ℝ,
      conformalWeight (realNumerics tol) power 0 w
        = w * (1 / conformalCM (realNumerics tol) power) ∧
      deriv (conformalForward (realNumerics tol) power) 0
        = 1 / conformalCM (realNumerics tol) power) := by
  have hderiv : ∀ (power : Int) (x w : ℝ), 0 ≤ power →
      conformalWeight (realNumerics tol) power x w
        = w * deriv (conformalForward (realNumerics tol) power) x := by
    intro power x w hp
    rw [(conformalForward_hasDerivAt tol power x).deriv]
    exact conformalWeight_eq tol power hp x w
  refine ⟨?_, ?_, ?_⟩
  · simp only [mapConformalWeights, if_pos hset, hbase]
    refine ⟨_, rfl, ?_⟩
    · rw [forEachIndex_getD _ _ _ _ _ hw, Nat.zero_add, if_pos hi]
      have hstep : ∀ (d : Nat) (w : ℝ), d ≤ num_dimensions →
          (List.range d).foldl (fun acc j =>
            conformalWeight (realNumerics tol) (g.conformal_asin_power.getD j 0)
              ((ops.getPoints f e).getD (i * num_dimensions + j) 0) acc) w
          = w * ∏ j in Finset.range d,
            deriv (conformalForward (realNumerics tol) (g.conformal_asin_power.getD j 0))
              ((ops.getPoints f e).getD (i * num_dimensions + j) 0) := by
        intro d
        induction d with
        | zero => intro w _; simp
        | succ d ih =>
          intro w hd
          rw [List.range_succ, List.foldl_append, ih w (by omega), Finset.prod_range_succ,
            ← mul_assoc]
          simp only [List.foldl_cons, List.foldl_nil]
          exact hderiv _ _ _ (horder d (by omega))
      exact hstep num_dimensions _ le_rfl
  · intro power hp x w hx
    refine ⟨?_, hderiv power x w hp⟩
    unfold conformalWeight
    rw [if_pos hx, conformalWeightCM_eq, numTerms_of_nonneg power hp]
    simp only [realNumerics_exp, realNumerics_log, realNumerics_fabs]
    rw [foldl_tail_eq_sum]
  · intro power hp w
    have h0 : deriv (conformalForward (realNumerics tol) power) 0
        = 1 / conformalCM (realNumerics tol) power := by
      rw [(conformalForward_hasDerivAt tol power 0).deriv, numTerms_of_nonneg power hp,
        Finset.sum_range_succ', conformalC_zero]
      have : ∀ k ∈ Finset.range power.toNat,
          Real.exp (conformalC (realNumerics tol) (k + 1))
            * ((2 * ((k + 1 : Nat) : ℝ) + 1) * (0 : ℝ) ^ (2 * (k + 1))) = 0 := by
        intro k _
        simp
      rw [Finset.sum_congr rfl this]
      simp
    refine ⟨?_, h0⟩
    rw [hderiv power 0 w hp, h0]

/-- Witness of C14: the sample grid with the conformal order 1 in one dimension,
whose one point is 0; its weight 1 becomes `1 / c_m`. -/
theorem conformal_weight_is_derivative_witness :
    (∃ r, mapConformalWeights (realNumerics 0) (sampleOps ℝ) (sampleConformalGrid ℝ) 1 1 [1]
        = Except.ok r ∧
      r.getD 0 0 = ([1] : List ℝ).getD 0 0 * ∏ j in Finset.range 1,
        deriv (conformalForward (realNumerics 0)
          ((sampleConformalGrid ℝ).conformal_asin_power.getD j 0))
          (((sampleOps ℝ).getPoints Family.global ⟨1, 1, 1, 0⟩).getD (0 * 1 + j) 0)) ∧
    conformalWeight (realNumerics 0) 1 0 1 = 1 * (1 / conformalCM (realNumerics 0) 1) :=
  ⟨(conformal_weight_is_derivative 0 (sampleOps ℝ) (sampleConformalGrid ℝ) Family.global
      ⟨1, 1, 1, 0⟩ rfl (by simp [sampleConformalGrid]) 1 1
      (by
        intro j hj
        have : j = 0 := by omega
        subst this
        simp [sampleConformalGrid])
      [1] 0 (by decide) (by simp)).1,
   ((conformal_weight_is_derivative 0 (sampleOps ℝ) (sampleConformalGrid ℝ) Family.global
      ⟨1, 1, 1, 0⟩ rfl (by simp [sampleConformalGrid]) 1 1
      (by
        intro j hj
        have : j = 0 := by omega
        subst this
        simp [sampleConformalGrid])
      [1] 0 (by decide) (by simp)).2.2 1 (by norm_num) 1).1⟩

/-! ### The conformal map is odd and increasing (C15) -/

/-- C15: the ASIN conformal map is odd and strictly increasing.  In exact real
arithmetic, for every truncation order `power ≥ 0`, the body `T` of
`mapConformalCanonicalToTransformed` satisfies `T(-x) = -T(x)` for every `x`,
and `x < y` implies `T(x) < T(y)`. -/
theorem conformal_map_odd_increasing (tol : ℝ) (power : Int) (hp : 0 ≤ power) :
    (∀ x : ℝ, conformalForward (realNumerics tol) power (-x)
      = -conformalForward (realNumerics tol) power x) ∧
    (∀ x y : ℝ, x < y →
      conformalForward (realNumerics tol) power x < conformalForward (realNumerics tol) power y) := by
  refine ⟨?_, ?_⟩
  · intro x
    rw [conformalForward_eq, conformalForward_eq, ← neg_div, ← Finset.sum_neg_distrib]
    congr 1
    apply Finset.sum_congr rfl
    intro k _
    rw [Odd.neg_pow ⟨k, rfl⟩]
    ring
  · intro x y hxy
    rw [conformalForward_eq, conformalForward_eq]
    apply div_lt_div_of_pos_right _ (conformalCM_pos tol power hp)
    apply Finset.sum_lt_sum_of_nonempty
    · rw [numTerms_of_nonneg power hp]
      exact ⟨0, by simp⟩
    · intro k _
      apply mul_lt_mul_of_pos_left _ (Real.exp_pos _)
      exact Odd.strictMono_pow ⟨k, rfl⟩ hxy

/-- Witness of C15: the order 1, where `T(x) = (6 x + x^3) / 7`. -/
theorem conformal_map_odd_increasing_witness :
    conformalForward (realNumerics 0) 1 (-(1 / 2)) = -conformalForward (realNumerics 0) 1 (1 / 2) ∧
    conformalForward (realNumerics 0) 1 0 < conformalForward (realNumerics 0) 1 (1 / 2) :=
  ⟨(conformal_map_odd_increasing 0 1 (by decide)).1 (1 / 2),
   (conformal_map_odd_increasing 0 1 (by decide)).2 0 (1 / 2) (by norm_num)⟩

/-! ### The Newton iteration of the inverse conformal map (C16) -/

theorem pow_tangent (x y : ℝ) (hx : 0 < x) (hy : 0 ≤ y) (n : Nat) :
    x ^ (n + 1) + ((n : ℝ) + 1) * x ^ n * (y - x) ≤ y ^ (n + 1) := by
  have ha : (-2 : ℝ) ≤ y / x - 1 := by
    have : 0 ≤ y / x := div_nonneg hy hx.le
    linarith
  have hb := one_add_mul_le_pow ha (n + 1)
  have hxn : 0 < x ^ (n + 1) := pow_pos hx _
  have h1 : (1 + (y / x - 1)) ^ (n + 1) * x ^ (n + 1) = y ^ (n + 1) := by
    rw [← mul_pow]
    congr 1
    field_simp
  have h2 : (1 + ((n + 1 : Nat) : ℝ) * (y / x - 1)) * x ^ (n + 1)
      = x ^ (n + 1) + ((n : ℝ) + 1) * x ^ n * (y - x) := by
    push_cast
    field_simp
    ring
  rw [← h1, ← h2]
  exact mul_le_mul_of_nonneg_right hb hxn.le

theorem oddSeries_tangent (A : Nat → ℝ) (hA : ∀ k, 0 < A k) (n : Nat) (x y : ℝ)
    (hx : 0 < x) (hy : 0 ≤ y) :
    oddSeries A n x + evenSeries A n x * (y - x) ≤ oddSeries A n y := by
  unfold oddSeries evenSeries
  rw [Finset.sum_mul, ← Finset.sum_add_distrib]
  apply Finset.sum_le_sum
  intro k _
  have h := pow_tangent x y hx hy (2 * k)
  have hk := (hA k).le
  have : A k * x ^ (2 * k + 1) + A k * ((2 * (k : ℝ) + 1) * x ^ (2 * k)) * (y - x)
      = A k * (x ^ (2 * k + 1) + (((2 * k : Nat) : ℝ) + 1) * x ^ (2 * k) * (y - x)) := by
    push_cast
    ring
  rw [this]
  exact mul_le_mul_of_nonneg_left h hk

theorem evenSeries_mono (A : Nat → ℝ) (hA : ∀ k, 0 < A k) (n : Nat) (x y : ℝ)
    (hy : 0 ≤ y) (hyx : y ≤ x) : evenSeries A n y ≤ evenSeries A n x := by
  unfold evenSeries
  apply Finset.sum_le_sum
  intro k _
  apply mul_le_mul_of_nonneg_left _ (hA k).le
  apply mul_le_mul_of_nonneg_left _ (by positivity)
  exact pow_le_pow_left₀ hy hyx _

theorem evenSeries_pos (A : Nat → ℝ) (hA : ∀ k, 0 < A k) (n : Nat) (x : ℝ) :
    0 < evenSeries A (n + 1) x := by
  unfold evenSeries
  apply Finset.sum_pos'
  · intro k _
    apply mul_nonneg (hA k).le
    apply mul_nonneg (by positivity)
    rw [pow_mul]
    positivity
  · refine ⟨0, by simp, ?_⟩
    simpa using hA 0

theorem oddSeries_le (A : Nat → ℝ) (hA : ∀ k, 0 < A k) (n : Nat) (x : ℝ) (hx : 0 ≤ x) :
    oddSeries A n x ≤ x * evenSeries A n x := by
  unfold oddSeries evenSeries
  rw [Finset.mul_sum]
  apply Finset.sum_le_sum
  intro k _
  have hk := (hA k).le
  have h1 : x * (A k * ((2 * (k : ℝ) + 1) * x ^ (2 * k)))
      = A k * x ^ (2 * k + 1) + 2 * k * (A k * x ^ (2 * k + 1)) := by ring
  rw [h1]
  have : 0 ≤ 2 * (k : ℝ) * (A k * x ^ (2 * k + 1)) := by positivity
  linarith

/-- The residual and the derivative sum of the inverse map at a positive iterate. -/
theorem conformalResidual_eq (tol : ℝ) (power : Int) (hp : 0 ≤ power) (b x : ℝ) (hx : 0 < x) :
    conformalResidual (realNumerics tol) power b x
      = (oddSeries (fun k => Real.exp (conformalC (realNumerics tol) k)) (numTerms power) x
            / conformalCM (realNumerics tol) power - b,
         evenSeries (fun k => Real.exp (conformalC (realNumerics tol) k)) (numTerms power) x) := by
  unfold conformalResidual oddSeries evenSeries
  rw [numTerms_of_nonneg power hp]
  simp only [realNumerics_exp, realNumerics_log, realNumerics_fabs]
  rw [foldl_tail_eq_sum, foldl_tail_eq_sum, Finset.sum_range_succ', Finset.sum_range_succ']
  have h1 : ∀ k ∈ Finset.range power.toNat,
      Real.exp (conformalC (realNumerics tol) (k + 1)
          + ((2 * (k + 1) + 1 : Nat) : ℝ) * Real.log |x|)
        = Real.exp (conformalC (realNumerics tol) (k + 1)) * x ^ (2 * (k + 1) + 1) := by
    intro k _
    rw [exp_add_mul_log _ _ _ hx.ne', abs_of_pos hx]
  have h2 : ∀ k ∈ Finset.range power.toNat,
      Real.exp (conformalDC (realNumerics tol) (k + 1)
          + ((2 * (k + 1) : Nat) : ℝ) * Real.log |x|)
        = Real.exp (conformalC (realNumerics tol) (k + 1))
          * ((2 * ((k + 1 : Nat) : ℝ) + 1) * x ^ (2 * (k + 1))) := by
    intro k _
    rw [exp_add_mul_log _ _ _ hx.ne', exp_conformalDC, abs_of_pos hx]
    ring
  rw [Finset.sum_congr rfl h1, Finset.sum_congr rfl h2, conformalC_zero]
  simp only [Nat.cast_zero, mul_zero, zero_add, pow_zero, mul_one, Real.exp_zero, pow_one,
    one_mul]
  congr 1
  · rw [add_comm]
  · rw [add_comm]

theorem conformalNewton_fuel_succ (m : Numerics ℝ) (power : Int) (b : ℝ) (n : Nat) :
    ∀ (x : ℝ) (rdr : ℝ × ℝ) (y : ℝ), conformalNewton m power b n x rdr = some y →
      conformalNewton m power b (n + 1) x rdr = some y := by
  induction n with
  | zero =>
    intro x rdr y h
    simp only [conformalNewton] at h ⊢
    by_cases hc : m.fabs rdr.1 > m.num_tol
    · rw [if_pos hc] at h; cases h
    · rw [if_neg hc] at h ⊢; exact h
  | succ n ih =>
    intro x rdr y h
    rw [conformalNewton] at h ⊢
    by_cases hc : m.fabs rdr.1 > m.num_tol
    · rw [if_pos hc] at h ⊢
      exact ih _ _ _ h
    · rw [if_neg hc] at h ⊢; exact h

theorem conformalNewton_fuel_le (m : Numerics ℝ) (power : Int) (b : ℝ) (n n1 : Nat)
    (h : n ≤ n1) (x : ℝ) (rdr : ℝ × ℝ) (y : ℝ)
    (hy : conformalNewton m power b n x rdr = some y) :
    conformalNewton m power b n1 x rdr = some y := by
  induction n1 with
  | zero =>
    have : n = 0 := by omega
    subst this; exact hy
  | succ n1 ih =>
    by_cases hn : n = n1 + 1
    · subst hn; exact hy
    · exact conformalNewton_fuel_succ m power b n1 x rdr y (ih (by omega))

/-- Once an iterate is positive and not below the root, every later iterate is:
the iterates decrease by more than `δ` each pass, so the loop ends. -/
theorem conformalNewton_descent (tol : ℝ) (htol : 0 < tol) (power : Int) (hp : 0 ≤ power)
    (b : ℝ) (hb : 0 < b) (M : ℝ) (hM : 0 < M) :
    ∀ (n : Nat) (x : ℝ), 0 < x →
      b * conformalCM (realNumerics tol) power
        ≤ oddSeries (fun k => Real.exp (conformalC (realNumerics tol) k)) (numTerms power) x →
      evenSeries (fun k => Real.exp (conformalC (realNumerics tol) k)) (numTerms power) x ≤ M →
      x < n * (tol * conformalCM (realNumerics tol) power / M) →
      ∃ y, conformalNewton (realNumerics tol) power b n x
          (conformalResidual (realNumerics tol) power b x) = some y ∧ 0 < y ∧
        |(conformalResidual (realNumerics tol) power b y).1| ≤ tol := by
  have hcm := conformalCM_pos tol power hp
  have hA : ∀ k, 0 < Real.exp (conformalC (realNumerics tol) k) := fun k => Real.exp_pos _
  have hδ : 0 < tol * conformalCM (realNumerics tol) power / M := by positivity
  intro n
  induction n with
  | zero =>
    intro x hx _ _ hlt
    simp at hlt
    linarith
  | succ n ih =>
    intro x hx hG hD hlt
    rw [conformalNewton]
    simp only [realNumerics_fabs]
    by_cases hc : |(conformalResidual (realNumerics tol) power b x).1| > (realNumerics tol).num_tol
    · rw [if_pos hc]
      rw [conformalResidual_eq tol power hp b x hx] at hc ⊢
      simp only at hc ⊢
      set S := oddSeries (fun k => Real.exp (conformalC (realNumerics tol) k)) (numTerms power)
        with hS
      set D := evenSeries (fun k => Real.exp (conformalC (realNumerics tol) k)) (numTerms power)
        with hDdef
      set cm := conformalCM (realNumerics tol) power with hcmdef
      have hDpos : 0 < D x := by
        rw [hDdef, numTerms_of_nonneg power hp]; exact evenSeries_pos _ hA _ _
      have hr0 : 0 ≤ S x / cm - b := by
        rw [sub_nonneg, le_div_iff₀ hcm]; exact hG
      rw [abs_of_nonneg hr0] at hc
      have hc1 : tol < S x / cm - b := hc
      have hrcm : (S x / cm - b) * cm = S x - b * cm := by field_simp; ring
      have hGt : tol * cm < S x - b * cm := by
        rw [← hrcm]; exact mul_lt_mul_of_pos_right hc1 hcm
      have hSD : S x ≤ x * D x := oddSeries_le _ hA _ x hx.le
      have hstep : (S x / cm - b) * cm / D x = (S x - b * cm) / D x := by rw [hrcm]
      rw [hstep]
      set x1 := x - (S x - b * cm) / D x with hx1
      have hbcm : 0 < b * cm := mul_pos hb hcm
      have hx1pos : 0 < x1 := by
        rw [hx1, sub_pos, div_lt_iff₀ hDpos]
        linarith
      have hx1le : x1 ≤ x := by
        rw [hx1]
        have : 0 ≤ (S x - b * cm) / D x := div_nonneg (by linarith) hDpos.le
        linarith
      have htan := oddSeries_tangent _ hA (numTerms power) x x1 hx hx1pos.le
      have hG1 : b * cm ≤ S x1 := by
        have h1 : D x * (x1 - x) = -(S x - b * cm) := by
          rw [hx1]; field_simp; ring
        rw [← hS, ← hDdef] at htan
        rw [h1] at htan
        linarith
      have hD1 : D x1 ≤ M := le_trans (evenSeries_mono _ hA _ x x1 hx1pos.le hx1le) hD
      have hdec : tol * cm / M < (S x - b * cm) / D x := by
        calc tol * cm / M < (S x - b * cm) / M := div_lt_div_of_pos_right hGt hM
          _ ≤ (S x - b * cm) / D x :=
            div_le_div_of_nonneg_left (by linarith) hDpos hD
      have hlt1 : x1 < n * (tol * cm / M) := by
        rw [hx1]
        push_cast at hlt
        linarith
      exact ih x1 hx1pos hG1 hD1 hlt1
    · rw [if_neg hc]
      exact ⟨x, rfl, hx, not_lt.mp hc⟩

theorem conformalForward_neg (tol : ℝ) (power : Int) (x : ℝ) :
    conformalForward (realNumerics tol) power (-x)
      = -conformalForward (realNumerics tol) power x := by
  rw [conformalForward_eq, conformalForward_eq, ← neg_div, ← Finset.sum_neg_distrib]
  congr 1
  apply Finset.sum_congr rfl
  intro k _
  rw [Odd.neg_pow ⟨k, rfl⟩]
  ring

theorem conformalResidual_fst (tol : ℝ) (power : Int) (hp : 0 ≤ power) (b y : ℝ) (hy : 0 < y) :
    (conformalResidual (realNumerics tol) power b y).1
      = conformalForward (realNumerics tol) power y - b := by
  rw [conformalResidual_eq tol power hp b y hy, conformalForward_eq]
  rfl

/-- The Newton loop started at `b > 0` ends: some number of passes is enough,
and the iterate at exit is positive with a residual within the tolerance. -/
theorem conformalNewton_terminates (tol : ℝ) (htol : 0 < tol) (power : Int) (hp : 0 ≤ power)
    (b : ℝ) (hb : 0 < b) :
    ∃ (n : Nat) (y : ℝ), conformalNewton (realNumerics tol) power b n b
        (conformalResidual (realNumerics tol) power b b) = some y ∧ 0 < y ∧
      |(conformalResidual (realNumerics tol) power b y).1| ≤ tol := by
  have hcm := conformalCM_pos tol power hp
  have hA : ∀ k, 0 < Real.exp (conformalC (realNumerics tol) k) := fun k => Real.exp_pos _
  by_cases hc : |(conformalResidual (realNumerics tol) power b b).1| > (realNumerics tol).num_tol
  · set S := oddSeries (fun k => Real.exp (conformalC (realNumerics tol) k)) (numTerms power)
      with hS
    set D := evenSeries (fun k => Real.exp (conformalC (realNumerics tol) k)) (numTerms power)
      with hDdef
    set cm := conformalCM (realNumerics tol) power with hcmdef
    have hres : conformalResidual (realNumerics tol) power b b = (S b / cm - b, D b) :=
      conformalResidual_eq tol power hp b b hb
    have hDpos : ∀ z, 0 < D z := by
      intro z
      rw [hDdef, numTerms_of_nonneg power hp]; exact evenSeries_pos _ hA _ _
    have hrcm : (S b / cm - b) * cm = S b - b * cm := by field_simp; ring
    have hSD : S b ≤ b * D b := oddSeries_le _ hA _ b hb.le
    have hbcm : 0 < b * cm := mul_pos hb hcm
    set x1 := b - (S b - b * cm) / D b with hx1
    have hx1pos : 0 < x1 := by
      rw [hx1, sub_pos, div_lt_iff₀ (hDpos b)]
      linarith
    have htan := oddSeries_tangent _ hA (numTerms power) b x1 hb hx1pos.le
    have hG1 : b * cm ≤ S x1 := by
      have h1 : D b * (x1 - b) = -(S b - b * cm) := by
        rw [hx1]; field_simp [(hDpos b).ne']; ring
      rw [← hS, ← hDdef] at htan
      rw [h1] at htan
      linarith
    have hδ : 0 < tol * cm / D x1 := div_pos (mul_pos htol hcm) (hDpos x1)
    obtain ⟨n, hn⟩ := exists_nat_gt (x1 / (tol * cm / D x1))
    have hlt : x1 < n * (tol * cm / D x1) := by
      rwa [div_lt_iff₀ hδ] at hn
    obtain ⟨y, hy, hypos, hyres⟩ := conformalNewton_descent tol htol power hp b hb (D x1)
      (hDpos x1) n x1 hx1pos hG1 le_rfl hlt
    refine ⟨n + 1, y, ?_, hypos, hyres⟩
    rw [conformalNewton]
    simp only [realNumerics_fabs]
    rw [if_pos hc]
    have hstep : b - (conformalResidual (realNumerics tol) power b b).1
        * conformalCM (realNumerics tol) power
        / (conformalResidual (realNumerics tol) power b b).2 = x1 := by
      rw [hres, hx1]
      simp only
      rw [hrcm]
    simp only [hstep]
    exact hy
  · refine ⟨0, b, ?_, hb, not_lt.mp hc⟩
    rw [conformalNewton]
    simp only [realNumerics_fabs]
    rw [if_neg hc]

/-- In exact arithmetic with a positive tolerance, the inverse conformal map
of an order at least 0 returns on every input once the fuel is large enough,
and the value returned is mapped by the forward map to within the tolerance
of the input. -/
theorem conformalInverse_terminates (tol : ℝ) (htol : 0 < tol) (power : Int) (hp : 0 ≤ power)
    (x : ℝ) :
    ∃ (fuel0 : Nat) (y : ℝ),
      (∀ fuel, fuel0 ≤ fuel →
        conformalInverse (realNumerics tol) fuel power x = Except.ok y) ∧
      |conformalForward (realNumerics tol) power y - x| ≤ tol := by
  by_cases hx : x ≠ 0
  · obtain ⟨n, y, hy, hypos, hyres⟩ :=
      conformalNewton_terminates tol htol power hp |x| (abs_pos.mpr hx)
    refine ⟨n, y * (if x > 0 then 1 else -1), ?_, ?_⟩
    · intro fuel hfuel
      unfold conformalInverse
      rw [if_pos hx]
      simp only [realNumerics_fabs, conformalNewton_fuel_le _ _ _ n fuel hfuel _ _ _ hy]
    · rw [conformalResidual_fst tol power hp _ y hypos] at hyres
      by_cases hpos : x > 0
      · rw [if_pos hpos, mul_one]
        rwa [abs_of_pos hpos] at hyres
      · have hneg : x < 0 := lt_of_le_of_ne (not_lt.mp hpos) (fun h => hx h)
        rw [if_neg hpos, mul_neg, mul_one, conformalForward_neg]
        rw [abs_of_neg hneg] at hyres
        have : -conformalForward (realNumerics tol) power y - x
            = -(conformalForward (realNumerics tol) power y - -x) := by ring
        rw [this, abs_neg]
        exact hyres
  · have h0 : x = 0 := not_not.mp hx
    subst h0
    refine ⟨0, 0, ?_, ?_⟩
    · intro fuel _
      simp [conformalInverse]
    · simp [conformalForward, htol.le]

/-- The residual and the derivative sum of the order 1, where the forward map
is `(6 x + x^3) / 7`. -/
theorem conformalResidual_one (tol b x : ℝ) (hx : 0 < x) :
    conformalResidual (realNumerics tol) 1 b x = ((6 * x + x ^ 3) / 7 - b, 1 + x ^ 2 / 2) := by
  rw [conformalResidual_eq tol 1 (by decide) b x hx, conformalCM_one]
  unfold oddSeries evenSeries
  rw [numTerms_one]
  simp only [Finset.sum_range_succ, Finset.sum_range_zero, conformalC_zero, exp_conformalC_one,
    Real.exp_zero]
  congr 1
  · norm_num
    ring
  · norm_num
    ring

/-- With the order 1, the loop started far enough from the root is still
running after `n` passes: each pass at most halves the iterate. -/
theorem conformalNewton_running (tol b y : ℝ) (hb : 0 < b) (htb : tol < b) (hy3 : 3 ≤ y)
    (hy : 14 * b ≤ y ^ 3) :
    ∀ (n : Nat) (x : ℝ), 2 ^ n * y ≤ x →
      conformalNewton (realNumerics tol) 1 b n x (conformalResidual (realNumerics tol) 1 b x)
        = none := by
  have hfacts : ∀ (n : Nat) (x : ℝ), 2 ^ n * y ≤ x →
      0 < x ∧ 3 ≤ x ∧ tol < (6 * x + x ^ 3) / 7 - b ∧ 0 < (6 * x + x ^ 3) / 7 - b := by
    intro n x hx
    have h2 : (1 : ℝ) ≤ 2 ^ n := one_le_pow₀ (by norm_num)
    have hyx : y ≤ x := by nlinarith
    have hx3 : 3 ≤ x := le_trans hy3 hyx
    have hx0 : 0 < x := by linarith
    have hcube : y ^ 3 ≤ x ^ 3 := pow_le_pow_left₀ (by linarith) hyx 3
    have hr : b < (6 * x + x ^ 3) / 7 - b := by
      rw [lt_sub_iff_add_lt, lt_div_iff₀ (by norm_num)]
      linarith
    exact ⟨hx0, hx3, lt_trans htb hr, lt_trans hb hr⟩
  intro n
  induction n with
  | zero =>
    intro x hx
    obtain ⟨hx0, _, hr, hr0⟩ := hfacts 0 x hx
    have hr1 : (6 * x + x ^ 3) / 7 - b > (realNumerics tol).num_tol := hr
    rw [conformalNewton, conformalResidual_one tol b x hx0]
    simp only [realNumerics_fabs]
    rw [if_pos (by rw [abs_of_pos hr0]; exact hr1)]
  | succ n ih =>
    intro x hx
    obtain ⟨hx0, hx3, hr, hr0⟩ := hfacts (n + 1) x hx
    have hr1 : (6 * x + x ^ 3) / 7 - b > (realNumerics tol).num_tol := hr
    rw [conformalNewton, conformalResidual_one tol b x hx0]
    simp only [realNumerics_fabs]
    rw [if_pos (by rw [abs_of_pos hr0]; exact hr1), conformalCM_one]
    apply ih
    have hden : (0 : ℝ) < 1 + x ^ 2 / 2 := by positivity
    have hhalf : ((6 * x + x ^ 3) / 7 - b) * (7 / 6) / (1 + x ^ 2 / 2) ≤ x / 2 := by
      rw [div_le_iff₀ hden]
      nlinarith [mul_nonneg hx0.le (mul_nonneg hx0.le hx0.le), mul_nonneg (sub_nonneg.mpr hx3) hx0.le]
    have hpow : (2 : ℝ) ^ (n + 1) * y = 2 * (2 ^ n * y) := by ring
    rw [hpow] at hx
    linarith

/-- With the order 1, the input `2^n · y` keeps the Newton loop running for
more than `n` passes, for every `y` that is at least `4 · 2^n` and above the
tolerance. -/
theorem conformalInverse_running (tol : ℝ) (n : Nat) (y : ℝ) (hy4 : 4 * 2 ^ n ≤ y)
    (hty : tol < y) :
    conformalInverse (realNumerics tol) n 1 (2 ^ n * y)
      = Except.error (Exn.no_return "the Newton iteration is still running") := by
  have h2 : (1 : ℝ) ≤ 2 ^ n := one_le_pow₀ (by norm_num)
  have hy3 : 3 ≤ y := by linarith
  have hy0 : 0 < y := by linarith
  have hb : 0 < 2 ^ n * y := by positivity
  have htb : tol < 2 ^ n * y := by nlinarith
  have hsq : 14 * 2 ^ n ≤ y ^ 2 := by nlinarith
  have hcube : 14 * (2 ^ n * y) ≤ y ^ 3 := by nlinarith
  unfold conformalInverse
  rw [if_pos hb.ne']
  simp only [realNumerics_fabs]
  rw [abs_of_pos hb]
  simp only [conformalNewton_running tol (2 ^ n * y) y hb htb hy3 hcube n (2 ^ n * y) le_rfl]

theorem conformalInverse_running_exists (tol : ℝ) (n : Nat) :
    ∃ x : ℝ, conformalInverse (realNumerics tol) n 1 x
      = Except.error (Exn.no_return "the Newton iteration is still running") :=
  ⟨2 ^ n * (4 * 2 ^ n + |tol| + 1),
    conformalInverse_running tol n _ (by linarith [abs_nonneg tol])
      (by linarith [le_abs_self tol, pow_pos (two_pos : (0 : ℝ) < 2) n])⟩

/-- The Newton loop has no iteration cap, also in exact real arithmetic.  With
the tolerance `10^-12` and the truncation order 1, the input 5 has not passed the
test of the `while` before any pass, the input 18 is still in the loop after
one pass, and no number `cap` of passes is enough for every truncation order
and every input. -/
theorem newton_iteration_has_no_cap :
    conformalInverse (realNumerics (1 / 10 ^ 12)) 0 1 5
      = Except.error (Exn.no_return "the Newton iteration is still running") ∧
    conformalInverse (realNumerics (1 / 10 ^ 12)) 1 1 18
      = Except.error (Exn.no_return "the Newton iteration is still running") ∧
    ¬ ∃ cap : Nat, ∀ (power : Int) (x : ℝ), ∃ y : ℝ,
      conformalInverse (realNumerics (1 / 10 ^ 12)) cap power x = Except.ok y := by
  refine ⟨?_, ?_, ?_⟩
  · have h := conformalInverse_running (1 / 10 ^ 12) 0 5 (by norm_num) (by norm_num)
    have e : (2 : ℝ) ^ 0 * 5 = 5 := by norm_num
    rwa [e] at h
  · have h := conformalInverse_running (1 / 10 ^ 12) 1 9 (by norm_num) (by norm_num)
    have e : (2 : ℝ) ^ 1 * 9 = 18 := by norm_num
    rwa [e] at h
  · rintro ⟨cap, h⟩
    obtain ⟨x, hx⟩ := conformalInverse_running_exists (1 / 10 ^ 12) cap
    obtain ⟨y, hy⟩ := h 1 x
    rw [hx] at hy
    cases hy

/-- In exact real arithmetic the Newton loop of
`mapConformalTransformedToCanonical` ends on every input, but after no fixed
number of passes.  With a tolerance `tol > 0`: for every truncation order `power ≥ 0`
and every input coordinate `x` there is a number of passes `fuel0` with which,
and with every larger number, the loop returns one and the same value `y`, and
the forward map sends `y` to within `tol` of `x`; and for the order 1 and every
number `cap` there is an input on which the loop is still running after `cap`
passes. -/
theorem newton_iteration_terminates_uncapped (tol : ℝ) (htol : 0 < tol) :
    (∀ power : Int, 0 ≤ power → ∀ x : ℝ, ∃ (fuel0 : Nat) (y : ℝ),
      (∀ fuel, fuel0 ≤ fuel →
        conformalInverse (realNumerics tol) fuel power x = Except.ok y) ∧
      |conformalForward (realNumerics tol) power y - x| ≤ tol) ∧
    (∀ cap : Nat, ∃ x : ℝ, conformalInverse (realNumerics tol) cap 1 x
      = Except.error (Exn.no_return "the Newton iteration is still running")) :=
  ⟨fun power hp x => conformalInverse_terminates tol htol power hp x,
   fun cap => conformalInverse_running_exists tol cap⟩

/-- An instance in exact real arithmetic: the tolerance 1, the order 1 and the
input 5. -/
theorem newton_iteration_terminates_uncapped_witness :
    (∃ (fuel0 : Nat) (y : ℝ),
      (∀ fuel, fuel0 ≤ fuel → conformalInverse (realNumerics 1) fuel 1 5 = Except.ok y) ∧
      |conformalForward (realNumerics 1) 1 y - 5| ≤ 1) ∧
    ∃ x : ℝ, conformalInverse (realNumerics 1) 3 1 x
      = Except.error (Exn.no_return "the Newton iteration is still running") :=
  ⟨(newton_iteration_terminates_uncapped 1 one_pos).1 1 (by decide) 5,
   (newton_iteration_terminates_uncapped 1 one_pos).2 3⟩

/-! ### The Newton loop in double precision -/

/-- A loop whose states stay in a list on which the test of the `while` holds
is still running after every number of passes. -/
theorem conformalNewton_cycle {K : Type} [Zero K] [One K] [Add K] [Sub K] [Mul K] [Div K]
    [NatCast K] [LT K] [DecidableRel (fun (x y : K) => x < y)]
    (m : Numerics K) (power : Int) (b : K) (S : List (K × K × K))
    (hstep : ∀ s ∈ S, conformalNewtonPass m power b s ∈ S)
    (hrun : ∀ s ∈ S, m.fabs s.2.1 > m.num_tol) :
    ∀ (fuel : Nat) (s : K × K × K), s ∈ S → conformalNewton m power b fuel s.1 s.2 = none := by
  intro fuel
  induction fuel with
  | zero =>
    intro s hs
    rw [conformalNewton, if_pos (hrun s hs)]
  | succ n ih =>
    intro s hs
    rw [conformalNewton, if_pos (hrun s hs)]
    exact ih _ (hstep s hs)

theorem ofTable_of_agree (table : List (Dbl × Dbl)) (f : Dbl → Dbl)
    (h : ∀ p ∈ table, f p.1 = p.2) (x : Dbl) (hx : (table.lookup x).isSome = true) :
    f x = Dbl.ofTable table x := by
  induction table with
  | nil => simp [List.lookup] at hx
  | cons p ps ih =>
    obtain ⟨k, v⟩ := p
    unfold Dbl.ofTable
    by_cases hk : x = k
    · subst hk
      simp only [List.lookup, beq_self_eq_true, Option.getD_some]
      exact h (x, v) (List.mem_cons_self _ _)
    · have hb : (x == k) = false := by simpa using hk
      simp only [List.lookup, hb] at hx ⊢
      exact ih (fun p hp => h p (List.mem_cons_of_mem _ hp)) hx

theorem cmath_lgamma (libm : Numerics Dbl) (h : ∀ p ∈ libmLgammaSamples, libm.lgamma p.1 = p.2)
    (x : Dbl) (hx : (libmLgammaSamples.lookup x).isSome = true) :
    (cmath libm).lgamma x = sampleLibm.lgamma x :=
  ofTable_of_agree libmLgammaSamples libm.lgamma h x hx

theorem cmath_log (libm : Numerics Dbl) (h : ∀ p ∈ libmLogSamples, libm.log p.1 = p.2)
    (x : Dbl) (hx : (libmLogSamples.lookup x).isSome = true) :
    (cmath libm).log x = sampleLibm.log x :=
  ofTable_of_agree libmLogSamples libm.log h x hx

theorem cmath_exp (libm : Numerics Dbl) (h : ∀ p ∈ libmExpSamples, libm.exp p.1 = p.2)
    (x : Dbl) (hx : (libmExpSamples.lookup x).isSome = true) :
    (cmath libm).exp x = sampleLibm.exp x :=
  ofTable_of_agree libmExpSamples libm.exp h x hx

theorem cmath_conformalDC (libm : Numerics Dbl)
    (hlgamma : ∀ p ∈ libmLgammaSamples, libm.lgamma p.1 = p.2)
    (hlog : ∀ p ∈ libmLogSamples, libm.log p.1 = p.2) :
    conformalDC (cmath libm) 1 = conformalDC sampleLibm 1 := by
  simp only [conformalDC, logFactorial]
  rw [cmath_lgamma libm hlgamma _ (by decide!), cmath_lgamma libm hlgamma _ (by decide!),
    cmath_log libm hlog _ (by decide!)]

theorem cmath_conformalC (libm : Numerics Dbl)
    (hlgamma : ∀ p ∈ libmLgammaSamples, libm.lgamma p.1 = p.2)
    (hlog : ∀ p ∈ libmLogSamples, libm.log p.1 = p.2) :
    conformalC (cmath libm) 0 = conformalC sampleLibm 0 ∧
      conformalC (cmath libm) 1 = conformalC sampleLibm 1 := by
  constructor
  · simp only [conformalC, logFactorial]
    rw [cmath_lgamma libm hlgamma _ (by decide!), cmath_lgamma libm hlgamma _ (by decide!),
      cmath_log libm hlog _ (by decide!)]
  · simp only [conformalC, logFactorial]
    rw [cmath_lgamma libm hlgamma _ (by decide!), cmath_lgamma libm hlgamma _ (by decide!),
      cmath_log libm hlog _ (by decide!), cmath_log libm hlog _ (by decide!)]

theorem cmath_conformalCM (libm : Numerics Dbl)
    (hlgamma : ∀ p ∈ libmLgammaSamples, libm.lgamma p.1 = p.2)
    (hlog : ∀ p ∈ libmLogSamples, libm.log p.1 = p.2)
    (hexp : ∀ p ∈ libmExpSamples, libm.exp p.1 = p.2) :
    conformalCM (cmath libm) 1 = conformalCM sampleLibm 1 := by
  have hl : List.range (numTerms 1) = [0, 1] := by decide
  simp only [conformalCM, hl, List.foldl]
  rw [(cmath_conformalC libm hlgamma hlog).1, (cmath_conformalC libm hlgamma hlog).2,
    cmath_exp libm hexp _ (by decide!), cmath_exp libm hexp _ (by decide!)]

theorem cmath_conformalResidual (libm : Numerics Dbl)
    (hlgamma : ∀ p ∈ libmLgammaSamples, libm.lgamma p.1 = p.2)
    (hlog : ∀ p ∈ libmLogSamples, libm.log p.1 = p.2)
    (hexp : ∀ p ∈ libmExpSamples, libm.exp p.1 = p.2)
    (b x : Dbl) (hx : residualInTables x = true) :
    conformalResidual (cmath libm) 1 b x = conformalResidual sampleLibm 1 b x := by
  have hl : (List.range (numTerms 1)).tail = [1] := by decide
  simp only [residualInTables, Bool.and_eq_true] at hx
  have h1 : (cmath libm).log ((cmath libm).fabs x) = sampleLibm.log (sampleLibm.fabs x) :=
    cmath_log libm hlog _ hx.1
  simp only [conformalResidual, hl, List.foldl]
  have h2 : (cmath libm).exp (conformalC sampleLibm 1 +
        ((2 * 1 + 1 : Nat) : Dbl) * sampleLibm.log (sampleLibm.fabs x)) =
      sampleLibm.exp (conformalC sampleLibm 1 +
        ((2 * 1 + 1 : Nat) : Dbl) * sampleLibm.log (sampleLibm.fabs x)) :=
    cmath_exp libm hexp _ hx.2.1
  have h3 : (cmath libm).exp (conformalDC sampleLibm 1 +
        ((2 * 1 : Nat) : Dbl) * sampleLibm.log (sampleLibm.fabs x)) =
      sampleLibm.exp (conformalDC sampleLibm 1 +
        ((2 * 1 : Nat) : Dbl) * sampleLibm.log (sampleLibm.fabs x)) :=
    cmath_exp libm hexp _ hx.2.2
  rw [h1, (cmath_conformalC libm hlgamma hlog).2, cmath_conformalDC libm hlgamma hlog,
    cmath_conformalCM libm hlgamma hlog hexp, h2, h3]

theorem cmath_conformalNewtonPass (libm : Numerics Dbl)
    (hlgamma : ∀ p ∈ libmLgammaSamples, libm.lgamma p.1 = p.2)
    (hlog : ∀ p ∈ libmLogSamples, libm.log p.1 = p.2)
    (hexp : ∀ p ∈ libmExpSamples, libm.exp p.1 = p.2)
    (b : Dbl) (s : Dbl × Dbl × Dbl)
    (hs : residualInTables (s.1 - s.2.1 * conformalCM sampleLibm 1 / s.2.2) = true) :
    conformalNewtonPass (cmath libm) 1 b s = conformalNewtonPass sampleLibm 1 b s := by
  simp only [conformalNewtonPass]
  rw [cmath_conformalCM libm hlgamma hlog hexp,
    cmath_conformalResidual libm hlgamma hlog hexp b _ hs]

theorem sampleNewtonStates_running :
    ∀ s ∈ sampleNewtonStates, sampleLibm.fabs s.2.1 > (1e-12 : Dbl) := by
  decide!

theorem sampleNewtonStates_step :
    ∀ s ∈ sampleNewtonStates, conformalNewtonPass sampleLibm 1 4096 s ∈ sampleNewtonStates := by
  decide!

theorem sampleNewtonStates_inTables :
    ∀ s ∈ sampleNewtonStates,
      residualInTables (s.1 - s.2.1 * conformalCM sampleLibm 1 / s.2.2) = true := by
  decide!

theorem sampleNewtonStates_start :
    residualInTables 4096 = true ∧
      ((4096 : Dbl), conformalResidual sampleLibm 1 4096 4096) ∈ sampleNewtonStates := by
  decide!

theorem conformalNewton_double_running (libm : Numerics Dbl) (htol : libm.num_tol = 1e-12)
    (hlgamma : ∀ p ∈ libmLgammaSamples, libm.lgamma p.1 = p.2)
    (hlog : ∀ p ∈ libmLogSamples, libm.log p.1 = p.2)
    (hexp : ∀ p ∈ libmExpSamples, libm.exp p.1 = p.2) (fuel : Nat) :
    conformalNewton (cmath libm) 1 4096 fuel 4096 (conformalResidual (cmath libm) 1 4096 4096) =
      none := by
  rw [cmath_conformalResidual libm hlgamma hlog hexp _ _ sampleNewtonStates_start.1]
  refine conformalNewton_cycle (cmath libm) 1 4096 sampleNewtonStates ?_ ?_ fuel
    ((4096 : Dbl), conformalResidual sampleLibm 1 4096 4096) sampleNewtonStates_start.2
  · intro s hs
    rw [cmath_conformalNewtonPass libm hlgamma hlog hexp _ s (sampleNewtonStates_inTables s hs)]
    exact sampleNewtonStates_step s hs
  · intro s hs
    show Dbl.abs s.2.1 > libm.num_tol
    rw [htol]
    exact sampleNewtonStates_running s hs

theorem conformalInverse_double_running (libm : Numerics Dbl) (htol : libm.num_tol = 1e-12)
    (hlgamma : ∀ p ∈ libmLgammaSamples, libm.lgamma p.1 = p.2)
    (hlog : ∀ p ∈ libmLogSamples, libm.log p.1 = p.2)
    (hexp : ∀ p ∈ libmExpSamples, libm.exp p.1 = p.2) (fuel : Nat) :
    conformalInverse (cmath libm) fuel 1 4096 =
      Except.error (Exn.no_return "the Newton iteration is still running") := by
  have h0 : (4096 : Dbl) ≠ 0 := by decide
  have ha : (cmath libm).fabs 4096 = 4096 := by
    show Dbl.abs 4096 = 4096
    decide
  rw [conformalInverse, if_pos h0]
  simp only [ha]
  rw [conformalNewton_double_running libm htol hlgamma hlog hexp fuel]

/-- C16, the defect: in double precision the Newton loop does not end on the
input 4096 with the truncation order 1.  For every C library whose `lgamma`,
`log` and `exp` return the listed values (the doubles nearest to the exact
values) and with `TSG_NUM_TOL = 1e-12`, and for every number `fuel` of passes:
the loop of `mapConformalTransformedToCanonical` is still running after `fuel`
passes, for the one coordinate, for the array `{4096}` of a grid in one
dimension with the conformal order 1 that `setConformalTransformASIN` has set,
and in `evaluate` on the point 4096 of that grid.  The iterates fall into a
cycle of five doubles next to the root, at which the residual is `-1.75 * 2^-38`
or `2^-39`, above the tolerance. -/
theorem newton_iteration_hangs_in_double (libm : Numerics Dbl) (htol : libm.num_tol = 1e-12)
    (hlgamma : ∀ p ∈ libmLgammaSamples, libm.lgamma p.1 = p.2)
    (hlog : ∀ p ∈ libmLogSamples, libm.log p.1 = p.2)
    (hexp : ∀ p ∈ libmExpSamples, libm.exp p.1 = p.2) (fuel : Nat) :
    setConformalTransformASIN (sampleOps Dbl) [1] (sampleGrid Dbl Family.global []) =
      Outcome.ok sampleDoubleConformalGrid ∧
    conformalInverse (cmath libm) fuel 1 4096 =
      Except.error (Exn.no_return "the Newton iteration is still running") ∧
    mapConformalTransformedToCanonical (cmath libm) fuel sampleDoubleConformalGrid 1 1 [4096] =
      Except.error (Exn.no_return "the Newton iteration is still running") ∧
    evaluate (cmath libm) fuel (sampleOps Dbl) [4096] sampleDoubleConformalGrid =
      Except.error (Exn.no_return "the Newton iteration is still running") := by
  have h := conformalInverse_double_running libm htol hlgamma hlog hexp fuel
  have hmap : mapConformalTransformedToCanonical (cmath libm) fuel sampleDoubleConformalGrid
      1 1 [4096] = Except.error (Exn.no_return "the Newton iteration is still running") := by
    simp [mapConformalTransformedToCanonical, sampleDoubleConformalGrid, forEachIndexM, h]
  refine ⟨rfl, h, hmap, ?_⟩
  have hd : (sampleOps Dbl).getNumDimensions Family.global ⟨1, 1, 1, 0⟩ = 1 := rfl
  have hb : sampleDoubleConformalGrid.base = some (Family.global, ⟨1, 1, 1, 0⟩) := rfl
  have hlen : ([4096] : List Dbl).length = sampleDoubleConformalGrid.getNumDimensions
      (sampleOps Dbl) := rfl
  have hc : sampleDoubleConformalGrid.domain_transform_a.length ≠ 0 ∨
      sampleDoubleConformalGrid.conformal_asin_power.length ≠ 0 := Or.inr (by decide)
  rw [evaluate, if_neg (not_not.mpr hlen), evaluatePtr, formCanonicalPoints, if_pos hc, hb]
  simp only [hd, Nat.mul_one, List.take, hmap]

/-- Witness of C16: the C library that returns the listed values and a NaN
elsewhere, and 1000000 passes. -/
theorem newton_iteration_hangs_in_double_witness :
    sampleLibm.num_tol = 1e-12 ∧
    (∀ p ∈ libmLgammaSamples, sampleLibm.lgamma p.1 = p.2) ∧
    (∀ p ∈ libmLogSamples, sampleLibm.log p.1 = p.2) ∧
    (∀ p ∈ libmExpSamples, sampleLibm.exp p.1 = p.2) ∧
    evaluate (cmath sampleLibm) 1000000 (sampleOps Dbl) [4096] sampleDoubleConformalGrid =
      Except.error (Exn.no_return "the Newton iteration is still running") :=
  ⟨rfl, by decide!, by decide!, by decide!,
    (newton_iteration_hangs_in_double sampleLibm rfl (by decide!) (by decide!) (by decide!)
      1000000).2.2.2⟩

/-! ### The version rule of the text format (C17) -/

theorem takeWhile_ne_dot (s1 s2 : List Char) (h1 : '.' ∉ s1) :
    (s1 ++ '.' :: s2).takeWhile (fun c => c ≠ '.') = s1 := by
  induction s1 with
  | nil => simp
  | cons c cs ih =>
    have hc : c ≠ '.' := fun h => h1 (by simp [h])
    have hcs : '.' ∉ cs := fun h => h1 (by simp [h])
    have := ih hcs
    simp only [List.cons_append, List.takeWhile_cons, hc, ne_eq, not_false_eq_true,
      decide_True, if_true, this]

theorem dropWhile_ne_dot (s1 s2 : List Char) (h1 : '.' ∉ s1) :
    (s1 ++ '.' :: s2).dropWhile (fun c => c ≠ '.') = '.' :: s2 := by
  induction s1 with
  | nil => simp
  | cons c cs ih =>
    have hc : c ≠ '.' := fun h => h1 (by simp [h])
    have hcs : '.' ∉ cs := fun h => h1 (by simp [h])
    have := ih hcs
    simp only [List.cons_append, List.dropWhile_cons, hc, ne_eq, not_false_eq_true,
      decide_True, if_true, this]

/-- The version test on a version that has a dot and two numbers. -/
theorem checkVersion_parsed (cfg : BuildConfig) (T : String) (s1 s2 : List Char)
    (vmajor vminor : Int) (hT : T.toList = s1 ++ '.' :: s2) (h1 : '.' ∉ s1)
    (hmaj : stoi s1 = Except.ok vmajor) (hmin : stoi s2 = Except.ok vminor)
    (hne : T ≠ cfg.version_string) :
    checkVersion cfg T =
      if vmajor < 3 then
        some (Exn.runtime_error "ERROR: file formats from versions prior to 3.0 are not supported")
      else if vmajor > cfg.version_major ∨
          (vmajor = cfg.version_major ∧ vminor > cfg.version_minor) then
        some (Exn.runtime_error "ERROR: using future file format, Tasmanian cannot time-travel.")
      else none := by
  unfold checkVersion
  rw [if_neg hne]
  have hdot : ¬ ('.' ∉ s1 ++ '.' :: s2) := by simp
  simp only [hT, if_neg hdot, takeWhile_ne_dot s1 s2 h1,
    dropWhile_ne_dot s1 s2 h1, List.drop_succ_cons, List.drop_zero, hmaj, hmin]

theorem readAscii_version {E K : Type} [Zero K] (cfg : BuildConfig) (ops : EngineOps E K)
    (g : TasmanianSparseGrid E K) (rest : List (Token K)) (T : String) :
    readAscii cfg ops
        (IStream.ofItems (Token.text "TASMANIAN" :: Token.text "SG" :: Token.text T :: rest)) g
      = match checkVersion cfg T with
        | some x => Outcome.throw g x
        | none =>
          if (⟨rest, true⟩ : IStream K).readText.1 ≠ "WARNING: do not edit this manually" then
            Outcome.throw g
              (Exn.runtime_error "ERROR: wrong file format, missing warning message")
          else readAsciiFamily cfg ops (⟨rest, true⟩ : IStream K).readText.2 g := by
  simp [readAscii, IStream.ofItems, IStream.readText]

/-- C17, counterexample: a library of version 6.1 reads a text file of an empty
grid.  With the version 6.2 in the header, the library's own major version and
a larger minor version, `readAscii` throws the error of a future file format and
leaves the facade as it was; with 6.1 and with 6.0 the same file is read. -/
theorem text_read_rejects_larger_minor :
    readAscii sampleConfig (sampleOps ℚ)
      (IStream.ofItems [Token.text "TASMANIAN", Token.text "SG", Token.text "6.2",
        Token.text "WARNING: do not edit this manually", Token.text "empty",
        Token.text "canonical", Token.text "nonconformal", Token.text "unlimited",
        Token.text "static", Token.text "TASMANIAN SG end"])
      (sampleGrid ℚ Family.global [])
      = Outcome.throw (sampleGrid ℚ Family.global [])
          (Exn.runtime_error "ERROR: using future file format, Tasmanian cannot time-travel.") ∧
    (readAscii sampleConfig (sampleOps ℚ)
      (IStream.ofItems [Token.text "TASMANIAN", Token.text "SG", Token.text "6.1",
        Token.text "WARNING: do not edit this manually", Token.text "empty",
        Token.text "canonical", Token.text "nonconformal", Token.text "unlimited",
        Token.text "static", Token.text "TASMANIAN SG end"])
      (sampleGrid ℚ Family.global [])).raised = none ∧
    (readAscii sampleConfig (sampleOps ℚ)
      (IStream.ofItems [Token.text "TASMANIAN", Token.text "SG", Token.text "6.0",
        Token.text "WARNING: do not edit this manually", Token.text "empty",
        Token.text "canonical", Token.text "nonconformal", Token.text "unlimited",
        Token.text "static", Token.text "TASMANIAN SG end"])
      (sampleGrid ℚ Family.global [])).raised = none := by
  refine ⟨?_, ?_, ?_⟩ <;> rfl

/-- C17, as amended: the version rule of `readAscii`.  The header of the file is
`TASMANIAN SG` followed by a version `T` that is not the version string of the
library and reads `major.minor`, two numbers that `std::stoi` converts.  The
file is rejected with `std::runtime_error`, the facade untouched, when the
major version is below 3, and, for a major version of at least 3, when the major
version exceeds that of the library or equals it with a minor version above
that of the library.  Every other version is accepted: the file is read as the
same file with the version string of the library in its header is. -/
theorem text_version_rule {E K : Type} [Zero K] (cfg : BuildConfig) (ops : EngineOps E K)
    (g : TasmanianSparseGrid E K) (rest : List (Token K)) (T : String) (s1 s2 : List Char)
    (vmajor vminor : Int) (hT : T.toList = s1 ++ '.' :: s2) (h1 : '.' ∉ s1)
    (hmaj : stoi s1 = Except.ok vmajor) (hmin : stoi s2 = Except.ok vminor)
    (hne : T ≠ cfg.version_string) :
    (vmajor < 3 →
      readAscii cfg ops
          (IStream.ofItems (Token.text "TASMANIAN" :: Token.text "SG" :: Token.text T :: rest)) g
        = Outcome.throw g (Exn.runtime_error
            "ERROR: file formats from versions prior to 3.0 are not supported")) ∧
    (3 ≤ vmajor →
      vmajor > cfg.version_major ∨ (vmajor = cfg.version_major ∧ vminor > cfg.version_minor) →
      readAscii cfg ops
          (IStream.ofItems (Token.text "TASMANIAN" :: Token.text "SG" :: Token.text T :: rest)) g
        = Outcome.throw g (Exn.runtime_error
            "ERROR: using future file format, Tasmanian cannot time-travel.")) ∧
    (3 ≤ vmajor →
      vmajor < cfg.version_major ∨ (vmajor = cfg.version_major ∧ vminor ≤ cfg.version_minor) →
      readAscii cfg ops
          (IStream.ofItems (Token.text "TASMANIAN" :: Token.text "SG" :: Token.text T :: rest)) g
        = readAscii cfg ops
          (IStream.ofItems (Token.text "TASMANIAN" :: Token.text "SG"
            :: Token.text cfg.version_string :: rest)) g) := by
  have hv := checkVersion_parsed cfg T s1 s2 vmajor vminor hT h1 hmaj hmin hne
  have hown : checkVersion cfg cfg.version_string = none := by simp [checkVersion]
  refine ⟨?_, ?_, ?_⟩
  · intro h
    rw [if_pos h] at hv
    rw [readAscii_version, hv]
  · intro h3 h
    rw [if_neg (not_lt.mpr h3), if_pos h] at hv
    rw [readAscii_version, hv]
  · intro h3 h
    have hno : ¬ (vmajor > cfg.version_major ∨
        (vmajor = cfg.version_major ∧ vminor > cfg.version_minor)) := by
      rintro (h4 | ⟨h4, h5⟩)
      · rcases h with h | ⟨h, _⟩ <;> omega
      · rcases h with h | ⟨_, h⟩ <;> omega
    rw [if_neg (not_lt.mpr h3), if_neg hno] at hv
    rw [readAscii_version, readAscii_version, hv, hown]

/-- Witness of C17: a library of version 6.1 and the versions 2.9, 7.0 and 5.0 in
the header of the text file of an empty grid. -/
theorem text_version_rule_witness :
    readAscii sampleConfig (sampleOps ℚ)
      (IStream.ofItems (Token.text "TASMANIAN" :: Token.text "SG" :: Token.text "2.9"
        :: [Token.text "WARNING: do not edit this manually", Token.text "empty",
          Token.text "TASMANIAN SG end"]))
      (sampleGrid ℚ Family.global [])
      = Outcome.throw (sampleGrid ℚ Family.global []) (Exn.runtime_error
          "ERROR: file formats from versions prior to 3.0 are not supported") ∧
    readAscii sampleConfig (sampleOps ℚ)
      (IStream.ofItems (Token.text "TASMANIAN" :: Token.text "SG" :: Token.text "7.0"
        :: [Token.text "WARNING: do not edit this manually", Token.text "empty",
          Token.text "TASMANIAN SG end"]))
      (sampleGrid ℚ Family.global [])
      = Outcome.throw (sampleGrid ℚ Family.global []) (Exn.runtime_error
          "ERROR: using future file format, Tasmanian cannot time-travel.") ∧
    readAscii sampleConfig (sampleOps ℚ)
      (IStream.ofItems (Token.text "TASMANIAN" :: Token.text "SG" :: Token.text "5.0"
        :: [Token.text "WARNING: do not edit this manually", Token.text "empty",
          Token.text "TASMANIAN SG end"]))
      (sampleGrid ℚ Family.global [])
      = readAscii sampleConfig (sampleOps ℚ)
        (IStream.ofItems (Token.text "TASMANIAN" :: Token.text "SG"
          :: Token.text sampleConfig.version_string
          :: [Token.text "WARNING: do not edit this manually", Token.text "empty",
            Token.text "TASMANIAN SG end"]))
        (sampleGrid ℚ Family.global []) :=
  ⟨(text_version_rule sampleConfig (sampleOps ℚ) (sampleGrid ℚ Family.global []) _ "2.9"
      ['2'] ['9'] 2 9 rfl (by decide) rfl rfl (by decide)).1 (by decide),
   (text_version_rule sampleConfig (sampleOps ℚ) (sampleGrid ℚ Family.global []) _ "7.0"
      ['7'] ['0'] 7 0 rfl (by decide) rfl rfl (by decide)).2.1 (by decide) (by decide),
   (text_version_rule sampleConfig (sampleOps ℚ) (sampleGrid ℚ Family.global []) _ "5.0"
      ['5'] ['0'] 5 0 rfl (by decide) rfl rfl (by decide)).2.2 (by decide) (by decide)⟩

/-! ### Optional blocks of the text format (C18) -/

/-- C18: a text file that ends before the level-limits block leaves the level
limits of the reading facade in place.  The reader holds a domain transform, a
conformal transform, the level limits `[3]` and a construction under way; the
file is that of a Sequence grid of a library of version 6.1, with the end marker
in place of the domain block, of the conformal block, of the level-limits block
and of the construction block in turn.  Each read succeeds and leaves no domain
transform, no conformal transform and a static construction; the level limits
are still `[3]` after the first three reads, and are empty only after the
fourth, whose file has the block `unlimited`. -/
theorem text_read_early_end_keeps_level_limits :
    ((readAscii sampleConfig (sampleOps ℚ)
        (IStream.ofItems [Token.text "TASMANIAN", Token.text "SG", Token.text "6.1",
          Token.text "WARNING: do not edit this manually", Token.text "sequence",
          Token.int 1, Token.int 1, Token.int 1, Token.int 0,
          Token.text "TASMANIAN SG end"])
        (sampleReader ℚ)).raised = none ∧
      (readAscii sampleConfig (sampleOps ℚ)
        (IStream.ofItems [Token.text "TASMANIAN", Token.text "SG", Token.text "6.1",
          Token.text "WARNING: do not edit this manually", Token.text "sequence",
          Token.int 1, Token.int 1, Token.int 1, Token.int 0,
          Token.text "TASMANIAN SG end"])
        (sampleReader ℚ)).state
        = { sampleGrid ℚ Family.sequence [3] with
            engine_calls := [EngineCall.makeGrid, EngineCall.loadNeededPoints, EngineCall.read] }) ∧
    ((readAscii sampleConfig (sampleOps ℚ)
        (IStream.ofItems [Token.text "TASMANIAN", Token.text "SG", Token.text "6.1",
          Token.text "WARNING: do not edit this manually", Token.text "sequence",
          Token.int 1, Token.int 1, Token.int 1, Token.int 0,
          Token.text "canonical", Token.text "TASMANIAN SG end"])
        (sampleReader ℚ)).raised = none ∧
      (readAscii sampleConfig (sampleOps ℚ)
        (IStream.ofItems [Token.text "TASMANIAN", Token.text "SG", Token.text "6.1",
          Token.text "WARNING: do not edit this manually", Token.text "sequence",
          Token.int 1, Token.int 1, Token.int 1, Token.int 0,
          Token.text "canonical", Token.text "TASMANIAN SG end"])
        (sampleReader ℚ)).state.llimits = [3]) ∧
    ((readAscii sampleConfig (sampleOps ℚ)
        (IStream.ofItems [Token.text "TASMANIAN", Token.text "SG", Token.text "6.1",
          Token.text "WARNING: do not edit this manually", Token.text "sequence",
          Token.int 1, Token.int 1, Token.int 1, Token.int 0,
          Token.text "canonical", Token.text "nonconformal", Token.text "TASMANIAN SG end"])
        (sampleReader ℚ)).raised = none ∧
      (readAscii sampleConfig (sampleOps ℚ)
        (IStream.ofItems [Token.text "TASMANIAN", Token.text "SG", Token.text "6.1",
          Token.text "WARNING: do not edit this manually", Token.text "sequence",
          Token.int 1, Token.int 1, Token.int 1, Token.int 0,
          Token.text "canonical", Token.text "nonconformal", Token.text "TASMANIAN SG end"])
        (sampleReader ℚ)).state.llimits = [3]) ∧
    ((readAscii sampleConfig (sampleOps ℚ)
        (IStream.ofItems [Token.text "TASMANIAN", Token.text "SG", Token.text "6.1",
          Token.text "WARNING: do not edit this manually", Token.text "sequence",
          Token.int 1, Token.int 1, Token.int 1, Token.int 0,
          Token.text "canonical", Token.text "nonconformal", Token.text "unlimited",
          Token.text "TASMANIAN SG end"])
        (sampleReader ℚ)).raised = none ∧
      (readAscii sampleConfig (sampleOps ℚ)
        (IStream.ofItems [Token.text "TASMANIAN", Token.text "SG", Token.text "6.1",
          Token.text "WARNING: do not edit this manually", Token.text "sequence",
          Token.int 1, Token.int 1, Token.int 1, Token.int 0,
          Token.text "canonical", Token.text "nonconformal", Token.text "unlimited",
          Token.text "TASMANIAN SG end"])
        (sampleReader ℚ)).state
        = { sampleGrid ℚ Family.sequence [] with
            engine_calls := [EngineCall.makeGrid, EngineCall.loadNeededPoints, EngineCall.read] }) ∧
    (∀ (E K : Type) [Zero K] (cfg : BuildConfig) (ops : EngineOps E K)
        (R : TasmanianSparseGrid E K),
      (readAscii cfg ops
        (IStream.ofItems [Token.text "TASMANIAN", Token.text "SG", Token.text cfg.version_string,
          Token.text "WARNING: do not edit this manually", Token.text "empty",
          Token.text "TASMANIAN SG end"]) R).raised = none ∧
      (readAscii cfg ops
        (IStream.ofItems [Token.text "TASMANIAN", Token.text "SG", Token.text cfg.version_string,
          Token.text "WARNING: do not edit this manually", Token.text "empty",
          Token.text "TASMANIAN SG end"]) R).state.llimits = R.llimits) := by
  refine ⟨⟨rfl, rfl⟩, ⟨rfl, rfl⟩, ⟨rfl, rfl⟩, ⟨rfl, rfl⟩, ?_⟩
  intro E K _ cfg ops R
  have hown : checkVersion cfg cfg.version_string = none := by simp [checkVersion]
  constructor
  · simp [readAscii, IStream.ofItems, IStream.readText, hown, readAsciiFamily, readAsciiDomain,
      Outcome.ok, clear]
  · simp [readAscii, IStream.ofItems, IStream.readText, hown, readAsciiFamily, readAsciiDomain,
      Outcome.ok, clear]

/-! ### Corrupt binary files (C19) -/

/-- C19, counterexample: a binary file with a corrupt domain tag leaves a
half-populated facade.  The file holds the magic `TSG5`, the family tag of a
Sequence grid, the payload of the engine and the character `x` where the domain
tag is expected.  `readBinary`, run by a freshly constructed facade, throws the
error of a wrong domain type, and the facade holds the engine read from the
file: it is not empty. -/
theorem binary_read_failure_keeps_engine :
    (readBinary sampleConfig (sampleOps ℚ)
      (IStream.ofItems [Token.chr 'T', Token.chr 'S', Token.chr 'G', Token.chr '5', Token.chr 's',
        Token.int 1, Token.int 1, Token.int 1, Token.int 0, Token.chr 'x'])
      (init sampleConfig)).raised
      = some (Exn.runtime_error "ERROR: wrong binary file format, wrong domain type") ∧
    (readBinary sampleConfig (sampleOps ℚ)
      (IStream.ofItems [Token.chr 'T', Token.chr 'S', Token.chr 'G', Token.chr '5', Token.chr 's',
        Token.int 1, Token.int 1, Token.int 1, Token.int 0, Token.chr 'x'])
      (init sampleConfig)).state.base = some (Family.sequence, ⟨1, 1, 1, 0⟩) ∧
    (readBinary sampleConfig (sampleOps ℚ)
      (IStream.ofItems [Token.chr 'T', Token.chr 'S', Token.chr 'G', Token.chr '5', Token.chr 's',
        Token.int 1, Token.int 1, Token.int 1, Token.int 0, Token.chr 'x'])
      (init sampleConfig)).state.empty = false ∧
    (readBinary sampleConfig (sampleOps ℚ)
      (IStream.ofItems [Token.chr 'T', Token.chr 'S', Token.chr 'G', Token.chr '5', Token.chr 's',
        Token.int 1, Token.int 1, Token.int 1, Token.int 0, Token.chr 'x'])
      (init sampleConfig)).state ≠ init sampleConfig := by
  refine ⟨rfl, rfl, rfl, ?_⟩
  decide

/-- C19, as amended: a tag outside the expected set is a corruption error, and
the facade keeps what was read before it.  For every stream and every facade
`g` that the reader has reached, the step of `readBinary` at the family, domain,
conformal, level-limit, construction or end position throws
`std::runtime_error` when the character it reads is outside the expected set:
at the family position with the facade that `clear()` leaves, at every later
position with the facade as populated so far.  For `readBinary` as a whole: with
a bad family tag after the magic the facade is the cleared one, and with a bad
domain tag after a payload that the engine has read the facade holds that
engine. -/
theorem binary_read_bad_tag {E K : Type} [Zero K] (cfg : BuildConfig) (ops : EngineOps E K)
    (g : TasmanianSparseGrid E K) (ifs : IStream K) (tag : Char)
    (f : Family) (e : E) (payload rest : List (Token K)) (ch : Char)
    (hread : ops.read false f (ops.construct f) ⟨payload, true⟩
      = (Outcome.ok e, ⟨Token.chr ch :: rest, true⟩)) :
    ((ifs.readChar tag).1 ∉ ['g', 's', 'p', 'w', 'f', 'e'] →
      readBinaryFamily cfg ops ifs tag g = Outcome.throw (g.clear cfg)
        (Exn.runtime_error "ERROR: wrong binary file format, unknown grid type")) ∧
    ((ifs.readChar tag).1 ∉ ['y', 'n'] →
      readBinaryDomain ops ifs tag g = Outcome.throw g
        (Exn.runtime_error "ERROR: wrong binary file format, wrong domain type")) ∧
    ((ifs.readChar tag).1 ∉ ['a', 'n'] →
      readBinaryConformal ops ifs tag g = Outcome.throw g
        (Exn.runtime_error "ERROR: wrong binary file format, wrong conformal transform type")) ∧
    ((ifs.readChar tag).1 ∉ ['y', 'n'] →
      readBinaryLimits ops ifs tag g = Outcome.throw g
        (Exn.runtime_error "ERROR: wrong binary file format, wrong level limits")) ∧
    ((ifs.readChar tag).1 ∉ ['c', 'e', 's'] →
      readBinaryConstruction ops ifs tag g = Outcome.throw g
        (Exn.runtime_error
          "ERROR: wrong binary file format, wrong construction method specified")) ∧
    ((ifs.readChar tag).1 ≠ 'e' →
      readBinaryEnd ifs tag g = Outcome.throw g
        (Exn.runtime_error
          "ERROR: wrong binary file format, did not reach correct end of Tasmanian block")) ∧
    (ch ∉ ['g', 's', 'p', 'w', 'f', 'e'] →
      readBinary cfg ops
        (IStream.ofItems (Token.chr 'T' :: Token.chr 'S' :: Token.chr 'G' :: Token.chr '5'
          :: Token.chr ch :: rest)) g
        = Outcome.throw (g.clear cfg)
          (Exn.runtime_error "ERROR: wrong binary file format, unknown grid type")) ∧
    (ch ∉ ['y', 'n'] →
      readBinary cfg ops
        (IStream.ofItems (Token.chr 'T' :: Token.chr 'S' :: Token.chr 'G' :: Token.chr '5'
          :: Token.chr (familyFlag f) :: payload)) g
        = Outcome.throw
          { g.clear cfg with
            base := some (f, e)
            engine_calls := g.engine_calls ++ [EngineCall.read] }
          (Exn.runtime_error "ERROR: wrong binary file format, wrong domain type")) := by
  have hfam : ∀ (s : IStream K) (t : Char), (s.readChar t).1 ∉ ['g', 's', 'p', 'w', 'f', 'e'] →
      readBinaryFamily cfg ops s t g = Outcome.throw (g.clear cfg)
        (Exn.runtime_error "ERROR: wrong binary file format, unknown grid type") := by
    intro s t h
    simp only [List.mem_cons, List.mem_singleton, List.not_mem_nil, or_false, not_or] at h
    obtain ⟨n1, n2, n3, n4, n5, n6⟩ := h
    simp only [readBinaryFamily, if_neg n1, if_neg n2, if_neg n3, if_neg n4, if_neg n5, if_neg n6]
  have hdom : ∀ (s : IStream K) (t : Char) (g1 : TasmanianSparseGrid E K),
      (s.readChar t).1 ∉ ['y', 'n'] →
      readBinaryDomain ops s t g1 = Outcome.throw g1
        (Exn.runtime_error "ERROR: wrong binary file format, wrong domain type") := by
    intro s t g1 h
    simp only [List.mem_cons, List.mem_singleton, List.not_mem_nil, or_false, not_or] at h
    obtain ⟨n1, n2⟩ := h
    simp only [readBinaryDomain, if_neg n1, ne_eq, n2, not_false_eq_true, if_true]
  refine ⟨hfam ifs tag, hdom ifs tag g, ?_, ?_, ?_, ?_, ?_, ?_⟩
  · intro h
    simp only [List.mem_cons, List.mem_singleton, List.not_mem_nil, or_false, not_or] at h
    obtain ⟨n1, n2⟩ := h
    simp only [readBinaryConformal, if_neg n1, ne_eq, n2, not_false_eq_true, if_true]
  · intro h
    simp only [List.mem_cons, List.mem_singleton, List.not_mem_nil, or_false, not_or] at h
    obtain ⟨n1, n2⟩ := h
    simp only [readBinaryLimits, if_neg n1, ne_eq, n2, not_false_eq_true, if_true]
  · intro h
    simp only [List.mem_cons, List.mem_singleton, List.not_mem_nil, or_false, not_or] at h
    obtain ⟨n1, n2, n3⟩ := h
    simp only [readBinaryConstruction, if_neg n1, if_neg n2, ne_eq, n3, not_false_eq_true,
      if_true]
  · intro h
    simp only [readBinaryEnd, ne_eq, h, not_false_eq_true, if_true]
  · intro h
    have : readBinary cfg ops
        (IStream.ofItems (Token.chr 'T' :: Token.chr 'S' :: Token.chr 'G' :: Token.chr '5'
          :: Token.chr ch :: rest)) g
        = readBinaryFamily cfg ops ⟨Token.chr ch :: rest, true⟩ 'T' g := by
      simp [readBinary, IStream.ofItems, IStream.readChar]
    rw [this]
    exact hfam _ _ (by simpa [IStream.readChar] using h)
  · intro h
    have h1 : readBinary cfg ops
        (IStream.ofItems (Token.chr 'T' :: Token.chr 'S' :: Token.chr 'G' :: Token.chr '5'
          :: Token.chr (familyFlag f) :: payload)) g
        = readBinaryFamily cfg ops ⟨Token.chr (familyFlag f) :: payload, true⟩ 'T' g := by
      simp [readBinary, IStream.ofItems, IStream.readChar]
    have h2 : readBinaryFamily cfg ops ⟨Token.chr (familyFlag f) :: payload, true⟩ 'T' g
        = readBinaryDomain ops ⟨Token.chr ch :: rest, true⟩ (familyFlag f)
          { g.clear cfg with
            base := some (f, e)
            engine_calls := g.engine_calls ++ [EngineCall.read] } := by
      cases f <;>
        simp [readBinaryFamily, IStream.readChar, familyFlag, readEngine, hread, withEngine,
          Outcome.ok, clear]
    rw [h1, h2]
    exact hdom _ _ _ (by simpa [IStream.readChar] using h)

/-- Witness of C19: the file of the counterexample, whose payload the sample
engine reads; the facade left by the failed read holds that engine. -/
theorem binary_read_bad_tag_witness :
    readBinary sampleConfig (sampleOps ℚ)
      (IStream.ofItems (Token.chr 'T' :: Token.chr 'S' :: Token.chr 'G' :: Token.chr '5'
        :: Token.chr (familyFlag Family.sequence)
        :: [Token.int 1, Token.int 1, Token.int 1, Token.int 0, Token.chr 'x']))
      (init sampleConfig)
      = Outcome.throw
        { (init sampleConfig : TasmanianSparseGrid SampleEngine ℚ).clear sampleConfig with
          base := some (Family.sequence, ⟨1, 1, 1, 0⟩)
          engine_calls := (init sampleConfig : TasmanianSparseGrid SampleEngine ℚ).engine_calls
            ++ [EngineCall.read] }
        (Exn.runtime_error "ERROR: wrong binary file format, wrong domain type") :=
  (binary_read_bad_tag sampleConfig (sampleOps ℚ) (init sampleConfig) (IStream.ofItems [])
    'T' Family.sequence ⟨1, 1, 1, 0⟩
    [Token.int 1, Token.int 1, Token.int 1, Token.int 0, Token.chr 'x'] [] 'x'
    rfl).2.2.2.2.2.2.2 (by decide)

/-! ### The transform-length invariant (C20) -/

theorem transformInvariant_of_nil {E K : Type} (ops : EngineOps E K)
    (g : TasmanianSparseGrid E K) (ha : g.domain_transform_a = [])
    (hb : g.domain_transform_b = []) (hc : g.conformal_asin_power = []) :
    transformInvariant ops g :=
  ⟨Or.inl ⟨ha, hb⟩, Or.inl hc, fun _ => ⟨ha, hb, hc⟩⟩

theorem firstEntries_length {α : Type} [Zero α] (v : List α) (n : Nat) :
    (firstEntries v n).length = n := by
  simp [firstEntries]

theorem makeGlobalGrid_state {E K : Type} (cfg : BuildConfig) (meta1 : OneDimensionalMeta)
    (ops : EngineOps E K) (dimensions outputs depth : Int) (type : TypeDepth)
    (rule : TypeOneDRule) (anisotropic_weights : List Int) (alpha beta : K)
    (custom_filename : Option String) (level_limits : List Int) (g : TasmanianSparseGrid E K) :
    (makeGlobalGrid cfg meta1 ops dimensions outputs depth type rule anisotropic_weights alpha
        beta custom_filename level_limits g).state = g ∨
      ((makeGlobalGrid cfg meta1 ops dimensions outputs depth type rule anisotropic_weights alpha
        beta custom_filename level_limits g).state.domain_transform_a = [] ∧
       (makeGlobalGrid cfg meta1 ops dimensions outputs depth type rule anisotropic_weights alpha
        beta custom_filename level_limits g).state.domain_transform_b = [] ∧
       (makeGlobalGrid cfg meta1 ops dimensions outputs depth type rule anisotropic_weights alpha
        beta custom_filename level_limits g).state.conformal_asin_power = []) := by
  unfold makeGlobalGrid
  split_ifs <;> first | exact Or.inl rfl | exact Or.inr ⟨rfl, rfl, rfl⟩

theorem makeSequenceGrid_state {E K : Type} (cfg : BuildConfig) (meta1 : OneDimensionalMeta)
    (ops : EngineOps E K) (dimensions outputs depth : Int) (type : TypeDepth)
    (rule : TypeOneDRule) (anisotropic_weights level_limits : List Int)
    (g : TasmanianSparseGrid E K) :
    (makeSequenceGrid cfg meta1 ops dimensions outputs depth type rule anisotropic_weights
        level_limits g).state = g ∨
      ((makeSequenceGrid cfg meta1 ops dimensions outputs depth type rule anisotropic_weights
        level_limits g).state.domain_transform_a = [] ∧
       (makeSequenceGrid cfg meta1 ops dimensions outputs depth type rule anisotropic_weights
        level_limits g).state.domain_transform_b = [] ∧
       (makeSequenceGrid cfg meta1 ops dimensions outputs depth type rule anisotropic_weights
        level_limits g).state.conformal_asin_power = []) := by
  unfold makeSequenceGrid
  split_ifs <;> first | exact Or.inl rfl | exact Or.inr ⟨rfl, rfl, rfl⟩

theorem makeLocalPolynomialGrid_state {E K : Type} (cfg : BuildConfig)
    (meta1 : OneDimensionalMeta) (ops : EngineOps E K) (dimensions outputs depth order : Int)
    (rule : TypeOneDRule) (level_limits : List Int) (g : TasmanianSparseGrid E K) :
    (makeLocalPolynomialGrid cfg meta1 ops dimensions outputs depth order rule level_limits
        g).state = g ∨
      ((makeLocalPolynomialGrid cfg meta1 ops dimensions outputs depth order rule level_limits
        g).state.domain_transform_a = [] ∧
       (makeLocalPolynomialGrid cfg meta1 ops dimensions outputs depth order rule level_limits
        g).state.domain_transform_b = [] ∧
       (makeLocalPolynomialGrid cfg meta1 ops dimensions outputs depth order rule level_limits
        g).state.conformal_asin_power = []) := by
  unfold makeLocalPolynomialGrid
  split_ifs <;> first | exact Or.inl rfl | exact Or.inr ⟨rfl, rfl, rfl⟩

theorem makeWaveletGrid_state {E K : Type} (cfg : BuildConfig) (ops : EngineOps E K)
    (dimensions outputs depth order : Int) (level_limits : List Int)
    (g : TasmanianSparseGrid E K) :
    (makeWaveletGrid cfg ops dimensions outputs depth order level_limits g).state = g ∨
      ((makeWaveletGrid cfg ops dimensions outputs depth order level_limits
        g).state.domain_transform_a = [] ∧
       (makeWaveletGrid cfg ops dimensions outputs depth order level_limits
        g).state.domain_transform_b = [] ∧
       (makeWaveletGrid cfg ops dimensions outputs depth order level_limits
        g).state.conformal_asin_power = []) := by
  unfold makeWaveletGrid
  split_ifs <;> first | exact Or.inl rfl | exact Or.inr ⟨rfl, rfl, rfl⟩

theorem makeFourierGrid_state {E K : Type} (cfg : BuildConfig) (meta1 : OneDimensionalMeta)
    (ops : EngineOps E K) (dimensions outputs depth : Int) (type : TypeDepth)
    (anisotropic_weights level_limits : List Int) (g : TasmanianSparseGrid E K) :
    (makeFourierGrid cfg meta1 ops dimensions outputs depth type anisotropic_weights
        level_limits g).state = g ∨
      ((makeFourierGrid cfg meta1 ops dimensions outputs depth type anisotropic_weights
        level_limits g).state.domain_transform_a = [] ∧
       (makeFourierGrid cfg meta1 ops dimensions outputs depth type anisotropic_weights
        level_limits g).state.domain_transform_b = [] ∧
       (makeFourierGrid cfg meta1 ops dimensions outputs depth type anisotropic_weights
        level_limits g).state.conformal_asin_power = []) := by
  unfold makeFourierGrid
  split_ifs <;> first | exact Or.inl rfl | exact Or.inr ⟨rfl, rfl, rfl⟩

theorem transformInvariant_of_state {E K : Type} (ops : EngineOps E K)
    (g g1 : TasmanianSparseGrid E K) (hg : transformInvariant ops g)
    (h : g1 = g ∨ (g1.domain_transform_a = [] ∧ g1.domain_transform_b = [] ∧
      g1.conformal_asin_power = [])) : transformInvariant ops g1 := by
  rcases h with h | ⟨ha, hb, hc⟩
  · rw [h]; exact hg
  · exact transformInvariant_of_nil ops g1 ha hb hc

theorem setDomainTransformPtr_invariant {E K : Type} [Zero K] (ops : EngineOps E K)
    (a b : List K) (g : TasmanianSparseGrid E K) (hg : transformInvariant ops g) :
    transformInvariant ops (setDomainTransformPtr ops a b g).state := by
  unfold setDomainTransformPtr
  cases hbase : g.base with
  | none => simpa [Outcome.throw] using hg
  | some fe =>
    obtain ⟨f, e⟩ := fe
    simp only []
    by_cases hd : ops.getNumDimensions f e = 0
    · rw [if_pos hd]; simpa [Outcome.throw] using hg
    · rw [if_neg hd]
      obtain ⟨_, hc, _⟩ := hg
      refine ⟨Or.inr ?_, ?_, ?_⟩
      · simp [Outcome.ok, getNumDimensions, hbase, firstEntries_length]
      · simpa [Outcome.ok, getNumDimensions, hbase] using hc
      · simp [Outcome.ok, hbase]

theorem setDomainTransform_invariant {E K : Type} (ops : EngineOps E K)
    (a b : List K) (g : TasmanianSparseGrid E K) (hg : transformInvariant ops g) :
    transformInvariant ops (setDomainTransform ops a b g).state := by
  unfold setDomainTransform
  cases hbase : g.base with
  | none => simpa [Outcome.throw] using hg
  | some fe =>
    obtain ⟨f, e⟩ := fe
    simp only []
    by_cases hd : ops.getNumDimensions f e = 0
    · rw [if_pos hd]; simpa [Outcome.throw] using hg
    · rw [if_neg hd]
      by_cases hl : a.length ≠ ops.getNumDimensions f e ∨ b.length ≠ ops.getNumDimensions f e
      · rw [if_pos hl]; simpa [Outcome.throw] using hg
      · rw [if_neg hl]
        have hl1 : a.length = ops.getNumDimensions f e := by
          by_contra h; exact hl (Or.inl h)
        have hl2 : b.length = ops.getNumDimensions f e := by
          by_contra h; exact hl (Or.inr h)
        obtain ⟨_, hc, _⟩ := hg
        refine ⟨Or.inr ?_, ?_, ?_⟩
        · simp [Outcome.ok, getNumDimensions, hbase, hl1, hl2]
        · simpa [Outcome.ok, getNumDimensions, hbase] using hc
        · simp [Outcome.ok, hbase]

theorem setConformalTransformASIN_invariant {E K : Type} (ops : EngineOps E K)
    (truncation : List Int) (g : TasmanianSparseGrid E K) (hg : transformInvariant ops g) :
    transformInvariant ops (setConformalTransformASIN ops truncation g).state := by
  unfold setConformalTransformASIN
  cases hbase : g.base with
  | none => simpa [Outcome.throw] using hg
  | some fe =>
    obtain ⟨f, e⟩ := fe
    simp only []
    by_cases hd : ops.getNumDimensions f e = 0
    · rw [if_pos hd]; simpa [Outcome.throw] using hg
    · rw [if_neg hd]
      obtain ⟨hab, _, _⟩ := hg
      refine ⟨?_, Or.inr ?_, ?_⟩
      · simpa [Outcome.ok, getNumDimensions, hbase, clearConformalTransform] using hab
      · simp [Outcome.ok, getNumDimensions, hbase, clearConformalTransform, firstEntries_length]
      · simp [Outcome.ok, hbase, clearConformalTransform]

theorem clear_invariant {E K : Type} (cfg : BuildConfig) (ops : EngineOps E K)
    (g : TasmanianSparseGrid E K) : transformInvariant ops (g.clear cfg) :=
  transformInvariant_of_nil ops _ rfl rfl rfl

theorem clearDomainTransform_invariant {E K : Type} (ops : EngineOps E K)
    (g : TasmanianSparseGrid E K) (hg : transformInvariant ops g) :
    transformInvariant ops g.clearDomainTransform := by
  obtain ⟨_, hc, hn⟩ := hg
  refine ⟨Or.inl ⟨rfl, rfl⟩, ?_, ?_⟩
  · simpa [clearDomainTransform, getNumDimensions] using hc
  · intro h
    exact ⟨rfl, rfl, (hn h).2.2⟩

theorem clearConformalTransform_invariant {E K : Type} (ops : EngineOps E K)
    (g : TasmanianSparseGrid E K) (hg : transformInvariant ops g) :
    transformInvariant ops g.clearConformalTransform := by
  obtain ⟨hab, _, hn⟩ := hg
  refine ⟨?_, Or.inl rfl, ?_⟩
  · simpa [clearConformalTransform, getNumDimensions] using hab
  · intro h
    exact ⟨(hn h).1, (hn h).2.1, rfl⟩

theorem setDomainTransform_base {E K : Type} (ops : EngineOps E K)
    (a b : List K) (g : TasmanianSparseGrid E K) :
    (setDomainTransform ops a b g).state.base = g.base := by
  unfold setDomainTransform
  cases hbase : g.base with
  | none => simp [Outcome.throw, hbase]
  | some fe =>
    obtain ⟨f, e⟩ := fe
    simp only []
    split_ifs <;> simp [Outcome.throw, Outcome.ok, hbase]

theorem removePoints_invariant {E K : Type} (cfg : BuildConfig) (ops : EngineOps E K)
    (hremove : ∀ (e : E) (tolerance : K) (output : Int) (scale_correction : Option (List K)),
      ops.getNumDimensions Family.localpolynomial
        (ops.removePointsByHierarchicalCoefficient e tolerance output scale_correction).1.state
      = ops.getNumDimensions Family.localpolynomial e)
    (tolerance : K) (output : Int) (scale_correction : Option (List K))
    (g : TasmanianSparseGrid E K) (hg : transformInvariant ops g) :
    transformInvariant ops
      (removePointsByHierarchicalCoefficient cfg ops tolerance output scale_correction g).state := by
  unfold removePointsByHierarchicalCoefficient
  cases hbase : g.base with
  | none => simpa [Outcome.throw] using hg
  | some fe =>
    obtain ⟨f, e⟩ := fe
    simp only []
    by_cases hf : f ≠ Family.localpolynomial
    · rw [if_pos hf]; simpa [Outcome.throw] using hg
    · rw [if_neg hf]
      have hfl : f = Family.localpolynomial := not_not.mp hf
      subst hfl
      have hkeep : transformInvariant ops
          (g.withEngine Family.localpolynomial EngineCall.removePointsByHierarchicalCoefficient
            (ops.removePointsByHierarchicalCoefficient e tolerance output scale_correction).1).state := by
        obtain ⟨hab, hc, _⟩ := hg
        simp only [getNumDimensions, hbase] at hab hc
        refine ⟨?_, ?_, ?_⟩
        · simpa [withEngine, getNumDimensions, hremove] using hab
        · simpa [withEngine, getNumDimensions, hremove] using hc
        · simp [withEngine]
      cases hr : (g.withEngine Family.localpolynomial
          EngineCall.removePointsByHierarchicalCoefficient
          (ops.removePointsByHierarchicalCoefficient e tolerance output scale_correction).1).raised with
      | some x => simpa [Outcome.throw] using hkeep
      | none =>
        simp only []
        by_cases h0 : (ops.removePointsByHierarchicalCoefficient e tolerance output
            scale_correction).2 = 0
        · rw [if_pos h0]; exact clear_invariant cfg ops _
        · rw [if_neg h0]; exact hkeep

theorem copyGrid_this {E K : Type} (cfg : BuildConfig) (ops : EngineOps E K)
    (g : TasmanianSparseGrid E K) :
    copyGrid cfg ops SourcePointer.this g = Outcome.ok (g.clear cfg) := by
  simp [copyGrid, SourcePointer.deref, clear, Outcome.ok]

theorem copyGrid_invariant {E K : Type} (cfg : BuildConfig) (ops : EngineOps E K)
    (hcopy : ∀ (f : Family) (e : E), (ops.copyGrid f (ops.construct f) e).raised = none →
      ops.getNumDimensions f (ops.copyGrid f (ops.construct f) e).state
        = ops.getNumDimensions f e)
    (source g : TasmanianSparseGrid E K) (hs : transformInvariant ops source) :
    transformInvariant ops (copyGrid cfg ops (SourcePointer.other source) g).state := by
  unfold copyGrid
  simp only [SourcePointer.deref]
  set r : Outcome (TasmanianSparseGrid E K) :=
    (match source.base with
      | none => Outcome.ok (g.clear cfg)
      | some (f, es) => (g.clear cfg).withEngine f EngineCall.copyGrid
          (ops.copyGrid f (ops.construct f) es)) with hr
  have hrnil : r.state.domain_transform_a = [] ∧ r.state.domain_transform_b = [] ∧
      r.state.conformal_asin_power = [] := by
    rw [hr]
    cases source.base with
    | none => exact ⟨rfl, rfl, rfl⟩
    | some fe => exact ⟨rfl, rfl, rfl⟩
  have hrinv : transformInvariant ops r.state :=
    transformInvariant_of_nil ops _ hrnil.1 hrnil.2.1 hrnil.2.2
  cases hraised : r.raised with
  | some x => simpa [Outcome.throw] using hrinv
  | none =>
    simp only []
    set r2 : Outcome (TasmanianSparseGrid E K) :=
      (if source.domain_transform_a.length > 0 then
        setDomainTransform ops source.domain_transform_a source.domain_transform_b r.state
      else Outcome.ok r.state) with hr2
    have hr2inv : transformInvariant ops r2.state := by
      rw [hr2]
      by_cases hl : source.domain_transform_a.length > 0
      · rw [if_pos hl]; exact setDomainTransform_invariant ops _ _ _ hrinv
      · rw [if_neg hl]; exact hrinv
    have hr2base : r2.state.base = r.state.base := by
      rw [hr2]
      by_cases hl : source.domain_transform_a.length > 0
      · rw [if_pos hl]; exact setDomainTransform_base ops _ _ _
      · rw [if_neg hl]; rfl
    cases hraised2 : r2.raised with
    | some x => simpa [Outcome.throw] using hr2inv
    | none =>
      simp only [Outcome.ok]
      obtain ⟨hab, _, hn⟩ := hr2inv
      obtain ⟨_, hsc, hsn⟩ := hs
      have hdims : source.base ≠ none →
          r2.state.getNumDimensions ops = source.getNumDimensions ops := by
        intro hne
        cases hsb : source.base with
        | none => exact absurd hsb hne
        | some fe =>
          obtain ⟨f, es⟩ := fe
          have hrb : r.state.base = some (f, (ops.copyGrid f (ops.construct f) es).state) := by
            rw [hr, hsb]; rfl
          have hrr : (ops.copyGrid f (ops.construct f) es).raised = none := by
            rw [hr, hsb] at hraised; exact hraised
          simp only [getNumDimensions, hr2base, hrb, hsb]
          exact hcopy f es hrr
      have hnone : r2.state.base = none → source.base = none := by
        intro h
        rw [hr2base, hr] at h
        cases hsb : source.base with
        | none => rfl
        | some fe => rw [hsb] at h; simp [withEngine] at h
      refine ⟨?_, ?_, ?_⟩
      · simpa [getNumDimensions] using hab
      · rcases hsc with h | h
        · exact Or.inl h
        · by_cases hsb : source.base = none
          · exact Or.inl (hsn hsb).2.2
          · right
            have := hdims hsb
            simp only [getNumDimensions] at this ⊢
            rw [h]
            exact this.symm
      · intro h
        have hb : r2.state.base = none := h
        exact ⟨(hn hb).1, (hn hb).2.1, (hsn (hnone hb)).2.2⟩

theorem reachable_invariant {E K : Type} [Zero K] (cfg : BuildConfig)
    (meta1 : OneDimensionalMeta) (ops : EngineOps E K)
    (hcopy : ∀ (f : Family) (e : E), (ops.copyGrid f (ops.construct f) e).raised = none →
      ops.getNumDimensions f (ops.copyGrid f (ops.construct f) e).state
        = ops.getNumDimensions f e)
    (hremove : ∀ (e : E) (tolerance : K) (output : Int) (scale_correction : Option (List K)),
      ops.getNumDimensions Family.localpolynomial
        (ops.removePointsByHierarchicalCoefficient e tolerance output scale_correction).1.state
      = ops.getNumDimensions Family.localpolynomial e)
    (g : TasmanianSparseGrid E K) (h : Reachable cfg meta1 ops g) :
    transformInvariant ops g := by
  induction h with
  | constructed => exact transformInvariant_of_nil ops _ rfl rfl rfl
  | byMakeGlobalGrid g d o dp t r aw al be cf ll _ ih =>
    exact transformInvariant_of_state ops g _ ih (makeGlobalGrid_state _ _ _ _ _ _ _ _ _ _ _ _ _ _)
  | byMakeSequenceGrid g d o dp t r aw ll _ ih =>
    exact transformInvariant_of_state ops g _ ih (makeSequenceGrid_state _ _ _ _ _ _ _ _ _ _ _)
  | byMakeLocalPolynomialGrid g d o dp od r ll _ ih =>
    exact transformInvariant_of_state ops g _ ih
      (makeLocalPolynomialGrid_state _ _ _ _ _ _ _ _ _ _)
  | byMakeWaveletGrid g d o dp od ll _ ih =>
    exact transformInvariant_of_state ops g _ ih (makeWaveletGrid_state _ _ _ _ _ _ _ _)
  | byMakeFourierGrid g d o dp t aw ll _ ih =>
    exact transformInvariant_of_state ops g _ ih (makeFourierGrid_state _ _ _ _ _ _ _ _ _ _)
  | byCopyGrid source g _ _ ihs _ => exact copyGrid_invariant cfg ops hcopy source g ihs
  | byCopyGridOfItself g _ _ => rw [copyGrid_this]; exact clear_invariant cfg ops _
  | bySetDomainTransformPtr g a b _ ih => exact setDomainTransformPtr_invariant ops a b g ih
  | bySetDomainTransform g a b _ ih => exact setDomainTransform_invariant ops a b g ih
  | byClearDomainTransform g _ ih => exact clearDomainTransform_invariant ops g ih
  | bySetConformalTransformASIN g t _ ih => exact setConformalTransformASIN_invariant ops t g ih
  | byClearConformalTransform g _ ih => exact clearConformalTransform_invariant ops g ih
  | byRemovePointsByHierarchicalCoefficient g tol out sc _ ih =>
    exact removePoints_invariant cfg ops hremove tol out sc g ih
  | byClear g _ _ => exact clear_invariant cfg ops g

/-- C20: the transform-length invariant.  The engine keeps its dimension count
when it is copied and when points are removed from it.  Then in every facade
state reached from a freshly constructed facade by calls of the `make...Grid`
members, `copyGrid`, both overloads of `setDomainTransform`,
`clearDomainTransform`, `setConformalTransformASIN`, `clearConformalTransform`,
`removePointsByHierarchicalCoefficient` and `clear` (calls that throw included),
the vectors `a` and `b` of the domain transform are both empty or both of the
length of the dimension count of the engine, the vector of conformal orders is
empty or of that length, and the three vectors are empty when the facade holds
no engine. -/
theorem transform_length_invariant {E K : Type} [Zero K] (cfg : BuildConfig)
    (meta1 : OneDimensionalMeta) (ops : EngineOps E K)
    (hcopy : ∀ (f : Family) (e : E), (ops.copyGrid f (ops.construct f) e).raised = none →
      ops.getNumDimensions f (ops.copyGrid f (ops.construct f) e).state
        = ops.getNumDimensions f e)
    (hremove : ∀ (e : E) (tolerance : K) (output : Int) (scale_correction : Option (List K)),
      ops.getNumDimensions Family.localpolynomial
        (ops.removePointsByHierarchicalCoefficient e tolerance output scale_correction).1.state
      = ops.getNumDimensions Family.localpolynomial e)
    (g : TasmanianSparseGrid E K) (h : Reachable cfg meta1 ops g) :
    ((g.domain_transform_a = [] ∧ g.domain_transform_b = []) ∨
      (g.domain_transform_a.length = g.getNumDimensions ops ∧
        g.domain_transform_b.length = g.getNumDimensions ops)) ∧
    (g.conformal_asin_power = [] ∨ g.conformal_asin_power.length = g.getNumDimensions ops) ∧
    (g.base = none →
      g.domain_transform_a = [] ∧ g.domain_transform_b = [] ∧ g.conformal_asin_power = []) :=
  reachable_invariant cfg meta1 ops hcopy hremove g h

/-- Witness of C20: a Global grid in two dimensions made by `makeGlobalGrid`,
then `setDomainTransform` with `a = [0, 1]`, `b = [2, 3]` and
`setConformalTransformASIN` with the orders `[4, 4]`; the three vectors have
the length 2 of the dimension count. -/
theorem transform_length_invariant_witness :
    ((setConformalTransformASIN (sampleOps ℚ) [4, 4]
      (setDomainTransform (sampleOps ℚ) [0, 1] [2, 3]
        (makeGlobalGrid sampleConfig sampleMeta (sampleOps ℚ) 2 1 1 TypeDepth.type_level
          TypeOneDRule.rule_clenshawcurtis [] 0 0 none []
          (init sampleConfig)).state).state).state.domain_transform_a.length = 2 ∧
     (setConformalTransformASIN (sampleOps ℚ) [4, 4]
      (setDomainTransform (sampleOps ℚ) [0, 1] [2, 3]
        (makeGlobalGrid sampleConfig sampleMeta (sampleOps ℚ) 2 1 1 TypeDepth.type_level
          TypeOneDRule.rule_clenshawcurtis [] 0 0 none []
          (init sampleConfig)).state).state).state.getNumDimensions (sampleOps ℚ) = 2) ∧
    ((setConformalTransformASIN (sampleOps ℚ) [4, 4]
      (setDomainTransform (sampleOps ℚ) [0, 1] [2, 3]
        (makeGlobalGrid sampleConfig sampleMeta (sampleOps ℚ) 2 1 1 TypeDepth.type_level
          TypeOneDRule.rule_clenshawcurtis [] 0 0 none []
          (init sampleConfig)).state).state).state.conformal_asin_power = [] ∨
     (setConformalTransformASIN (sampleOps ℚ) [4, 4]
      (setDomainTransform (sampleOps ℚ) [0, 1] [2, 3]
        (makeGlobalGrid sampleConfig sampleMeta (sampleOps ℚ) 2 1 1 TypeDepth.type_level
          TypeOneDRule.rule_clenshawcurtis [] 0 0 none []
          (init sampleConfig)).state).state).state.conformal_asin_power.length
      = (setConformalTransformASIN (sampleOps ℚ) [4, 4]
      (setDomainTransform (sampleOps ℚ) [0, 1] [2, 3]
        (makeGlobalGrid sampleConfig sampleMeta (sampleOps ℚ) 2 1 1 TypeDepth.type_level
          TypeOneDRule.rule_clenshawcurtis [] 0 0 none []
          (init sampleConfig)).state).state).state.getNumDimensions (sampleOps ℚ)) :=
  ⟨⟨rfl, rfl⟩,
   (transform_length_invariant sampleConfig sampleMeta (sampleOps ℚ) (fun _ _ _ => rfl)
      (fun _ _ _ _ => rfl) _
      (Reachable.bySetConformalTransformASIN _ [4, 4]
        (Reachable.bySetDomainTransform _ [0, 1] [2, 3]
          (Reachable.byMakeGlobalGrid _ 2 1 1 TypeDepth.type_level
            TypeOneDRule.rule_clenshawcurtis [] 0 0 none [] Reachable.constructed)))).2.1⟩

/-! ### Grid creation discards the prior state (C21) -/

/-- C21: a successful grid creation discards the prior state.  For each of the
five `make...Grid` members, every prior facade `g` and all arguments: when the
call returns without an exception, the facade holds the engine that the
`makeGrid` method of a freshly constructed engine of the requested class has
built, the vectors of the domain transform and of the conformal orders are
empty, `usingDynamicConstruction` is false, and `llimits` is the argument
`level_limits` of the call. -/
theorem make_grid_discards_prior_state {E K : Type} (cfg : BuildConfig)
    (meta1 : OneDimensionalMeta) (ops : EngineOps E K) (g : TasmanianSparseGrid E K)
    (dimensions outputs depth order : Int) (type : TypeDepth) (rule : TypeOneDRule)
    (anisotropic_weights : List Int) (alpha beta : K) (custom_filename : Option String)
    (level_limits : List Int) :
    ((makeGlobalGrid cfg meta1 ops dimensions outputs depth type rule anisotropic_weights alpha
        beta custom_filename level_limits g).raised = none →
      (makeGlobalGrid cfg meta1 ops dimensions outputs depth type rule anisotropic_weights alpha
        beta custom_filename level_limits g).state =
        { g.clear cfg with
          base := some (Family.global, (ops.makeGlobalGrid (ops.construct Family.global)
            dimensions outputs depth type rule anisotropic_weights alpha beta custom_filename
            level_limits).state)
          domain_transform_a := []
          domain_transform_b := []
          conformal_asin_power := []
          usingDynamicConstruction := false
          llimits := level_limits
          engine_calls := g.engine_calls ++ [EngineCall.makeGrid] }) ∧
    ((makeSequenceGrid cfg meta1 ops dimensions outputs depth type rule anisotropic_weights
        level_limits g).raised = none →
      (makeSequenceGrid cfg meta1 ops dimensions outputs depth type rule anisotropic_weights
        level_limits g).state =
        { g.clear cfg with
          base := some (Family.sequence, (ops.makeSequenceGrid (ops.construct Family.sequence)
            dimensions outputs depth type rule anisotropic_weights level_limits).state)
          domain_transform_a := []
          domain_transform_b := []
          conformal_asin_power := []
          usingDynamicConstruction := false
          llimits := level_limits
          engine_calls := g.engine_calls ++ [EngineCall.makeGrid] }) ∧
    ((makeLocalPolynomialGrid cfg meta1 ops dimensions outputs depth order rule level_limits
        g).raised = none →
      (makeLocalPolynomialGrid cfg meta1 ops dimensions outputs depth order rule level_limits
        g).state =
        { g.clear cfg with
          base := some (Family.localpolynomial,
            (ops.makeLocalPolynomialGrid (ops.construct Family.localpolynomial)
              dimensions outputs depth order rule level_limits).state)
          domain_transform_a := []
          domain_transform_b := []
          conformal_asin_power := []
          usingDynamicConstruction := false
          llimits := level_limits
          engine_calls := g.engine_calls ++ [EngineCall.makeGrid] }) ∧
    ((makeWaveletGrid cfg ops dimensions outputs depth order level_limits g).raised = none →
      (makeWaveletGrid cfg ops dimensions outputs depth order level_limits g).state =
        { g.clear cfg with
          base := some (Family.wavelet, (ops.makeWaveletGrid (ops.construct Family.wavelet)
            dimensions outputs depth order level_limits).state)
          domain_transform_a := []
          domain_transform_b := []
          conformal_asin_power := []
          usingDynamicConstruction := false
          llimits := level_limits
          engine_calls := g.engine_calls ++ [EngineCall.makeGrid] }) ∧
    ((makeFourierGrid cfg meta1 ops dimensions outputs depth type anisotropic_weights
        level_limits g).raised = none →
      (makeFourierGrid cfg meta1 ops dimensions outputs depth type anisotropic_weights
        level_limits g).state =
        { g.clear cfg with
          base := some (Family.fourier, (ops.makeFourierGrid (ops.construct Family.fourier)
            dimensions outputs depth type anisotropic_weights level_limits).state)
          domain_transform_a := []
          domain_transform_b := []
          conformal_asin_power := []
          usingDynamicConstruction := false
          llimits := level_limits
          engine_calls := g.engine_calls ++ [EngineCall.makeGrid] }) := by
  refine ⟨?_, ?_, ?_, ?_, ?_⟩
  · unfold makeGlobalGrid
    split_ifs <;> intro h <;> first | rfl | (simp [Outcome.throw] at h)
  · unfold makeSequenceGrid
    split_ifs <;> intro h <;> first | rfl | (simp [Outcome.throw] at h)
  · unfold makeLocalPolynomialGrid
    split_ifs <;> intro h <;> first | rfl | (simp [Outcome.throw] at h)
  · unfold makeWaveletGrid
    split_ifs <;> intro h <;> first | rfl | (simp [Outcome.throw] at h)
  · unfold makeFourierGrid
    split_ifs <;> intro h <;> first | rfl | (simp [Outcome.throw] at h)

/-- Witness of C21: `makeSequenceGrid` with two dimensions and the level limits
`[5, 6]`, called on a facade that holds a Global grid, a domain transform, a
conformal transform, the level limits `[3]` and a construction under way. -/
theorem make_grid_discards_prior_state_witness :
    (makeSequenceGrid sampleConfig sampleMeta (sampleOps ℚ) 2 1 1 TypeDepth.type_level
      (TypeOneDRule.other 0) [] [5, 6] (sampleReader ℚ)).raised = none ∧
    (makeSequenceGrid sampleConfig sampleMeta (sampleOps ℚ) 2 1 1 TypeDepth.type_level
      (TypeOneDRule.other 0) [] [5, 6] (sampleReader ℚ)).state =
      { (sampleReader ℚ).clear sampleConfig with
        base := some (Family.sequence, ((sampleOps ℚ).makeSequenceGrid
          ((sampleOps ℚ).construct Family.sequence) 2 1 1 TypeDepth.type_level
          (TypeOneDRule.other 0) [] [5, 6]).state)
        domain_transform_a := []
        domain_transform_b := []
        conformal_asin_power := []
        usingDynamicConstruction := false
        llimits := [5, 6]
        engine_calls := (sampleReader ℚ).engine_calls ++ [EngineCall.makeGrid] } :=
  ⟨rfl, (make_grid_discards_prior_state sampleConfig sampleMeta (sampleOps ℚ) (sampleReader ℚ)
    2 1 1 0 TypeDepth.type_level (TypeOneDRule.other 0) [] 0 0 none [5, 6]).2.1 rfl⟩

/-! ### copyGrid (C22, C29) -/

theorem copyGrid_of_empty {E K : Type} (cfg : BuildConfig) (ops : EngineOps E K)
    (source g : TasmanianSparseGrid E K) (hbase : source.base = none)
    (ha : source.domain_transform_a = []) :
    copyGrid cfg ops (SourcePointer.other source) g = Outcome.ok
      { g.clear cfg with
        conformal_asin_power := source.conformal_asin_power
        llimits := source.llimits } := by
  simp [copyGrid, SourcePointer.deref, hbase, ha, Outcome.ok]

theorem copyGrid_of_engine {E K : Type} (cfg : BuildConfig) (ops : EngineOps E K)
    (source g : TasmanianSparseGrid E K) (f : Family) (es : E)
    (hbase : source.base = some (f, es))
    (hraised : (ops.copyGrid f (ops.construct f) es).raised = none)
    (hab : (source.domain_transform_a = [] ∧ source.domain_transform_b = []) ∨
      (source.domain_transform_a ≠ [] ∧
        source.domain_transform_a.length
          = ops.getNumDimensions f (ops.copyGrid f (ops.construct f) es).state ∧
        source.domain_transform_b.length
          = ops.getNumDimensions f (ops.copyGrid f (ops.construct f) es).state)) :
    copyGrid cfg ops (SourcePointer.other source) g = Outcome.ok
      { g.clear cfg with
        base := some (f, (ops.copyGrid f (ops.construct f) es).state)
        engine_calls := g.engine_calls ++ [EngineCall.copyGrid]
        domain_transform_a := source.domain_transform_a
        domain_transform_b := source.domain_transform_b
        conformal_asin_power := source.conformal_asin_power
        llimits := source.llimits } := by
  rcases hab with ⟨ha, hb⟩ | ⟨hne, hla, hlb⟩
  · simp [copyGrid, SourcePointer.deref, hbase, hraised, ha, hb, withEngine, Outcome.ok, clear]
  · have hpos : source.domain_transform_a.length > 0 := List.length_pos.mpr hne
    have hd : ops.getNumDimensions f (ops.copyGrid f (ops.construct f) es).state ≠ 0 := by
      rw [← hla]; exact Nat.pos_iff_ne_zero.mp hpos
    have hd1 : 0 < ops.getNumDimensions f (ops.copyGrid f (ops.construct f) es).state :=
      Nat.pos_of_ne_zero hd
    simp [copyGrid, SourcePointer.deref, hbase, hraised, withEngine, Outcome.ok, Outcome.throw,
      clear, setDomainTransform, hd, hd1, hla, hlb]

/-- C22, counterexample: a facade copied from itself.  The facade holds a Global
grid in one dimension, the domain `[3, 7]`, the conformal order 1 and the level
limits `[3]`, and satisfies the transform-length invariant.  `copyGrid(this)`
returns normally and leaves it without an engine, without a domain transform
and without conformal orders: `clear()` runs before the first read through
`source`.  Only the level limits are those of the source, because `clear()`
does not touch them. -/
theorem copyGrid_of_itself_clears :
    transformInvariant (sampleOps ℚ) (sampleReader ℚ) ∧
    (sampleReader ℚ).isGlobal = true ∧
    (sampleReader ℚ).domain_transform_a = [3] ∧
    (sampleReader ℚ).conformal_asin_power = [1] ∧
    (copyGrid sampleConfig (sampleOps ℚ) SourcePointer.this (sampleReader ℚ)).raised = none ∧
    (copyGrid sampleConfig (sampleOps ℚ) SourcePointer.this (sampleReader ℚ)).state.empty
      = true ∧
    (copyGrid sampleConfig (sampleOps ℚ) SourcePointer.this (sampleReader ℚ)).state.isGlobal
      = false ∧
    (copyGrid sampleConfig (sampleOps ℚ) SourcePointer.this
      (sampleReader ℚ)).state.domain_transform_a = [] ∧
    (copyGrid sampleConfig (sampleOps ℚ) SourcePointer.this
      (sampleReader ℚ)).state.conformal_asin_power = [] ∧
    (copyGrid sampleConfig (sampleOps ℚ) SourcePointer.this (sampleReader ℚ)).state.llimits
      = [3] := by
  refine ⟨⟨Or.inr ⟨rfl, rfl⟩, Or.inr rfl, fun h => by simp [sampleReader, sampleGrid] at h⟩,
    rfl, rfl, rfl, ?_⟩
  rw [copyGrid_this]
  exact ⟨rfl, rfl, rfl, rfl, rfl, rfl⟩

/-- C22, as amended: `copyGrid` from another object is a value copy of the
facade-level state.  The source is an object other than the destination and
satisfies the transform-length invariant, and the engine method `copyGrid` of a
fresh engine returns normally with the dimension count of the source engine.
Then for every prior state of the destination `copyGrid(source)` returns
normally, and afterwards the destination holds the copy of the source engine,
of the class of the source (no engine when the source has none), and its vectors
`a` and `b` of the domain transform, its conformal orders and its level limits
are those of the source.  A facade copied from itself is left as `clear()`
leaves it. -/
theorem copyGrid_value_copy {E K : Type} (cfg : BuildConfig) (ops : EngineOps E K)
    (source g : TasmanianSparseGrid E K) (hs : transformInvariant ops source)
    (hcopy : ∀ (f : Family) (es : E), source.base = some (f, es) →
      (ops.copyGrid f (ops.construct f) es).raised = none ∧
      ops.getNumDimensions f (ops.copyGrid f (ops.construct f) es).state
        = ops.getNumDimensions f es) :
    ((copyGrid cfg ops (SourcePointer.other source) g).raised = none ∧
    (copyGrid cfg ops (SourcePointer.other source) g).state.base
      = source.base.map (fun fe => (fe.1, (ops.copyGrid fe.1 (ops.construct fe.1) fe.2).state)) ∧
    (∀ f : Family,
      (copyGrid cfg ops (SourcePointer.other source) g).state.isFamily f = source.isFamily f) ∧
    (copyGrid cfg ops (SourcePointer.other source) g).state.empty = source.empty ∧
    (copyGrid cfg ops (SourcePointer.other source) g).state.domain_transform_a
      = source.domain_transform_a ∧
    (copyGrid cfg ops (SourcePointer.other source) g).state.domain_transform_b
      = source.domain_transform_b ∧
    (copyGrid cfg ops (SourcePointer.other source) g).state.conformal_asin_power
      = source.conformal_asin_power ∧
    (copyGrid cfg ops (SourcePointer.other source) g).state.llimits = source.llimits) ∧
    copyGrid cfg ops SourcePointer.this g = Outcome.ok (g.clear cfg) := by
  refine ⟨?_, copyGrid_this cfg ops g⟩
  obtain ⟨hab, _, hn⟩ := hs
  cases hbase : source.base with
  | none =>
    obtain ⟨ha, hb, _⟩ := hn hbase
    rw [copyGrid_of_empty cfg ops source g hbase ha]
    simp [Outcome.ok, clear, isFamily, empty, hbase, ha, hb]
  | some fe =>
    obtain ⟨f, es⟩ := fe
    obtain ⟨hraised, hdims⟩ := hcopy f es hbase
    have hab1 : (source.domain_transform_a = [] ∧ source.domain_transform_b = []) ∨
        (source.domain_transform_a ≠ [] ∧
          source.domain_transform_a.length
            = ops.getNumDimensions f (ops.copyGrid f (ops.construct f) es).state ∧
          source.domain_transform_b.length
            = ops.getNumDimensions f (ops.copyGrid f (ops.construct f) es).state) := by
      simp only [getNumDimensions, hbase] at hab
      rcases hab with h | ⟨h1, h2⟩
      · exact Or.inl h
      · by_cases ha : source.domain_transform_a = []
        · left
          refine ⟨ha, ?_⟩
          rw [ha] at h1
          apply List.eq_nil_of_length_eq_zero
          rw [h2, ← h1]; rfl
        · exact Or.inr ⟨ha, by rw [hdims]; exact h1, by rw [hdims]; exact h2⟩
    rw [copyGrid_of_engine cfg ops source g f es hbase hraised hab1]
    simp [Outcome.ok, clear, isFamily, empty, hbase]

/-- Witness of C22: the facade with a Global grid in one dimension, the domain
`[3, 7]`, the conformal order 1 and the level limits `[3]`, copied into a
freshly constructed facade. -/
theorem copyGrid_value_copy_witness :
    (copyGrid sampleConfig (sampleOps ℚ) (SourcePointer.other (sampleReader ℚ))
      (init sampleConfig)).raised = none ∧
    (copyGrid sampleConfig (sampleOps ℚ) (SourcePointer.other (sampleReader ℚ))
      (init sampleConfig)).state.domain_transform_a = (sampleReader ℚ).domain_transform_a ∧
    (copyGrid sampleConfig (sampleOps ℚ) (SourcePointer.other (sampleReader ℚ))
      (init sampleConfig)).state.llimits = (sampleReader ℚ).llimits :=
  ⟨(copyGrid_value_copy sampleConfig (sampleOps ℚ) (sampleReader ℚ) (init sampleConfig)
      ⟨Or.inr ⟨rfl, rfl⟩, Or.inr rfl, fun h => by simp [sampleReader, sampleGrid] at h⟩
      (fun _ _ _ => ⟨rfl, rfl⟩)).1.1,
   (copyGrid_value_copy sampleConfig (sampleOps ℚ) (sampleReader ℚ) (init sampleConfig)
      ⟨Or.inr ⟨rfl, rfl⟩, Or.inr rfl, fun h => by simp [sampleReader, sampleGrid] at h⟩
      (fun _ _ _ => ⟨rfl, rfl⟩)).1.2.2.2.2.1,
   (copyGrid_value_copy sampleConfig (sampleOps ℚ) (sampleReader ℚ) (init sampleConfig)
      ⟨Or.inr ⟨rfl, rfl⟩, Or.inr rfl, fun h => by simp [sampleReader, sampleGrid] at h⟩
      (fun _ _ _ => ⟨rfl, rfl⟩)).1.2.2.2.2.2.2.2⟩

theorem copyGrid_flag_other {E K : Type} (cfg : BuildConfig) (ops : EngineOps E K)
    (source g : TasmanianSparseGrid E K) :
    (copyGrid cfg ops (SourcePointer.other source) g).state.usingDynamicConstruction = false := by
  unfold copyGrid
  simp only [SourcePointer.deref]
  set r : Outcome (TasmanianSparseGrid E K) :=
    (match source.base with
      | none => Outcome.ok (g.clear cfg)
      | some (f, es) => (g.clear cfg).withEngine f EngineCall.copyGrid
          (ops.copyGrid f (ops.construct f) es)) with hr
  have hrflag : r.state.usingDynamicConstruction = false := by
    rw [hr]
    cases source.base with
    | none => rfl
    | some fe => rfl
  cases hraised : r.raised with
  | some x => simpa [Outcome.throw] using hrflag
  | none =>
    simp only []
    set r2 : Outcome (TasmanianSparseGrid E K) :=
      (if source.domain_transform_a.length > 0 then
        setDomainTransform ops source.domain_transform_a source.domain_transform_b r.state
      else Outcome.ok r.state) with hr2
    have hr2flag : r2.state.usingDynamicConstruction = false := by
      rw [hr2]
      by_cases hl : source.domain_transform_a.length > 0
      · rw [if_pos hl]
        unfold setDomainTransform
        cases hb : r.state.base with
        | none => simpa [Outcome.throw] using hrflag
        | some fe =>
          obtain ⟨f, e⟩ := fe
          simp only []
          split_ifs <;> simpa [Outcome.throw, Outcome.ok] using hrflag
      · rw [if_neg hl]; exact hrflag
    cases hraised2 : r2.raised with
    | some x => simpa [Outcome.throw] using hr2flag
    | none => simpa [Outcome.ok] using hr2flag

theorem copyGrid_flag {E K : Type} (cfg : BuildConfig) (ops : EngineOps E K)
    (source : SourcePointer E K) (g : TasmanianSparseGrid E K) :
    (copyGrid cfg ops source g).state.usingDynamicConstruction = false := by
  cases source with
  | this => rw [copyGrid_this]; rfl
  | other s => exact copyGrid_flag_other cfg ops s g

theorem beginConstruction_flag {E K : Type} (ops : EngineOps E K) (g : TasmanianSparseGrid E K)
    (h : (beginConstruction ops g).raised = none) :
    (beginConstruction ops g).state.usingDynamicConstruction = true := by
  unfold beginConstruction at h ⊢
  by_cases hw : g.isWavelet ∨ g.isFourier
  · rw [if_pos hw] at h; simp [Outcome.throw] at h
  · rw [if_neg hw] at h ⊢
    by_cases hu : (!g.usingDynamicConstruction) = true
    · rw [if_pos hu] at h ⊢
      simp only [] at h ⊢
      set r : Outcome (TasmanianSparseGrid E K) :=
        (if g.getNumLoaded ops > 0 then clearRefinement ops g else Outcome.ok g) with hr
      cases hraised : r.raised with
      | some x => rw [hraised] at h; simp [Outcome.throw] at h
      | none =>
        rw [hraised] at h
        simp only [] at h ⊢
        cases hb : r.state.base with
        | none => rw [hb] at h; simp [Outcome.throw] at h
        | some fe => rfl
    · rw [if_neg hu]
      simpa using hu

theorem forEachIndexM_error {K : Type} (f : Nat → K → Except Exn K) (x : List K) (i0 : Nat)
    (e : Exn) (h : forEachIndexM f i0 x = Except.error e) : ∃ i v, f i v = Except.error e := by
  induction x generalizing i0 with
  | nil => simp [forEachIndexM] at h
  | cons v vs ih =>
    simp only [forEachIndexM] at h
    cases hv : f i0 v with
    | error e1 =>
      rw [hv] at h
      simp only [Except.error.injEq] at h
      exact ⟨i0, v, by rw [hv, h]⟩
    | ok w =>
      rw [hv] at h
      cases hr : forEachIndexM f (i0 + 1) vs with
      | error e1 =>
        rw [hr] at h
        simp only [Except.error.injEq] at h
        exact ih (i0 + 1) (by rw [hr, h])
      | ok ws => rw [hr] at h; cases h

theorem conformalInverse_error {K : Type} [LinearOrderedField K] (m : Numerics K) (fuel : Nat)
    (power : Int) (v : K) (e : Exn) (h : conformalInverse m fuel power v = Except.error e) :
    e = Exn.no_return "the Newton iteration is still running" := by
  unfold conformalInverse at h
  by_cases hv : v ≠ 0
  · rw [if_pos hv] at h
    simp only [] at h
    cases hn : conformalNewton m power (m.fabs v) fuel (m.fabs v)
        (conformalResidual m power (m.fabs v) (m.fabs v)) with
    | none =>
      rw [hn] at h
      simp only [Except.error.injEq] at h
      exact h.symm
    | some y => rw [hn] at h; cases h
  · rw [if_neg hv] at h; cases h

theorem mapConformalTransformedToCanonical_error {E K : Type} [LinearOrderedField K]
    (m : Numerics K) (fuel : Nat) (g : TasmanianSparseGrid E K) (d p : Nat) (x : List K)
    (e : Exn) (h : mapConformalTransformedToCanonical m fuel g d p x = Except.error e) :
    e = Exn.no_return "the Newton iteration is still running" := by
  unfold mapConformalTransformedToCanonical at h
  by_cases hc : g.conformal_asin_power.length ≠ 0
  · rw [if_pos hc] at h
    obtain ⟨i, v, hiv⟩ := forEachIndexM_error _ _ _ _ h
    by_cases hi : i < p * d
    · simp only [if_pos hi] at hiv
      exact conformalInverse_error m fuel _ v e hiv
    · simp only [if_neg hi] at hiv
      cases hiv
  · rw [if_neg hc] at h; cases h

/-- The exceptions of `formCanonicalPoints`: the dereference of a null engine
pointer, or a Newton loop that is still running. -/
theorem formCanonicalPoints_error {E K : Type} [LinearOrderedField K] (m : Numerics K)
    (fuel : Nat) (ops : EngineOps E K) (g : TasmanianSparseGrid E K) (x : List K) (num_x : Nat)
    (err : Exn) (h : formCanonicalPoints m fuel ops g x num_x = Except.error err) :
    ∃ what, err = Exn.undefined_behavior what ∨ err = Exn.no_return what := by
  unfold formCanonicalPoints at h
  by_cases hc : g.domain_transform_a.length ≠ 0 ∨ g.conformal_asin_power.length ≠ 0
  · rw [if_pos hc] at h
    cases hb : g.base with
    | none =>
      rw [hb] at h
      simp only [Except.error.injEq] at h
      exact ⟨_, Or.inl (by rw [← h]; rfl)⟩
    | some fe =>
      obtain ⟨f, e⟩ := fe
      rw [hb] at h
      simp only [] at h
      cases hm : mapConformalTransformedToCanonical m fuel g (ops.getNumDimensions f e) num_x
          (x.take (ops.getNumDimensions f e * num_x)) with
      | error e1 =>
        rw [hm] at h
        simp only [Except.error.injEq] at h
        subst h
        exact ⟨_, Or.inr (mapConformalTransformedToCanonical_error m fuel g _ _ _ _ hm)⟩
      | ok x1 =>
        rw [hm] at h
        simp only [] at h
        by_cases ha : g.domain_transform_a.length ≠ 0
        · rw [if_pos ha] at h; cases h
        · rw [if_neg ha] at h; cases h
  · rw [if_neg hc] at h; cases h

/-- C29: `copyGrid` never carries over the construction state.  For every
source, also one with `usingDynamicConstruction` set and also the destination
itself, and every prior state of the destination, the flag
`usingDynamicConstruction` of the destination is false after
`copyGrid(source)`, whether the call returns or throws.  Both
overloads of `loadConstructedPoint` called on the copy throw
`std::runtime_error` and leave it as it is; once `beginConstruction()` has
returned normally on the copy the flag is set, and `loadConstructedPoint` no
longer ends as it did, with the facade untouched and the error of a call before
`beginConstruction()`. -/
theorem copyGrid_drops_construction_state {E K : Type} [LinearOrderedField K] (m : Numerics K)
    (fuel : Nat) (cfg : BuildConfig) (ops : EngineOps E K)
    (source : SourcePointer E K) (g : TasmanianSparseGrid E K) (x y : List K) :
    (copyGrid cfg ops source g).state.usingDynamicConstruction = false ∧
    loadConstructedPoint m fuel ops x y (copyGrid cfg ops source g).state
      = Outcome.throw (copyGrid cfg ops source g).state
        (Exn.runtime_error "ERROR: loadConstructedPoint() called before beginConstruction()") ∧
    loadConstructedPointPtr m fuel ops x y (copyGrid cfg ops source g).state
      = Outcome.throw (copyGrid cfg ops source g).state
        (Exn.runtime_error "ERROR: loadConstructedPoint() called before beginConstruction()") ∧
    ((beginConstruction ops (copyGrid cfg ops source g).state).raised = none →
      (beginConstruction ops
        (copyGrid cfg ops source g).state).state.usingDynamicConstruction = true ∧
      loadConstructedPoint m fuel ops x y
        (beginConstruction ops (copyGrid cfg ops source g).state).state
        ≠ Outcome.throw (beginConstruction ops (copyGrid cfg ops source g).state).state
          (Exn.runtime_error
            "ERROR: loadConstructedPoint() called before beginConstruction()")) := by
  have hflag := copyGrid_flag cfg ops source g
  refine ⟨hflag, ?_, ?_, ?_⟩
  · simp [loadConstructedPoint, hflag]
  · simp [loadConstructedPointPtr, hflag]
  · intro h
    have hb := beginConstruction_flag ops _ h
    refine ⟨hb, ?_⟩
    unfold loadConstructedPoint
    simp only [hb, Bool.not_true, Bool.false_eq_true, if_false]
    split_ifs
    · simp [Outcome.throw]
    · simp [Outcome.throw]
    · cases hf : formCanonicalPoints m fuel ops
          (beginConstruction ops (copyGrid cfg ops source g).state).state x 1 with
      | error err =>
        obtain ⟨what, hw | hw⟩ := formCanonicalPoints_error m fuel ops _ x 1 err hf <;>
          simp [Outcome.throw, hw]
      | ok xc =>
        simp only []
        cases hbase : (beginConstruction ops (copyGrid cfg ops source g).state).state.base with
        | none => simp [Outcome.throw, nullEngine]
        | some fe => exact withEngine_ne_throw _ _ _ _ _ _ rfl

/-- Witness of C29: the source is a Sequence grid in the middle of a dynamic
construction; its copy is not, and is after `beginConstruction()`. -/
theorem copyGrid_drops_construction_state_witness :
    (sampleConstructing ℝ).usingDynamicConstruction = true ∧
    (copyGrid sampleConfig (sampleOps ℝ)
      (SourcePointer.other (sampleConstructing ℝ))
      (init sampleConfig)).state.usingDynamicConstruction = false ∧
    (beginConstruction (sampleOps ℝ) (copyGrid sampleConfig (sampleOps ℝ)
      (SourcePointer.other (sampleConstructing ℝ))
      (init sampleConfig)).state).state.usingDynamicConstruction = true :=
  ⟨rfl,
   (copyGrid_drops_construction_state (realNumerics 0) 0 sampleConfig (sampleOps ℝ)
      (SourcePointer.other (sampleConstructing ℝ)) (init sampleConfig) [0] [1]).1,
   ((copyGrid_drops_construction_state (realNumerics 0) 0 sampleConfig (sampleOps ℝ)
      (SourcePointer.other (sampleConstructing ℝ)) (init sampleConfig) [0] [1]).2.2.2 rfl).1⟩

/-! ### The end points of the conformal map (C28) -/

/-- C28: the ASIN conformal map fixes the end points of the canonical interval.
In exact real arithmetic, for every truncation order `power ≥ 0`, the
normaliser `c_m` is the sum of the coefficients `exp(c_k)` of the series, the
body `T` of `mapConformalCanonicalToTransformed` satisfies `T(1) = 1` and
`T(-1) = -1`, and for the order 0 the map is the identity. -/
theorem conformal_map_fixes_endpoints (tol : ℝ) (power : Int) (hp : 0 ≤ power) :
    conformalCM (realNumerics tol) power
      = ∑ k in Finset.range (numTerms power), Real.exp (conformalC (realNumerics tol) k) ∧
    conformalForward (realNumerics tol) power 1 = 1 ∧
    conformalForward (realNumerics tol) power (-1) = -1 ∧
    (∀ x : ℝ, conformalForward (realNumerics tol) 0 x = x) := by
  have hcm := conformalCM_pos tol power hp
  have h1 : conformalForward (realNumerics tol) power 1 = 1 := by
    rw [conformalForward_eq]
    simp only [one_pow, mul_one]
    rw [← conformalCM_eq_sum]
    exact div_self hcm.ne'
  refine ⟨conformalCM_eq_sum tol power, h1, ?_, ?_⟩
  · rw [conformalForward_neg, h1]
  · intro x
    rw [conformalForward_eq, conformalCM_eq_sum]
    have hn : numTerms 0 = 1 := rfl
    rw [hn]
    simp [conformalC_zero]

/-- Witness of C28: the order 1, where `T(x) = (6 x + x^3) / 7`. -/
theorem conformal_map_fixes_endpoints_witness :
    conformalForward (realNumerics 0) 1 1 = 1 ∧ conformalForward (realNumerics 0) 1 (-1) = -1 :=
  ⟨(conformal_map_fixes_endpoints 0 1 (by decide)).2.1,
   (conformal_map_fixes_endpoints 0 1 (by decide)).2.2.1⟩

/-! ### Queries and operations on an empty facade (C23, C24) -/

/-- C23: the query accessors on an empty facade return defaults.  When the
facade holds no engine, `getAlpha()` and `getBeta()` return 0, `getOrder()`
returns -1, `getRule()` returns `rule_none`, the five counts
`getNumDimensions()`, `getNumOutputs()`, `getNumLoaded()`, `getNumNeeded()` and
`getNumPoints()` return 0, and the five class tests return false; none of them
reaches the engine pointer. -/
theorem empty_facade_queries {E K : Type} [Zero K] (ops : EngineOps E K)
    (g : TasmanianSparseGrid E K) (h : g.base = none) :
    g.getAlpha ops = 0 ∧ g.getBeta ops = 0 ∧ g.getOrder ops = -1 ∧
    g.getRule ops = TypeOneDRule.rule_none ∧
    g.getNumDimensions ops = 0 ∧ g.getNumOutputs ops = 0 ∧ g.getNumLoaded ops = 0 ∧
    g.getNumNeeded ops = 0 ∧ g.getNumPoints ops = 0 ∧
    g.isGlobal = false ∧ g.isSequence = false ∧ g.isLocalPolynomial = false ∧
    g.isWavelet = false ∧ g.isFourier = false := by
  simp [getAlpha, getBeta, getOrder, getRule, getNumDimensions, getNumOutputs, getNumLoaded,
    getNumNeeded, getNumPoints, isGlobal, isSequence, isLocalPolynomial, isWavelet, isFourier,
    isFamily, h]

/-- Witness of C23: a freshly constructed facade. -/
theorem empty_facade_queries_witness :
    (init sampleConfig : TasmanianSparseGrid SampleEngine ℚ).getAlpha (sampleOps ℚ) = 0 ∧
    (init sampleConfig : TasmanianSparseGrid SampleEngine ℚ).getOrder (sampleOps ℚ) = -1 ∧
    (init sampleConfig : TasmanianSparseGrid SampleEngine ℚ).getRule (sampleOps ℚ)
      = TypeOneDRule.rule_none ∧
    (init sampleConfig : TasmanianSparseGrid SampleEngine ℚ).getNumPoints (sampleOps ℚ) = 0 :=
  ⟨(empty_facade_queries (sampleOps ℚ) (init sampleConfig) rfl).1,
   (empty_facade_queries (sampleOps ℚ) (init sampleConfig) rfl).2.2.1,
   (empty_facade_queries (sampleOps ℚ) (init sampleConfig) rfl).2.2.2.1,
   (empty_facade_queries (sampleOps ℚ) (init sampleConfig) rfl).2.2.2.2.2.2.2.2.1⟩

/-- C24 (defect of the members that use `base` unguarded).  On a freshly
constructed facade, which holds no engine: both overloads of
`loadNeededPoints`, `evaluate` taking arrays, `evaluate` taking vectors with an
empty `x`, `evaluateBatch` taking arrays, both overloads of `integrate` and the
three overloads of `getPoints` dereference the null engine pointer;
`evaluateBatch` taking vectors divides by the dimension count 0; and
`beginConstruction()` sets `usingDynamicConstruction` before it dereferences the
null pointer.  None of them throws an exception.  Only `evaluate` taking vectors
with a non-empty `x` throws `std::runtime_error`. -/
theorem empty_grid_operations_dereference_null {E K : Type} [LinearOrderedField K]
    (cfg : BuildConfig) (m : Numerics K) (fuel : Nat) (ops : EngineOps E K)
    (x vals : List K) (num_x : Nat) :
    loadNeededPointsPtr ops vals (init cfg) = Outcome.throw (init cfg) nullEngine ∧
    loadNeededPoints ops vals (init cfg) = Outcome.throw (init cfg) nullEngine ∧
    evaluatePtr m fuel ops x (init cfg) = Except.error nullEngine ∧
    evaluate m fuel ops [] (init cfg) = Except.error nullEngine ∧
    evaluate m fuel ops (0 :: x) (init cfg)
      = Except.error (Exn.runtime_error "ERROR: in evaluate() x must match getNumDimensions()") ∧
    evaluateBatchPtr cfg m fuel ops x num_x (init cfg) = Except.error nullEngine ∧
    evaluateBatch cfg m fuel ops x (init cfg) = Except.error divisionByZero ∧
    integrate m ops (init cfg) = Except.error nullEngine ∧
    integrateVector m ops (init cfg) = Except.error nullEngine ∧
    getPointsPtr m ops (init cfg) = Except.error nullEngine ∧
    getPoints m ops (init cfg) = Except.error nullEngine ∧
    getPointsNew m ops (init cfg) = Except.error nullEngine ∧
    beginConstruction ops (init cfg)
      = Outcome.throw { (init cfg : TasmanianSparseGrid E K) with
          usingDynamicConstruction := true } nullEngine ∧
    nullEngine = Exn.undefined_behavior "dereference of the empty base pointer" ∧
    divisionByZero = Exn.undefined_behavior "integer division by zero" := by
  refine ⟨rfl, rfl, ?_, ?_, ?_, ?_, ?_, rfl, rfl, rfl, rfl, rfl, ?_, rfl, rfl⟩
  · simp [evaluatePtr, formCanonicalPoints, init]
  · simp [evaluate, evaluatePtr, formCanonicalPoints, init, getNumDimensions]
  · simp [evaluate, init, getNumDimensions]
  · simp [evaluateBatchPtr, formCanonicalPoints, init]
  · simp [evaluateBatch, init, getNumDimensions]
  · simp [beginConstruction, init, isWavelet, isFourier, isFamily, getNumLoaded, Outcome.ok,
      Outcome.throw]

/-! ### The buffers of the sparse hierarchical functions (C25) -/

theorem formCanonicalPoints_canonical {E K : Type} [LinearOrderedField K] (m : Numerics K)
    (fuel : Nat) (ops : EngineOps E K) (g : TasmanianSparseGrid E K) (x : List K) (num_x : Nat)
    (ha : g.domain_transform_a = []) (hc : g.conformal_asin_power = []) :
    formCanonicalPoints m fuel ops g x num_x = Except.ok x := by
  simp [formCanonicalPoints, ha, hc]

/-- For a Fourier engine that writes `2 * num_x * getNumPoints()` values, the
count of `...GetNZ` is half of what `...Static` writes into `vals`. -/
theorem fourier_sparse_overrun {E K : Type} [LinearOrderedField K] (m : Numerics K)
    (fuel : Nat) (ops : EngineOps E K) (g : TasmanianSparseGrid E K) (e : E) (x : List K)
    (num_x : Nat) (hbase : g.base = some (Family.fourier, e))
    (ha : g.domain_transform_a = []) (hc : g.conformal_asin_power = [])
    (hwrites : (ops.evaluateHierarchicalFunctions Family.fourier e x num_x).length
      = 2 * num_x * ops.getNumPoints Family.fourier e)
    (hpos : 0 < num_x * ops.getNumPoints Family.fourier e) :
    evaluateSparseHierarchicalFunctionsGetNZ m fuel ops x num_x g
      = Except.ok ((num_x * ops.getNumPoints Family.fourier e : Nat) : Int) ∧
    tsgEvaluateSparseHierarchicalFunctions m fuel ops x num_x g = Except.error outOfBounds := by
  have hnz : evaluateSparseHierarchicalFunctionsGetNZ m fuel ops x num_x g
      = Except.ok ((num_x * ops.getNumPoints Family.fourier e : Nat) : Int) := by
    simp [evaluateSparseHierarchicalFunctionsGetNZ, formCanonicalPoints_canonical, ha, hc,
      isLocalPolynomial, isWavelet, isFamily, hbase, empty, getNumPoints]
  refine ⟨hnz, ?_⟩
  unfold tsgEvaluateSparseHierarchicalFunctions
  rw [hnz]
  have hover : ¬ ((ops.evaluateHierarchicalFunctions Family.fourier e x num_x).length
      ≤ (List.replicate (num_x * ops.getNumPoints Family.fourier e) (0 : K)).length) := by
    rw [hwrites, List.length_replicate, Nat.mul_assoc]
    omega
  simp only [evaluateSparseHierarchicalFunctionsStatic, hbase,
    formCanonicalPoints_canonical m fuel ops g x num_x ha hc, isLocalPolynomial, isWavelet,
    isFamily, Int.toNat_ofNat]
  simp only [writeInto, if_neg hover]
  simp

/-- C25 (defect of `evaluateSparseHierarchicalFunctionsGetNZ` for Fourier grids).
A Fourier grid in one dimension with one point, and one point `x`; the engine
writes `2 * num_x * getNumPoints() = 2` values.  `...GetNZ` returns 1, so
`tsgEvaluateSparseHierarchicalFunctions` allocates one entry for `vals` and
`...Static` writes past its end.  The member
`evaluateSparseHierarchicalFunctions` that allocates the arrays itself, and
`evaluateHierarchicalFunctions` taking vectors, size the array for 2 values.
The same holds for every Fourier engine that writes `2 * num_x * getNumPoints()`
values, on every facade without transforms, as soon as there is one point and
one `x`. -/
theorem sparse_buffers_overrun_for_fourier {K : Type} [LinearOrderedField K] (m : Numerics K)
    (fuel : Nat) :
    (sampleOps K).evaluateHierarchicalFunctions Family.fourier ⟨1, 1, 1, 0⟩ [0] 1 = [1, 1] ∧
    evaluateSparseHierarchicalFunctionsGetNZ m fuel (sampleOps K) [0] 1
      (sampleGrid K Family.fourier []) = Except.ok 1 ∧
    tsgEvaluateSparseHierarchicalFunctions m fuel (sampleOps K) [0] 1
      (sampleGrid K Family.fourier []) = Except.error outOfBounds ∧
    evaluateSparseHierarchicalFunctionsPtr m fuel (sampleOps K) [0] 1
      (sampleGrid K Family.fourier []) = Except.ok ([0, 1], [0], [1, 1]) ∧
    evaluateHierarchicalFunctions m fuel (sampleOps K) [0] []
      (sampleGrid K Family.fourier []) = Except.ok [1, 1] ∧
    (∀ (E : Type) (ops : EngineOps E K) (g : TasmanianSparseGrid E K) (e : E) (x : List K)
        (num_x : Nat), g.base = some (Family.fourier, e) → g.domain_transform_a = [] →
      g.conformal_asin_power = [] →
      (ops.evaluateHierarchicalFunctions Family.fourier e x num_x).length
        = 2 * num_x * ops.getNumPoints Family.fourier e →
      0 < num_x * ops.getNumPoints Family.fourier e →
      evaluateSparseHierarchicalFunctionsGetNZ m fuel ops x num_x g
        = Except.ok ((num_x * ops.getNumPoints Family.fourier e : Nat) : Int) ∧
      tsgEvaluateSparseHierarchicalFunctions m fuel ops x num_x g
        = Except.error outOfBounds) := by
  have hs := fourier_sparse_overrun m fuel (sampleOps K) (sampleGrid K Family.fourier [])
    ⟨1, 1, 1, 0⟩ [0] 1 rfl rfl rfl rfl (by simp [sampleOps])
  refine ⟨rfl, ?_, hs.2, ?_, ?_, ?_⟩
  · have := hs.1
    simpa [sampleOps] using this
  · simp [evaluateSparseHierarchicalFunctionsPtr, formCanonicalPoints, sampleGrid, sampleOps,
      isLocalPolynomial, isWavelet, isFourier, isFamily, writeInto, densePattern]
    exact ⟨rfl, rfl⟩
  · simp [evaluateHierarchicalFunctions, evaluateHierarchicalFunctionsPtr, formCanonicalPoints,
      sampleGrid, sampleOps, isFourier, isFamily, getNumDimensions, getNumPoints, writeInto,
      resize]
  · intro E ops g e x num_x hbase ha hc hwrites hpos
    exact fourier_sparse_overrun m fuel ops g e x num_x hbase ha hc hwrites hpos

/-! ### The conversion of the dense matrix of a Wavelet grid (C26) -/

theorem writeAt_append {α : Type} (W J : List α) (a v : α) :
    writeAt (W ++ a :: J) W.length v = Except.ok (W ++ v :: J) := by
  unfold writeAt
  have h : W.length < (W ++ a :: J).length := by simp
  rw [if_pos h]
  congr 1
  induction W with
  | nil => rfl
  | cons w ws ih =>
    simp only [List.cons_append, List.length_cons, List.set_cons_succ, List.cons.injEq, true_and]
    exact ih (by simp)

theorem sparseRow_spec {K : Type} [LinearOrderedField K] (num_points : Nat) (dense : List K)
    (i : Nat) :
    ∀ (js : List Nat) (W1 J1 : List Int) (W2 J2 : List K), W1.length = W2.length →
      (js.filter (fun j => dense.getD (i * num_points + j) 0 ≠ 0)).length ≤ J1.length →
      (js.filter (fun j => dense.getD (i * num_points + j) 0 ≠ 0)).length ≤ J2.length →
      sparseRow num_points dense i js (W1.length, W1 ++ J1, W2 ++ J2)
        = Except.ok
          (W1.length + (js.filter (fun j => dense.getD (i * num_points + j) 0 ≠ 0)).length,
           W1 ++ ((js.filter (fun j => dense.getD (i * num_points + j) 0 ≠ 0)).map
              (fun (j : Nat) => (j : Int))
             ++ J1.drop (js.filter (fun j => dense.getD (i * num_points + j) 0 ≠ 0)).length),
           W2 ++ ((js.filter (fun j => dense.getD (i * num_points + j) 0 ≠ 0)).map
              (fun j => dense.getD (i * num_points + j) 0)
             ++ J2.drop (js.filter (fun j => dense.getD (i * num_points + j) 0 ≠ 0)).length)) := by
  intro js
  induction js with
  | nil =>
    intro W1 J1 W2 J2 _ _ _
    simp [sparseRow]
  | cons j js ih =>
    intro W1 J1 W2 J2 hW h1 h2
    by_cases hj : dense.getD (i * num_points + j) 0 ≠ 0
    · have hf : (j :: js).filter (fun j => dense.getD (i * num_points + j) 0 ≠ 0)
          = j :: js.filter (fun j => dense.getD (i * num_points + j) 0 ≠ 0) := by
        exact List.filter_cons_of_pos (decide_eq_true hj)
      rw [hf] at h1 h2 ⊢
      cases J1 with
      | nil => simp at h1
      | cons a J1t =>
        cases J2 with
        | nil => simp at h2
        | cons b J2t =>
          have hw2 : writeAt (W2 ++ b :: J2t) W1.length (dense.getD (i * num_points + j) 0)
              = Except.ok (W2 ++ dense.getD (i * num_points + j) 0 :: J2t) := by
            rw [hW]; exact writeAt_append W2 J2t b _
          rw [sparseRow, if_pos hj, writeAt_append]
          simp only []
          rw [hw2]
          simp only []
          have e1 : W1 ++ (j : Int) :: J1t = (W1 ++ [(j : Int)]) ++ J1t := by simp
          have e2 : W2 ++ dense.getD (i * num_points + j) 0 :: J2t
              = (W2 ++ [dense.getD (i * num_points + j) 0]) ++ J2t := by simp
          have e3 : W1.length + 1 = (W1 ++ [(j : Int)]).length := by simp
          rw [e1, e2, e3]
          rw [ih (W1 ++ [(j : Int)]) J1t (W2 ++ [dense.getD (i * num_points + j) 0]) J2t
            (by simp [hW]) (by simpa using h1) (by simpa using h2)]
          simp only [List.length_append, List.length_singleton, List.length_cons, List.map_cons,
            List.drop_succ_cons, List.append_assoc, List.singleton_append, List.cons_append,
            List.nil_append, Nat.add_assoc, Nat.add_comm 1, List.length_nil, Nat.zero_add]
    · have hf : (j :: js).filter (fun j => dense.getD (i * num_points + j) 0 ≠ 0)
          = js.filter (fun j => dense.getD (i * num_points + j) 0 ≠ 0) := by
        exact List.filter_cons_of_neg (by simpa using hj)
      rw [hf] at h1 h2 ⊢
      rw [sparseRow, if_neg hj]
      exact ih W1 J1 W2 J2 hW h1 h2

theorem rowsCount_cons {K : Type} [LinearOrderedField K] (num_points : Nat) (dense : List K)
    (i : Nat) (is : List Nat) :
    rowsCount num_points dense (i :: is)
      = (rowEntries num_points dense i).length + rowsCount num_points dense is := by
  simp [rowsCount]

theorem rowsCount_append {K : Type} [LinearOrderedField K] (num_points : Nat) (dense : List K)
    (r1 r2 : List Nat) :
    rowsCount num_points dense (r1 ++ r2)
      = rowsCount num_points dense r1 + rowsCount num_points dense r2 := by
  simp [rowsCount]

theorem sparseRows_spec {K : Type} [LinearOrderedField K] (num_points : Nat) (dense : List K) :
    ∀ (n s : Nat) (P JP W1 J1 : List Int) (W2 J2 : List K), P.length = s → n ≤ JP.length →
      W1.length = W2.length →
      rowsCount num_points dense (List.range' s n) ≤ J1.length →
      rowsCount num_points dense (List.range' s n) ≤ J2.length →
      sparseRows num_points dense (List.range' s n) (W1.length, P ++ JP, W1 ++ J1, W2 ++ J2)
        = Except.ok
          (W1.length + rowsCount num_points dense (List.range' s n),
           P ++ (rowOffsets num_points dense W1.length (List.range' s n) ++ JP.drop n),
           W1 ++ ((List.range' s n).flatMap
              (fun i => (rowEntries num_points dense i).map (fun (j : Nat) => (j : Int)))
             ++ J1.drop (rowsCount num_points dense (List.range' s n))),
           W2 ++ ((List.range' s n).flatMap
              (fun i => (rowEntries num_points dense i).map
                (fun j => dense.getD (i * num_points + j) 0))
             ++ J2.drop (rowsCount num_points dense (List.range' s n)))) := by
  intro n
  induction n with
  | zero =>
    intro s P JP W1 J1 W2 J2 _ _ _ _ _
    simp [sparseRows, rowsCount, rowOffsets]
  | succ n ih =>
    intro s P JP W1 J1 W2 J2 hP hn hW h1 h2
    rw [List.range'_succ] at h1 h2 ⊢
    rw [rowsCount_cons] at h1 h2 ⊢
    cases JP with
    | nil => simp at hn
    | cons a JPt =>
      have hw : writeAt (P ++ a :: JPt) s (W1.length : Int)
          = Except.ok (P ++ (W1.length : Int) :: JPt) := by
        rw [← hP]; exact writeAt_append P JPt a _
      have hrow := sparseRow_spec num_points dense s (List.range num_points) W1 J1 W2 J2 hW
        (by unfold rowEntries at h1; omega) (by unfold rowEntries at h2; omega)
      rw [sparseRows, hw]
      simp only []
      rw [hrow]
      simp only []
      have e1 : P ++ (W1.length : Int) :: JPt = (P ++ [(W1.length : Int)]) ++ JPt := by simp
      have e2 : W1.length + (List.filter (fun j => decide (dense.getD (s * num_points + j) 0 ≠ 0))
            (List.range num_points)).length
          = (W1 ++ (rowEntries num_points dense s).map (fun (j : Nat) => (j : Int))).length := by
        simp [rowEntries]
      have e3 : W1 ++ ((List.filter (fun j => decide (dense.getD (s * num_points + j) 0 ≠ 0))
              (List.range num_points)).map (fun (j : Nat) => (j : Int))
            ++ J1.drop (List.filter (fun j => decide (dense.getD (s * num_points + j) 0 ≠ 0))
              (List.range num_points)).length)
          = (W1 ++ (rowEntries num_points dense s).map (fun (j : Nat) => (j : Int)))
            ++ J1.drop (rowEntries num_points dense s).length := by
        simp [rowEntries]
      have e4 : W2 ++ ((List.filter (fun j => decide (dense.getD (s * num_points + j) 0 ≠ 0))
              (List.range num_points)).map (fun j => dense.getD (s * num_points + j) 0)
            ++ J2.drop (List.filter (fun j => decide (dense.getD (s * num_points + j) 0 ≠ 0))
              (List.range num_points)).length)
          = (W2 ++ (rowEntries num_points dense s).map
              (fun j => dense.getD (s * num_points + j) 0))
            ++ J2.drop (rowEntries num_points dense s).length := by
        simp [rowEntries]
      rw [e1, e2, e3, e4]
      rw [ih (s + 1) (P ++ [(W1.length : Int)]) JPt
        (W1 ++ (rowEntries num_points dense s).map (fun (j : Nat) => (j : Int)))
        (J1.drop (rowEntries num_points dense s).length)
        (W2 ++ (rowEntries num_points dense s).map (fun j => dense.getD (s * num_points + j) 0))
        (J2.drop (rowEntries num_points dense s).length)
        (by simp [hP]) (by simpa using hn) (by simp [hW])
        (by rw [List.length_drop]; omega) (by rw [List.length_drop]; omega)]
      simp only [List.length_append, List.length_map, List.append_assoc, List.singleton_append,
        List.cons_append, List.nil_append, List.flatMap_cons, List.drop_drop, rowOffsets,
        List.drop_succ_cons, Nat.add_assoc]


theorem countNonZero_eq_filter {K : Type} [LinearOrderedField K] (dense : List K) :
    countNonZero dense = (dense.filter (fun v => v ≠ 0)).length := by
  have h : ∀ (l : List K) (c : Nat),
      l.foldl (fun num_nz v => if v ≠ 0 then num_nz + 1 else num_nz) c
        = c + (l.filter (fun v => v ≠ 0)).length := by
    intro l
    induction l with
    | nil => intro c; simp
    | cons a t ih =>
      intro c
      by_cases ha : a = 0
      · rw [List.foldl_cons, if_neg (by simpa using ha), ih,
          List.filter_cons_of_neg (by simpa using ha)]
      · rw [List.foldl_cons, if_pos ha, ih, List.filter_cons_of_pos (by simpa using ha),
          List.length_cons]
        omega
  simpa [countNonZero] using h dense 0

theorem map_getD_range {K : Type} [Zero K] (l : List K) :
    (List.range l.length).map (fun k => l.getD k 0) = l := by
  apply List.ext_getElem
  · simp
  · intro n h1 h2
    simp [List.getD_eq_getElem?_getD, List.getElem?_eq_getElem h2]

theorem filter_range_mul (p : Nat → Bool) (np : Nat) :
    ∀ nx : Nat, ((List.range (nx * np)).filter p).length
      = ((List.range nx).map
          (fun i => ((List.range np).filter (fun j => p (i * np + j))).length)).sum := by
  intro nx
  induction nx with
  | zero => simp
  | succ n ih =>
    rw [Nat.succ_mul, List.range_add, List.filter_append, List.length_append, ih,
      List.range_succ, List.map_append, List.sum_append, List.filter_map, List.length_map]
    simp [Function.comp_def]

theorem countNonZero_eq_rowsCount {K : Type} [LinearOrderedField K] (num_x num_points : Nat)
    (dense : List K) (h : dense.length = num_x * num_points) :
    countNonZero dense = rowsCount num_points dense (List.range num_x) := by
  rw [countNonZero_eq_filter]
  conv_lhs => rw [← map_getD_range dense]
  rw [List.filter_map, List.length_map, h,
    filter_range_mul _ num_points num_x]
  simp [rowsCount, rowEntries, Function.comp_def]

theorem rowOffsets_length {K : Type} [LinearOrderedField K] (num_points : Nat) (dense : List K) :
    ∀ (rows : List Nat) (c : Nat), (rowOffsets num_points dense c rows).length = rows.length := by
  intro rows
  induction rows with
  | nil => intro c; simp [rowOffsets]
  | cons i is ih => intro c; simp [rowOffsets, ih]

theorem denseToSparse_spec {K : Type} [LinearOrderedField K] (num_x num_points : Nat)
    (dense : List K) (pntr indx : List Int) (vals : List K)
    (hp : pntr.length = num_x + 1)
    (hi : indx.length = rowsCount num_points dense (List.range num_x))
    (hv : vals.length = rowsCount num_points dense (List.range num_x)) :
    denseToSparse num_x num_points dense pntr indx vals
      = Except.ok
        (rowOffsets num_points dense 0 (List.range num_x)
          ++ [(rowsCount num_points dense (List.range num_x) : Int)],
         (List.range num_x).flatMap
           (fun i => (rowEntries num_points dense i).map (fun (j : Nat) => (j : Int))),
         (List.range num_x).flatMap
           (fun i => (rowEntries num_points dense i).map
             (fun j => dense.getD (i * num_points + j) 0))) := by
  have h := sparseRows_spec num_points dense num_x 0 [] pntr [] indx [] vals rfl
    (by omega) rfl (by rw [← List.range_eq_range']; omega)
    (by rw [← List.range_eq_range']; omega)
  rw [← List.range_eq_range'] at h
  simp only [List.nil_append, List.length_nil, Nat.zero_add] at h
  obtain ⟨a, ha⟩ : ∃ a, pntr.drop num_x = [a] := by
    have : (pntr.drop num_x).length = 1 := by rw [List.length_drop]; omega
    match hq : pntr.drop num_x, this with
    | [a], _ => exact ⟨a, rfl⟩
  have hi0 : indx.drop (rowsCount num_points dense (List.range num_x)) = [] :=
    List.drop_eq_nil_of_le (by omega)
  have hv0 : vals.drop (rowsCount num_points dense (List.range num_x)) = [] :=
    List.drop_eq_nil_of_le (by omega)
  rw [ha, hi0, hv0, List.append_nil, List.append_nil] at h
  have hw := writeAt_append (rowOffsets num_points dense 0 (List.range num_x)) [] a
    ((rowsCount num_points dense (List.range num_x) : Nat) : Int)
  rw [rowOffsets_length, List.length_range] at hw
  rw [denseToSparse, h]
  simp only []
  rw [hw]


theorem rowOffsets_getD {K : Type} [LinearOrderedField K] (num_points : Nat) (dense : List K) :
    ∀ (rows : List Nat) (c k : Nat), k ≤ rows.length →
      (rowOffsets num_points dense c rows
          ++ [((c + rowsCount num_points dense rows : Nat) : Int)]).getD k 0
        = ((c + rowsCount num_points dense (rows.take k) : Nat) : Int) := by
  intro rows
  induction rows with
  | nil =>
    intro c k hk
    have : k = 0 := by simpa using hk
    subst this
    simp [rowOffsets, rowsCount]
  | cons i is ih =>
    intro c k hk
    cases k with
    | zero => simp [rowOffsets, rowsCount]
    | succ k =>
      have hk1 : k ≤ is.length := by simpa using hk
      have h := ih (c + (rowEntries num_points dense i).length) k hk1
      rw [rowOffsets, List.cons_append, List.getD_cons_succ, List.take_succ_cons,
        rowsCount_cons, rowsCount_cons, ← Nat.add_assoc, ← Nat.add_assoc]
      exact h

theorem zip_flatMap {α β : Type} (F : Nat → List α) (G : Nat → List β)
    (h : ∀ i, (F i).length = (G i).length) :
    ∀ rows : List Nat,
      (rows.flatMap F).zip (rows.flatMap G) = rows.flatMap (fun i => (F i).zip (G i)) := by
  intro rows
  induction rows with
  | nil => simp
  | cons i is ih => rw [List.flatMap_cons, List.flatMap_cons, List.flatMap_cons,
      List.zip_append (h i), ih]

theorem flatMap_slice {α : Type} (H : Nat → List α) :
    ∀ (rows : List Nat) (i : Nat) (h : i < rows.length),
      ((rows.flatMap H).drop (((rows.take i).map (fun r => (H r).length)).sum)).take
          (H (rows.get ⟨i, h⟩)).length
        = H (rows.get ⟨i, h⟩) := by
  intro rows
  induction rows with
  | nil => intro i h; simp at h
  | cons r rs ih =>
    intro i h
    cases i with
    | zero => simp
    | succ i =>
      have h1 : i < rs.length := by simpa using h
      have := ih i h1
      simpa [List.drop_append] using this

theorem lookup_map_cast {K : Type} (g : Nat → K) (j : Nat) :
    ∀ l : List Nat, (l.map (fun (a : Nat) => ((a : Int), g a))).lookup (j : Int)
      = if j ∈ l then some (g j) else none := by
  intro l
  induction l with
  | nil => simp
  | cons a t ih =>
    by_cases hja : j = a
    · subst hja; simp [List.lookup_cons]
    · have hne : ((j : Int) == (a : Int)) = false := by
        simpa using hja
      rw [List.map_cons, List.lookup_cons, hne, ih]
      simp [hja]


theorem csrRow_spec {K : Type} [LinearOrderedField K] (num_x num_points : Nat) (dense : List K)
    (i : Nat) (hi : i < num_x) :
    csrRow
        (rowOffsets num_points dense 0 (List.range num_x)
          ++ [(rowsCount num_points dense (List.range num_x) : Int)])
        ((List.range num_x).flatMap
          (fun i => (rowEntries num_points dense i).map (fun (j : Nat) => (j : Int))))
        ((List.range num_x).flatMap
          (fun i => (rowEntries num_points dense i).map
            (fun j => dense.getD (i * num_points + j) 0))) i
      = (rowEntries num_points dense i).map
          (fun (j : Nat) => ((j : Int), dense.getD (i * num_points + j) 0)) := by
  have htake : ∀ k, k ≤ num_x → (List.range num_x).take k = List.range k := by
    intro k hk
    rw [List.take_range, Nat.min_eq_left hk]
  have h0 := rowOffsets_getD num_points dense (List.range num_x) 0 i
    (by rw [List.length_range]; omega)
  have h1 := rowOffsets_getD num_points dense (List.range num_x) 0 (i + 1)
    (by rw [List.length_range]; omega)
  rw [htake i (by omega), Nat.zero_add, Nat.zero_add] at h0
  rw [htake (i + 1) (by omega), Nat.zero_add, Nat.zero_add, List.range_succ, rowsCount_append,
    rowsCount_cons] at h1
  have hz := zip_flatMap
    (fun i => (rowEntries num_points dense i).map (fun (j : Nat) => (j : Int)))
    (fun i => (rowEntries num_points dense i).map
      (fun j => dense.getD (i * num_points + j) 0))
    (by intro r; simp) (List.range num_x)
  have hs := flatMap_slice
    (fun i => (rowEntries num_points dense i).map
      (fun (j : Nat) => ((j : Int), dense.getD (i * num_points + j) 0)))
    (List.range num_x) i (by rw [List.length_range]; exact hi)
  have hget : (List.range num_x).get ⟨i, by rw [List.length_range]; exact hi⟩ = i := by simp
  rw [hget, htake i (by omega)] at hs
  simp only [List.length_map] at hs
  unfold csrRow
  rw [h0, h1, hz]
  simp only [List.zip_map', Int.toNat_ofNat]
  have e : rowsCount num_points dense (List.range i)
        + ((rowEntries num_points dense i).length + rowsCount num_points dense [])
        - rowsCount num_points dense (List.range i)
      = (rowEntries num_points dense i).length := by
    simp [rowsCount]
  rw [e]
  exact hs


theorem mem_rowEntries {K : Type} [LinearOrderedField K] (num_points : Nat) (dense : List K)
    (i j : Nat) :
    j ∈ rowEntries num_points dense i ↔ j < num_points ∧ dense.getD (i * num_points + j) 0 ≠ 0 := by
  simp [rowEntries]

theorem compressedRowEncoding_of_dense {K : Type} [LinearOrderedField K]
    (num_x num_points : Nat) (dense : List K) (h : dense.length = num_x * num_points) :
    compressedRowEncoding num_x num_points dense
      (rowOffsets num_points dense 0 (List.range num_x)
          ++ [(rowsCount num_points dense (List.range num_x) : Int)],
       (List.range num_x).flatMap
          (fun i => (rowEntries num_points dense i).map (fun (j : Nat) => (j : Int))),
       (List.range num_x).flatMap
          (fun i => (rowEntries num_points dense i).map
            (fun j => dense.getD (i * num_points + j) 0))) := by
  have htake : ∀ k, k ≤ num_x → (List.range num_x).take k = List.range k := by
    intro k hk
    rw [List.take_range, Nat.min_eq_left hk]
  have hget : ∀ k, k ≤ num_x →
      (rowOffsets num_points dense 0 (List.range num_x)
          ++ [(rowsCount num_points dense (List.range num_x) : Int)]).getD k 0
        = (rowsCount num_points dense (List.range k) : Int) := by
    intro k hk
    have := rowOffsets_getD num_points dense (List.range num_x) 0 k
      (by rw [List.length_range]; exact hk)
    rw [htake k hk, Nat.zero_add, Nat.zero_add] at this
    exact this
  have hcount : (dense.filter (fun v => v ≠ 0)).length
      = rowsCount num_points dense (List.range num_x) := by
    rw [← countNonZero_eq_filter]
    exact countNonZero_eq_rowsCount num_x num_points dense h
  refine ⟨?_, ?_, ?_, ?_, ?_, ?_, ?_, ?_, ?_, ?_⟩
  · simp [rowOffsets_length]
  · rw [hget 0 (Nat.zero_le _)]
    simp [rowsCount]
  · intro i hi
    rw [hget i (by omega), hget (i + 1) (by omega), List.range_succ, rowsCount_append]
    exact_mod_cast Nat.le_add_right _ _
  · rw [hget num_x (Nat.le_refl _), hcount]
  · rw [hcount]
    simp [rowsCount, List.length_flatMap, Function.comp_def]
  · rw [hcount]
    simp [rowsCount, List.length_flatMap, Function.comp_def]
  · intro i hi
    simp only []
    rw [csrRow_spec num_x num_points dense i hi, List.map_map]
    refine List.Pairwise.map _ ?_
      ((List.pairwise_lt_range num_points).sublist (List.filter_sublist _))
    intro a b hab
    simpa using hab
  · intro i hi c hc
    simp only [] at hc
    rw [csrRow_spec num_x num_points dense i hi, List.map_map] at hc
    obtain ⟨j, hj, rfl⟩ := List.mem_map.mp hc
    have := ((mem_rowEntries num_points dense i j).mp hj).1
    simp only [Function.comp_apply]
    constructor
    · exact Int.ofNat_nonneg j
    · exact_mod_cast this
  · intro v hv
    simp only [] at hv
    obtain ⟨i, _, hvi⟩ := List.mem_flatMap.mp hv
    obtain ⟨j, hj, rfl⟩ := List.mem_map.mp hvi
    exact ((mem_rowEntries num_points dense i j).mp hj).2
  · intro i j hi hj
    unfold csrEntry
    simp only []
    rw [csrRow_spec num_x num_points dense i hi,
      lookup_map_cast (fun j => dense.getD (i * num_points + j) 0) j]
    by_cases hz : dense.getD (i * num_points + j) 0 = 0
    · have : j ∉ rowEntries num_points dense i := by
        intro hm
        exact ((mem_rowEntries num_points dense i j).mp hm).2 hz
      rw [if_neg this, hz]
      rfl
    · have : j ∈ rowEntries num_points dense i :=
        (mem_rowEntries num_points dense i j).mpr ⟨hj, hz⟩
      rw [if_pos this]
      rfl


theorem writeInto_full {α : Type} (buffer written : List α)
    (h : written.length = buffer.length) : writeInto buffer written = Except.ok written := by
  unfold writeInto
  rw [if_pos (by omega), List.drop_eq_nil_of_le (by omega), List.append_nil]

theorem length_resize {α : Type} [Zero α] (v : List α) (n : Nat) : (resize v n).length = n := by
  simp [resize]
  omega

/-- C26: for a Wavelet grid whose engine returns a dense matrix `D` of `num_x`
rows and `num_points` columns, both overloads of
`evaluateSparseHierarchicalFunctions` return normally, and the triple
`(pntr, indx, vals)` they produce is a compressed-row encoding of `D`: `pntr`
starts at 0, never decreases and ends at the number of non-zero entries of `D`,
which is also the size of `indx` and of `vals`; the column indices of each row
increase strictly; no stored value is 0; and the triple expands to `D`. -/
theorem wavelet_sparse_is_compressed_row {E K : Type} [LinearOrderedField K] (m : Numerics K)
    (fuel : Nat) (ops : EngineOps E K) (g : TasmanianSparseGrid E K) (e : E)
    (x x_canonical : List K) (num_x : Nat) (pntr indx : List Int) (vals : List K)
    (hbase : g.base = some (Family.wavelet, e))
    (hcanon : formCanonicalPoints m fuel ops g x num_x = Except.ok x_canonical)
    (hD : (ops.evaluateHierarchicalFunctions Family.wavelet e x_canonical num_x).length
      = num_x * ops.getNumPoints Family.wavelet e) :
    (∃ t, evaluateSparseHierarchicalFunctionsPtr m fuel ops x num_x g = Except.ok t ∧
      compressedRowEncoding num_x (ops.getNumPoints Family.wavelet e)
        (ops.evaluateHierarchicalFunctions Family.wavelet e x_canonical num_x) t) ∧
    (ops.getNumDimensions Family.wavelet e ≠ 0 →
      x.length / ops.getNumDimensions Family.wavelet e = num_x →
      ∃ t, evaluateSparseHierarchicalFunctions m fuel ops x pntr indx vals g = Except.ok t ∧
        compressedRowEncoding num_x (ops.getNumPoints Family.wavelet e)
          (ops.evaluateHierarchicalFunctions Family.wavelet e x_canonical num_x) t) := by
  have hdense : denseHierarchical ops Family.wavelet e x_canonical num_x
      = Except.ok (ops.evaluateHierarchicalFunctions Family.wavelet e x_canonical num_x) := by
    unfold denseHierarchical
    exact writeInto_full _ _ (by rw [hD, List.length_replicate, Nat.mul_comm])
  have hcnt := countNonZero_eq_rowsCount num_x (ops.getNumPoints Family.wavelet e) _ hD
  have hlp : g.isLocalPolynomial = false := by simp [isLocalPolynomial, isFamily, hbase]
  have hw : g.isWavelet = true := by simp [isWavelet, isFamily, hbase]
  constructor
  · refine ⟨_, ?_, compressedRowEncoding_of_dense num_x _ _ hD⟩
    unfold evaluateSparseHierarchicalFunctionsPtr
    rw [hcanon]
    simp only [hbase, hlp, hw, hdense, if_true, Bool.false_eq_true, if_false]
    exact denseToSparse_spec num_x _ _ _ _ _ (by simp) (by simp [hcnt]) (by simp [hcnt])
  · intro hd hx
    refine ⟨_, ?_, compressedRowEncoding_of_dense num_x _ _ hD⟩
    have hdims : g.getNumDimensions ops = ops.getNumDimensions Family.wavelet e := by
      simp [getNumDimensions, hbase]
    unfold evaluateSparseHierarchicalFunctions
    rw [hdims, if_neg hd]
    simp only [hx]
    rw [hcanon]
    simp only [hbase, hlp, hw, hdense, if_true, Bool.false_eq_true, if_false]
    exact denseToSparse_spec num_x _ _ _ _ _ (length_resize _ _)
      (by rw [length_resize, hcnt]) (by rw [length_resize, hcnt])

theorem wavelet_sparse_is_compressed_row_witness :
    (sampleWaveletGrid ℝ).base = some (Family.wavelet, ⟨1, 1, 3, 0⟩) ∧
    formCanonicalPoints (realNumerics 0) 0 (sampleWaveletOps ℝ) (sampleWaveletGrid ℝ) [0, 0] 2
      = Except.ok [0, 0] ∧
    ((∃ t, evaluateSparseHierarchicalFunctionsPtr (realNumerics 0) 0 (sampleWaveletOps ℝ) [0, 0] 2
        (sampleWaveletGrid ℝ) = Except.ok t ∧
      compressedRowEncoding 2 3 [(0 : ℝ), 2, 3, 0, 0, 5] t) ∧
    ((1 : Nat) ≠ 0 → [(0 : ℝ), 0].length / 1 = 2 →
      ∃ t, evaluateSparseHierarchicalFunctions (realNumerics 0) 0 (sampleWaveletOps ℝ) [0, 0]
          [7] [] [] (sampleWaveletGrid ℝ) = Except.ok t ∧
        compressedRowEncoding 2 3 [(0 : ℝ), 2, 3, 0, 0, 5] t)) :=
  ⟨rfl, rfl,
    wavelet_sparse_is_compressed_row (realNumerics 0) 0 (sampleWaveletOps ℝ) (sampleWaveletGrid ℝ)
      ⟨1, 1, 3, 0⟩ [0, 0] [0, 0] 2 [7] [] [] rfl rfl rfl⟩

/-! ### The C and Fortran wrappers of `read` (C27) -/

theorem digitsValue_huge : digitsValue "99999999999".toList = 99999999999 := by
  rfl

theorem stoi_huge : stoi "99999999999".toList = Except.error (Exn.out_of_range "stoi") := by
  have h1 : ("99999999999".toList.dropWhile isSpaceC) = "99999999999".toList := by rfl
  have h2 : ("99999999999".toList.takeWhile Char.isDigit) = "99999999999".toList := by rfl
  have h3 : "99999999999".toList.head? = some '9' := by rfl
  have h5 : ¬ (some '9' = some '-') := by decide
  have h7 : ¬ (some '9' = some '+') := by decide
  have h6 : "99999999999".toList.isEmpty = false := by rfl
  unfold stoi
  simp only [h1, h3, h5, h7, or_self, if_false, h2, digitsValue_huge, decide_False, h6,
    Bool.false_eq_true]
  rw [if_pos]
  right
  norm_num

theorem checkVersion_huge :
    checkVersion sampleConfig "99999999999.0" = some (Exn.out_of_range "stoi") := by
  have h1 : ¬ ("99999999999.0" = sampleConfig.version_string) := by decide
  have h2 : ¬ ¬ ('.' ∈ "99999999999.0".toList) := by decide
  have h3 : "99999999999.0".toList.takeWhile (fun c => c ≠ '.') = "99999999999".toList := by rfl
  unfold checkVersion
  simp only [if_neg h1, if_neg h2, h3, stoi_huge]

theorem readFile_text {E K : Type} [Zero K] (cfg : BuildConfig) (ops : EngineOps E K)
    (g : TasmanianSparseGrid E K) (t : List Char) (rest : List (Token K)) :
    readFile cfg ops t (some (Token.text "TASMANIAN" :: rest)) g
      = readAscii cfg ops (IStream.ofItems (Token.text "TASMANIAN" :: rest)) g := by
  have hb : leadingBytes (Token.text "TASMANIAN" :: rest)
      = ['T', 'A', 'S', 'M', 'A', 'N', 'I', 'A', 'N', ' '] := rfl
  have hd : decide
      (((['T', 'A', 'S', 'M', 'A', 'N', 'I', 'A', 'N', ' '] : List Char)
          ++ List.drop (['T', 'A', 'S', 'M', 'A', 'N', 'I', 'A', 'N', ' '] : List Char).length t).getD
            0 ' ' = 'T' ∧
        ((['T', 'A', 'S', 'M', 'A', 'N', 'I', 'A', 'N', ' '] : List Char)
          ++ List.drop (['T', 'A', 'S', 'M', 'A', 'N', 'I', 'A', 'N', ' '] : List Char).length t).getD
            1 ' ' = 'S' ∧
        ((['T', 'A', 'S', 'M', 'A', 'N', 'I', 'A', 'N', ' '] : List Char)
          ++ List.drop (['T', 'A', 'S', 'M', 'A', 'N', 'I', 'A', 'N', ' '] : List Char).length t).getD
            2 ' ' = 'G') = false := by
    simp
  unfold readFile
  simp only [hb, hd, TasmanianSparseGrid.read, Bool.false_eq_true, if_false]

theorem readFile_huge {E K : Type} [Zero K] (ops : EngineOps E K)
    (g : TasmanianSparseGrid E K) (t : List Char) :
    readFile sampleConfig ops t (some (sampleHugeVersionFile K)) g
      = Outcome.throw g (Exn.out_of_range "stoi") := by
  rw [sampleHugeVersionFile, readFile_text, readAscii_version, checkVersion_huge]

theorem readFile_unopened {E K : Type} [Zero K] (cfg : BuildConfig) (ops : EngineOps E K)
    (g : TasmanianSparseGrid E K) (t : List Char) :
    ∃ what, (readFile cfg ops t none g).raised = some (Exn.runtime_error what) := by
  have h : ∀ b : Bool, ∃ what,
      (TasmanianSparseGrid.read cfg ops (⟨[], false⟩ : IStream K) b g).raised
        = some (Exn.runtime_error what) := by
    intro b
    cases b
    · exact ⟨_, rfl⟩
    · exact ⟨_, rfl⟩
  exact h _

/-- C27 (defect of `tsgRead` and `tsgrea_`).  The handler of both wrappers
catches `std::runtime_error` only.  On a text file with the header
`TASMANIAN SG x.y`, `std::stoi` throws `std::invalid_argument` inside
`readAscii`; on a file with the header `TASMANIAN SG 99999999999.0` it throws
`std::out_of_range`.  Neither is a `std::runtime_error`: the exception leaves
`tsgRead`, which returns nothing, and leaves `tsgrea_`, which does not touch
`*status`.  For every file, the wrappers set the status 1 exactly when `read`
returns normally and the status 0 exactly when it throws a
`std::runtime_error`, as for a file that cannot be opened; every other
exception leaves the wrapper. -/
theorem read_wrappers_miss_stoi_errors {E K : Type} [Zero K] (cfg : BuildConfig)
    (ops : EngineOps E K) (TSG : List Char) (file : Option (List (Token K)))
    (g : TasmanianSparseGrid E K) (status : Int) :
    ((tsgRead sampleConfig ops TSG (some (sampleBadVersionFile K)) g).value = none ∧
      (tsgRead sampleConfig ops TSG (some (sampleBadVersionFile K)) g).escaped
        = some (Exn.invalid_argument "stoi") ∧
      (tsgRead sampleConfig ops TSG (some (sampleBadVersionFile K)) g).state = g) ∧
    ((tsgRead sampleConfig ops TSG (some (sampleHugeVersionFile K)) g).value = none ∧
      (tsgRead sampleConfig ops TSG (some (sampleHugeVersionFile K)) g).escaped
        = some (Exn.out_of_range "stoi")) ∧
    tsgrea_ sampleConfig (sampleOps ℚ) TSG 0 (some (sampleBadVersionFile ℚ)) status
        (sampleRegistry ℚ)
      = (sampleRegistry ℚ, status, some (Exn.invalid_argument "stoi")) ∧
    tsgrea_ sampleConfig (sampleOps ℚ) TSG 0 (some (sampleEmptyFile ℚ)) status
        (sampleRegistry ℚ)
      = (sampleRegistry ℚ, 1, none) ∧
    (tsgRead sampleConfig (sampleOps ℚ) TSG (some (sampleEmptyFile ℚ))
        (init sampleConfig)).value = some 1 ∧
    (tsgRead sampleConfig (sampleOps ℚ) TSG none (init sampleConfig)).value = some 0 ∧
    ((tsgRead cfg ops TSG file g).value = some 1
      ↔ (readFile cfg ops TSG file g).raised = none) ∧
    ((tsgRead cfg ops TSG file g).value = some 0
      ↔ ∃ what, (readFile cfg ops TSG file g).raised = some (Exn.runtime_error what)) ∧
    (∀ x, (tsgRead cfg ops TSG file g).escaped = some x
      ↔ (readFile cfg ops TSG file g).raised = some x ∧ ∀ what, x ≠ Exn.runtime_error what) := by
  have hbad : ∀ t : List Char,
      readFile sampleConfig ops t (some (sampleBadVersionFile K)) g
        = Outcome.throw g (Exn.invalid_argument "stoi") := by
    intro t; rfl
  have hhuge := readFile_huge ops g
  refine ⟨?_, ?_, ?_, ?_, ?_, ?_, ?_, ?_, ?_⟩
  · simp only [tsgRead, hbad]
    exact ⟨rfl, rfl, rfl⟩
  · simp only [tsgRead, hhuge]
    exact ⟨rfl, rfl⟩
  · rfl
  · rfl
  · rfl
  · obtain ⟨what, hw⟩ := readFile_unopened sampleConfig (sampleOps ℚ) (init sampleConfig) TSG
    simp only [tsgRead, hw, catchRuntimeError]
  · simp only [tsgRead]
    cases (readFile cfg ops TSG file g).raised with
    | none => simp [catchRuntimeError]
    | some x => cases x <;> simp [catchRuntimeError]
  · simp only [tsgRead]
    cases (readFile cfg ops TSG file g).raised with
    | none => simp [catchRuntimeError]
    | some x => cases x <;> simp [catchRuntimeError]
  · intro x
    simp only [tsgRead]
    cases (readFile cfg ops TSG file g).raised with
    | none => simp [catchRuntimeError]
    | some y => cases y <;> simp [catchRuntimeError] <;> intro h <;> subst h <;> simp

/-! ### The registry of the Fortran interface (C30) -/

theorem firstNull_le {α : Type} (l : List (Option α)) : firstNull l ≤ l.length := by
  induction l with
  | nil => simp [firstNull]
  | cons a t ih => cases a <;> simp [firstNull, ih]

theorem firstNull_getD {α : Type} (l : List (Option α)) : l.getD (firstNull l) none = none := by
  induction l with
  | nil => simp [firstNull]
  | cons a t ih =>
    cases a with
    | none => simp [firstNull]
    | some v => simpa [firstNull] using ih

theorem firstNull_isSome {α : Type} (l : List (Option α)) :
    ∀ k, k < firstNull l → (l.getD k none).isSome = true := by
  induction l with
  | nil => intro k hk; simp [firstNull] at hk
  | cons a t ih =>
    intro k hk
    cases a with
    | none => simp [firstNull] at hk
    | some v =>
      cases k with
      | zero => simp
      | succ k =>
        have := ih k (by simpa [firstNull] using hk)
        simpa using this

theorem countP_set_firstNull {α : Type} (x : α) (l : List (Option α))
    (h : firstNull l < l.length) :
    (l.set (firstNull l) (some x)).countP (fun p => p.isSome)
      = l.countP (fun p => p.isSome) + 1 := by
  induction l with
  | nil => simp at h
  | cons a t ih =>
    cases a with
    | none => simp [firstNull]
    | some v =>
      have h1 : firstNull t < t.length := by simpa [firstNull] using h
      simp [firstNull, ih h1]

theorem tsgnew_free {E K : Type} (cfg : BuildConfig)
    (l : List (Option (TasmanianSparseGrid E K))) (h : firstNull l < l.length) :
    tsgnew_ cfg (⟨some l, l.length⟩ : Registry E K)
      = Except.ok (⟨some (l.set (firstNull l) (some (init cfg))), l.length⟩,
          (firstNull l : Int)) := by
  unfold tsgnew_
  simp only [List.take_length]
  rw [if_neg (by omega), if_neg (by omega)]

theorem tsgnew_full {E K : Type} (cfg : BuildConfig)
    (l : List (Option (TasmanianSparseGrid E K))) (h : firstNull l = l.length)
    (hpos : 0 < l.length) (hsize : 2 * l.length ≤ 2147483647) :
    tsgnew_ cfg (⟨some l, l.length⟩ : Registry E K)
      = Except.ok (⟨some (l ++ some (init cfg) :: List.replicate (l.length - 1) none),
          2 * l.length⟩, (l.length : Int)) := by
  have h2 : 2 * l.length / 2 = l.length := by omega
  have h3 : 2 * l.length - l.length = (l.length - 1) + 1 := by omega
  unfold tsgnew_
  simp only [List.take_length, h, h2, h3]
  rw [if_neg (by omega), if_pos trivial, if_neg (by omega), if_pos (by simp)]
  simp [List.replicate_succ]

theorem getD_replicate_none {α : Type} (n k : Nat) :
    (List.replicate n (none : Option α)).getD k none = none := by
  by_cases h : k < n <;> simp [List.getD_eq_getElem?_getD, List.getElem?_replicate, h]

theorem countP_replicate_none {α : Type} (n : Nat) :
    (List.replicate n (none : Option α)).countP (fun p => p.isSome) = 0 := by
  simp [List.countP_eq_zero]

/-- C30: on a registry whose array and size agree and whose size can be doubled
in an `int`, `tsgnew_` returns normally; the id that it returns is not live
before the call and every smaller id is; afterwards that id refers to a fresh
facade, every other id refers to what it referred to before, so the ids that
were live keep their grids, also when the table was full and is doubled;
`tsggag_` reports one active grid more; and the array and its size still agree. -/
theorem tsgnew_returns_smallest_free_id {E K : Type} (cfg : BuildConfig) (reg : Registry E K)
    (hwf : reg.wf) (hsize : 2 * reg.num_grids ≤ 2147483647) :
    ∃ (reg1 : Registry E K) (id : Nat),
      tsgnew_ cfg reg = Except.ok (reg1, (id : Int)) ∧
      reg.grid id = none ∧
      (∀ k, k < id → (reg.grid k).isSome = true) ∧
      reg1.grid id = some (init cfg) ∧
      (∀ k, k ≠ id → reg1.grid k = reg.grid k) ∧
      (∀ k g, reg.grid k = some g → reg1.grid k = some g) ∧
      (∃ n : Int, tsggag_ reg = Except.ok n ∧ tsggag_ reg1 = Except.ok (n + 1)) ∧
      reg1.wf := by
  have hkeep : ∀ (reg1 : Registry E K) (id : Nat), reg.grid id = none →
      (∀ k, k ≠ id → reg1.grid k = reg.grid k) →
      ∀ k g, reg.grid k = some g → reg1.grid k = some g := by
    intro reg1 id hnone hother k g hk
    by_cases hki : k = id
    · subst hki; rw [hnone] at hk; cases hk
    · rw [hother k hki, hk]
  obtain ⟨gl, n⟩ := reg
  cases gl with
  | none =>
    have hn : n = 0 := hwf
    subst hn
    have hother : ∀ k, k ≠ 0 →
        (⟨some [some (init cfg), none, none, none], 4⟩ : Registry E K).grid k
          = (⟨none, 0⟩ : Registry E K).grid k := by
      intro k hk
      match k, hk with
      | 1, _ => rfl
      | 2, _ => rfl
      | 3, _ => rfl
      | k + 4, _ => simp [Registry.grid]
    refine ⟨⟨some [some (init cfg), none, none, none], 4⟩, 0, rfl, rfl, ?_, rfl, hother,
      hkeep _ 0 rfl hother, ⟨0, rfl, rfl⟩, ?_⟩
    · intro k hk; omega
    · exact ⟨rfl, Nat.succ_pos 3⟩
  | some l =>
    obtain ⟨hlen, hpos⟩ : l.length = n ∧ 0 < n := hwf
    subst hlen
    have hsize1 : 2 * l.length ≤ 2147483647 := hsize
    have hgag : tsggag_ (⟨some l, l.length⟩ : Registry E K)
        = Except.ok ((l.countP (fun p => p.isSome) : Nat) : Int) := by
      simp [tsggag_]
    by_cases hfree : firstNull l < l.length
    · have hnone : (⟨some l, l.length⟩ : Registry E K).grid (firstNull l) = none := by
        simp only [Registry.grid]
        rw [if_pos hfree]
        exact firstNull_getD l
      have hother : ∀ k, k ≠ firstNull l →
          (⟨some (l.set (firstNull l) (some (init cfg))), l.length⟩ : Registry E K).grid k
            = (⟨some l, l.length⟩ : Registry E K).grid k := by
        intro k hk
        simp [Registry.grid, List.getD_eq_getElem?_getD, List.getElem?_set_ne (Ne.symm hk)]
      refine ⟨_, firstNull l, tsgnew_free cfg l hfree, hnone, ?_, ?_, hother,
        hkeep _ _ hnone hother, ⟨_, hgag, ?_⟩, ?_⟩
      · intro k hk
        have := firstNull_isSome l k hk
        simpa [Registry.grid, Nat.lt_trans hk hfree] using this
      · simp [Registry.grid, hfree, List.getD_eq_getElem?_getD]
      · have ht : List.take l.length (l.set (firstNull l) (some (init cfg)))
            = l.set (firstNull l) (some (init cfg)) := List.take_of_length_le (by simp)
        unfold tsggag_
        simp only []
        rw [if_pos (by simp), ht, countP_set_firstNull (init cfg) l hfree]
        simp
      · exact ⟨by simp, hpos⟩
    · have hfull : firstNull l = l.length := by
        have := firstNull_le l
        omega
      have hnone : (⟨some l, l.length⟩ : Registry E K).grid l.length = none := by
        simp [Registry.grid]
      have hother : ∀ k, k ≠ l.length →
          (⟨some (l ++ some (init cfg) :: List.replicate (l.length - 1) none),
              2 * l.length⟩ : Registry E K).grid k
            = (⟨some l, l.length⟩ : Registry E K).grid k := by
        intro k hk
        by_cases hkl : k < l.length
        · have hk2 : k < 2 * l.length := by omega
          simp [Registry.grid, hkl, hk2, List.getD_eq_getElem?_getD, List.getElem?_append_left hkl]
        · have hk3 : l.length < k := by omega
          have hk4 : k - l.length = (k - l.length - 1) + 1 := by omega
          have hget : (l ++ some (init cfg) :: List.replicate (l.length - 1) none)[k]?.getD none
              = none := by
            rw [List.getElem?_append_right (by omega), hk4,
              List.getElem?_cons_succ, ← List.getD_eq_getElem?_getD, getD_replicate_none]
          simp [Registry.grid, hkl, hget]
      refine ⟨_, l.length, tsgnew_full cfg l hfull hpos hsize1, hnone, ?_, ?_, hother,
        hkeep _ _ hnone hother, ⟨_, hgag, ?_⟩, ?_⟩
      · intro k hk
        have := firstNull_isSome l k (by omega)
        simpa [Registry.grid, hk] using this
      · have h2 : l.length < 2 * l.length := by omega
        simp only [Registry.grid]
        rw [if_pos h2, List.getD_eq_getElem?_getD, List.getElem?_append_right (Nat.le_refl _),
          Nat.sub_self]
        simp
      · have hl : (l ++ some (init cfg) :: List.replicate (l.length - 1) none).length
            = 2 * l.length := by
          simp; omega
        have ht : (l ++ some (init cfg) :: List.replicate (l.length - 1) none).take (2 * l.length)
            = l ++ some (init cfg) :: List.replicate (l.length - 1) none := by
          rw [← hl, List.take_length]
        unfold tsggag_
        simp only []
        rw [if_pos (by omega), ht]
        simp [List.countP_append, List.countP_cons, countP_replicate_none]
      · constructor
        · show (l ++ some (init cfg) :: List.replicate (l.length - 1) none).length = 2 * l.length
          simp; omega
        · show 0 < 2 * l.length
          omega

theorem tsgnew_returns_smallest_free_id_witness :
    (sampleRegistryFull ℚ).wf ∧ 2 * (sampleRegistryFull ℚ).num_grids ≤ 2147483647 ∧
    (tsgnew_ sampleConfig (sampleRegistryWithHole ℚ)).toOption.map Prod.snd = some 1 ∧
    (tsgnew_ sampleConfig (sampleRegistryFull ℚ)).toOption.map Prod.snd = some 4 ∧
    ∃ (reg1 : Registry SampleEngine ℚ) (id : Nat),
      tsgnew_ sampleConfig (sampleRegistryFull ℚ) = Except.ok (reg1, (id : Int)) ∧
      (sampleRegistryFull ℚ).grid id = none ∧
      (∀ k, k < id → ((sampleRegistryFull ℚ).grid k).isSome = true) ∧
      reg1.grid id = some (init sampleConfig) ∧
      (∀ k, k ≠ id → reg1.grid k = (sampleRegistryFull ℚ).grid k) ∧
      (∀ k g, (sampleRegistryFull ℚ).grid k = some g → reg1.grid k = some g) ∧
      (∃ n : Int, tsggag_ (sampleRegistryFull ℚ) = Except.ok n ∧
        tsggag_ reg1 = Except.ok (n + 1)) ∧
      reg1.wf :=
  ⟨⟨rfl, Nat.succ_pos 3⟩, by decide, rfl, rfl,
    tsgnew_returns_smallest_free_id sampleConfig (sampleRegistryFull ℚ) ⟨rfl, Nat.succ_pos 3⟩
      (by decide)⟩

theorem registry_start_wf {E K : Type} : (Registry.start : Registry E K).wf := rfl

theorem tsgend_wf {E K : Type} (reg reg1 : Registry E K) (hwf : reg.wf)
    (h : tsgend_ reg = Except.ok reg1) : reg1.wf := by
  obtain ⟨gl, n⟩ := reg
  cases gl with
  | none =>
    have : reg1 = ⟨none, n⟩ := (Except.ok.inj h).symm
    rw [this]; exact hwf
  | some l =>
    obtain ⟨hlen, hpos⟩ : l.length = n ∧ 0 < n := hwf
    have h1 : tsgend_ (⟨some l, n⟩ : Registry E K) = Except.ok ⟨none, 0⟩ := by
      simp [tsgend_, hlen]
    rw [h1] at h
    have : reg1 = ⟨none, 0⟩ := (Except.ok.inj h).symm
    rw [this]; rfl

theorem tsgfre_wf {E K : Type} (id : Int) (reg reg1 : Registry E K) (hwf : reg.wf)
    (h : tsgfre_ id reg = Except.ok reg1) : reg1.wf := by
  obtain ⟨gl, n⟩ := reg
  cases gl with
  | none =>
    have hn : n = 0 := hwf
    subst hn
    by_cases hid : id < ((0 : Nat) : Int)
    · have hid1 : id < 0 := hid
      simp [tsgfre_, hid1] at h
    · simp only [tsgfre_, if_neg hid, if_true] at h
      exact tsgend_wf (⟨none, 0⟩ : Registry E K) _ rfl h
  | some l =>
    obtain ⟨hlen, hpos⟩ : l.length = n ∧ 0 < n := hwf
    subst hlen
    have hstep : ∀ l2 : List (Option (TasmanianSparseGrid E K)), l2.length = l.length →
        ∀ r, (match (⟨some l2, l.length⟩ : Registry E K).grid_list with
          | none => if (⟨some l2, l.length⟩ : Registry E K).num_grids = 0
              then tsgend_ (⟨some l2, l.length⟩ : Registry E K) else Except.error nullList
          | some l3 =>
            if (l3.take (⟨some l2, l.length⟩ : Registry E K).num_grids).any (fun p => p.isSome)
            then Except.ok (⟨some l2, l.length⟩ : Registry E K)
            else if (⟨some l2, l.length⟩ : Registry E K).num_grids ≤ l3.length
              then tsgend_ (⟨some l2, l.length⟩ : Registry E K)
            else Except.error pastTheEnd) = Except.ok r → r.wf := by
      intro l2 hl2 r hr
      simp only [] at hr
      by_cases hany : (l2.take l.length).any (fun p => p.isSome) = true
      · rw [if_pos hany] at hr
        have : r = ⟨some l2, l.length⟩ := (Except.ok.inj hr).symm
        rw [this]; exact ⟨hl2, hpos⟩
      · rw [if_neg hany, if_pos (by omega)] at hr
        have hw2 : (⟨some l2, l.length⟩ : Registry E K).wf := ⟨hl2, hpos⟩
        exact tsgend_wf _ _ hw2 hr
    by_cases hid : id < ((l.length : Nat) : Int)
    · by_cases hneg : id < 0 ∨ l.length ≤ id.toNat
      · simp [tsgfre_, hid, hneg] at h
      · simp only [tsgfre_, if_pos hid, if_neg hneg] at h
        exact hstep _ (by simp) _ h
    · simp only [tsgfre_, if_neg hid] at h
      exact hstep l rfl _ h

end TasGrid
